import Mathlib

/-! mysql_client_at: a shallow embedding of the execution state machine.

The development follows the C++ sources of the repository
(`connection.cpp`, `connection_impl.cpp`, `execution.cpp`, `observer.cpp`).

Modelling conventions.

* Objects that the C++ reaches through pointers live in one value, the
  `MySqlConnection`: it owns the driver (`impl_`), the executions list and the
  observer chain.  An execution or an observer is addressed by its position in
  the owning list (the pointer `this`).
* The MySQL client library is an oracle (`Server`): the outcome of the n-th
  library call of a run is a function of n, the length of `serverLog`.
* Loops and recursions that the C++ does not bound (the crank loop, the fetch
  loop, the rollback issued by `reportError`, which reports its own failure
  through `reportError` again) take a `fuel` argument.  The result `none`
  means: no result, either because the fuel ran out or because the C++ has
  undefined behaviour there (a null handle passed to the client library, an
  assertion of the JSON library).
* Fields written `ghost` do not exist in the C++; they record what happened
  (`serverLog`, `trace`) so that statements such as "the server is not
  called" can be written down.
* Time stamps are logical: `now` counts the readings of the clock.
* The operations of the facade do not run the worker thread of an asynchronous
  connection; `flushExecutionThread` only does the bookkeeping of the request.
  The loop of the worker is modelled on its own (`ExecutionThread.getRequest`,
  `ExecutionThread.process`, `ExecutionThread.complete`) and interleaved with
  its callers by schedules of atomic steps (`WorkerRun`), one step for each
  block that the C++ runs under a mutex and one for the processing of a request.
-/

namespace MySqlAt

/-! ## Data model -/

/-- The states of an execution (`MySqlExecution::ExecutionState`). -/
inductive ExecutionState where
  | NO_STATE
  | INITIAL_STATE
  | STATEMENT_VALID_STATE
  | SETTINGS_CREATED_STATE
  | SQL_GENERATED_STATE
  | MYSQL_STMT_CREATED_STATE
  | BINDINGS_PREPARED_STATE
  | STATEMENT_PREPARED_STATE
  | EXECUTION_COMPLETE_STATE
  | RESULTS_RETRIEVED_STATE
  | STATEMENT_COMPLETE_STATE
  | ERROR_STATE
  deriving DecidableEq, Repr, Inhabited

/-- The kind of a statement parameter (`MySqlExecution::ParamType`). -/
inductive ParamType where
  | MARKER
  | SUBSTITUTE
  deriving DecidableEq, Repr, Inhabited

/-- The column and parameter types of the client library that the framework
distinguishes; every other type code is `MYSQL_TYPE_OTHER`. -/
inductive enum_field_types where
  | MYSQL_TYPE_LONG
  | MYSQL_TYPE_LONGLONG
  | MYSQL_TYPE_DOUBLE
  | MYSQL_TYPE_STRING
  | MYSQL_TYPE_VAR_STRING
  | MYSQL_TYPE_ENUM
  | MYSQL_TYPE_DATE
  | MYSQL_TYPE_TIME
  | MYSQL_TYPE_DATETIME
  | MYSQL_TYPE_TIMESTAMP
  | MYSQL_TYPE_OTHER (code : Nat)
  deriving DecidableEq, Repr, Inhabited

/-- The time record of the client library. -/
structure MYSQL_TIME where
  year : Nat
  month : Nat
  day : Nat
  hour : Nat
  minute : Nat
  second : Nat
  second_part : Nat
  deriving DecidableEq, Repr, Inhabited

/-- The JSON values the framework builds: parameter values and result cells.
A double is carried as an uninterpreted token. -/
inductive Value where
  | null
  | int (i : Int)
  | double (d : Nat)
  | string (s : String)
  | object (members : List (String × Nat))
  deriving DecidableEq, Repr, Inhabited

/-- One entry of the settings document of an execution. -/
structure Setting where
  param_type : ParamType
  param_data_type : enum_field_types
  param_value : Option Value
  deriving DecidableEq, Repr, Inhabited

/-- The settings document: parameter name to setting, in declaration order. -/
abbrev Settings := List (String × Setting)

/-- A parameter record of the statement dictionary.  The attributes are kept as
the strings of the file, so that a missing or unknown attribute can be told. -/
structure ParameterDef where
  name : String
  param_type : Option String
  data_type : Option String
  deriving DecidableEq, Repr, Inhabited

/-- A statement record of the statement dictionary. -/
structure StatementDef where
  statement_text : Option (List String)
  parameters : Option (List ParameterDef)
  deriving DecidableEq, Repr, Inhabited

/-- The member `statements` of the dictionary file. -/
abbrev Statements := List (String × StatementDef)

/-- The results document: the `columns` map and the `rows` array. -/
structure ResultsDoc where
  columns : List (String × enum_field_types)
  rows : List (List (String × Value))
  deriving DecidableEq, Repr, Inhabited

/-- The serialised form of an execution (`toJson`), which is also the record
format of a captured program file.  The members that `ReplayObserver::onEvent`
tests with `HasMember` are optional.  The four time members are left out. -/
structure ExecutionDoc where
  statement_name : String
  statement_text : String
  program : Option String
  transaction : Option String
  state : ExecutionState
  rc : Int
  rows_returned : Option Int
  rows_affected : Option Int
  error_message : String
  error_no : Option Int
  parameters : Option Settings
  results : Option ResultsDoc
  user : String
  host : String
  deriving DecidableEq, Repr, Inhabited

/-- Field metadata of a result column. -/
structure MYSQL_FIELD where
  name : String
  type : enum_field_types
  length : Nat
  max_length : Nat
  deriving DecidableEq, Repr, Inhabited

/-- A server statement handle.  `id` is its identity; the marker count and the
result metadata are what the server reported when the statement was prepared. -/
structure MYSQL_STMT where
  id : Nat
  param_count : Nat
  fields : Option (List MYSQL_FIELD)
  deriving DecidableEq, Repr, Inhabited

/-- Where the `buffer` pointer of a bind record points. -/
inductive BufferPtr where
  | param (offset : Nat)
  | row (offset : Nat)
  | callerString (s : String)
  | blob
  deriving DecidableEq, Repr, Inhabited

/-- Where the `is_null` pointer of a bind record points: one of the two static
flags, or a byte of the row buffer. -/
inductive IsNullPtr where
  | mysqlTrue_
  | mysqlFalse_
  | row (offset : Nat)
  deriving DecidableEq, Repr, Inhabited

/-- A bind record of the client library (`none` is the null pointer; a record
cleared by `memset` has every member `none` or 0). -/
structure MYSQL_BIND where
  buffer_type : Option enum_field_types
  buffer : Option BufferPtr
  buffer_length : Nat
  length : Option Nat
  is_null : Option IsNullPtr
  deriving DecidableEq, Repr, Inhabited

/-- What is stored at an offset of the packed parameter buffer. -/
inductive BufferValue where
  | long (i : Int)
  | double (d : Nat)
  | time (t : MYSQL_TIME)
  deriving DecidableEq, Repr, Inhabited

/-- A heap array of bind records, with its identity. -/
structure BindArray where
  id : Nat
  binds : List MYSQL_BIND
  deriving DecidableEq, Repr, Inhabited

/-- A heap byte buffer, with its identity, its size, and the values written to
it (offset, value). -/
structure CharBuffer where
  id : Nat
  size : Nat
  values : List (Nat × BufferValue)
  deriving DecidableEq, Repr, Inhabited

/-- The value of one caller argument of `execute`. -/
abbrev ArgValue := Value

/-- The transition functions of the state-function map. -/
inductive StateFunction where
  | validateStatement
  | createSettings
  | generateStatementText
  | createPreparedStatement
  | prepareToBind
  | bindParameters
  | executeStatement
  | retrieveResults
  deriving DecidableEq, Repr, Inhabited

/-- An execution (`MySqlExecution`). `args_` is the caller's tag/value
sequence (`none` once it has been consumed), `argDoc_` tells whether the values
came as a JSON document. -/
structure MySqlExecution where
  executionHandle_ : Nat
  requestSequence_ : Nat
  statementName_ : String
  args_ : Option (List (String × ArgValue))
  argDoc_ : Bool
  statementHandle_ : Option MYSQL_STMT
  statementText_ : String
  dom_ : Option ExecutionDoc
  isAutoCommit_ : Bool
  state_ : ExecutionState
  rc_ : Int
  errorNo_ : Int
  errorMessage_ : String
  settings_ : Settings
  parameterBindArray_ : Option BindArray
  paramCount_ : Nat
  paramBuffer_ : Option CharBuffer
  paramBufferLen_ : Nat
  resultsMetadata_ : Option (List MYSQL_FIELD)
  columnBindArray_ : Option BindArray
  columnCount_ : Nat
  rowBuffer_ : Option CharBuffer
  rowBufferLen_ : Nat
  results_ : Option ResultsDoc
  rowCount_ : Int
  rowsAffected_ : Int
  blobBuffer_ : Option CharBuffer
  blobBufferLen_ : Nat
  startTime_ : Nat
  executeTime_ : Nat
  retrieveTime_ : Nat
  completeTime_ : Nat
  deriving DecidableEq, Repr, Inhabited

/-- The classes of observers (`ObserverType`). -/
inductive ObserverType where
  | AUDIT_OBS
  | PERFORMANCE_OBS
  | DEBUG_OBS
  | CAPTURE_OBS
  | REPLAY_OBS
  deriving DecidableEq, Repr, Inhabited

/-- An observer.  The members of the four classes are kept in one record;
`observerType` is the dynamic class.  `capturedExecutions_` is the array
`executions` of the capture document, `replayExecutions_` the array of the
loaded replay document (`none`: no document, or a document without members). -/
structure MySqlObserver where
  observerType : ObserverType
  name_ : String
  currentProgram_ : String
  workingDirectory_ : String
  isAuditing_ : Bool
  capturedExecutions_ : List ExecutionDoc
  replayExecutions_ : Option (List ExecutionDoc)
  executionNumber_ : Nat
  deriving DecidableEq, Repr, Inhabited

/-- The request types of the worker (`MySqlConnection::RequestType`). -/
inductive RequestType where
  | NO_REQUEST
  | EXECUTION_REQUEST
  | START_TRANSACTION_REQUEST
  | COMMIT_TRANSACTION_REQUEST
  | ROLLBACK_TRANSACTION_REQUEST
  | START_PROGRAM_REQUEST
  | END_PROGRAM_REQUEST
  | KILL_THREAD_REQUEST
  deriving DecidableEq, Repr, Inhabited

/-- A request of the worker (`ExecutionThread::Request`). -/
structure Request where
  type_ : RequestType
  sequence_ : Nat
  iparam_ : Nat
  strparam_ : String
  rc_ : Int
  errorNo_ : Int
  errorMessage_ : String
  deriving DecidableEq, Repr, Inhabited

/-- The worker (`ExecutionThread`): the request queue (front first), the
completion map and the last completed sequence. -/
structure ExecutionThread where
  requestQueue_ : List Request
  completedRequests_ : List (Nat × Request)
  lastCompletedRequest_ : Nat
  running_ : Bool
  deriving DecidableEq, Repr, Inhabited

/-- The server session (`MYSQL`), with the error of its last call. -/
structure MYSQL where
  id : Nat
  last_errno : Int
  last_error : String
  deriving DecidableEq, Repr, Inhabited

/-- The calls of the client library, as recorded in the ghost log. -/
inductive ServerCall where
  | mysql_init
  | mysql_real_connect
  | mysql_autocommit (mode : Bool)
  | mysql_commit
  | mysql_rollback
  | mysql_close
  | mysql_stmt_prepare (stmt : Nat) (text : String)
  | mysql_stmt_bind_param (stmt : Nat)
  | mysql_stmt_execute (stmt : Nat)
  | mysql_stmt_bind_result (stmt : Nat)
  | mysql_stmt_fetch (stmt : Nat)
  | mysql_stmt_fetch_column (stmt : Nat) (column : Nat)
  | mysql_stmt_free_result (stmt : Nat)
  | mysql_stmt_close (stmt : Nat)
  deriving DecidableEq, Repr, Inhabited

/-- The connection driver (`MySqlConnectionImpl`). -/
structure MySqlConnectionImpl where
  db_ : Option MYSQL
  databaseName_ : String
  statementPath_ : String
  user_ : String
  password_ : String
  host_ : String
  isAutoCommit_ : Bool
  isOpen_ : Bool
  deriving DecidableEq, Repr, Inhabited

/-- The connection facade (`MySqlConnection`) together with the process-wide
counters (`nextExecutionHandle_`, `nextRequestSequence_`) and the ghost
fields `serverLog` (library calls made so far), `trace` (transition functions
invoked so far, with the handle of the execution), `nextAlloc` (identity of
the next heap object) and `now` (logical clock). -/
structure MySqlConnection where
  name_ : String
  impl_ : MySqlConnectionImpl
  executions_ : List MySqlExecution
  observers_ : List MySqlObserver
  executionThread_ : ExecutionThread
  currentProgram_ : String
  transactionName_ : String
  isTransactions_ : Bool
  async_ : Bool
  errorNo_ : Int
  errorMessage_ : String
  errorExecutionHandle_ : Nat
  nextExecutionHandle_ : Nat
  nextRequestSequence_ : Nat
  serverLog : List ServerCall
  trace : List (Nat × StateFunction)
  nextAlloc : Nat
  now : Nat
  deriving DecidableEq, Repr, Inhabited

/-! ## The client library as an oracle -/

/-- Outcome of a library call: its return code and the error number and text
the library reports afterwards. -/
structure MySqlOutcome where
  rc : Int
  errno : Int
  error : String
  deriving DecidableEq, Repr, Inhabited

/-- Outcome of `mysql_stmt_prepare`: besides the return code, the marker count
and the result metadata of the prepared statement. -/
structure PrepareOutcome where
  rc : Int
  errno : Int
  error : String
  param_count : Nat
  fields : Option (List MYSQL_FIELD)
  deriving DecidableEq, Repr, Inhabited

/-- Outcome of `mysql_stmt_execute`. -/
structure ExecuteOutcome where
  rc : Int
  errno : Int
  error : String
  affected_rows : Int
  deriving DecidableEq, Repr, Inhabited

/-- What the server stores for one column of a fetched row. -/
structure Cell where
  is_null : Bool
  length : Nat
  value : Value
  time : MYSQL_TIME
  deriving DecidableEq, Repr, Inhabited

/-- Outcome of `mysql_stmt_fetch`: the return code (0, 1, `MYSQL_NO_DATA`,
`MYSQL_DATA_TRUNCATED`, ...) and the cells written to the bound buffers. -/
structure FetchOutcome where
  rc : Int
  errno : Int
  error : String
  cells : List Cell
  deriving DecidableEq, Repr, Inhabited

/-- The client library and the server behind it.  Every function takes the
number of library calls made before (the length of `serverLog`). -/
structure Server where
  mysql_init : Nat → Bool
  mysql_real_connect : Nat → MySqlOutcome
  mysql_commit : Nat → MySqlOutcome
  mysql_rollback : Nat → MySqlOutcome
  mysql_stmt_prepare : Nat → String → PrepareOutcome
  mysql_stmt_bind_param : Nat → MySqlOutcome
  mysql_stmt_execute : Nat → ExecuteOutcome
  mysql_stmt_bind_result : Nat → MySqlOutcome
  mysql_stmt_fetch : Nat → FetchOutcome
  mysql_stmt_fetch_column : Nat → MySqlOutcome

/-- What `stringToMySqlTime` makes of a date/time parameter string: the literal
`not-a-date-time`, an error with its message, or a time record. -/
inductive TimeParse where
  | notADateTime
  | error (message : String)
  | ok (t : MYSQL_TIME)
  deriving DecidableEq, Repr, Inhabited

/-- Everything outside the connection: the server, the parsed statement
dictionary file (`none`: the file is missing or does not parse, the document
is not an object), the regular-expression library (`regex_replace text pattern
replacement`), the size of the library's time record, and whether the set-up
of an audit observer succeeds. -/
structure Env where
  srv : Server
  statementDict : Option Statements
  regex_replace : String → String → String → String
  sizeofMysqlTime : Nat
  auditSetup : Bool

/-- The files written by capture observers: path and content. -/
abbrev FileSystem := List (String × List ExecutionDoc)

/-! ## Access to the objects owned by a connection -/

/-- The execution at position `i` of the executions list. -/
def MySqlConnection.exec (c : MySqlConnection) (i : Nat) : MySqlExecution :=
  c.executions_.getD i default

/-- Store an execution at position `i` of the executions list. -/
def MySqlConnection.setExec (c : MySqlConnection) (i : Nat) (e : MySqlExecution) :
    MySqlConnection :=
  { c with executions_ := c.executions_.set i e }

/-- The observer at position `k` of the observer chain. -/
def MySqlConnection.obs (c : MySqlConnection) (k : Nat) : MySqlObserver :=
  c.observers_.getD k default

/-- Store an observer at position `k` of the observer chain. -/
def MySqlConnection.setObs (c : MySqlConnection) (k : Nat) (o : MySqlObserver) :
    MySqlConnection :=
  { c with observers_ := c.observers_.set k o }

/-- Ghost: record a call of the client library. -/
def MySqlConnection.logCall (c : MySqlConnection) (call : ServerCall) : MySqlConnection :=
  { c with serverLog := c.serverLog ++ [call] }

/-- The session keeps the error of its last call (`mysql_errno`, `mysql_error`). -/
def MySqlConnection.setDbError (c : MySqlConnection) (errno : Int) (error : String) :
    MySqlConnection :=
  match c.impl_.db_ with
  | none => c
  | some db =>
    { c with impl_ := { c.impl_ with db_ := some { db with last_errno := errno, last_error := error } } }

/-- Reading the logical clock. -/
def MySqlConnection.tick (c : MySqlConnection) : MySqlConnection :=
  { c with now := c.now + 1 }

/-! ## The worker, as seen from the caller's thread -/

/-- Model of `ExecutionThread::putRequest`: push a new request at the front of
the queue and return its sequence number. -/
def ExecutionThread.putRequest (c : MySqlConnection) (type : RequestType) (iparam : Nat)
    (strparam : String) : MySqlConnection × Nat :=
  let seq := c.nextRequestSequence_
  let request : Request :=
    { type_ := type, sequence_ := seq, iparam_ := iparam, strparam_ := strparam,
      rc_ := 0, errorNo_ := 0, errorMessage_ := "" }
  ({ c with
      nextRequestSequence_ := seq + 1,
      executionThread_ :=
        { c.executionThread_ with requestQueue_ := request :: c.executionThread_.requestQueue_ } },
   seq)

/-- Model of `MySqlConnection::flushExecutionThread`: put a request and wait
for it.  The wait does not change anything the caller's thread owns. -/
def MySqlConnection.flushExecutionThread (c : MySqlConnection) (requestType : RequestType)
    (iparam : Nat) (strparam : String) : MySqlConnection :=
  (ExecutionThread.putRequest c requestType iparam strparam).1

/-! ## The connection driver and the transaction operations of the facade -/

/-- The type of `MySqlConnection::reportError`, as the driver sees it. -/
abbrev ReportFn := MySqlConnection → String → Int → Nat → Option (MySqlConnection × Int)

/-- The last two statements of `MySqlConnectionImpl::setAutoCommit`:
`mysql_autocommit(db, isAutoCommit); isAutoCommit_ = isAutoCommit;`. -/
def MySqlConnectionImpl.storeAutoCommit (c : MySqlConnection) (isAutoCommit : Bool) :
    MySqlConnection :=
  let c1 := c.logCall (ServerCall.mysql_autocommit isAutoCommit)
  { c1 with impl_ := { c1.impl_ with isAutoCommit_ := isAutoCommit } }

/-- Model of `MySqlConnectionImpl::open`.  Its call `setAutoCommit(true)` finds
the session that was just stored, so it is `storeAutoCommit`. -/
def MySqlConnectionImpl.open (report : ReportFn) (env : Env) (c : MySqlConnection) :
    Option (MySqlConnection × Int) :=
  match c.impl_.db_ with
  | some _ => some (c, 0)
  | none =>
    let initialConn := env.srv.mysql_init c.serverLog.length
    let c1 := c.logCall ServerCall.mysql_init
    if initialConn = false then
      report c1 "Failed to create connection to MySql server" 1 0
    else
      let o := env.srv.mysql_real_connect c1.serverLog.length
      let c2 := c1.logCall ServerCall.mysql_real_connect
      if o.rc ≠ 0 then
        report c2 ("Failed to connect: " ++ o.error) 1 0
      else
        let db : MYSQL := { id := c2.nextAlloc, last_errno := o.errno, last_error := o.error }
        let c3 := { c2 with impl_ := { c2.impl_ with db_ := some db }, nextAlloc := c2.nextAlloc + 1 }
        let c4 := MySqlConnectionImpl.storeAutoCommit c3 true
        some ({ c4 with impl_ := { c4.impl_ with isOpen_ := true } }, 0)

/-- Model of `MySqlConnectionImpl::getdb`: the session is `impl_.db_` of the
connection returned. -/
def MySqlConnectionImpl.getdb (report : ReportFn) (env : Env) (c : MySqlConnection) :
    Option MySqlConnection :=
  match c.impl_.db_ with
  | some _ => some c
  | none =>
    match MySqlConnectionImpl.open report env c with
    | none => none
    | some (c1, _) => some c1

/-- Model of `MySqlConnectionImpl::setAutoCommit`. -/
def MySqlConnectionImpl.setAutoCommit (report : ReportFn) (env : Env) (c : MySqlConnection)
    (isAutoCommit : Bool) : Option (MySqlConnection × Int) :=
  match MySqlConnectionImpl.getdb report env c with
  | none => none
  | some c1 =>
    match c1.impl_.db_ with
    | none => some (c1, 1)
    | some _ => some (MySqlConnectionImpl.storeAutoCommit c1 isAutoCommit, 0)

/-- Model of `MySqlConnectionImpl::reportMySqlError`. -/
def MySqlConnectionImpl.reportMySqlError (report : ReportFn) (c : MySqlConnection)
    (context : String) : Option (MySqlConnection × Int) :=
  let errno : Int := match c.impl_.db_ with
    | none => 0
    | some db => db.last_errno
  let error : String := match c.impl_.db_ with
    | none => ""
    | some db => db.last_error
  report c ("MySql error " ++ context ++ ": " ++ error ++ " (" ++ toString errno ++ ")") errno 0

/-- Model of `MySqlConnectionImpl::commit`. -/
def MySqlConnectionImpl.commit (report : ReportFn) (env : Env) (c : MySqlConnection) :
    Option (MySqlConnection × Int) :=
  match c.impl_.db_ with
  | none => report c "commit called with no MySQL connection" 1 0
  | some _ =>
    if c.impl_.isAutoCommit_ then
      report c "commit called with no transaction in progress" 1 0
    else
      let o := env.srv.mysql_commit c.serverLog.length
      let c1 := (c.logCall ServerCall.mysql_commit).setDbError o.errno o.error
      let reported : Option MySqlConnection :=
        if o.rc ≠ 0 then
          match MySqlConnectionImpl.reportMySqlError report c1 "committing transaction" with
          | none => none
          | some (c2, _) => some c2
        else some c1
      match reported with
      | none => none
      | some c2 =>
        match MySqlConnectionImpl.setAutoCommit report env c2 true with
        | none => none
        | some (c3, _) => some (c3, o.rc)

/-- Model of `MySqlConnectionImpl::rollback`. -/
def MySqlConnectionImpl.rollback (report : ReportFn) (env : Env) (c : MySqlConnection) :
    Option (MySqlConnection × Int) :=
  match c.impl_.db_ with
  | none => some (c, 0)
  | some _ =>
    if c.impl_.isAutoCommit_ then some (c, 0)
    else
      let o := env.srv.mysql_rollback c.serverLog.length
      let c1 := (c.logCall ServerCall.mysql_rollback).setDbError o.errno o.error
      let reported : Option MySqlConnection :=
        if o.rc ≠ 0 then
          match MySqlConnectionImpl.reportMySqlError report c1 "rolling back transaction" with
          | none => none
          | some (c2, _) => some c2
        else some c1
      match reported with
      | none => none
      | some c2 =>
        match MySqlConnectionImpl.setAutoCommit report env c2 true with
        | none => none
        | some (c3, _) => some (c3, o.rc)

/-- Model of `MySqlConnectionImpl::close`. -/
def MySqlConnectionImpl.close (report : ReportFn) (env : Env) (c : MySqlConnection) :
    Option MySqlConnection :=
  let c1 := { c with impl_ := { c.impl_ with isOpen_ := false } }
  match MySqlConnectionImpl.rollback report env c1 with
  | none => none
  | some (c2, _) =>
    match c2.impl_.db_ with
    | none => some c2
    | some _ =>
      let c3 := c2.logCall ServerCall.mysql_close
      some { c3 with impl_ := { c3.impl_ with db_ := none } }

/-- Model of `MySqlConnection::rollbackTransaction`. -/
def MySqlConnection.rollbackTransaction (report : ReportFn) (env : Env) (c : MySqlConnection)
    (_reason : String) : Option (MySqlConnection × Int) :=
  if c.isTransactions_ = false then some (c, 0)
  else if c.impl_.isAutoCommit_ then some (c, 0)
  else
    let c1 := if c.async_ then
        c.flushExecutionThread RequestType.ROLLBACK_TRANSACTION_REQUEST 0 ""
      else c
    match MySqlConnectionImpl.rollback report env c1 with
    | none => none
    | some (c2, rc) =>
      if rc = 0 then some ({ c2 with transactionName_ := "" }, rc)
      else some (c2, rc)

/-- Model of `MySqlConnection::reportError`: record the error, roll back the
current transaction, return the error number.  A failing rollback reports
through this very function, hence the fuel. -/
def MySqlConnection.reportError : Nat → Env → MySqlConnection → String → Int → Nat →
    Option (MySqlConnection × Int)
  | 0, _, _, _, _, _ => none
  | fuel + 1, env, c, errorMessage, errorNo, xh =>
    let c1 := { c with errorNo_ := errorNo, errorMessage_ := errorMessage,
                       errorExecutionHandle_ := xh }
    match MySqlConnection.rollbackTransaction (MySqlConnection.reportError fuel env) env c1
        "execution failed" with
    | none => none
    | some (c2, _) => some (c2, errorNo)

/-- Model of `MySqlConnection::startTransaction`. -/
def MySqlConnection.startTransaction (fuel : Nat) (env : Env) (c : MySqlConnection)
    (transactionName : String) : Option (MySqlConnection × Int) :=
  if c.isTransactions_ = false then some (c, 0)
  else
    let c1 := if c.async_ then
        c.flushExecutionThread RequestType.START_TRANSACTION_REQUEST 0 transactionName
      else c
    if c1.impl_.isAutoCommit_ = false then
      MySqlConnection.reportError fuel env c1
        ("Attempt to start transaction " ++ transactionName ++ " while " ++
          c1.transactionName_ ++ " in progress") 1 0
    else
      match MySqlConnectionImpl.setAutoCommit (MySqlConnection.reportError fuel env) env c1 false with
      | none => none
      | some (c2, rc) =>
        if rc = 0 then some ({ c2 with transactionName_ := transactionName }, rc)
        else some (c2, rc)

/-- Model of `MySqlConnection::commitTransaction`. -/
def MySqlConnection.commitTransaction (fuel : Nat) (env : Env) (c : MySqlConnection) :
    Option (MySqlConnection × Int) :=
  if c.isTransactions_ = false then some (c, 0)
  else
    let c1 := if c.async_ then
        c.flushExecutionThread RequestType.COMMIT_TRANSACTION_REQUEST 0 ""
      else c
    if c1.impl_.isAutoCommit_ then
      MySqlConnection.reportError fuel env c1 "Commit called with no transaction in progress" 1 0
    else
      match MySqlConnectionImpl.commit (MySqlConnection.reportError fuel env) env c1 with
      | none => none
      | some (c2, rc) =>
        if rc = 0 then some ({ c2 with transactionName_ := "" }, rc)
        else some (c2, rc)

/-- Model of `MySqlConnection::close`: kill the worker, if any, and close the
driver. -/
def MySqlConnection.close (fuel : Nat) (env : Env) (c : MySqlConnection) :
    Option MySqlConnection :=
  let c1 := if c.async_ ∧ c.executionThread_.running_ then
      (ExecutionThread.putRequest c RequestType.KILL_THREAD_REQUEST 0 "").1
    else c
  MySqlConnectionImpl.close (MySqlConnection.reportError fuel env) env c1

/-- Model of `MySqlConnection::createConnection` (with the constructors of the
facade and of the driver).  Port, socket and flags play no part here. -/
def MySqlConnection.createConnection (name databaseName statementPath user password host : String)
    (async : Bool) : MySqlConnection :=
  { name_ := name,
    impl_ := { db_ := none, databaseName_ := databaseName, statementPath_ := statementPath,
               user_ := user, password_ := password, host_ := host,
               isAutoCommit_ := true, isOpen_ := false },
    executions_ := [],
    observers_ := [],
    executionThread_ := { requestQueue_ := [], completedRequests_ := [],
                          lastCompletedRequest_ := 0, running_ := async },
    currentProgram_ := "",
    transactionName_ := "",
    isTransactions_ := true,
    async_ := async,
    errorNo_ := 0,
    errorMessage_ := "",
    errorExecutionHandle_ := 0,
    nextExecutionHandle_ := 1,
    nextRequestSequence_ := 1,
    serverLog := [],
    trace := [],
    nextAlloc := 1,
    now := 1 }

/-! ## Observers -/

/-- Model of `MySqlExecution::isTerminalState`: a state without a transition
function. -/
def MySqlExecution.isTerminalState (state : ExecutionState) : Bool :=
  match state with
  | ExecutionState.INITIAL_STATE => false
  | ExecutionState.STATEMENT_VALID_STATE => false
  | ExecutionState.SETTINGS_CREATED_STATE => false
  | ExecutionState.SQL_GENERATED_STATE => false
  | ExecutionState.MYSQL_STMT_CREATED_STATE => false
  | ExecutionState.BINDINGS_PREPARED_STATE => false
  | ExecutionState.STATEMENT_PREPARED_STATE => false
  | ExecutionState.EXECUTION_COMPLETE_STATE => false
  | _ => true

/-- Model of `MySqlExecution::toJson`: the serialised form of the execution at
position `i` (note that `host` is read from the user, as in the source). -/
def MySqlExecution.toJson (c : MySqlConnection) (i : Nat) : ExecutionDoc :=
  let e := c.exec i
  { statement_name := e.statementName_,
    statement_text := e.statementText_,
    program := if c.currentProgram_ = "" then none else some c.currentProgram_,
    transaction := if c.transactionName_ = "" then none else some c.transactionName_,
    state := e.state_,
    rc := e.rc_,
    rows_returned := some e.rowCount_,
    rows_affected := some e.rowsAffected_,
    error_message := e.errorMessage_,
    error_no := some e.errorNo_,
    parameters := if e.settings_.isEmpty then none else some e.settings_,
    results := e.results_,
    user := c.impl_.user_,
    host := c.impl_.user_ }

/-- Model of `MySqlExecution::asJson`: serialise once, then return the cached
document. -/
def MySqlExecution.asJson (c : MySqlConnection) (i : Nat) : MySqlConnection × ExecutionDoc :=
  match (c.exec i).dom_ with
  | some dom => (c, dom)
  | none =>
    let dom := MySqlExecution.toJson c i
    (c.setExec i { c.exec i with dom_ := some dom }, dom)

/-- Model of `AuditObserver::onEvent` for a state transition.  The record is
inserted through the observer's own connection, which is not part of this
connection; what remains here is the cached document of the execution and the
process-wide handle counter, advanced by the execution that does the insert. -/
def AuditObserver.onEvent (c : MySqlConnection) (k i : Nat) (newState : ExecutionState) :
    MySqlConnection × ExecutionState :=
  if (c.obs k).isAuditing_ = false then (c, newState)
  else if MySqlExecution.isTerminalState (c.exec i).state_
      ∨ MySqlExecution.isTerminalState newState = false then (c, newState)
  else
    let c1 := (MySqlExecution.asJson c i).1
    ({ c1 with nextExecutionHandle_ := c1.nextExecutionHandle_ + 1 }, newState)

/-- Model of `CaptureObserver::onEvent`. -/
def CaptureObserver.onEvent (c : MySqlConnection) (k i : Nat) (newState : ExecutionState) :
    MySqlConnection × ExecutionState :=
  if (c.obs k).currentProgram_ ≠ ""
      ∧ MySqlExecution.isTerminalState (c.exec i).state_ = false
      ∧ MySqlExecution.isTerminalState newState = true then
    let save := (c.exec i).state_
    let c1 := c.setExec i { c.exec i with state_ := newState }
    let r := MySqlExecution.asJson c1 i
    let c2 := r.1
    let o := c2.obs k
    let c3 := c2.setObs k { o with capturedExecutions_ := o.capturedExecutions_ ++ [r.2] }
    (c3.setExec i { c3.exec i with state_ := save }, newState)
  else (c, newState)

/-- Model of `MySqlExecution::isSameAs`: `none` when name and text agree with
the recorded document, else the error message. -/
def MySqlExecution.isSameAs (e : MySqlExecution) (dom : ExecutionDoc) : Option String :=
  if dom.statement_name ≠ e.statementName_ then
    some ("Statement names don\x27t match: " ++ dom.statement_name ++ " NE " ++ e.statementName_)
  else if dom.statement_text ≠ e.statementText_ then
    some "Statement texts don\x27t match"
  else none

/-- Model of `ReplayObserver::onEvent`. -/
def ReplayObserver.onEvent (fuel : Nat) (env : Env) (c : MySqlConnection) (k i : Nat)
    (newState : ExecutionState) : Option (MySqlConnection × ExecutionState) :=
  let c1 := if (c.exec i).state_ = ExecutionState.INITIAL_STATE then
      c.setObs k { c.obs k with executionNumber_ := (c.obs k).executionNumber_ + 1 }
    else c
  if newState ≠ ExecutionState.SQL_GENERATED_STATE then some (c1, newState)
  else
    match (c1.obs k).replayExecutions_ with
    | none => some (c1, newState)
    | some replayExecutions =>
      let executionNumber := (c1.obs k).executionNumber_
      if replayExecutions.length < executionNumber then
        match MySqlConnection.reportError fuel env c1
            ("Test executes more statements than expected. Expected " ++
              toString replayExecutions.length) 1 0 with
        | none => none
        | some (c2, _) => some (c2, ExecutionState.ERROR_STATE)
      else
        match executionNumber with
        | 0 => none
        | n + 1 =>
          match replayExecutions.get? n with
          | none => none
          | some replayExecution =>
            match MySqlExecution.isSameAs (c1.exec i) replayExecution with
            | some errorMessage =>
              match MySqlConnection.reportError fuel env c1 errorMessage 1 0 with
              | none => none
              | some (c2, _) => some (c2, ExecutionState.ERROR_STATE)
            | none =>
              let e := c1.exec i
              let e1 := { e with
                rc_ := replayExecution.rc,
                rowCount_ := match replayExecution.rows_returned with
                  | some n => n
                  | none => e.rowCount_,
                rowsAffected_ := match replayExecution.rows_affected with
                  | some n => n
                  | none => e.rowsAffected_,
                results_ := match replayExecution.results with
                  | some r => some r
                  | none => e.results_ }
              let c2 := c1.setExec i e1
              match replayExecution.error_no with
              | none => some (c2, replayExecution.state)
              | some replayErrorNo =>
                if replayErrorNo = 0 then some (c2, replayExecution.state)
                else
                  let c3 := c2.setExec i { e1 with
                    errorMessage_ := replayExecution.error_message,
                    errorNo_ := replayErrorNo }
                  match MySqlConnection.reportError fuel env c3 replayExecution.error_message
                      replayErrorNo e1.executionHandle_ with
                  | none => none
                  | some (c4, _) => some (c4, replayExecution.state)

/-- Dispatch of the virtual `onEvent(execution, newState)` on the class of the
observer at position `k`.  The debug observer only writes to the log. -/
def MySqlObserver.onEvent (fuel : Nat) (env : Env) (c : MySqlConnection) (k i : Nat)
    (newState : ExecutionState) : Option (MySqlConnection × ExecutionState) :=
  match (c.obs k).observerType with
  | ObserverType.AUDIT_OBS => some (AuditObserver.onEvent c k i newState)
  | ObserverType.CAPTURE_OBS => some (CaptureObserver.onEvent c k i newState)
  | ObserverType.REPLAY_OBS => ReplayObserver.onEvent fuel env c k i newState
  | ObserverType.DEBUG_OBS => some (c, newState)
  | ObserverType.PERFORMANCE_OBS => some (c, newState)

/-! ## The state machine -/

/-- The loop of `changeState` over the observer chain: `n` observers remain,
the next one is at position `k`, `realNewState` is the target so far. -/
def MySqlExecution.changeStateLoop (fuel : Nat) (env : Env) (i : Nat) (newState : ExecutionState) :
    Nat → Nat → MySqlConnection → ExecutionState → Option (MySqlConnection × ExecutionState)
  | 0, _, c, realNewState => some (c, realNewState)
  | n + 1, k, c, realNewState =>
    match MySqlObserver.onEvent fuel env c k i newState with
    | none => none
    | some (c1, observerState) =>
      MySqlExecution.changeStateLoop fuel env i newState n (k + 1) c1
        (if observerState ≠ newState then observerState else realNewState)

/-- Model of `MySqlExecution::changeState`. -/
def MySqlExecution.changeState (fuel : Nat) (env : Env) (c : MySqlConnection) (i : Nat)
    (newState : ExecutionState) : Option (MySqlConnection × Int) :=
  let c0 := if newState = ExecutionState.STATEMENT_COMPLETE_STATE
        ∨ newState = ExecutionState.ERROR_STATE then
      (c.setExec i { c.exec i with completeTime_ := c.now }).tick
    else c
  match MySqlExecution.changeStateLoop fuel env i newState c0.observers_.length 0 c0 newState with
  | none => none
  | some (c1, realNewState) =>
    let c2 := c1.setExec i { c1.exec i with state_ := realNewState }
    some (c2, (c2.exec i).errorNo_)

/-- Model of `MySqlExecution::reportError`. -/
def MySqlExecution.reportError (fuel : Nat) (env : Env) (c : MySqlConnection) (i : Nat)
    (errorMessage : String) (errorNo : Int) : Option (MySqlConnection × Int) :=
  let c1 := c.setExec i { c.exec i with
    rc_ := errorNo, errorNo_ := errorNo, errorMessage_ := errorMessage }
  match MySqlExecution.changeState fuel env c1 i ExecutionState.ERROR_STATE with
  | none => none
  | some (c2, _) =>
    MySqlConnection.reportError fuel env c2 errorMessage errorNo (c2.exec i).executionHandle_

/-- Model of `MySqlExecution::reportMySqlError`; `errno` and `error` are what
`mysql_stmt_errno` and `mysql_stmt_error` return for the statement handle. -/
def MySqlExecution.reportMySqlError (fuel : Nat) (env : Env) (c : MySqlConnection) (i : Nat)
    (errno : Int) (error : String) (context : String) : Option (MySqlConnection × Int) :=
  MySqlExecution.reportError fuel env c i
    ("MySql error " ++ context ++ ": " ++ error ++ " (" ++ toString errno ++ ")") errno

/-- The record of a statement in the dictionary (`statements[name]`). -/
def findStatement (statements : Statements) (name : String) : Option StatementDef :=
  match statements with
  | [] => none
  | (n, d) :: rest => if n = name then some d else findStatement rest name

/-- Model of `MySqlExecution::validateStatement`. -/
def MySqlExecution.validateStatement (fuel : Nat) (env : Env) (c : MySqlConnection) (i : Nat) :
    Option (MySqlConnection × Int) :=
  match env.statementDict with
  | none =>
    MySqlExecution.reportError fuel env c i "Internal error: statement dictionary corrupt" 1
  | some statements =>
    match findStatement statements (c.exec i).statementName_ with
    | none =>
      MySqlExecution.reportError fuel env c i
        ("Unknown statement \x27" ++ (c.exec i).statementName_ ++ "\x27") 1
    | some _ => MySqlExecution.changeState fuel env c i ExecutionState.STATEMENT_VALID_STATE

/-- The setting that `createSettings` builds from one parameter record of the
dictionary, or the message of the error it reports. -/
def parameterSetting (statementName : String) (p : ParameterDef) : Except String Setting :=
  match p.param_type with
  | none =>
    Except.error ("param_type missing in definition of parameter " ++ p.name ++
      " for statement \x27" ++ statementName ++ "\x27")
  | some parameterType =>
    let typeCode : Option ParamType :=
      if parameterType = "marker" then some ParamType.MARKER
      else if parameterType = "substitute" then some ParamType.SUBSTITUTE
      else none
    match typeCode with
    | none =>
      Except.error ("Unknown parameter type \x27" ++ parameterType ++ "\x27" ++
        " in parameter " ++ p.name ++ " for statement " ++ statementName)
    | some parameterTypeCode =>
      match p.data_type with
      | none =>
        Except.error ("data_type missing in definition of parameter " ++ p.name ++
          " for statement " ++ statementName)
      | some dataType =>
        let dataCode : Option enum_field_types :=
          if dataType = "int" then some enum_field_types.MYSQL_TYPE_LONG
          else if dataType = "double" then some enum_field_types.MYSQL_TYPE_DOUBLE
          else if dataType = "string" then some enum_field_types.MYSQL_TYPE_STRING
          else if dataType = "date" then some enum_field_types.MYSQL_TYPE_DATE
          else if dataType = "time" then some enum_field_types.MYSQL_TYPE_TIME
          else if dataType = "datetime" then some enum_field_types.MYSQL_TYPE_DATETIME
          else if dataType = "timestamp" then some enum_field_types.MYSQL_TYPE_TIMESTAMP
          else none
        match dataCode with
        | none =>
          Except.error ("Unsupported parameter datatype \x27" ++ dataType ++ "\x27" ++
            " in parameter " ++ p.name ++ " for statement " ++ statementName)
        | some dataTypeCode =>
          Except.ok { param_type := parameterTypeCode, param_data_type := dataTypeCode,
                      param_value := none }

/-- The first member of the settings document with the given name
(`FindMember`). -/
def findSetting (settings : Settings) (tag : String) : Option Setting :=
  match settings with
  | [] => none
  | (n, s) :: rest => if n = tag then some s else findSetting rest tag

/-- Add the member `param_value` to the first setting with the given name.  A
setting that has a value already keeps it: a lookup finds the first member. -/
def addParamValue (settings : Settings) (tag : String) (v : Value) : Settings :=
  match settings with
  | [] => []
  | (n, s) :: rest =>
    if n = tag then
      (n, { s with param_value := match s.param_value with
                                  | some old => some old
                                  | none => some v }) :: rest
    else (n, s) :: addParamValue rest tag v

/-- The C function `isspace` in the C locale. -/
def isspace (ch : Char) : Bool :=
  ch = ' ' ∨ ch = '\t' ∨ ch = '\n' ∨ ch = '\x0b' ∨ ch = '\x0c' ∨ ch = '\r'

/-- The decimal value of the digits at the start of a text, continuing `acc`. -/
def digitsValue : List Char → Nat → Nat
  | [], acc => acc
  | ch :: rest, acc =>
    if ch.isDigit then digitsValue rest (acc * 10 + (ch.toNat - 48)) else acc

/-- The largest `int`. -/
def INT_MAX : Nat := 2147483647

/-- The C function `atoi` on the text a pointer points to: white space, an
optional sign, digits.  A value that does not fit an `int` has no defined
result. -/
def atoi (s : List Char) : Option Int :=
  match s.dropWhile isspace with
  | '-' :: rest =>
    if digitsValue rest 0 ≤ INT_MAX + 1 then some (-(digitsValue rest 0 : Int)) else none
  | '+' :: rest =>
    if digitsValue rest 0 ≤ INT_MAX then some (digitsValue rest 0 : Int) else none
  | text =>
    if digitsValue text 0 ≤ INT_MAX then some (digitsValue text 0 : Int) else none

/-- Conversion of an `int` to `unsigned int`. -/
def toUnsigned (v : Int) : Nat := (v % 4294967296).toNat

/-- The sub-pattern `\d+` at the start of a text: the text after the digits
(`none`: the text does not start with a digit).  What follows `\d+` in the
patterns below is never a digit, so the run matched is the longest one. -/
def skipDigits : List Char → Option (List Char)
  | [] => none
  | ch :: rest => if ch.isDigit then some (rest.dropWhile Char.isDigit) else none

/-- The character class `[-_/]`. -/
def isDateSeparator (ch : Char) : Bool := ch = '-' ∨ ch = '_' ∨ ch = '/'

/-- A match of `(\d+)[-_/](\d+)[-_/](\d+)` at the start of a text: the texts at
which the three groups start (`dateMatch[k].first`). -/
def dateMatchAt (s : List Char) : Option (List Char × List Char × List Char) :=
  match skipDigits s with
  | some (sep1 :: s2) =>
    if isDateSeparator sep1 then
      match skipDigits s2 with
      | some (sep2 :: s3) =>
        if isDateSeparator sep2 then
          match skipDigits s3 with
          | some _ => some (s, s2, s3)
          | none => none
        else none
      | _ => none
    else none
  | _ => none

/-- The line separators of the regular-expression library. -/
def isLineSeparator (ch : Char) : Bool := ch = '\n' ∨ ch = '\r' ∨ ch = '\x0c'

/-- The search for `^(\d+)[-_/](\d+)[-_/](\d+)`: the leftmost match.  The
anchor matches at the start of the text and, as the library does by default,
after a line separator (but not between a carriage return and a line feed);
`lineStart` tells whether it matches at the start of the text given. -/
def dateSearch : List Char → Bool → Option (List Char × List Char × List Char)
  | [], _ => none
  | ch :: rest, lineStart =>
    match (if lineStart then dateMatchAt (ch :: rest) else none) with
    | some m => some m
    | none =>
      dateSearch rest (isLineSeparator ch ∧ ¬ (ch = '\r' ∧ rest.head? = some '\n'))

/-- A match of `[^T](\d+):(\d+):(\d+)\.(\d+)?` at the start of a text: the
texts at which the match, the second, the third and the fourth group start
(the fourth group takes part in the match when a digit follows the dot). -/
def timeMatchAt (s : List Char) :
    Option (List Char × List Char × List Char × Option (List Char)) :=
  match s with
  | [] => none
  | ch :: s1 =>
    if ch = 'T' then none
    else
      match skipDigits s1 with
      | some (':' :: s2) =>
        match skipDigits s2 with
        | some (':' :: s3) =>
          match skipDigits s3 with
          | some ('.' :: s4) => some (s, s2, s3, (skipDigits s4).map (fun _ => s4))
          | _ => none
        | _ => none
      | _ => none

/-- The search for the time pattern: the leftmost match. -/
def timeSearch : List Char → Option (List Char × List Char × List Char × Option (List Char))
  | [] => none
  | ch :: rest =>
    match timeMatchAt (ch :: rest) with
    | some m => some m
    | none => timeSearch rest

/-- The date part of `stringToMySqlTime`: year, month and day, or the message
of the error reported (`none`: `atoi` has no defined result). -/
def parseDatePart (timeString : String) : Option (Except String (Nat × Nat × Nat)) :=
  match dateSearch timeString.data true with
  | none =>
    some (Except.error ("Parameter \x27" ++ timeString ++ "\x27 not in correct format: " ++
      "expect yyyy-mm-dd"))
  | some (g1, g2, g3) =>
    match atoi g1, atoi g2, atoi g3 with
    | some y, some m, some d =>
      let year0 := toUnsigned y
      let month := toUnsigned m
      let day := toUnsigned d
      let year := if year0 < 100 then (year0 + 2000) % 4294967296 else year0
      if (year < 1970 ∨ year > 3000) ∧ year ≠ 9999 then
        some (Except.error ("Illegal year " ++ toString year ++ " in parameter \x27" ++
          timeString ++ "\x27"))
      else if month < 1 ∨ month > 12 then
        some (Except.error ("Illegal month " ++ toString month ++ " in parameter \x27" ++
          timeString ++ "\x27"))
      else if day < 1 ∨ day > 31 then
        some (Except.error ("Illegal day " ++ toString day ++ " in parameter \x27" ++
          timeString ++ "\x27"))
      else some (Except.ok (year, month, day))
    | _, _, _ => none

/-- The time part of `stringToMySqlTime`: hour, minute, second and fraction, or
the message of the error reported.  The hour is read from the start of the
whole match, as in the source. -/
def parseTimePart (timeString : String) : Option (Except String (Nat × Nat × Nat × Nat)) :=
  match timeSearch timeString.data with
  | none =>
    some (Except.error ("Parameter \x27" ++ timeString ++ "\x27 not in correct format: " ++
      "expect hh:mm:ss.ffffff"))
  | some (m0, m2, m3, m4) =>
    match atoi m0, atoi m2, atoi m3, (match m4 with
        | some g4 => atoi g4
        | none => some 0) with
    | some h, some m, some s, some f =>
      some (Except.ok (toUnsigned h, toUnsigned m, toUnsigned s, toUnsigned f))
    | _, _, _, _ => none

/-- What `stringToMySqlTime` computes from a parameter string, before it
reports or stores anything (`none`: no defined result). -/
def parseTime (timeString : String) (typeCode : enum_field_types) : Option TimeParse :=
  if timeString = "not-a-date-time" then some TimeParse.notADateTime
  else
    let date : Option (Except String (Nat × Nat × Nat)) :=
      if typeCode ≠ enum_field_types.MYSQL_TYPE_TIME then parseDatePart timeString
      else some (Except.ok (0, 0, 0))
    match date with
    | none => none
    | some (Except.error message) => some (TimeParse.error message)
    | some (Except.ok (year, month, day)) =>
      let time : Option (Except String (Nat × Nat × Nat × Nat)) :=
        if typeCode ≠ enum_field_types.MYSQL_TYPE_DATE then parseTimePart timeString
        else some (Except.ok (0, 0, 0, 0))
      match time with
      | none => none
      | some (Except.error message) => some (TimeParse.error message)
      | some (Except.ok (hour, minute, second, second_part)) =>
        some (TimeParse.ok { year := year, month := month, day := day, hour := hour,
                             minute := minute, second := second, second_part := second_part })

/-- Model of `MySqlExecution::stringToMySqlTime`.  An error is reported through
`reportError`.  The result is the return code and, when it is 0, the time
record that is stored when the caller passes one. -/
def MySqlExecution.stringToMySqlTime (fuel : Nat) (env : Env) (c : MySqlConnection) (i : Nat)
    (timeString : String) (typeCode : enum_field_types) :
    Option (MySqlConnection × Int × Option MYSQL_TIME) :=
  match parseTime timeString typeCode with
  | none => none
  | some TimeParse.notADateTime => some (c, -1, none)
  | some (TimeParse.error message) =>
    match MySqlExecution.reportError fuel env c i message 1 with
    | none => none
    | some (c1, rc) => some (c1, rc, none)
  | some (TimeParse.ok t) => some (c, 0, some t)

/-- First loop of `createSettings`: one setting for each parameter record.  The
result code is 0 when the loop ran to its end. -/
def MySqlExecution.addParameterSettings (fuel : Nat) (env : Env) (i : Nat) :
    List ParameterDef → MySqlConnection → Option (MySqlConnection × Int)
  | [], c => some (c, 0)
  | p :: rest, c =>
    match parameterSetting (c.exec i).statementName_ p with
    | Except.error errorMessage => MySqlExecution.reportError fuel env c i errorMessage 1
    | Except.ok parameterSetting =>
      MySqlExecution.addParameterSettings fuel env i rest
        (c.setExec i { c.exec i with
          settings_ := (c.exec i).settings_ ++ [(p.name, parameterSetting)] })

/-- Second loop of `createSettings`: at most `n` tag/value pairs are read.  With
a variadic list the tag `end` stops the loop, and reading past the end of the
caller's list, or a value that has not the declared type, has no defined
result. -/
def MySqlExecution.addParameterValues (fuel : Nat) (env : Env) (i : Nat) :
    Nat → List (String × ArgValue) → MySqlConnection → Option (MySqlConnection × Int)
  | 0, _, c => some (c, 0)
  | _ + 1, [], c => if (c.exec i).argDoc_ then some (c, 0) else none
  | n + 1, (tag, v) :: rest, c =>
    if (c.exec i).argDoc_ = false ∧ tag = "end" then some (c, 0)
    else
      match findSetting (c.exec i).settings_ tag with
      | none =>
        MySqlExecution.reportError fuel env c i
          ("Unknown parameter \x27" ++ tag ++ "\x27" ++ " for statement " ++
            (c.exec i).statementName_) 1
      | some setting =>
        let store (c : MySqlConnection) : MySqlConnection :=
          c.setExec i { c.exec i with settings_ := addParamValue (c.exec i).settings_ tag v }
        match setting.param_data_type, v with
        | enum_field_types.MYSQL_TYPE_LONG, Value.int _ =>
          MySqlExecution.addParameterValues fuel env i n rest (store c)
        | enum_field_types.MYSQL_TYPE_DOUBLE, Value.double _ =>
          MySqlExecution.addParameterValues fuel env i n rest (store c)
        | enum_field_types.MYSQL_TYPE_STRING, Value.string _ =>
          MySqlExecution.addParameterValues fuel env i n rest (store c)
        | enum_field_types.MYSQL_TYPE_DATE, Value.string timeArg
        | enum_field_types.MYSQL_TYPE_TIME, Value.string timeArg
        | enum_field_types.MYSQL_TYPE_DATETIME, Value.string timeArg
        | enum_field_types.MYSQL_TYPE_TIMESTAMP, Value.string timeArg =>
          match MySqlExecution.stringToMySqlTime fuel env c i timeArg setting.param_data_type with
          | none => none
          | some (c1, rc, _) =>
            if rc > 0 then some (c1, rc)
            else MySqlExecution.addParameterValues fuel env i n rest (store c1)
        | _, _ => none

/-- Model of `MySqlExecution::createSettings`. -/
def MySqlExecution.createSettings (fuel : Nat) (env : Env) (c : MySqlConnection) (i : Nat) :
    Option (MySqlConnection × Int) :=
  let statementName := (c.exec i).statementName_
  match env.statementDict with
  | none => none
  | some statements =>
    match findStatement statements statementName with
    | none => none
    | some statement =>
      match statement.parameters with
      | none =>
        match (c.exec i).args_ with
        | some _ =>
          MySqlExecution.reportError fuel env c i
            ("Arguments passed for statement \x27" ++ statementName ++
              "\x27 which takes no arguments") 1
        | none => some (c, 0)
      | some parameters =>
        match (c.exec i).args_ with
        | none =>
          MySqlExecution.reportError fuel env c i
            ("No arguments passed for statement \x27" ++ statementName ++ "\x27") 1
        | some args =>
          let c1 := c.setExec i { c.exec i with settings_ := [] }
          match MySqlExecution.addParameterSettings fuel env i parameters c1 with
          | none => none
          | some (c2, rc2) =>
            if rc2 ≠ 0 then some (c2, rc2)
            else
              match MySqlExecution.addParameterValues fuel env i (c2.exec i).settings_.length
                  args c2 with
              | none => none
              | some (c3, rc3) =>
                if rc3 ≠ 0 then some (c3, rc3)
                else
                  MySqlExecution.changeState fuel env
                    (c3.setExec i { c3.exec i with args_ := none }) i
                    ExecutionState.SETTINGS_CREATED_STATE

/-- The substitution loop of `generateStatementText`: for every SUBSTITUTE
setting, replace the pattern `@name` by the value.  A SUBSTITUTE setting
without a string value has no defined result. -/
def substituteSettings (env : Env) : Settings → String → Option String
  | [], statementText => some statementText
  | (name, setting) :: rest, statementText =>
    if setting.param_type = ParamType.SUBSTITUTE then
      match setting.param_value with
      | some (Value.string v) =>
        substituteSettings env rest (env.regex_replace statementText ("@" ++ name) v)
      | _ => none
    else substituteSettings env rest statementText

/-- Model of `MySqlExecution::generateStatementText`. -/
def MySqlExecution.generateStatementText (fuel : Nat) (env : Env) (c : MySqlConnection) (i : Nat) :
    Option (MySqlConnection × Int) :=
  let statementName := (c.exec i).statementName_
  match env.statementDict with
  | none => none
  | some statements =>
    match findStatement statements statementName with
    | none => none
    | some statement =>
      match statement.statement_text with
      | none =>
        MySqlExecution.reportError fuel env c i
          ("No statement text supplied for statement " ++ statementName) 1
      | some statementTextLines =>
        match substituteSettings env (c.exec i).settings_
            (statementTextLines.foldl (fun acc line => acc ++ line) "") with
        | none => none
        | some statementText =>
          MySqlExecution.changeState fuel env
            (c.setExec i { c.exec i with statementText_ := statementText }) i
            ExecutionState.SQL_GENERATED_STATE

/-! ## Reuse of prepared statements -/

/-- Model of `MySqlExecution::isSameStatementAs`. -/
def MySqlExecution.isSameStatementAs (e otherExecution : MySqlExecution) : Bool :=
  if otherExecution.statementName_ ≠ e.statementName_ then false
  else if otherExecution.statementText_ ≠ e.statementText_ then false
  else if otherExecution.isAutoCommit_ ≠ e.isAutoCommit_ then false
  else true

/-- The reverse scan of `findLivePriorExecution` over the first `n` executions
of the list: positions `n - 1` down to 0. -/
def findLivePriorFrom (executions : List MySqlExecution) (execution : MySqlExecution) :
    Nat → Option Nat
  | 0 => none
  | n + 1 =>
    let previousExecution := executions.getD n default
    if previousExecution.statementHandle_ ≠ none
        ∧ execution.isSameStatementAs previousExecution = true then some n
    else findLivePriorFrom executions execution n

/-- Model of `MySqlConnectionImpl::findLivePriorExecution`: the position of the
execution found, `none` for the null pointer. -/
def MySqlConnectionImpl.findLivePriorExecution (c : MySqlConnection)
    (execution : MySqlExecution) : Option Nat :=
  findLivePriorFrom c.executions_ execution c.executions_.length

/-- Model of `MySqlExecution::moveFrom`; `j` is the previous execution.  The
assignments are made in the order of the source. -/
def MySqlExecution.moveFrom (c : MySqlConnection) (i j : Nat) : MySqlConnection :=
  let c1 := c.setExec i { c.exec i with statementHandle_ := (c.exec j).statementHandle_ }
  let c2 := c1.setExec j { c1.exec j with statementHandle_ := none }
  let c3 := c2.setExec i { c2.exec i with paramCount_ := (c2.exec j).paramCount_ }
  let c4 := c3.setExec i { c3.exec i with parameterBindArray_ := (c3.exec j).parameterBindArray_ }
  c4.setExec j { c4.exec j with parameterBindArray_ := none }

/-- The number of MARKER parameters of a settings document. -/
def countMarkers (settings : Settings) : Nat :=
  match settings with
  | [] => 0
  | (_, s) :: rest =>
    if s.param_type = ParamType.MARKER then countMarkers rest + 1 else countMarkers rest

/-- The name of the first MARKER parameter of a settings document. -/
def firstMarker (settings : Settings) : Option String :=
  match settings with
  | [] => none
  | (n, s) :: rest => if s.param_type = ParamType.MARKER then some n else firstMarker rest

/-- Model of `MySqlExecution::createPreparedStatement`.  When no session can be
obtained, `mysql_stmt_init` is called with a null session: no defined result.
A failed prepare is reported through the driver (`conn_->impl_->reportMySqlError`),
as in the source. -/
def MySqlExecution.createPreparedStatement (fuel : Nat) (env : Env) (c : MySqlConnection) (i : Nat) :
    Option (MySqlConnection × Int) :=
  match MySqlConnectionImpl.getdb (MySqlConnection.reportError fuel env) env c with
  | none => none
  | some c1 =>
    match MySqlConnectionImpl.findLivePriorExecution c1 (c1.exec i) with
    | some priorExecution =>
      MySqlExecution.changeState fuel env (MySqlExecution.moveFrom c1 i priorExecution) i
        ExecutionState.MYSQL_STMT_CREATED_STATE
    | none =>
      match c1.impl_.db_ with
      | none => none
      | some _ =>
        let statementName := (c1.exec i).statementName_
        let statementText := (c1.exec i).statementText_
        let o := env.srv.mysql_stmt_prepare c1.serverLog.length statementText
        let handle : MYSQL_STMT :=
          { id := c1.nextAlloc,
            param_count := if o.rc = 0 then o.param_count else 0,
            fields := if o.rc = 0 then o.fields else none }
        let c2 := { c1 with nextAlloc := c1.nextAlloc + 1 }
        let c3 := (c2.logCall (ServerCall.mysql_stmt_prepare handle.id statementText)).setDbError
          o.errno o.error
        let c4 := c3.setExec i { c3.exec i with statementHandle_ := some handle }
        if o.rc ≠ 0 then
          MySqlConnectionImpl.reportMySqlError (MySqlConnection.reportError fuel env) c4
            ("preparing statement " ++ statementName)
        else
          let c5 := c4.setExec i { c4.exec i with paramCount_ := handle.param_count }
          let settings := (c5.exec i).settings_
          let noMarkerExpected : Option String :=
            if handle.param_count = 0 ∧ settings.length > 0 then firstMarker settings else none
          match noMarkerExpected with
          | some markerName =>
            MySqlExecution.reportError fuel env c5 i
              ("MySql found no parameters in statement " ++ statementName ++ " but " ++
                markerName ++ " is declared as marker\n" ++ statementText) 1
          | none =>
            if handle.param_count > 0 ∧ countMarkers settings ≠ handle.param_count then
              MySqlExecution.reportError fuel env c5 i
                ("MySql expects " ++ toString handle.param_count ++ " parameters in statement " ++
                  statementName ++ " but " ++ toString (countMarkers settings) ++
                  " were passed") 1
            else
              MySqlExecution.changeState fuel env c5 i ExecutionState.MYSQL_STMT_CREATED_STATE

/-! ## The server-facing tail -/

/-- A bind record cleared by `memset`. -/
def zeroBind : MYSQL_BIND :=
  { buffer_type := none, buffer := none, buffer_length := 0, length := none, is_null := none }

/-- Store a record of the parameter-bind array of execution `i`. -/
def setParameterBind (c : MySqlConnection) (i k : Nat) (b : MYSQL_BIND) : MySqlConnection :=
  match (c.exec i).parameterBindArray_ with
  | none => c
  | some arr =>
    c.setExec i { c.exec i with parameterBindArray_ := some { arr with binds := arr.binds.set k b } }

/-- Write a value at an offset of the parameter buffer of execution `i`. -/
def writeParamBuffer (c : MySqlConnection) (i : Nat) (offset : Nat) (v : BufferValue) :
    MySqlConnection :=
  match (c.exec i).paramBuffer_ with
  | none => c
  | some buf =>
    c.setExec i { c.exec i with paramBuffer_ := some { buf with values := buf.values ++ [(offset, v)] } }

/-- Model of `MySqlExecution::bindParameter` for the record at position `k` of
the parameter-bind array; `buffer` is the offset in the parameter buffer, `none`
for the null pointer of the sizing pass.  The result is the space required and
the advanced buffer pointer.  A record beyond the end of the array has no
defined result. -/
def MySqlExecution.bindParameter (fuel : Nat) (env : Env) (c : MySqlConnection) (i : Nat)
    (setting : Setting) (k : Nat) (buffer : Option Nat) :
    Option (MySqlConnection × Nat × Option Nat) :=
  match (c.exec i).parameterBindArray_ with
  | none => none
  | some arr =>
    match arr.binds.get? k with
    | none => none
    | some bind0 =>
      let parameterBind := { bind0 with buffer_type := some setting.param_data_type }
      match setting.param_data_type with
      | enum_field_types.MYSQL_TYPE_LONG =>
        match buffer with
        | none => some (setParameterBind c i k parameterBind, 8, none)
        | some offset =>
          let bound := { parameterBind with
            buffer := some (BufferPtr.param offset), buffer_length := 8, length := none }
          match setting.param_value with
          | some (Value.int v) =>
            some (setParameterBind (writeParamBuffer c i offset (BufferValue.long v)) i k
              { bound with is_null := some IsNullPtr.mysqlFalse_ }, 8, some (offset + 8))
          | some _ => none
          | none =>
            some (setParameterBind (writeParamBuffer c i offset (BufferValue.long 0)) i k
              { bound with is_null := some IsNullPtr.mysqlTrue_ }, 8, some (offset + 8))
      | enum_field_types.MYSQL_TYPE_DOUBLE =>
        match buffer with
        | none => some (setParameterBind c i k parameterBind, 8, none)
        | some offset =>
          let bound := { parameterBind with
            buffer := some (BufferPtr.param offset), buffer_length := 8, length := none }
          match setting.param_value with
          | some (Value.double v) =>
            some (setParameterBind (writeParamBuffer c i offset (BufferValue.double v)) i k
              { bound with is_null := some IsNullPtr.mysqlFalse_ }, 8, some (offset + 8))
          | some _ => none
          | none =>
            some (setParameterBind (writeParamBuffer c i offset (BufferValue.double 0)) i k
              { bound with is_null := some IsNullPtr.mysqlTrue_ }, 8, some (offset + 8))
      | enum_field_types.MYSQL_TYPE_STRING =>
        match setting.param_value with
        | some (Value.string stringValue) =>
          some (setParameterBind c i k { parameterBind with
            buffer := some (BufferPtr.callerString stringValue),
            buffer_length := stringValue.utf8ByteSize, length := none,
            is_null := some IsNullPtr.mysqlFalse_ }, 0, buffer)
        | some _ => none
        | none =>
          some (setParameterBind c i k { parameterBind with
            buffer := none, buffer_length := 0, length := none,
            is_null := some IsNullPtr.mysqlTrue_ }, 0, buffer)
      | enum_field_types.MYSQL_TYPE_DATE
      | enum_field_types.MYSQL_TYPE_TIME
      | enum_field_types.MYSQL_TYPE_DATETIME
      | enum_field_types.MYSQL_TYPE_TIMESTAMP =>
        match buffer with
        | none => some (setParameterBind c i k parameterBind, env.sizeofMysqlTime, none)
        | some offset =>
          let nullBind := { parameterBind with is_null := some IsNullPtr.mysqlTrue_ }
          let advanced : Option Nat :=
            if env.sizeofMysqlTime ≠ 0 then some (offset + env.sizeofMysqlTime) else some offset
          match setting.param_value with
          | none => some (setParameterBind c i k nullBind, env.sizeofMysqlTime, advanced)
          | some (Value.string timeArg) =>
            match MySqlExecution.stringToMySqlTime fuel env (setParameterBind c i k nullBind) i
                timeArg setting.param_data_type with
            | none => none
            | some (c1, rc, t) =>
              match rc, t with
              | 0, some mysqlTimeValue =>
                some (setParameterBind (writeParamBuffer c1 i offset (BufferValue.time mysqlTimeValue))
                  i k { nullBind with
                    buffer := some (BufferPtr.param offset),
                    buffer_length := env.sizeofMysqlTime, length := none,
                    is_null := some IsNullPtr.mysqlFalse_ }, env.sizeofMysqlTime, advanced)
              | _, _ => some (c1, env.sizeofMysqlTime, advanced)
          | some _ => none
      | _ => some (setParameterBind c i k parameterBind, 0, buffer)

/-- One pass of `prepareToBind` over the settings: every MARKER setting is bound
to the next record of the array.  The result is the sum of the space required. -/
def MySqlExecution.bindMarkers (fuel : Nat) (env : Env) (i : Nat) :
    Settings → Nat → Option Nat → Nat → MySqlConnection → Option (MySqlConnection × Nat)
  | [], _, _, len, c => some (c, len)
  | (_, setting) :: rest, k, buffer, len, c =>
    if setting.param_type = ParamType.MARKER then
      match MySqlExecution.bindParameter fuel env c i setting k buffer with
      | none => none
      | some (c1, space, buffer1) =>
        MySqlExecution.bindMarkers fuel env i rest (k + 1) buffer1 (len + space) c1
    else MySqlExecution.bindMarkers fuel env i rest k buffer len c

/-- Model of `MySqlExecution::bindColumn`: the bind record, the space required,
the advanced buffer pointer and the new `blobBufferLen_`. -/
def MySqlExecution.bindColumn (env : Env) (fieldDescriptor : MYSQL_FIELD) (columnBind : MYSQL_BIND)
    (buffer : Option Nat) (blobBufferLen : Nat) : MYSQL_BIND × Nat × Option Nat × Nat :=
  let columnType := fieldDescriptor.type
  let scalar : MYSQL_BIND := { columnBind with
    buffer_type := some columnType,
    buffer := match buffer with
      | none => none
      | some offset => some (BufferPtr.row offset),
    buffer_length := fieldDescriptor.length,
    length := none }
  let isString : Bool :=
    columnType = enum_field_types.MYSQL_TYPE_STRING
      ∨ columnType = enum_field_types.MYSQL_TYPE_VAR_STRING
  let isTime : Bool :=
    columnType = enum_field_types.MYSQL_TYPE_DATE ∨ columnType = enum_field_types.MYSQL_TYPE_TIME
      ∨ columnType = enum_field_types.MYSQL_TYPE_DATETIME
      ∨ columnType = enum_field_types.MYSQL_TYPE_TIMESTAMP
  let bufferSpaceRequired : Nat :=
    if isString then 8 else if isTime then env.sizeofMysqlTime else fieldDescriptor.length
  let typed : MYSQL_BIND :=
    if isString then
      match buffer with
      | none => scalar
      | some offset => { scalar with buffer := none, buffer_length := 0, length := some offset }
    else if isTime then { scalar with buffer_length := bufferSpaceRequired }
    else scalar
  let blobSpaceRequired : Nat :=
    if isString ∧ buffer ≠ none then max fieldDescriptor.length fieldDescriptor.max_length else 0
  let bound : MYSQL_BIND :=
    match buffer with
    | none => typed
    | some offset => { typed with is_null := some (IsNullPtr.row (offset + bufferSpaceRequired)) }
  (bound, bufferSpaceRequired + 1,
   (match buffer with
    | none => none
    | some offset => some (offset + (bufferSpaceRequired + 1))),
   if blobSpaceRequired > 0 then max blobBufferLen blobSpaceRequired else blobBufferLen)

/-- One pass of `prepareToBind` over the result columns. -/
def bindColumns (env : Env) :
    List MYSQL_FIELD → List MYSQL_BIND → Option Nat → Nat → Nat →
      List MYSQL_BIND × Nat × Nat
  | [], _, _, len, blobLen => ([], len, blobLen)
  | _ :: _, [], _, len, blobLen => ([], len, blobLen)
  | f :: fields, b :: binds, buffer, len, blobLen =>
    let r := MySqlExecution.bindColumn env f b buffer blobLen
    let rest := bindColumns env fields binds r.2.2.1 (len + r.2.1) r.2.2.2
    (r.1 :: rest.1, rest.2.1, rest.2.2)

/-- Model of `MySqlExecution::prepareToBind`. -/
def MySqlExecution.prepareToBind (fuel : Nat) (env : Env) (c : MySqlConnection) (i : Nat) :
    Option (MySqlConnection × Int) :=
  let bound : Option MySqlConnection :=
    if (c.exec i).paramCount_ ≠ 0 then
      let e := c.exec i
      let arrId : Nat := match e.parameterBindArray_ with
        | none => c.nextAlloc
        | some arr => arr.id
      let c1 : MySqlConnection := match e.parameterBindArray_ with
        | none => { c with nextAlloc := c.nextAlloc + 1 }
        | some _ => c
      let c2 := c1.setExec i { c1.exec i with
        parameterBindArray_ := some { id := arrId, binds := List.replicate e.paramCount_ zeroBind },
        paramBuffer_ := none, paramBufferLen_ := 0 }
      match MySqlExecution.bindMarkers fuel env i (c2.exec i).settings_ 0 none 0 c2 with
      | none => none
      | some (c3, paramBufferLen) =>
        let c4 := c3.setExec i { c3.exec i with paramBufferLen_ := paramBufferLen }
        if paramBufferLen > 0 then
          let c5 := { c4 with nextAlloc := c4.nextAlloc + 1 }
          let c6 := c5.setExec i { c5.exec i with
            paramBuffer_ := some { id := c4.nextAlloc, size := paramBufferLen, values := [] } }
          match MySqlExecution.bindMarkers fuel env i (c6.exec i).settings_ 0 (some 0) 0 c6 with
          | none => none
          | some (c7, _) => some c7
        else some c4
    else some c
  match bound with
  | none => none
  | some c1 =>
    match (c1.exec i).statementHandle_ with
    | none => none
    | some handle =>
      let c2 := c1.setExec i { c1.exec i with resultsMetadata_ := handle.fields }
      match handle.fields with
      | none => MySqlExecution.changeState fuel env c2 i ExecutionState.BINDINGS_PREPARED_STATE
      | some fields =>
        if fields.length = 0 ∨ (c2.exec i).columnBindArray_ ≠ none then none
        else
          let e := c2.exec i
          let sized := bindColumns env fields (List.replicate fields.length zeroBind) none 0
            e.blobBufferLen_
          let filled := bindColumns env fields sized.1 (some 0) 0 sized.2.2
          let c3 := { c2 with nextAlloc := c2.nextAlloc + 2 }
          let c4 := c3.setExec i { e with
            columnCount_ := fields.length,
            columnBindArray_ := some { id := c2.nextAlloc, binds := filled.1 },
            rowBufferLen_ := sized.2.1,
            rowBuffer_ := some { id := c2.nextAlloc + 1, size := sized.2.1, values := [] },
            blobBufferLen_ := filled.2.2 }
          MySqlExecution.changeState fuel env c4 i ExecutionState.BINDINGS_PREPARED_STATE

/-- Model of `MySqlExecution::bindParameters`. -/
def MySqlExecution.bindParameters (fuel : Nat) (env : Env) (c : MySqlConnection) (i : Nat) :
    Option (MySqlConnection × Int) :=
  if (c.exec i).paramCount_ ≠ 0 then
    match (c.exec i).statementHandle_ with
    | none => none
    | some handle =>
      let o := env.srv.mysql_stmt_bind_param c.serverLog.length
      let c1 := c.logCall (ServerCall.mysql_stmt_bind_param handle.id)
      if o.rc = 0 ∧ o.errno ≠ 0 then
        MySqlExecution.reportMySqlError fuel env c1 i o.errno o.error
          ("binding parameters for statement " ++ (c1.exec i).statementName_)
      else MySqlExecution.changeState fuel env c1 i ExecutionState.STATEMENT_PREPARED_STATE
  else MySqlExecution.changeState fuel env c i ExecutionState.STATEMENT_PREPARED_STATE

/-- Model of `MySqlExecution::executeStatement`. -/
def MySqlExecution.executeStatement (fuel : Nat) (env : Env) (c : MySqlConnection) (i : Nat) :
    Option (MySqlConnection × Int) :=
  let c0 := (c.setExec i { c.exec i with executeTime_ := c.now }).tick
  match (c0.exec i).statementHandle_ with
  | none => none
  | some handle =>
    let o := env.srv.mysql_stmt_execute c0.serverLog.length
    let c1 := c0.logCall (ServerCall.mysql_stmt_execute handle.id)
    if o.rc ≠ 0 then
      MySqlExecution.reportMySqlError fuel env c1 i o.errno o.error
        ("executing statement (" ++ toString o.rc ++ ") " ++ (c1.exec i).statementName_)
    else
      let c2 := c1.setExec i { c1.exec i with rowsAffected_ := 0 }
      match (c2.exec i).resultsMetadata_ with
      | none =>
        MySqlExecution.changeState fuel env
          (c2.setExec i { c2.exec i with rowsAffected_ := o.affected_rows }) i
          ExecutionState.STATEMENT_COMPLETE_STATE
      | some _ =>
        MySqlExecution.changeState fuel env c2 i ExecutionState.EXECUTION_COMPLETE_STATE

/-- Modelled from the client library's header: return code of
`mysql_stmt_fetch` when there are no more rows. -/
def MYSQL_NO_DATA : Int := 100

/-- Modelled from the client library's header: return code of
`mysql_stmt_fetch` when a value was truncated. -/
def MYSQL_DATA_TRUNCATED : Int := 101

/-- Add a member to the last row of the results document. -/
def addToLastRow (rows : List (List (String × Value))) (name : String) (v : Value) :
    List (List (String × Value)) :=
  match rows with
  | [] => []
  | [row] => [row ++ [(name, v)]]
  | row :: rest => row :: addToLastRow rest name v

/-- Add a member to the last row of the results of execution `i`. -/
def addResultMember (c : MySqlConnection) (i : Nat) (name : String) (v : Value) :
    MySqlConnection :=
  match (c.exec i).results_ with
  | none => c
  | some r =>
    c.setExec i { c.exec i with results_ := some { r with rows := addToLastRow r.rows name v } }

/-- The object that `storeResultRow` builds for a temporal column. -/
def timeMembers (type : enum_field_types) (t : MYSQL_TIME) : List (String × Nat) :=
  (if type ≠ enum_field_types.MYSQL_TYPE_TIME then
      [("year", t.year), ("month", t.month), ("day", t.day)]
    else []) ++
  (if type ≠ enum_field_types.MYSQL_TYPE_DATE then
      [("hour", t.hour), ("minute", t.minute), ("second", t.second)] ++
        (if t.second_part ≠ 0 then [("second_part", t.second_part)] else [])
    else [])

/-- Model of `MySqlExecution::getBlobBuffer`. -/
def MySqlExecution.getBlobBuffer (c : MySqlConnection) (i : Nat) (bufferSize : Nat) :
    MySqlConnection :=
  if bufferSize > (c.exec i).blobBufferLen_ then
    let c1 := { c with nextAlloc := c.nextAlloc + 1 }
    c1.setExec i { c1.exec i with
      blobBufferLen_ := bufferSize,
      blobBuffer_ := some { id := c.nextAlloc, size := bufferSize, values := [] } }
  else c

/-- The column loop of `storeResultRow`, from column `icol` on: the remaining
field descriptors, bind records and fetched cells.  The result code is 0 when
the loop ran to its end.  Reading through a null `is_null` or `length` pointer,
a missing cell, or a cell that has not the type of its column, has no defined
result. -/
def MySqlExecution.storeColumns (fuel : Nat) (env : Env) (i : Nat) :
    List MYSQL_FIELD → List MYSQL_BIND → List Cell → Nat → MySqlConnection →
      Option (MySqlConnection × Int)
  | [], _, _, _, c => some (c, 0)
  | _ :: _, [], _, _, _ => none
  | _ :: _, _ :: _, [], _, _ => none
  | fieldDescriptor :: fields, columnBind :: binds, cell :: cells, icol, c =>
    match columnBind.is_null with
    | none => none
    | some _ =>
      if cell.is_null then
        MySqlExecution.storeColumns fuel env i fields binds cells (icol + 1)
          (addResultMember c i fieldDescriptor.name Value.null)
      else
        match fieldDescriptor.type, cell.value with
        | enum_field_types.MYSQL_TYPE_LONG, Value.int v
        | enum_field_types.MYSQL_TYPE_LONGLONG, Value.int v =>
          MySqlExecution.storeColumns fuel env i fields binds cells (icol + 1)
            (addResultMember c i fieldDescriptor.name (Value.int v))
        | enum_field_types.MYSQL_TYPE_DOUBLE, Value.double v =>
          MySqlExecution.storeColumns fuel env i fields binds cells (icol + 1)
            (addResultMember c i fieldDescriptor.name (Value.double v))
        | enum_field_types.MYSQL_TYPE_STRING, Value.string v
        | enum_field_types.MYSQL_TYPE_VAR_STRING, Value.string v
        | enum_field_types.MYSQL_TYPE_ENUM, Value.string v =>
          match columnBind.length, (c.exec i).statementHandle_ with
          | some _, some handle =>
            let c1 := MySqlExecution.getBlobBuffer c i cell.length
            let o := env.srv.mysql_stmt_fetch_column c1.serverLog.length
            let c2 := c1.logCall (ServerCall.mysql_stmt_fetch_column handle.id icol)
            if o.rc ≠ 0 then
              MySqlExecution.reportMySqlError fuel env c2 i o.errno o.error
                ("fetching string column " ++ fieldDescriptor.name ++ " in statement " ++
                  (c2.exec i).statementName_)
            else
              MySqlExecution.storeColumns fuel env i fields binds cells (icol + 1)
                (addResultMember c2 i fieldDescriptor.name (Value.string v))
          | _, _ => none
        | enum_field_types.MYSQL_TYPE_DATE, _
        | enum_field_types.MYSQL_TYPE_TIME, _
        | enum_field_types.MYSQL_TYPE_DATETIME, _
        | enum_field_types.MYSQL_TYPE_TIMESTAMP, _ =>
          MySqlExecution.storeColumns fuel env i fields binds cells (icol + 1)
            (addResultMember c i fieldDescriptor.name
              (Value.object (timeMembers fieldDescriptor.type cell.time)))
        | enum_field_types.MYSQL_TYPE_OTHER code, _ =>
          match MySqlExecution.reportError fuel env c i
              ("Column " ++ fieldDescriptor.name ++ " has unsupported type " ++ toString code) 1 with
          | none => none
          | some (c1, _) => some (c1, 1)
        | _, _ => none

/-- Model of `MySqlExecution::storeResultRow`; `cells` is what the fetch wrote
to the bound buffers. -/
def MySqlExecution.storeResultRow (fuel : Nat) (env : Env) (c : MySqlConnection) (i : Nat)
    (cells : List Cell) : Option (MySqlConnection × Int) :=
  match (c.exec i).results_, (c.exec i).resultsMetadata_, (c.exec i).columnBindArray_ with
  | some r, some fields, some arr =>
    let c1 := c.setExec i { c.exec i with results_ := some { r with rows := r.rows ++ [[]] } }
    MySqlExecution.storeColumns fuel env i fields arr.binds cells 0 c1
  | _, _, _ => none

/-- The fetch loop of `retrieveResults`.  The result code is that of
`retrieveResults`. -/
def MySqlExecution.fetchRows (env : Env) (i : Nat) (handle : MYSQL_STMT) :
    Nat → MySqlConnection → Option (MySqlConnection × Int)
  | 0, _ => none
  | fuel + 1, c =>
    let o := env.srv.mysql_stmt_fetch c.serverLog.length
    let c1 := c.logCall (ServerCall.mysql_stmt_fetch handle.id)
    if o.rc = 0 ∨ o.rc = MYSQL_DATA_TRUNCATED then
      match MySqlExecution.storeResultRow fuel env c1 i o.cells with
      | none => none
      | some (c2, rc) =>
        if rc ≠ 0 then some (c2, rc)
        else
          MySqlExecution.fetchRows env i handle fuel
            (c2.setExec i { c2.exec i with rowCount_ := (c2.exec i).rowCount_ + 1 })
    else if o.rc = 1 then
      MySqlExecution.reportMySqlError fuel env c1 i o.errno o.error
        ("fetching row for statement " ++ (c1.exec i).statementName_)
    else if o.rc = MYSQL_NO_DATA then
      MySqlExecution.changeState fuel env c1 i ExecutionState.STATEMENT_COMPLETE_STATE
    else MySqlExecution.fetchRows env i handle fuel c1

/-- Model of `MySqlExecution::retrieveResults`. -/
def MySqlExecution.retrieveResults (fuel : Nat) (env : Env) (c : MySqlConnection) (i : Nat) :
    Option (MySqlConnection × Int) :=
  let c0 := (c.setExec i { c.exec i with retrieveTime_ := c.now }).tick
  match MySqlConnectionImpl.getdb (MySqlConnection.reportError fuel env) env c0 with
  | none => none
  | some c1 =>
    match (c1.exec i).statementHandle_ with
    | none => none
    | some handle =>
      let o := env.srv.mysql_stmt_bind_result c1.serverLog.length
      let c2 := c1.logCall (ServerCall.mysql_stmt_bind_result handle.id)
      if o.rc ≠ 0 then
        MySqlExecution.reportMySqlError fuel env c2 i o.errno o.error
          ("binding results of statement " ++ (c2.exec i).statementName_)
      else
        let c3 : MySqlConnection :=
          if (c2.exec i).blobBufferLen_ > 0 then
            let c2a := { c2 with nextAlloc := c2.nextAlloc + 1 }
            c2a.setExec i { c2a.exec i with
              blobBuffer_ := some { id := c2.nextAlloc, size := (c2.exec i).blobBufferLen_,
                                    values := [] } }
          else c2
        let columns : List (String × enum_field_types) :=
          match (c3.exec i).resultsMetadata_ with
          | none => []
          | some fields => fields.map (fun f => (f.name, f.type))
        let c4 := c3.setExec i { c3.exec i with
          results_ := some { columns := columns, rows := [] }, rowCount_ := 0 }
        MySqlExecution.fetchRows env i handle fuel c4

/-- Model of `MySqlExecution::cleanup`. -/
def MySqlExecution.cleanup (c : MySqlConnection) (i : Nat) : MySqlConnection :=
  c.setExec i { c.exec i with
    parameterBindArray_ := none, paramBuffer_ := none, columnBindArray_ := none,
    rowBuffer_ := none, blobBuffer_ := none }

/-- Model of `MySqlExecution::close`. -/
def MySqlExecution.close (c : MySqlConnection) (i : Nat) (isReusable : Bool) : MySqlConnection :=
  match (c.exec i).statementHandle_ with
  | none => c
  | some handle =>
    let c1 : MySqlConnection :=
      match (c.exec i).resultsMetadata_ with
      | none => c
      | some _ =>
        (c.logCall (ServerCall.mysql_stmt_free_result handle.id)).setExec i
          { c.exec i with resultsMetadata_ := none }
    if isReusable = false then
      let c2 := c1.logCall (ServerCall.mysql_stmt_close handle.id)
      MySqlExecution.cleanup (c2.setExec i { c2.exec i with statementHandle_ := none }) i
    else c1

/-- The state-function map (`createStateFunctionMap`). -/
def stateFunctionMap_ (state : ExecutionState) : Option StateFunction :=
  match state with
  | ExecutionState.INITIAL_STATE => some StateFunction.validateStatement
  | ExecutionState.STATEMENT_VALID_STATE => some StateFunction.createSettings
  | ExecutionState.SETTINGS_CREATED_STATE => some StateFunction.generateStatementText
  | ExecutionState.SQL_GENERATED_STATE => some StateFunction.createPreparedStatement
  | ExecutionState.MYSQL_STMT_CREATED_STATE => some StateFunction.prepareToBind
  | ExecutionState.BINDINGS_PREPARED_STATE => some StateFunction.bindParameters
  | ExecutionState.STATEMENT_PREPARED_STATE => some StateFunction.executeStatement
  | ExecutionState.EXECUTION_COMPLETE_STATE => some StateFunction.retrieveResults
  | _ => none

/-- Call of a transition function on execution `i`. -/
def MySqlExecution.callStateFunction (fuel : Nat) (env : Env) (c : MySqlConnection) (i : Nat)
    (stateFunction : StateFunction) : Option (MySqlConnection × Int) :=
  match stateFunction with
  | StateFunction.validateStatement => MySqlExecution.validateStatement fuel env c i
  | StateFunction.createSettings => MySqlExecution.createSettings fuel env c i
  | StateFunction.generateStatementText => MySqlExecution.generateStatementText fuel env c i
  | StateFunction.createPreparedStatement => MySqlExecution.createPreparedStatement fuel env c i
  | StateFunction.prepareToBind => MySqlExecution.prepareToBind fuel env c i
  | StateFunction.bindParameters => MySqlExecution.bindParameters fuel env c i
  | StateFunction.executeStatement => MySqlExecution.executeStatement fuel env c i
  | StateFunction.retrieveResults => MySqlExecution.retrieveResults fuel env c i

/-- The loop of `crankStateMachine`; `rc` is the return code so far.  Ghost:
every call of a transition function is appended to `trace`. -/
def MySqlExecution.crankLoop (env : Env) (i : Nat) (exitState : ExecutionState) :
    Nat → MySqlConnection → Int → Option (MySqlConnection × Int)
  | 0, _, _ => none
  | fuel + 1, c, rc =>
    if (c.exec i).state_ = exitState then some (c, rc)
    else
      match stateFunctionMap_ (c.exec i).state_ with
      | none => some (c, rc)
      | some stateFunction =>
        match MySqlExecution.callStateFunction fuel env
            { c with trace := c.trace ++ [((c.exec i).executionHandle_, stateFunction)] } i
            stateFunction with
        | none => none
        | some (c1, rc1) =>
          if rc1 ≠ 0 then some (c1, rc1)
          else MySqlExecution.crankLoop env i exitState fuel c1 rc1

/-- Model of `MySqlExecution::crankStateMachine`. -/
def MySqlExecution.crankStateMachine (fuel : Nat) (env : Env) (c : MySqlConnection) (i : Nat)
    (exitState : ExecutionState) : Option (MySqlConnection × Int) :=
  match MySqlExecution.crankLoop env i exitState fuel c 0 with
  | none => none
  | some (c1, rc) => some (c1.setExec i { c1.exec i with rc_ := rc }, rc)

/-- Model of `MySqlExecution::prepareToExecute`. -/
def MySqlExecution.prepareToExecute (fuel : Nat) (env : Env) (c : MySqlConnection) (i : Nat) :
    Option (MySqlConnection × Int) :=
  let c1 := c.setExec i { c.exec i with
    state_ := ExecutionState.INITIAL_STATE, rowCount_ := 0, rowsAffected_ := 0 }
  let c2 := { c1 with errorMessage_ := "", errorNo_ := 0 }
  let c3 := (c2.setExec i { c2.exec i with startTime_ := c2.now }).tick
  MySqlExecution.crankStateMachine fuel env c3 i ExecutionState.SQL_GENERATED_STATE

/-- Model of `MySqlExecution::execute`. -/
def MySqlExecution.execute (fuel : Nat) (env : Env) (c : MySqlConnection) (i : Nat) :
    Option (MySqlConnection × Int) :=
  match MySqlExecution.crankStateMachine fuel env c i ExecutionState.NO_STATE with
  | none => none
  | some (c1, rc) => some (MySqlExecution.close c1 i true, rc)

/-- The constructor of `MySqlExecution`: the handle is taken from the
process-wide counter, the auto-commit flag of the driver is snapshotted. -/
def MySqlExecution.new (c : MySqlConnection) (statementName : String)
    (args : List (String × ArgValue)) (argDoc : Bool) : MySqlExecution :=
  { executionHandle_ := c.nextExecutionHandle_,
    requestSequence_ := 0,
    statementName_ := statementName,
    args_ := some args,
    argDoc_ := argDoc,
    statementHandle_ := none,
    statementText_ := "",
    dom_ := none,
    isAutoCommit_ := c.impl_.isAutoCommit_,
    state_ := ExecutionState.NO_STATE,
    rc_ := -1,
    errorNo_ := 0,
    errorMessage_ := "",
    settings_ := [],
    parameterBindArray_ := none,
    paramCount_ := 0,
    paramBuffer_ := none,
    paramBufferLen_ := 0,
    resultsMetadata_ := none,
    columnBindArray_ := none,
    columnCount_ := 0,
    rowBuffer_ := none,
    rowBufferLen_ := 0,
    results_ := none,
    rowCount_ := 0,
    rowsAffected_ := 0,
    blobBuffer_ := none,
    blobBufferLen_ := 0,
    startTime_ := 0,
    executeTime_ := 0,
    retrieveTime_ := 0,
    completeTime_ := 0 }

/-- Model of `MySqlConnection::doExecute`; the result is the connection and
the handle returned. -/
def MySqlConnection.doExecute (fuel : Nat) (env : Env) (c : MySqlConnection)
    (execution : MySqlExecution) : Option (MySqlConnection × Nat) :=
  let i := c.executions_.length
  let c1 := { c with executions_ := c.executions_ ++ [execution] }
  match MySqlExecution.prepareToExecute fuel env c1 i with
  | none => none
  | some (c2, rc) =>
    if rc ≠ 0 then some (c2, (c2.exec i).executionHandle_)
    else if c2.async_ then
      let r := ExecutionThread.putRequest c2 RequestType.EXECUTION_REQUEST
        (c2.exec i).executionHandle_ ""
      let c3 := r.1.setExec i { r.1.exec i with requestSequence_ := r.2 }
      some (c3, (c3.exec i).executionHandle_)
    else
      match MySqlExecution.execute fuel env c2 i with
      | none => none
      | some (c3, _) => some (c3, (c3.exec i).executionHandle_)

/-- Model of `MySqlConnection::execute` and `MySqlConnection::executeJson`
(`argDoc` tells which): construct the execution and hand it to `doExecute`. -/
def MySqlConnection.execute (fuel : Nat) (env : Env) (c : MySqlConnection) (statementName : String)
    (args : List (String × ArgValue)) (argDoc : Bool) : Option (MySqlConnection × Nat) :=
  let execution := MySqlExecution.new c statementName args argDoc
  MySqlConnection.doExecute fuel env { c with nextExecutionHandle_ := c.nextExecutionHandle_ + 1 }
    execution

/-- The search loop of `findExecution`. -/
def findHandle (executions : List MySqlExecution) (xh : Nat) (pos : Nat) : Option Nat :=
  match executions with
  | [] => none
  | e :: rest => if e.executionHandle_ = xh then some pos else findHandle rest xh (pos + 1)

/-- Model of `MySqlConnection::findExecution`: the position of the execution,
`none` for the null pointer. -/
def MySqlConnection.findExecution (c : MySqlConnection) (xh : Nat) : Option Nat :=
  if c.executions_.isEmpty then none
  else if xh = 0 then some (c.executions_.length - 1)
  else findHandle c.executions_ xh 0

/-- Model of `MySqlConnection::getCompletedExecution`, on the caller's thread:
the wait for the worker does not change what the caller sees. -/
def MySqlConnection.getCompletedExecution (c : MySqlConnection) (xh : Nat) : Option Nat :=
  c.findExecution xh

/-- Model of `MySqlConnection::getReturnCode` (`none`: no such execution). -/
def MySqlConnection.getReturnCode (c : MySqlConnection) (xh : Nat) : Option Int :=
  match c.getCompletedExecution xh with
  | none => none
  | some i => some (c.exec i).rc_

/-- Model of `MySqlConnection::getRowCount`. -/
def MySqlConnection.getRowCount (c : MySqlConnection) (xh : Nat) : Int :=
  match c.getCompletedExecution xh with
  | none => 0
  | some i => (c.exec i).rowCount_

/-- Model of `MySqlConnection::getRowsAffected`. -/
def MySqlConnection.getRowsAffected (c : MySqlConnection) (xh : Nat) : Int :=
  match c.getCompletedExecution xh with
  | none => 0
  | some i => (c.exec i).rowsAffected_

/-- Model of `MySqlConnection::getResults`. -/
def MySqlConnection.getResults (c : MySqlConnection) (xh : Nat) : Option ResultsDoc :=
  match c.getCompletedExecution xh with
  | none => none
  | some i => (c.exec i).results_

/-! ## Programs and the observer chain -/

/-- Model of `MySqlConnection::isReplay`. -/
def MySqlConnection.isReplay (c : MySqlConnection) : Bool :=
  c.observers_.any (fun o => o.observerType = ObserverType.REPLAY_OBS)

/-- Model of `MySqlConnection::addObserver` with `MySqlObserver::createObserver`
and the constructors of the observer classes; `workingDirectory` is the
directory that `getWorkingDirectory` finds.  An audit observer audits when no
replay observer is registered and its set-up succeeds (`Env.auditSetup`); the
replay observer makes the facade transaction-less.  There is no class for
`PERFORMANCE_OBS`: the source throws. -/
def MySqlConnection.addObserver (env : Env) (c : MySqlConnection) (observerName : String)
    (type : ObserverType) (workingDirectory : String) : Option MySqlConnection :=
  let observer : MySqlObserver :=
    { observerType := type, name_ := observerName, currentProgram_ := "",
      workingDirectory_ := workingDirectory, isAuditing_ := false,
      capturedExecutions_ := [], replayExecutions_ := none, executionNumber_ := 0 }
  match type with
  | ObserverType.AUDIT_OBS =>
    if c.isReplay = false ∧ env.auditSetup = true then
      some { c with observers_ := c.observers_ ++ [{ observer with isAuditing_ := true }],
                    nextExecutionHandle_ := c.nextExecutionHandle_ + 1 }
    else some { c with observers_ := c.observers_ ++ [observer] }
  | ObserverType.CAPTURE_OBS => some { c with observers_ := c.observers_ ++ [observer] }
  | ObserverType.REPLAY_OBS =>
    some { c with observers_ := c.observers_ ++ [observer], isTransactions_ := false }
  | ObserverType.DEBUG_OBS => some { c with observers_ := c.observers_ ++ [observer] }
  | ObserverType.PERFORMANCE_OBS => none

/-- Model of `MySqlObserver::getProgramPath`. -/
def MySqlObserver.getProgramPath (o : MySqlObserver) : String :=
  o.workingDirectory_ ++ "/" ++ o.name_ ++ "." ++ o.currentProgram_ ++ ".json"

/-- The content of a file, `none` when it cannot be opened. -/
def readFile (fs : FileSystem) (path : String) : Option (List ExecutionDoc) :=
  match fs with
  | [] => none
  | (p, content) :: rest => if p = path then some content else readFile rest path

/-- Write a file (the newest content is found first). -/
def writeFile (fs : FileSystem) (path : String) (content : List ExecutionDoc) : FileSystem :=
  (path, content) :: fs

/-- Dispatch of the virtual `startProgram` on the class of the observer: the
base class stores the program name; the capture observer resets its document;
the replay observer resets its counter and loads the program file; the audit
and the debug observer do nothing. -/
def MySqlObserver.startProgram (fs : FileSystem) (o : MySqlObserver) (programName : String) :
    MySqlObserver :=
  match o.observerType with
  | ObserverType.AUDIT_OBS => o
  | ObserverType.DEBUG_OBS => o
  | ObserverType.PERFORMANCE_OBS => { o with currentProgram_ := programName }
  | ObserverType.CAPTURE_OBS =>
    { o with currentProgram_ := programName, capturedExecutions_ := [] }
  | ObserverType.REPLAY_OBS =>
    let o1 := { o with currentProgram_ := programName, executionNumber_ := 0 }
    { o1 with replayExecutions_ := readFile fs o1.getProgramPath }

/-- Dispatch of the virtual `endProgram`.  The base class asserts that the
program ended is the current one (`none`: the assertion fails).  The capture
observer writes its document when it holds an execution. -/
def MySqlObserver.endProgram (fs : FileSystem) (o : MySqlObserver) (programName : String) :
    Option (FileSystem × MySqlObserver) :=
  match o.observerType with
  | ObserverType.AUDIT_OBS => some (fs, o)
  | ObserverType.DEBUG_OBS => some (fs, o)
  | ObserverType.REPLAY_OBS => some (fs, o)
  | ObserverType.PERFORMANCE_OBS =>
    if o.currentProgram_ = programName then some (fs, { o with currentProgram_ := "" }) else none
  | ObserverType.CAPTURE_OBS =>
    let capturePath := o.getProgramPath
    if o.currentProgram_ = programName then
      let o1 := { o with currentProgram_ := "" }
      if o1.capturedExecutions_.isEmpty then some (fs, o1)
      else some (writeFile fs capturePath o1.capturedExecutions_,
                 { o1 with capturedExecutions_ := [] })
    else none

/-- The loop of `endProgram` over the observer chain. -/
def endProgramLoop (programName : String) :
    List MySqlObserver → FileSystem → Option (FileSystem × List MySqlObserver)
  | [], fs => some (fs, [])
  | o :: rest, fs =>
    match MySqlObserver.endProgram fs o programName with
    | none => none
    | some (fs1, o1) =>
      match endProgramLoop programName rest fs1 with
      | none => none
      | some (fs2, rest1) => some (fs2, o1 :: rest1)

/-- Model of `MySqlConnection::startProgram`. -/
def MySqlConnection.startProgram (fs : FileSystem) (c : MySqlConnection) (programName : String) :
    MySqlConnection :=
  let c1 := if c.async_ then
      c.flushExecutionThread RequestType.START_PROGRAM_REQUEST 0 programName
    else c
  { c1 with currentProgram_ := programName,
            observers_ := c1.observers_.map (fun o => o.startProgram fs programName) }

/-- Model of `MySqlConnection::endProgram`. -/
def MySqlConnection.endProgram (fs : FileSystem) (c : MySqlConnection) (programName : String) :
    Option (FileSystem × MySqlConnection) :=
  let c1 := if c.async_ then
      c.flushExecutionThread RequestType.END_PROGRAM_REQUEST 0 programName
    else c
  match endProgramLoop programName c1.observers_ fs with
  | none => none
  | some (fs1, observers) => some (fs1, { c1 with observers_ := observers, currentProgram_ := "" })

/-! ## Sequences of transaction operations -/

/-- The operations on a connection that claim C5 speaks of. -/
inductive ConnOp where
  | startTransaction (transactionName : String)
  | commitTransaction
  | rollbackTransaction (reason : String)
  | reportError (errorMessage : String) (errorNo : Int) (xh : Nat)
  | close
  deriving DecidableEq, Repr

/-- Run one operation with the given fuel. -/
def applyOp (fuel : Nat) (env : Env) (c : MySqlConnection) : ConnOp → Option MySqlConnection
  | ConnOp.startTransaction transactionName =>
    (MySqlConnection.startTransaction fuel env c transactionName).map Prod.fst
  | ConnOp.commitTransaction => (MySqlConnection.commitTransaction fuel env c).map Prod.fst
  | ConnOp.rollbackTransaction reason =>
    (MySqlConnection.rollbackTransaction (MySqlConnection.reportError fuel env) env c reason).map
      Prod.fst
  | ConnOp.reportError errorMessage errorNo xh =>
    (MySqlConnection.reportError fuel env c errorMessage errorNo xh).map Prod.fst
  | ConnOp.close => MySqlConnection.close fuel env c

/-- Run a sequence of operations, each with its own fuel. -/
def runOps (env : Env) : MySqlConnection → List (Nat × ConnOp) → Option MySqlConnection
  | c, [] => some c
  | c, (fuel, op) :: rest =>
    match applyOp fuel env c op with
    | none => none
    | some c1 => runOps env c1 rest

/-- The operations for which the invariant of C5 is kept: every operation but
`close`, and `startTransaction` with a name that is not empty. -/
def ConnOp.named : ConnOp → Bool
  | ConnOp.startTransaction transactionName => transactionName != ""
  | ConnOp.close => false
  | _ => true

/-! ## Predicates used in the statements -/

/-- What reporting an error on the connection leaves alone. -/
structure ConnFrame (c c' : MySqlConnection) : Prop where
  executions_ : c'.executions_ = c.executions_
  observers_ : c'.observers_ = c.observers_
  trace : c'.trace = c.trace
  nextExecutionHandle_ : c'.nextExecutionHandle_ = c.nextExecutionHandle_
  isTransactions_ : c'.isTransactions_ = c.isTransactions_
  async_ : c'.async_ = c.async_
  now : c'.now = c.now
  currentProgram_ : c'.currentProgram_ = c.currentProgram_
  db : c.impl_.db_.isSome = true → c'.impl_.db_.isSome = true
  user_ : c'.impl_.user_ = c.impl_.user_

/-- The error fields of the facade, as `reportError` stores them. -/
def MySqlConnection.withError (c : MySqlConnection) (errorMessage : String) (errorNo : Int)
    (xh : Nat) : MySqlConnection :=
  { c with errorNo_ := errorNo, errorMessage_ := errorMessage, errorExecutionHandle_ := xh }

/-- What a call of `reportError` guarantees when it returns: it returns the
error number; without an open transaction it only stores the error; with a
transaction open on a session it leaves auto-commit on and the name empty. -/
structure ReportPost (c : MySqlConnection) (errorMessage : String) (errorNo : Int) (xh : Nat)
    (c' : MySqlConnection) (rc : Int) : Prop where
  rc : rc = errorNo
  frame : ConnFrame c c'
  closed : c.isTransactions_ = false ∨ c.impl_.isAutoCommit_ = true →
    c' = c.withError errorMessage errorNo xh
  opened : c.isTransactions_ = true → c.impl_.isAutoCommit_ = false →
    c.impl_.db_.isSome = true → c'.impl_.isAutoCommit_ = true ∧ c'.transactionName_ = ""

/-- A function that keeps the contract of `reportError`. -/
def ReportOK (report : ReportFn) : Prop :=
  ∀ c errorMessage errorNo xh c' rc,
    report c errorMessage errorNo xh = some (c', rc) → ReportPost c errorMessage errorNo xh c' rc

/-- The invariant of the transaction fields: the name is set exactly while
auto-commit is off, and auto-commit is off only on a session. -/
def TxInv (c : MySqlConnection) : Prop :=
  (c.transactionName_ ≠ "" ↔ c.impl_.isAutoCommit_ = false) ∧
  (c.impl_.isAutoCommit_ = false → c.impl_.db_.isSome = true)

/-! ## Concrete inputs -/

/-- An outcome without error. -/
def okOutcome : MySqlOutcome := { rc := 0, errno := 0, error := "" }

/-- A server on which every call succeeds, except that the text `bad sql` does
not prepare (error 1064).  A statement reports as many markers as its text
says: `select ?` one, `select ?, ?` two, every other text none. -/
def exampleServer : Server :=
  { mysql_init := fun _ => true,
    mysql_real_connect := fun _ => okOutcome,
    mysql_commit := fun _ => okOutcome,
    mysql_rollback := fun _ => okOutcome,
    mysql_stmt_prepare := fun _ text =>
      if text = "bad sql" then
        { rc := 1, errno := 1064, error := "syntax error", param_count := 0, fields := none }
      else if text = "select ?" then
        { rc := 0, errno := 0, error := "", param_count := 1, fields := none }
      else if text = "select ?, ?" then
        { rc := 0, errno := 0, error := "", param_count := 2, fields := none }
      else { rc := 0, errno := 0, error := "", param_count := 0, fields := none },
    mysql_stmt_bind_param := fun _ => okOutcome,
    mysql_stmt_execute := fun _ => { rc := 0, errno := 0, error := "", affected_rows := 1 },
    mysql_stmt_bind_result := fun _ => okOutcome,
    mysql_stmt_fetch := fun _ => { rc := MYSQL_NO_DATA, errno := 0, error := "", cells := [] },
    mysql_stmt_fetch_column := fun _ => okOutcome }

/-- A dictionary with four statements: `good` and `bad` without parameters,
`one` with one marker and one placeholder, `two` with one declared marker but
two placeholders in its text. -/
def exampleStatements : Statements :=
  [("good", { statement_text := some ["select 1"], parameters := some [] }),
   ("bad", { statement_text := some ["bad sql"], parameters := some [] }),
   ("one", { statement_text := some ["select ?"],
             parameters := some [{ name := "a", param_type := some "marker",
                                   data_type := some "int" }] }),
   ("two", { statement_text := some ["select ?, ?"],
             parameters := some [{ name := "a", param_type := some "marker",
                                   data_type := some "int" }] })]

/-- An environment around `exampleServer` and `exampleStatements`. -/
def exampleEnv : Env :=
  { srv := exampleServer,
    statementDict := some exampleStatements,
    regex_replace := fun text _ _ => text,
    sizeofMysqlTime := 40,
    auditSetup := true }

/-- A freshly created synchronous connection. -/
def exampleConnection : MySqlConnection :=
  MySqlConnection.createConnection "conn" "employees" "employees.json" "user" "password" "host"
    false

/-- The connection after `startTransaction("t")` on `exampleConnection`. -/
def exampleOpenTransaction : MySqlConnection :=
  match MySqlConnection.startTransaction 1 exampleEnv exampleConnection "t" with
  | some (c, _) => c
  | none => exampleConnection

/-- The connection after `startTransaction("t")` and a reported error. -/
def exampleAfterError : MySqlConnection :=
  match MySqlConnection.reportError 2 exampleEnv exampleOpenTransaction "failed" 1 0 with
  | some (c, _) => c
  | none => exampleConnection

/-! ## Frames of the observers and of the state machine -/

/-- An execution without what the observers may cache or stamp: the
serialised document and the complete-timestamp. -/
def MySqlExecution.core (e : MySqlExecution) : MySqlExecution :=
  { e with dom_ := none, completeTime_ := 0 }

/-- A connection without its executions, its observers, the handle counter and
the clock. -/
def MySqlConnection.core (c : MySqlConnection) : MySqlConnection :=
  { c with executions_ := [], observers_ := [], nextExecutionHandle_ := 0, now := 0 }

/-- An observer that does not redirect the proposed state: every observer but
the replay observer, and the replay observer for every state but SQL_GENERATED. -/
def Quiet (o : MySqlObserver) (newState : ExecutionState) : Prop :=
  o.observerType ≠ ObserverType.REPLAY_OBS ∨ newState ≠ ExecutionState.SQL_GENERATED_STATE

/-- What the observers at positions `a ≤ k < b` may change when they are asked
about a transition of an execution. -/
structure ObsFrame (a b : Nat) (c c' : MySqlConnection) : Prop where
  core : c'.core = c.core
  execLen : c'.executions_.length = c.executions_.length
  execCore : ∀ j, (c'.exec j).core = (c.exec j).core
  obsLen : c'.observers_.length = c.observers_.length
  obsOther : ∀ k, k < a ∨ b ≤ k → c'.obs k = c.obs k
  obsType : ∀ k, (c'.obs k).observerType = (c.obs k).observerType
  obsDoc : ∀ k, (c'.obs k).replayExecutions_ = (c.obs k).replayExecutions_

/-- What a call of `changeState` whose observers do not redirect changes: the
state of the execution becomes the proposed state. -/
structure StateFrame (i : Nat) (ns : ExecutionState) (c c' : MySqlConnection) : Prop where
  core : c'.core = c.core
  execLen : c'.executions_.length = c.executions_.length
  execOther : ∀ j, j ≠ i → (c'.exec j).core = (c.exec j).core
  execSelf : (c'.exec i).core = { (c.exec i).core with state_ := ns }
  obsLen : c'.observers_.length = c.observers_.length
  obsType : ∀ k, (c'.obs k).observerType = (c.obs k).observerType
  obsDoc : ∀ k, (c'.obs k).replayExecutions_ = (c.obs k).replayExecutions_

/-- What `MySqlExecution::reportError` does to the execution: return code,
error number and message are recorded, the state is ERROR; the other
executions, the observer classes and the trace stay. -/
structure ErrorFrame (i : Nat) (errorMessage : String) (errorNo : Int)
    (c c' : MySqlConnection) : Prop where
  execLen : c'.executions_.length = c.executions_.length
  execOther : ∀ j, j ≠ i → (c'.exec j).core = (c.exec j).core
  execSelf : (c'.exec i).core = { (c.exec i).core with
    rc_ := errorNo, errorNo_ := errorNo, errorMessage_ := errorMessage,
    state_ := ExecutionState.ERROR_STATE }
  trace : c'.trace = c.trace
  isTransactions_ : c'.isTransactions_ = c.isTransactions_
  async_ : c'.async_ = c.async_
  obsLen : c'.observers_.length = c.observers_.length
  obsType : ∀ k, (c'.obs k).observerType = (c.obs k).observerType
  obsDoc : ∀ k, (c'.obs k).replayExecutions_ = (c.obs k).replayExecutions_
  db : c.impl_.db_.isSome = true → c'.impl_.db_.isSome = true
  closed : c.isTransactions_ = false ∨ c.impl_.isAutoCommit_ = true →
    c'.impl_ = c.impl_ ∧ c'.serverLog = c.serverLog ∧ c'.transactionName_ = c.transactionName_

/-- The connection in which `doExecute` starts the crank loop: the execution is
appended to the list and `prepareToExecute` has reset it. -/
def MySqlConnection.started (c : MySqlConnection) (execution : MySqlExecution) :
    MySqlConnection :=
  let i := c.executions_.length
  let c1 := { c with executions_ := c.executions_ ++ [execution] }
  let c2 := c1.setExec i { c1.exec i with
    state_ := ExecutionState.INITIAL_STATE, rowCount_ := 0, rowsAffected_ := 0 }
  let c3 := { c2 with errorMessage_ := "", errorNo_ := 0 }
  (c3.setExec i { c3.exec i with startTime_ := c3.now }).tick

/-- The four conditions of reuse: `p` still holds a server statement handle and
has the statement name, the generated text and the auto-commit snapshot of `e`. -/
def LivePrior (e p : MySqlExecution) : Prop :=
  p.statementHandle_ ≠ none ∧ p.statementName_ = e.statementName_ ∧
  p.statementText_ = e.statementText_ ∧ p.isAutoCommit_ = e.isAutoCommit_

/-! ## Concrete programs, observers and program files -/

/-- A recorded execution without error, as a program file holds it. -/
def exampleRecord (statementName statementText : String) (state : ExecutionState) : ExecutionDoc :=
  { statement_name := statementName, statement_text := statementText, program := some "prog",
    transaction := none, state := state, rc := 0, rows_returned := some 0,
    rows_affected := some 1, error_message := "", error_no := some 0, parameters := none,
    results := none, user := "user", host := "user" }

/-- The connection `exampleConnection` with one observer of the given type,
named `obs` and working in `/work`, after `startProgram("prog")` on the given
file system. -/
def exampleObserved (type : ObserverType) (fs : FileSystem) : MySqlConnection :=
  match MySqlConnection.addObserver exampleEnv exampleConnection "obs" type "/work" with
  | some c => MySqlConnection.startProgram fs c "prog"
  | none => exampleConnection

/-- A program: the statements of the list are executed in turn, without
arguments; the result is the connection and the handles returned. -/
def runProgram (fuel : Nat) (env : Env) :
    MySqlConnection → List String → Option (MySqlConnection × List Nat)
  | c, [] => some (c, [])
  | c, statementName :: rest =>
    match MySqlConnection.execute fuel env c statementName [] false with
    | none => none
    | some (c1, h) =>
      match runProgram fuel env c1 rest with
      | none => none
      | some (c2, hs) => some (c2, h :: hs)

/-- What the caller reads back for a handle: return code, row count,
rows-affected count and results document. -/
def readBack (c : MySqlConnection) (h : Nat) : Option Int × Int × Int × Option ResultsDoc :=
  (c.getReturnCode h, c.getRowCount h, c.getRowsAffected h, c.getResults h)

/-- The live run of the program `bad`, `good` under a capture observer. -/
def exampleLiveRun : Option (MySqlConnection × List Nat) :=
  runProgram 20 exampleEnv (exampleObserved ObserverType.CAPTURE_OBS []) ["bad", "good"]

/-- The file system after the live run and `endProgram("prog")`. -/
def exampleCaptured : FileSystem :=
  match exampleLiveRun with
  | none => []
  | some (c, _) =>
    match MySqlConnection.endProgram [] c "prog" with
    | some (fs, _) => fs
    | none => []

/-- The replay run of the same program from the captured file. -/
def exampleReplayRun : Option (MySqlConnection × List Nat) :=
  runProgram 20 exampleEnv (exampleObserved ObserverType.REPLAY_OBS exampleCaptured)
    ["bad", "good"]

/-- The connection after `execute("one", a = 5)` on `exampleConnection`. -/
def exampleAfterOne : MySqlConnection :=
  match MySqlConnection.execute 20 exampleEnv exampleConnection "one" [("a", Value.int 5)] false with
  | some (c, _) => c
  | none => exampleConnection

/-- The connection in the middle of a second `execute("one", a = 7)`: the
execution is appended and prepared, its next step is `createPreparedStatement`. -/
def exampleSecondOne : MySqlConnection :=
  let c := exampleAfterOne
  let execution := MySqlExecution.new c "one" [("a", Value.int 7)] false
  let c1 := { c with nextExecutionHandle_ := c.nextExecutionHandle_ + 1,
                     executions_ := c.executions_ ++ [execution] }
  match MySqlExecution.prepareToExecute 20 exampleEnv c1 1 with
  | some (c2, _) => c2
  | none => c

/-- The connection after a first `execute("two", a = 5)`, which fails the
marker check of a fresh prepare. -/
def exampleAfterTwo : MySqlConnection :=
  match MySqlConnection.execute 20 exampleEnv exampleConnection "two" [("a", Value.int 5)] false with
  | some (c, _) => c
  | none => exampleConnection

/-- The connection in the middle of a second `execute("two", a = 5)`, stopped
when the execution has entered MYSQL_STMT_CREATED. -/
def exampleSecondTwo : Option (MySqlConnection × Int) :=
  let c := exampleAfterTwo
  let execution := MySqlExecution.new c "two" [("a", Value.int 5)] false
  let c1 := { c with nextExecutionHandle_ := c.nextExecutionHandle_ + 1,
                     executions_ := c.executions_ ++ [execution] }
  match MySqlExecution.prepareToExecute 20 exampleEnv c1 1 with
  | none => none
  | some (c2, _) =>
    MySqlExecution.crankStateMachine 20 exampleEnv c2 1 ExecutionState.MYSQL_STMT_CREATED_STATE

/-! ## The frame of a replayed transition -/

/-- What the whole of a `changeState(SQL_GENERATED)` does under a replay
observer whose record matches: the values of the record are copied into the
execution; the driver, the server log and the trace are left alone. -/
structure ReplayFrame (i : Nat) (doc : ExecutionDoc) (c c' : MySqlConnection) : Prop where
  execLen : c'.executions_.length = c.executions_.length
  execOther : ∀ j, j ≠ i → (c'.exec j).core = (c.exec j).core
  rc : (c'.exec i).rc_ = doc.rc
  rowCount : (c'.exec i).rowCount_ = doc.rows_returned.getD (c.exec i).rowCount_
  rowsAffected : (c'.exec i).rowsAffected_ = doc.rows_affected.getD (c.exec i).rowsAffected_
  results : (c'.exec i).results_ = (doc.results.map some).getD (c.exec i).results_
  handle : (c'.exec i).statementHandle_ = (c.exec i).statementHandle_
  obsLen : c'.observers_.length = c.observers_.length
  obsType : ∀ k, (c'.obs k).observerType = (c.obs k).observerType
  trace : c'.trace = c.trace
  serverLog : c'.serverLog = c.serverLog
  impl : c'.impl_ = c.impl_

/-- The connection `exampleObserved` under a replay observer whose file holds
one completed record of `good`, in the middle of `execute("good")`: the
execution is in SETTINGS_CREATED, its text is generated, the next step of
`generateStatementText` is `changeState(SQL_GENERATED)`. -/
def exampleReplayPoint : MySqlConnection :=
  let c := exampleObserved ObserverType.REPLAY_OBS
    [("/work/obs.prog.json",
      [exampleRecord "good" "select 1" ExecutionState.STATEMENT_COMPLETE_STATE])]
  let execution := MySqlExecution.new c "good" [] false
  let c1 := { c with nextExecutionHandle_ := c.nextExecutionHandle_ + 1,
                     executions_ := c.executions_ ++ [execution] }
  let c2 := c1.setExec 0 { c1.exec 0 with state_ := ExecutionState.INITIAL_STATE }
  match MySqlExecution.crankStateMachine 20 exampleEnv c2 0
      ExecutionState.SETTINGS_CREATED_STATE with
  | some (c3, _) => c3.setExec 0 { c3.exec 0 with statementText_ := "select 1" }
  | none => c

/-- A digit group: a non-empty text of decimal digits. -/
def IsDigitGroup (ds : List Char) : Prop := ds ≠ [] ∧ ∀ ch ∈ ds, ch.isDigit = true

/-- A text that does not go on with a digit. -/
def NoDigitAhead (t : List Char) : Prop := ∀ ch, t.head? = some ch → ch.isDigit = false

/-- The condition under which `stringToMySqlTime` accepts a date with the
digit groups of value `y`, `m` and `d`. -/
def DateInRange (y m d : Nat) : Prop :=
  ((1970 ≤ (if y < 100 then y + 2000 else y) ∧ (if y < 100 then y + 2000 else y) ≤ 3000)
    ∨ (if y < 100 then y + 2000 else y) = 9999) ∧ 1 ≤ m ∧ m ≤ 12 ∧ 1 ≤ d ∧ d ≤ 31

/-- A dictionary with temporal parameters: `when` takes a date marker, `at` a
datetime marker. -/
def temporalStatements : Statements :=
  [("when", { statement_text := some ["select ?"],
              parameters := some [{ name := "d", param_type := some "marker",
                                    data_type := some "date" }] }),
   ("at", { statement_text := some ["select ?"],
            parameters := some [{ name := "d", param_type := some "marker",
                                  data_type := some "datetime" }] })]

/-- The environment `exampleEnv` with the dictionary `temporalStatements`. -/
def temporalEnv : Env :=
  { srv := exampleServer, statementDict := some temporalStatements,
    regex_replace := fun text _ _ => text, sizeofMysqlTime := 40, auditSetup := true }

/-- The type codes of the temporal parameters. -/
def isTemporal (typeCode : enum_field_types) : Bool :=
  typeCode = enum_field_types.MYSQL_TYPE_DATE ∨ typeCode = enum_field_types.MYSQL_TYPE_TIME
    ∨ typeCode = enum_field_types.MYSQL_TYPE_DATETIME
    ∨ typeCode = enum_field_types.MYSQL_TYPE_TIMESTAMP

/-- The state that a list of answers leaves, in the words of the claim: the
last answer that differs from the proposed state, and `start` when no answer
differs. -/
def supersede (start newState : ExecutionState) (answers : List ExecutionState) :
    ExecutionState :=
  ((answers.filter (fun a => decide (a ≠ newState))).getLast?).getD start

/-- The observers at the positions `k`, `k + 1`, ..., `k + n - 1` of the chain
are called in this order, each with the execution at position `i` and the
proposed state `newState`; `answers` lists what they return, and each observer
finds the connection as the one before it has left it. -/
inductive ObserverCalls (fuel : Nat) (env : Env) (i : Nat) (newState : ExecutionState) :
    Nat → Nat → MySqlConnection → MySqlConnection → List ExecutionState → Prop
  | done (k : Nat) (c : MySqlConnection) : ObserverCalls fuel env i newState 0 k c c []
  | call (n k : Nat) (c c1 c2 : MySqlConnection) (answer : ExecutionState)
      (answers : List ExecutionState)
      (h1 : MySqlObserver.onEvent fuel env c k i newState = some (c1, answer))
      (h2 : ObserverCalls fuel env i newState n (k + 1) c1 c2 answers) :
      ObserverCalls fuel env i newState (n + 1) k c c2 (answer :: answers)

/-- The connection on which `changeState` starts the observer loop: the
complete-time is stamped first when the proposed state is STATEMENT_COMPLETE
or ERROR. -/
def MySqlExecution.stamped (c : MySqlConnection) (i : Nat) (newState : ExecutionState) :
    MySqlConnection :=
  if newState = ExecutionState.STATEMENT_COMPLETE_STATE
      ∨ newState = ExecutionState.ERROR_STATE then
    (c.setExec i { c.exec i with completeTime_ := c.now }).tick
  else c

/-- The settings document that the first loop of `createSettings` builds from
the parameter records of a statement (`none`: a record is not well formed). -/
def declaredSettings (statementName : String) : List ParameterDef → Option Settings
  | [] => some []
  | p :: rest =>
    match parameterSetting statementName p, declaredSettings statementName rest with
    | Except.ok s, some ss => some ((p.name, s) :: ss)
    | _, _ => none

/-- A value of the type that the second loop of `createSettings` reads for a
parameter of the given data type; a temporal value is the literal
`not-a-date-time` or a string that `stringToMySqlTime` accepts. -/
def valueFits (typeCode : enum_field_types) (v : Value) : Bool :=
  match typeCode, v with
  | enum_field_types.MYSQL_TYPE_LONG, Value.int _ => true
  | enum_field_types.MYSQL_TYPE_DOUBLE, Value.double _ => true
  | enum_field_types.MYSQL_TYPE_STRING, Value.string _ => true
  | enum_field_types.MYSQL_TYPE_DATE, Value.string timeArg
  | enum_field_types.MYSQL_TYPE_TIME, Value.string timeArg
  | enum_field_types.MYSQL_TYPE_DATETIME, Value.string timeArg
  | enum_field_types.MYSQL_TYPE_TIMESTAMP, Value.string timeArg =>
    match parseTime timeArg typeCode with
    | some TimeParse.notADateTime => true
    | some (TimeParse.ok _) => true
    | _ => false
  | _, _ => false

/-- A tag/value pair that the second loop of `createSettings` takes: the tag
does not end a variadic list, it names a setting, and the value fits the data
type of that setting. -/
def Accepted (argDoc : Bool) (settings : Settings) (pair : String × Value) : Prop :=
  ¬ (argDoc = false ∧ pair.1 = "end") ∧
  ∃ s, findSetting settings pair.1 = some s ∧ valueFits s.param_data_type pair.2 = true

/-- The settings document after the values of a list of pairs are stored. -/
def storeValues (settings : Settings) (pairs : List (String × Value)) : Settings :=
  pairs.foldl (fun ss pair => addParamValue ss pair.1 pair.2) settings

/-- Every SUBSTITUTE setting of the document has a string value, which is what
the substitution loop of `generateStatementText` reads. -/
def SubstituteReady (settings : Settings) : Prop :=
  ∀ x ∈ settings, x.2.param_type = ParamType.SUBSTITUTE →
    ∃ v, x.2.param_value = some (Value.string v)

/-- What storing the value of one pair does to one member of the settings
document. -/
def storeStep (x : String × Setting) (pair : String × Value) : String × Setting :=
  if x.1 = pair.1 then
    (x.1, { x.2 with param_value := match x.2.param_value with
                                    | some old => some old
                                    | none => some pair.2 })
  else x

/-- A call that `prepareToExecute` takes without error.  The entry of the
statement in the dictionary has a `parameters` array `params` of well-formed
records (`settings` is the document built from them) and a `statement_text`
with the lines `lines`; the execution `e` is fresh (no error number) and
carries the caller's list `taken ++ rest`.  The pairs `taken` are those that
the loop of `createSettings` reads, and it takes each of them; it stops after
them because it has read as many pairs as there are parameters, or the
document ends, or the variadic list has the tag `end` next: `rest` is never
read.  With the values of `taken` stored, every SUBSTITUTE setting holds a
string, which is what `generateStatementText` reads. -/
structure WellFormedCall (env : Env) (e : MySqlExecution) (params : List ParameterDef)
    (lines : List String) (taken rest : List (String × ArgValue)) (settings : Settings) :
    Prop where
  dict : ∃ statements statement, env.statementDict = some statements ∧
    findStatement statements e.statementName_ = some statement ∧
    statement.parameters = some params ∧ statement.statement_text = some lines
  supplied : e.args_ = some (taken ++ rest)
  decl : declaredSettings e.statementName_ params = some settings
  acc : ∀ pair ∈ taken, Accepted e.argDoc_ settings pair
  len : taken.length ≤ params.length
  stop : taken.length = params.length ∨ (e.argDoc_ = true ∧ rest = []) ∨
    (e.argDoc_ = false ∧ ∃ v rest1, rest = ("end", v) :: rest1)
  ready : SubstituteReady (storeValues settings taken)
  fresh : e.errorNo_ = 0

/-- What the crank loop of `prepareToExecute` leaves when it started on `S`
with a well-formed call: the execution is in SQL_GENERATED without error, its
settings hold the values of the pairs read, its text is the text of the dictionary
after substitution; the three preparing transition functions were called, the
server was not. -/
structure PreparedPost (env : Env) (S : MySqlConnection) (i : Nat) (lines : List String)
    (taken : List (String × ArgValue)) (settings : Settings) (c' : MySqlConnection) : Prop where
  execLen : c'.executions_.length = S.executions_.length
  state : (c'.exec i).state_ = ExecutionState.SQL_GENERATED_STATE
  errorNo : (c'.exec i).errorNo_ = 0
  rc : (c'.exec i).rc_ = 0
  stored : (c'.exec i).settings_ = storeValues settings taken
  text : substituteSettings env (storeValues settings taken)
    (lines.foldl (fun acc line => acc ++ line) "") = some (c'.exec i).statementText_
  trace : c'.trace = S.trace ++
    [((S.exec i).executionHandle_, StateFunction.validateStatement),
     ((S.exec i).executionHandle_, StateFunction.createSettings),
     ((S.exec i).executionHandle_, StateFunction.generateStatementText)]
  serverLog : c'.serverLog = S.serverLog
  connErrorNo : c'.errorNo_ = S.errorNo_
  connErrorMessage : c'.errorMessage_ = S.errorMessage_

/-- The number of `?` characters of a statement text. -/
def countQuestionMarks (text : String) : Nat := text.toList.count '?'

/-- A connection whose only execution, of the statement `one`, is about to
generate its text: the settings hold the value 5 of the parameter `a`. -/
def exampleSettingsCreated : MySqlConnection :=
  { exampleConnection with
    executions_ :=
      [{ MySqlExecution.new exampleConnection "one" [] false with
         state_ := ExecutionState.SETTINGS_CREATED_STATE,
         args_ := none,
         settings_ := [("a", { param_type := ParamType.MARKER,
                               param_data_type := enum_field_types.MYSQL_TYPE_LONG,
                               param_value := some (Value.int 5) })] }] }

/-- In the words of the claim: the space a MARKER parameter takes in the packed
buffer, 8 for int, 8 for double, 0 for string, the size of the time record of
the library for date, time, datetime and timestamp.  A settings document holds
no other data type; such a type would take no space. -/
def specMarkerSize (env : Env) : enum_field_types → Nat
  | enum_field_types.MYSQL_TYPE_LONG => 8
  | enum_field_types.MYSQL_TYPE_DOUBLE => 8
  | enum_field_types.MYSQL_TYPE_STRING => 0
  | enum_field_types.MYSQL_TYPE_DATE => env.sizeofMysqlTime
  | enum_field_types.MYSQL_TYPE_TIME => env.sizeofMysqlTime
  | enum_field_types.MYSQL_TYPE_DATETIME => env.sizeofMysqlTime
  | enum_field_types.MYSQL_TYPE_TIMESTAMP => env.sizeofMysqlTime
  | _ => 0

/-- In the words of the claim: the length of the packed buffer, the sum of the
sizes of the MARKER parameters in declaration order; a SUBSTITUTE parameter
contributes nothing. -/
def specBufferLength (env : Env) : Settings → Nat
  | [] => 0
  | (_, s) :: rest =>
    if s.param_type = ParamType.MARKER then
      specMarkerSize env s.param_data_type + specBufferLength env rest
    else specBufferLength env rest

/-- The number of bytes that a value occupies in the packed buffer: a `long`,
a `double`, a time record. -/
def BufferValue.size (env : Env) : BufferValue → Nat
  | BufferValue.long _ => 8
  | BufferValue.double _ => 8
  | BufferValue.time _ => env.sizeofMysqlTime

/-- In the words of the claim: what the filling pass writes for one marker at
the offset `offset`.  An int or a double is written, 0 when the setting has no
value; a temporal value is written when `stringToMySqlTime` accepts it; a
string is bound from the storage of the caller and not written. -/
def specWrite (s : Setting) (offset : Nat) : List (Nat × BufferValue) :=
  match s.param_data_type, s.param_value with
  | enum_field_types.MYSQL_TYPE_LONG, some (Value.int v) => [(offset, BufferValue.long v)]
  | enum_field_types.MYSQL_TYPE_LONG, none => [(offset, BufferValue.long 0)]
  | enum_field_types.MYSQL_TYPE_DOUBLE, some (Value.double v) => [(offset, BufferValue.double v)]
  | enum_field_types.MYSQL_TYPE_DOUBLE, none => [(offset, BufferValue.double 0)]
  | enum_field_types.MYSQL_TYPE_DATE, some (Value.string timeArg)
  | enum_field_types.MYSQL_TYPE_TIME, some (Value.string timeArg)
  | enum_field_types.MYSQL_TYPE_DATETIME, some (Value.string timeArg)
  | enum_field_types.MYSQL_TYPE_TIMESTAMP, some (Value.string timeArg) =>
    match parseTime timeArg s.param_data_type with
    | some (TimeParse.ok t) => [(offset, BufferValue.time t)]
    | _ => []
  | _, _ => []

/-- In the words of the claim: the writes of the filling pass, the value of
each marker at the offset equal to `offset` plus the sizes of the markers
before it. -/
def specWrites (env : Env) : Settings → Nat → List (Nat × BufferValue)
  | [], _ => []
  | (_, s) :: rest, offset =>
    if s.param_type = ParamType.MARKER then
      specWrite s offset ++ specWrites env rest (offset + specMarkerSize env s.param_data_type)
    else specWrites env rest offset

/-- What one pass of `prepareToBind` over the markers does to execution `i`:
`writes` are appended to the values of the parameter buffer; the settings, the
length of the buffer, the length of the bind array, the statement handle and
the column binds stay. -/
structure BindFrame (i : Nat) (writes : List (Nat × BufferValue)) (c c' : MySqlConnection) :
    Prop where
  execLen : c'.executions_.length = c.executions_.length
  settings : (c'.exec i).settings_ = (c.exec i).settings_
  paramBufferLen : (c'.exec i).paramBufferLen_ = (c.exec i).paramBufferLen_
  paramBuffer : (c'.exec i).paramBuffer_ =
    (c.exec i).paramBuffer_.map (fun buf => { buf with values := buf.values ++ writes })
  binds : (c'.exec i).parameterBindArray_.map (fun a => a.binds.length) =
    (c.exec i).parameterBindArray_.map (fun a => a.binds.length)
  statementHandle : (c'.exec i).statementHandle_ = (c.exec i).statementHandle_
  columnBindArray : (c'.exec i).columnBindArray_ = (c.exec i).columnBindArray_

/-- A connection whose only execution is about to prepare its binds: the
settings hold an int marker with the value 5, a substituted table name, a
string marker, a date marker and a double marker without value; the server
counted four markers and the statement returns no result set. -/
def exampleBindReady : MySqlConnection :=
  { exampleConnection with
    executions_ :=
      [{ MySqlExecution.new exampleConnection "four" [] false with
         state_ := ExecutionState.MYSQL_STMT_CREATED_STATE,
         args_ := none,
         statementText_ := "select ?, ?, ?, ? from employees",
         statementHandle_ := some { id := 1, param_count := 4, fields := none },
         paramCount_ := 4,
         settings_ :=
           [("a", { param_type := ParamType.MARKER,
                    param_data_type := enum_field_types.MYSQL_TYPE_LONG,
                    param_value := some (Value.int 5) }),
            ("t", { param_type := ParamType.SUBSTITUTE,
                    param_data_type := enum_field_types.MYSQL_TYPE_STRING,
                    param_value := some (Value.string "employees") }),
            ("s", { param_type := ParamType.MARKER,
                    param_data_type := enum_field_types.MYSQL_TYPE_STRING,
                    param_value := some (Value.string "x") }),
            ("d", { param_type := ParamType.MARKER,
                    param_data_type := enum_field_types.MYSQL_TYPE_DATE,
                    param_value := some (Value.string "2020-01-02") }),
            ("x", { param_type := ParamType.MARKER,
                    param_data_type := enum_field_types.MYSQL_TYPE_DOUBLE,
                    param_value := none })] }] }

/-- The start of the parameter part of `prepareToBind`: the bind array is
allocated unless a prior execution left one, and zeroed; the buffer pointer and
the buffer length are reset. -/
def resetParameterBinds (c : MySqlConnection) (i : Nat) : MySqlConnection :=
  let e := c.exec i
  let arrId : Nat := match e.parameterBindArray_ with
    | none => c.nextAlloc
    | some arr => arr.id
  let c1 : MySqlConnection := match e.parameterBindArray_ with
    | none => { c with nextAlloc := c.nextAlloc + 1 }
    | some _ => c
  c1.setExec i { c1.exec i with
    parameterBindArray_ := some { id := arrId, binds := List.replicate e.paramCount_ zeroBind },
    paramBuffer_ := none, paramBufferLen_ := 0 }

/-- The allocation of the packed parameter buffer between the two passes of
`prepareToBind`. -/
def allocParamBuffer (c : MySqlConnection) (i : Nat) (paramBufferLen : Nat) : MySqlConnection :=
  let c4 := c.setExec i { c.exec i with paramBufferLen_ := paramBufferLen }
  let c5 := { c4 with nextAlloc := c4.nextAlloc + 1 }
  c5.setExec i { c5.exec i with
    paramBuffer_ := some { id := c4.nextAlloc, size := paramBufferLen, values := [] } }

/-- The parameter part of `prepareToBind`: the sizing pass, the allocation of
the buffer and the filling pass. -/
def bindParameterBuffer (fuel : Nat) (env : Env) (c : MySqlConnection) (i : Nat) :
    Option MySqlConnection :=
  if (c.exec i).paramCount_ ≠ 0 then
    match MySqlExecution.bindMarkers fuel env i ((resetParameterBinds c i).exec i).settings_ 0
        none 0 (resetParameterBinds c i) with
    | none => none
    | some (c3, paramBufferLen) =>
      if paramBufferLen > 0 then
        match MySqlExecution.bindMarkers fuel env i
            ((allocParamBuffer c3 i paramBufferLen).exec i).settings_ 0 (some 0) 0
            (allocParamBuffer c3 i paramBufferLen) with
        | none => none
        | some (c7, _) => some c7
      else some (c3.setExec i { c3.exec i with paramBufferLen_ := paramBufferLen })
  else some c

/-- The result part of `prepareToBind`: the column binds and the row buffer,
then the change of state. -/
def bindResultColumns (fuel : Nat) (env : Env) (c1 : MySqlConnection) (i : Nat) :
    Option (MySqlConnection × Int) :=
  match (c1.exec i).statementHandle_ with
  | none => none
  | some handle =>
    let c2 := c1.setExec i { c1.exec i with resultsMetadata_ := handle.fields }
    match handle.fields with
    | none => MySqlExecution.changeState fuel env c2 i ExecutionState.BINDINGS_PREPARED_STATE
    | some fields =>
      if fields.length = 0 ∨ (c2.exec i).columnBindArray_ ≠ none then none
      else
        let e := c2.exec i
        let sized := bindColumns env fields (List.replicate fields.length zeroBind) none 0
          e.blobBufferLen_
        let filled := bindColumns env fields sized.1 (some 0) 0 sized.2.2
        let c3 := { c2 with nextAlloc := c2.nextAlloc + 2 }
        let c4 := c3.setExec i { e with
          columnCount_ := fields.length,
          columnBindArray_ := some { id := c2.nextAlloc, binds := filled.1 },
          rowBufferLen_ := sized.2.1,
          rowBuffer_ := some { id := c2.nextAlloc + 1, size := sized.2.1, values := [] },
          blobBufferLen_ := filled.2.2 }
        MySqlExecution.changeState fuel env c4 i ExecutionState.BINDINGS_PREPARED_STATE

/-- A setting that `bindParameter` can bind: it has no value, or a value of
the kind that `createSettings` stores for its data type. -/
def markerFits (s : Setting) : Bool :=
  match s.param_value with
  | none => true
  | some v => valueFits s.param_data_type v

/-- Model of `ExecutionThread::getRequest`: the request at the back of the
queue is moved out of it.  `none`: the queue is empty and the worker blocks. -/
def ExecutionThread.getRequest (c : MySqlConnection) : Option (MySqlConnection × Request) :=
  match c.executionThread_.requestQueue_.getLast? with
  | none => none
  | some request =>
    some ({ c with executionThread_ := { c.executionThread_ with
              requestQueue_ := c.executionThread_.requestQueue_.dropLast } }, request)

/-- The switch of `ExecutionThread::run` on the request taken from the queue.
An execution request runs `execute` on the execution with the handle `iparam_`
and copies its outcome into the request; `none`: the assertion fails, or
`execute` has no result, or `execute` itself flushed the worker (a rollback
inside `reportError`): the worker then waits for a request that only it could
complete, and the step never ends. -/
def ExecutionThread.process (fuel : Nat) (env : Env) (c : MySqlConnection) (request : Request) :
    Option (MySqlConnection × Request) :=
  match request.type_ with
  | RequestType.EXECUTION_REQUEST =>
    match c.findExecution request.iparam_ with
    | none => none
    | some i =>
      match MySqlExecution.execute fuel env c i with
      | none => none
      | some (c1, _) =>
        if c1.executionThread_ ≠ c.executionThread_
            ∨ c1.nextRequestSequence_ ≠ c.nextRequestSequence_ then none
        else
          some (c1, { request with
            rc_ := (c1.exec i).rc_, errorNo_ := (c1.exec i).errorNo_,
            errorMessage_ := (c1.exec i).errorMessage_ })
  | RequestType.KILL_THREAD_REQUEST =>
    some ({ c with executionThread_ := { c.executionThread_ with running_ := false } }, request)
  | _ => some (c, request)

/-- The assignment `completedRequests_[sequence] = request` of the map. -/
def storeCompleted (completedRequests : List (Nat × Request)) (sequence : Nat)
    (request : Request) : List (Nat × Request) :=
  (sequence, request) :: completedRequests.filter (fun p => p.1 ≠ sequence)

/-- The search `completedRequests_.find(seq)` of the map. -/
def findCompleted (completedRequests : List (Nat × Request)) (seq : Nat) : Option Request :=
  match completedRequests with
  | [] => none
  | (k, request) :: rest => if k = seq then some request else findCompleted rest seq

/-- The locked block at the end of an iteration of `ExecutionThread::run`:
the sequence of the request becomes the last completed one and the request is
stored in the completion map. -/
def ExecutionThread.complete (c : MySqlConnection) (request : Request) : MySqlConnection :=
  { c with executionThread_ := { c.executionThread_ with
      lastCompletedRequest_ := request.sequence_,
      completedRequests_ :=
        storeCompleted c.executionThread_.completedRequests_ request.sequence_ request } }

/-- Model of `ExecutionThread::waitForRequest`, at a moment at which it
returns: `none` while the sequence is above the last completed one (the caller
blocks) and when the assertion on the map fails. -/
def ExecutionThread.waitForRequest (c : MySqlConnection) (seq : Nat) : Option Request :=
  if seq > c.executionThread_.lastCompletedRequest_ then none
  else findCompleted c.executionThread_.completedRequests_ seq

/-- What identifies a request from its construction on: sequence, type and
parameters. -/
def Request.key (request : Request) : Nat × RequestType × Nat × String :=
  (request.sequence_, request.type_, request.iparam_, request.strparam_)

/-- The atomic steps that are interleaved on one worker: a caller puts a
request; a request is constructed for another worker (the sequence counter is
shared by all workers); the worker takes a request from the queue; the worker
processes the request it holds and records its completion. -/
inductive WorkerEvent where
  | put (type : RequestType) (iparam : Nat) (strparam : String)
  | foreign
  | get
  | finish (fuel : Nat)
  deriving Repr

/-- A connection with the history of its worker (ghost): the requests in the
order they were enqueued, in the order `getRequest` handed them out, in the
order they were completed, and the request the worker holds. -/
structure WorkerRun where
  conn : MySqlConnection
  enqueued : List Request
  handed : List Request
  completed : List Request
  current : Option Request

/-- The request that an atomic step puts on this worker, if it is a put. -/
def WorkerEvent.putOf : WorkerEvent → Option (RequestType × Nat × String)
  | WorkerEvent.put type iparam strparam => some (type, iparam, strparam)
  | _ => none

/-- An asynchronous connection as `doExecute` leaves it just before it puts
the execution request: the execution of the statement `good`, with handle 1,
is prepared; the queue of the worker is empty. -/
def exampleWorkerStart : MySqlConnection :=
  match MySqlExecution.prepareToExecute 4 exampleEnv
      { MySqlConnection.createConnection "conn" "employees" "employees.json" "user" "password"
          "host" true with
        nextExecutionHandle_ := 2,
        executions_ := [MySqlExecution.new exampleConnection "good" [] false] } 0 with
  | some (c, _) => c
  | none => exampleConnection

/-- A schedule on that connection: the execution request and a commit flush
are put, the worker takes the first, a request is constructed for another
worker, an end-of-program flush is put, and the worker works the queue off. -/
def exampleSchedule : List WorkerEvent :=
  [WorkerEvent.put RequestType.EXECUTION_REQUEST 1 "",
   WorkerEvent.put RequestType.COMMIT_TRANSACTION_REQUEST 0 "",
   WorkerEvent.get,
   WorkerEvent.foreign,
   WorkerEvent.put RequestType.END_PROGRAM_REQUEST 0 "p",
   WorkerEvent.finish 20,
   WorkerEvent.get,
   WorkerEvent.finish 0,
   WorkerEvent.get,
   WorkerEvent.finish 0]

/-- The start of a history. -/
def WorkerRun.start (c : MySqlConnection) : WorkerRun :=
  { conn := c, enqueued := [], handed := [], completed := [], current := none }

/-- One atomic step.  `none`: the step cannot be taken, or has no result: the
counter would overflow, the worker has ended or holds a request already, the
queue is empty, the worker holds no request, the processing has no result. -/
def WorkerRun.step (env : Env) (r : WorkerRun) : WorkerEvent → Option WorkerRun
  | WorkerEvent.put type iparam strparam =>
    if r.conn.nextRequestSequence_ ≥ INT_MAX then none
    else
      let p := ExecutionThread.putRequest r.conn type iparam strparam
      some { r with conn := p.1,
                    enqueued := r.enqueued ++
                      [{ type_ := type, sequence_ := p.2, iparam_ := iparam,
                         strparam_ := strparam, rc_ := 0, errorNo_ := 0, errorMessage_ := "" }] }
  | WorkerEvent.foreign =>
    if r.conn.nextRequestSequence_ ≥ INT_MAX then none
    else some { r with conn := { r.conn with
                  nextRequestSequence_ := r.conn.nextRequestSequence_ + 1 } }
  | WorkerEvent.get =>
    match r.current with
    | some _ => none
    | none =>
      if r.conn.executionThread_.running_ = false then none
      else
        match ExecutionThread.getRequest r.conn with
        | none => none
        | some (c1, request) =>
          some { r with conn := c1, handed := r.handed ++ [request], current := some request }
  | WorkerEvent.finish fuel =>
    match r.current with
    | none => none
    | some request =>
      match ExecutionThread.process fuel env r.conn request with
      | none => none
      | some (c1, request1) =>
        some { r with conn := ExecutionThread.complete c1 request1,
                      completed := r.completed ++ [request1], current := none }

/-- A schedule of atomic steps. -/
def WorkerRun.run (env : Env) (r : WorkerRun) : List WorkerEvent → Option WorkerRun
  | [] => some r
  | event :: rest =>
    match WorkerRun.step env r event with
    | none => none
    | some r1 => WorkerRun.run env r1 rest

/-- The invariant of the histories of one worker that started with an empty
queue, the last completed sequence `last0` and the sequence counter `next0`. -/
structure WorkerInv (last0 next0 : Nat) (r : WorkerRun) : Prop where
  fifo : r.handed ++ r.conn.executionThread_.requestQueue_.reverse = r.enqueued
  sorted : (r.enqueued.map (fun q => q.sequence_)).Pairwise (fun a b => a < b)
  counter : next0 ≤ r.conn.nextRequestSequence_
  bound : ∀ q ∈ r.enqueued, next0 ≤ q.sequence_ ∧ q.sequence_ < r.conn.nextRequestSequence_
  order : r.completed.map Request.key ++ r.current.toList.map Request.key
    = r.handed.map Request.key
  stored : ∀ d ∈ r.completed,
    findCompleted r.conn.executionThread_.completedRequests_ d.sequence_ = some d
  last : r.conn.executionThread_.lastCompletedRequest_
    = (r.completed.getLast?.map (fun d => d.sequence_)).getD last0

/-- The text that `operator<<` writes for one setting of an execution: the
JSON text of its value (`writer` is the writer of the JSON library), cut at
the first of the separators when it is longer than 64 bytes; nothing for a
setting without value. -/
def argumentString (writer : Value → String) (setting : Setting) : String :=
  match setting.param_value with
  | none => ""
  | some arg =>
    let argstring := writer arg
    if argstring.utf8ByteSize > 64 then
      String.mk (argstring.data.takeWhile
        (fun ch => ¬ (ch = ' ' ∨ ch = ':' ∨ ch = '.' ∨ ch = ';' ∨ ch = '\r' ∨ ch = '\n'
          ∨ ch = '\t'))) ++ "..."
    else argstring

/-- The loop of `operator<<` over the settings: the argument texts, separated
by a comma once the text is not empty. -/
def streamArguments (writer : Value → String) : Settings → String → String
  | [], arguments => arguments
  | (_, setting) :: rest, arguments =>
    streamArguments writer rest
      ((if arguments ≠ "" then arguments ++ ", " else arguments)
        ++ argumentString writer setting)

/-- Model of `operator<<(ostream &, const MySqlExecution &)`:
`<statement name>(<arguments>)`. -/
def MySqlExecution.toStream (writer : Value → String) (e : MySqlExecution) : String :=
  e.statementName_ ++ "(" ++ streamArguments writer e.settings_ "" ++ ")"

/-- The message of `assertRowsReturned` and `assertRowsAffected`. -/
def countMessage (writer : Value → String) (e : MySqlExecution) (verb : String)
    (count expected : Int) : String :=
  MySqlExecution.toStream writer e ++ verb ++ toString count
    ++ (if count = 1 then " row. " else " rows. ") ++ toString expected ++ " expected"

/-- Model of `MySqlConnection::assertRowsReturned`.  `none`: the assertion of
`getCompletedExecution` fails, or `reportError` has no result. -/
def MySqlConnection.assertRowsReturned (fuel : Nat) (env : Env) (writer : Value → String)
    (c : MySqlConnection) (expectedRowsReturned : Int) (xh : Nat) :
    Option (MySqlConnection × Bool) :=
  match c.getCompletedExecution xh with
  | none => none
  | some i =>
    let rowsReturned := (c.exec i).rowCount_
    if rowsReturned = expectedRowsReturned then some (c, true)
    else
      match MySqlConnection.reportError fuel env c
          (countMessage writer (c.exec i) " returned " rowsReturned expectedRowsReturned) 1 0 with
      | none => none
      | some (c1, _) => some (c1, false)

/-- Model of `MySqlConnection::assertRowsAffected`. -/
def MySqlConnection.assertRowsAffected (fuel : Nat) (env : Env) (writer : Value → String)
    (c : MySqlConnection) (expectedRowsAffected : Int) (xh : Nat) :
    Option (MySqlConnection × Bool) :=
  match c.getCompletedExecution xh with
  | none => none
  | some i =>
    let rowsAffected := (c.exec i).rowsAffected_
    if rowsAffected = expectedRowsAffected then some (c, true)
    else
      match MySqlConnection.reportError fuel env c
          (countMessage writer (c.exec i) " affected " rowsAffected expectedRowsAffected) 1 0 with
      | none => none
      | some (c1, _) => some (c1, false)

/-- A writer of JSON values for the concrete inputs: integers in decimal,
strings in double quotes. -/
def exampleWriter : Value → String
  | Value.int n => toString n
  | Value.string s => "\x22" ++ s ++ "\x22"
  | _ => "null"

/-- A server like `exampleServer` that refuses every bind of parameters with
error 2031. -/
def exampleBindFailServer : Server :=
  { exampleServer with
    mysql_stmt_bind_param := fun _ =>
      { rc := 1, errno := 2031,
        error := "No data supplied for parameters in prepared statement" } }

/-- The environment around `exampleBindFailServer`. -/
def exampleBindFailEnv : Env :=
  { exampleEnv with srv := exampleBindFailServer }

/-- The connection in the middle of `execute("one", a = 5)` against
`exampleBindFailServer`, stopped when the execution has entered
BINDINGS_PREPARED: its next step is `bindParameters`. -/
def exampleBeforeBind : Option (MySqlConnection × Int) :=
  let c := exampleConnection
  let execution := MySqlExecution.new c "one" [("a", Value.int 5)] false
  let c1 := { c with nextExecutionHandle_ := c.nextExecutionHandle_ + 1,
                     executions_ := c.executions_ ++ [execution] }
  match MySqlExecution.prepareToExecute 20 exampleBindFailEnv c1 0 with
  | none => none
  | some (c2, _) =>
    MySqlExecution.crankStateMachine 20 exampleBindFailEnv c2 0
      ExecutionState.BINDINGS_PREPARED_STATE

/-- The connection `exampleConnection` with an audit observer registered ahead
of a capture observer, after `startProgram("prog")`. -/
def exampleAuditCapture : MySqlConnection :=
  match MySqlConnection.addObserver exampleEnv exampleConnection "audit"
      ObserverType.AUDIT_OBS "/work" with
  | none => exampleConnection
  | some c1 =>
    match MySqlConnection.addObserver exampleEnv c1 "obs" ObserverType.CAPTURE_OBS "/work" with
    | none => exampleConnection
    | some c2 => MySqlConnection.startProgram [] c2 "prog"

/-- The complete-timestamps of the executions of `c` are those of `c'`. -/
def TimeKept (c c' : MySqlConnection) : Prop :=
  c'.executions_.length = c.executions_.length ∧
  ∀ j, (c'.exec j).completeTime_ = (c.exec j).completeTime_

/-- A server like `exampleServer` whose statements return one column `status`
of the given type and one row, whose cell is null or holds the text `active`. -/
def exampleColumnServer (type : enum_field_types) (isNull : Bool) : Server :=
  { exampleServer with
    mysql_stmt_prepare := fun _ _ =>
      { rc := 0, errno := 0, error := "", param_count := 0,
        fields := some [{ name := "status", type := type, length := 8, max_length := 6 }] },
    mysql_stmt_fetch := fun n =>
      if n = 6 then
        { rc := 0, errno := 0, error := "",
          cells := [{ is_null := isNull, length := 6, value := Value.string "active",
                      time := default }] }
      else { rc := MYSQL_NO_DATA, errno := 0, error := "", cells := [] } }

/-- The environment around `exampleColumnServer`. -/
def exampleColumnEnv (type : enum_field_types) (isNull : Bool) : Env :=
  { exampleEnv with srv := exampleColumnServer type isNull }

/-- The statement texts of the executions of `c` are those of `c'`. -/
def TextKept (c c' : MySqlConnection) : Prop :=
  c'.executions_.length = c.executions_.length ∧
  ∀ j, (c'.exec j).statementText_ = (c.exec j).statementText_

/-- The string that the substitution loop of `generateStatementText` reads as
the value of a setting (`GetString`). -/
def Setting.stringValue (setting : Setting) : String :=
  match setting.param_value with
  | some (Value.string v) => v
  | _ => ""

/-- The text that the substitutions leave when they are made one after the
other: for every SUBSTITUTE setting, in the order of the settings document, the
library replaces the pattern `@name` by the value in the text left by the
substitutions before. -/
def substituteInOrder (env : Env) (settings : Settings) (statementText : String) : String :=
  settings.foldl
    (fun text x =>
      if x.2.param_type = ParamType.SUBSTITUTE then
        env.regex_replace text ("@" ++ x.1) x.2.stringValue
      else text)
    statementText

/-- Modelled from the spec: the replacement made by the regular-expression
library for a pattern without special characters and a replacement without
format characters (`literal replacement`): every occurrence of the pattern,
found from left to right, is replaced; `skip` characters of an occurrence just
replaced are still to be dropped. -/
def replaceOccurrences (pattern replacement : List Char) : Nat → List Char → List Char
  | _, [] => []
  | skip + 1, _ :: rest => replaceOccurrences pattern replacement skip rest
  | 0, ch :: rest =>
    if pattern ≠ [] ∧ pattern.isPrefixOf (ch :: rest) = true then
      replacement ++ replaceOccurrences pattern replacement (pattern.length - 1) rest
    else ch :: replaceOccurrences pattern replacement 0 rest

/-- A dictionary with substituted parameters: `pick` has the parameters `a`
and `ab` and the placeholder of `ab` in its text, `echo` the parameters `a` and
`b` and the placeholder of `a`. -/
def substituteStatements : Statements :=
  [("pick", { statement_text := some ["select ", "@ab"],
              parameters := some [{ name := "a", param_type := some "substitute",
                                    data_type := some "string" },
                                  { name := "ab", param_type := some "substitute",
                                    data_type := some "string" }] }),
   ("echo", { statement_text := some ["select @a"],
              parameters := some [{ name := "a", param_type := some "substitute",
                                    data_type := some "string" },
                                  { name := "b", param_type := some "substitute",
                                    data_type := some "string" }] })]

/-- The environment `exampleEnv` with the dictionary `substituteStatements` and
the literal replacement `replaceOccurrences`. -/
def substituteEnv : Env :=
  { exampleEnv with
    statementDict := some substituteStatements,
    regex_replace := fun text pattern replacement =>
      String.mk (replaceOccurrences pattern.data replacement.data 0 text.data) }

/-- A connection whose only execution, of the statement `pick`, is about to
generate its text: its settings hold `x` for `a` and `y` for `ab`. -/
def examplePickReady : MySqlConnection :=
  { exampleConnection with
    executions_ :=
      [{ MySqlExecution.new exampleConnection "pick" [] false with
         state_ := ExecutionState.SETTINGS_CREATED_STATE,
         args_ := none,
         settings_ :=
           [("a", { param_type := ParamType.SUBSTITUTE,
                    param_data_type := enum_field_types.MYSQL_TYPE_STRING,
                    param_value := some (Value.string "x") }),
            ("ab", { param_type := ParamType.SUBSTITUTE,
                     param_data_type := enum_field_types.MYSQL_TYPE_STRING,
                     param_value := some (Value.string "y") })] }] }

/-- A server like `exampleServer` on which every `mysql_stmt_execute` fails with
error 1062. -/
def exampleExecuteFailServer : Server :=
  { exampleServer with
    mysql_stmt_execute := fun _ =>
      { rc := 1, errno := 1062, error := "Duplicate entry", affected_rows := 0 } }

/-- The environment around `exampleExecuteFailServer`. -/
def exampleExecuteFailEnv : Env :=
  { exampleEnv with srv := exampleExecuteFailServer }

/-- An asynchronous connection with an open transaction whose worker has just
taken the request of `execute("good")` from its queue: the caller started the
transaction `t` (the worker completed the flush request of it) and called
`execute("good")`, which prepared the execution and put the request.  The
result is the connection and the request that the worker holds. -/
def exampleWorkerHolds (env : Env) : Option (MySqlConnection × Request) :=
  let c0 := MySqlConnection.createConnection "conn" "employees" "employees.json" "user"
    "password" "host" true
  match MySqlConnection.startTransaction 20 env c0 "t" with
  | none => none
  | some (c1, _) =>
    match ExecutionThread.getRequest c1 with
    | none => none
    | some (c2, flush) =>
      match ExecutionThread.process 20 env c2 flush with
      | none => none
      | some (c3, flushed) =>
        match MySqlConnection.execute 20 env (ExecutionThread.complete c3 flushed) "good" []
            false with
        | none => none
        | some (c4, _) => ExecutionThread.getRequest c4

/-- The position of a state in the order in which the transition functions
follow each other; the states without transition function come last. -/
def stateRank : ExecutionState → Nat
  | ExecutionState.INITIAL_STATE => 1
  | ExecutionState.STATEMENT_VALID_STATE => 2
  | ExecutionState.SETTINGS_CREATED_STATE => 3
  | ExecutionState.SQL_GENERATED_STATE => 4
  | ExecutionState.MYSQL_STMT_CREATED_STATE => 5
  | ExecutionState.BINDINGS_PREPARED_STATE => 6
  | ExecutionState.STATEMENT_PREPARED_STATE => 7
  | ExecutionState.EXECUTION_COMPLETE_STATE => 8
  | _ => 9

/-- The observers of `c'` have the classes and the replay documents of those
of `c`. -/
def ObsKept (c c' : MySqlConnection) : Prop :=
  ∀ k, (c'.obs k).observerType = (c.obs k).observerType ∧
    (c'.obs k).replayExecutions_ = (c.obs k).replayExecutions_

/-- Every record of every replay observer has a state without transition
function. -/
def ReplayTerminal (c : MySqlConnection) : Prop :=
  ∀ k recs d, (c.obs k).observerType = ObserverType.REPLAY_OBS →
    (c.obs k).replayExecutions_ = some recs → d ∈ recs →
    MySqlExecution.isTerminalState d.state = true

/-- The server reports a failed prepare with an error number. -/
def PrepareReportsErrno (env : Env) : Prop :=
  ∀ n text, (env.srv.mysql_stmt_prepare n text).rc ≠ 0 →
    (env.srv.mysql_stmt_prepare n text).errno ≠ 0

/-- What the crank loop relies on at execution `i`: up to the generation of the
text the replay records are terminal, and before the settings are created the
argument list is still there. -/
def CrankInv (i : Nat) (c : MySqlConnection) : Prop :=
  (stateRank (c.exec i).state_ ≤ 3 → ReplayTerminal c) ∧
  (stateRank (c.exec i).state_ ≤ 2 → (c.exec i).args_ ≠ none)

/-- The connection `exampleObserved` under a replay observer whose file holds a
record of `good` with the state SETTINGS_CREATED, in the middle of
`execute("good")`: the execution is in SETTINGS_CREATED and
`generateStatementText` has been called once. -/
def exampleReplayStuck : MySqlConnection :=
  let c := exampleObserved ObserverType.REPLAY_OBS
    [("/work/obs.prog.json",
      [exampleRecord "good" "select 1" ExecutionState.SETTINGS_CREATED_STATE])]
  let execution := MySqlExecution.new c "good" [] false
  let c1 := { c with nextExecutionHandle_ := c.nextExecutionHandle_ + 1,
                     executions_ := c.executions_ ++ [execution] }
  let c2 := c1.setExec 0 { c1.exec 0 with state_ := ExecutionState.INITIAL_STATE }
  match MySqlExecution.crankStateMachine 20 exampleEnv c2 0
      ExecutionState.SETTINGS_CREATED_STATE with
  | some (c3, _) =>
    match MySqlExecution.generateStatementText 5 exampleEnv c3 0 with
    | some (c4, _) => c4
    | none => c
  | none => c

/-- A server like `exampleServer` that answers a rollback with the deadlock
error 1213 as long as fewer than eight library calls have been made, and
accepts it afterwards. -/
def exampleRollbackFailServer : Server :=
  { exampleServer with
    mysql_rollback := fun n =>
      if n < 8 then { rc := 1, errno := 1213, error := "Deadlock found when trying to get lock" }
      else okOutcome }

/-- The environment around `exampleRollbackFailServer`. -/
def exampleRollbackFailEnv : Env :=
  { exampleEnv with srv := exampleRollbackFailServer }

/-- The connection after `startTransaction("t")` and `execute("one", a = 5)`
on `exampleConnection`: the transaction is open and the execution has
completed with no row; seven library calls have been made. -/
def exampleInTransaction : MySqlConnection :=
  match MySqlConnection.startTransaction 1 exampleRollbackFailEnv exampleConnection "t" with
  | none => exampleConnection
  | some (c, _) =>
    match MySqlConnection.execute 20 exampleRollbackFailEnv c "one" [("a", Value.int 5)]
        false with
    | some (c1, _) => c1
    | none => exampleConnection

/-- A dictionary whose entry `plain` declares an int marker that its text
`select 1` does not hold. -/
def unmarkedStatements : Statements :=
  [("plain", { statement_text := some ["select 1"],
               parameters := some [{ name := "a", param_type := some "marker",
                                     data_type := some "int" }] })]

/-- The environment around `exampleServer` and `unmarkedStatements`. -/
def unmarkedEnv : Env :=
  { exampleEnv with statementDict := some unmarkedStatements }

/-- The connection after a first `execute("plain", a = 5)`, which fails the
marker check of a fresh prepare. -/
def exampleAfterPlain : MySqlConnection :=
  match MySqlConnection.execute 20 unmarkedEnv exampleConnection "plain" [("a", Value.int 5)]
      false with
  | some (c, _) => c
  | none => exampleConnection

/-- The connection in the middle of a second `execute("plain", a = 5)`, stopped
when the execution has entered MYSQL_STMT_CREATED. -/
def exampleSecondPlain : Option (MySqlConnection × Int) :=
  let c := exampleAfterPlain
  let execution := MySqlExecution.new c "plain" [("a", Value.int 5)] false
  let c1 := { c with nextExecutionHandle_ := c.nextExecutionHandle_ + 1,
                     executions_ := c.executions_ ++ [execution] }
  match MySqlExecution.prepareToExecute 20 unmarkedEnv c1 1 with
  | none => none
  | some (c2, _) =>
    MySqlExecution.crankStateMachine 20 unmarkedEnv c2 1 ExecutionState.MYSQL_STMT_CREATED_STATE

/-- The connection in the middle of `execute("good")` on `exampleConnection`,
stopped when the execution has entered MYSQL_STMT_CREATED: the statement has no
parameter and the server counted none. -/
def exampleGoodCreated : MySqlConnection :=
  let c := exampleConnection
  let execution := MySqlExecution.new c "good" [] false
  let c1 := { c with nextExecutionHandle_ := c.nextExecutionHandle_ + 1,
                     executions_ := c.executions_ ++ [execution] }
  match MySqlExecution.prepareToExecute 20 exampleEnv c1 0 with
  | none => c
  | some (c2, _) =>
    match MySqlExecution.crankStateMachine 20 exampleEnv c2 0
        ExecutionState.MYSQL_STMT_CREATED_STATE with
    | some (c3, _) => c3
    | none => c

/-- Whether every transition function that the loop of `crankStateMachine`
calls from `c`, in at most `fuel` rounds, has a result: the loop is followed
round by round, and the answer is false exactly when a call it makes has
none. -/
def MySqlExecution.crankCallsReturn (env : Env) (i : Nat) (exitState : ExecutionState) :
    Nat → MySqlConnection → Bool
  | 0, _ => true
  | fuel + 1, c =>
    if (c.exec i).state_ = exitState then true
    else
      match stateFunctionMap_ (c.exec i).state_ with
      | none => true
      | some stateFunction =>
        match MySqlExecution.callStateFunction fuel env
            { c with trace := c.trace ++ [((c.exec i).executionHandle_, stateFunction)] } i
            stateFunction with
        | none => false
        | some (c1, rc1) =>
          if rc1 ≠ 0 then true
          else MySqlExecution.crankCallsReturn env i exitState fuel c1

/-- The settings documents of the executions of `c` are those of `c'`. -/
def SettingsKept (c c' : MySqlConnection) : Prop :=
  c'.executions_.length = c.executions_.length ∧
  ∀ j, (c'.exec j).settings_ = (c.exec j).settings_

/-- Whether every substitution that the loop of `generateStatementText`
performs on `statementText`, each on the text left by those before it, keeps
the number of `?` characters. -/
def substitutionsKeepMarks (env : Env) : Settings → String → Bool
  | [], _ => true
  | (name, setting) :: rest, statementText =>
    if setting.param_type = ParamType.SUBSTITUTE then
      match setting.param_value with
      | some (Value.string v) =>
        decide (countQuestionMarks (env.regex_replace statementText ("@" ++ name) v)
            = countQuestionMarks statementText) &&
          substitutionsKeepMarks env rest (env.regex_replace statementText ("@" ++ name) v)
      | _ => true
    else substitutionsKeepMarks env rest statementText

/-- A dictionary whose entry `from` has a marker `a` and a substituted table
name `t`, with one `?` and the placeholder of `t` in its text. -/
def markedStatements : Statements :=
  [("from", { statement_text := some ["select ? from ", "@t"],
              parameters := some [{ name := "a", param_type := some "marker",
                                    data_type := some "int" },
                                  { name := "t", param_type := some "substitute",
                                    data_type := some "string" }] })]

/-- The environment `exampleEnv` with the dictionary `markedStatements` and the
literal replacement `replaceOccurrences`. -/
def markedEnv : Env :=
  { exampleEnv with
    statementDict := some markedStatements,
    regex_replace := fun text pattern replacement =>
      String.mk (replaceOccurrences pattern.data replacement.data 0 text.data) }

/-- A connection whose only execution, of the statement `from`, is about to
generate its text: its settings hold 5 for the marker `a` and `employees` for
the substituted `t`. -/
def exampleFromReady : MySqlConnection :=
  { exampleConnection with
    executions_ :=
      [{ MySqlExecution.new exampleConnection "from" [] false with
         state_ := ExecutionState.SETTINGS_CREATED_STATE,
         args_ := none,
         settings_ :=
           [("a", { param_type := ParamType.MARKER,
                    param_data_type := enum_field_types.MYSQL_TYPE_LONG,
                    param_value := some (Value.int 5) }),
            ("t", { param_type := ParamType.SUBSTITUTE,
                    param_data_type := enum_field_types.MYSQL_TYPE_STRING,
                    param_value := some (Value.string "employees") })] }] }

/-! ## Elementary facts about positions in a list -/

theorem getD_set_same {α : Type} (l : List α) (i : Nat) (a d : α) (h : i < l.length) :
    (l.set i a).getD i d = a := by
  induction l generalizing i with
  | nil => simp at h
  | cons x xs ih =>
    cases i with
    | zero => simp
    | succ n =>
      simp only [List.set_cons_succ, List.getD_cons_succ]
      exact ih n (by simpa using h)

theorem getD_set_other {α : Type} (l : List α) (i j : Nat) (a d : α) (h : j ≠ i) :
    (l.set i a).getD j d = l.getD j d := by
  induction l generalizing i j with
  | nil => simp
  | cons x xs ih =>
    cases i with
    | zero =>
      cases j with
      | zero => exact absurd rfl h
      | succ m => simp
    | succ n =>
      cases j with
      | zero => simp
      | succ m =>
        simp only [List.set_cons_succ, List.getD_cons_succ]
        exact ih n m (by omega)

theorem exec_setExec_same (c : MySqlConnection) (i : Nat) (e : MySqlExecution)
    (h : i < c.executions_.length) : (c.setExec i e).exec i = e := by
  simp only [MySqlConnection.exec, MySqlConnection.setExec]
  exact getD_set_same _ _ _ _ h

theorem exec_setExec_other (c : MySqlConnection) (i j : Nat) (e : MySqlExecution) (h : j ≠ i) :
    (c.setExec i e).exec j = c.exec j := by
  simp only [MySqlConnection.exec, MySqlConnection.setExec]
  exact getD_set_other _ _ _ _ _ h



theorem ConnFrame.refl (c : MySqlConnection) : ConnFrame c c :=
  ⟨rfl, rfl, rfl, rfl, rfl, rfl, rfl, rfl, id, rfl⟩

theorem ConnFrame.trans {a b c : MySqlConnection} (h1 : ConnFrame a b) (h2 : ConnFrame b c) :
    ConnFrame a c :=
  ⟨h2.executions_.trans h1.executions_, h2.observers_.trans h1.observers_,
   h2.trace.trans h1.trace, h2.nextExecutionHandle_.trans h1.nextExecutionHandle_,
   h2.isTransactions_.trans h1.isTransactions_, h2.async_.trans h1.async_,
   h2.now.trans h1.now, h2.currentProgram_.trans h1.currentProgram_,
   fun h => h2.db (h1.db h), h2.user_.trans h1.user_⟩

theorem ConnFrame.logCall (c : MySqlConnection) (call : ServerCall) : ConnFrame c (c.logCall call) :=
  ⟨rfl, rfl, rfl, rfl, rfl, rfl, rfl, rfl, id, rfl⟩

theorem ConnFrame.setDbError (c : MySqlConnection) (n : Int) (s : String) :
    ConnFrame c (c.setDbError n s) := by
  unfold MySqlConnection.setDbError
  cases h : c.impl_.db_ with
  | none => exact ConnFrame.refl c
  | some db => exact ⟨rfl, rfl, rfl, rfl, rfl, rfl, rfl, rfl, fun _ => rfl, rfl⟩

theorem ConnFrame.storeAutoCommit (c : MySqlConnection) (b : Bool) :
    ConnFrame c (MySqlConnectionImpl.storeAutoCommit c b) :=
  ⟨rfl, rfl, rfl, rfl, rfl, rfl, rfl, rfl, id, rfl⟩

theorem ConnFrame.flush (c : MySqlConnection) (t : RequestType) (n : Nat) (s : String) :
    ConnFrame c (c.flushExecutionThread t n s) :=
  ⟨rfl, rfl, rfl, rfl, rfl, rfl, rfl, rfl, id, rfl⟩

theorem setDbError_autoCommit (c : MySqlConnection) (n : Int) (s : String) :
    (c.setDbError n s).impl_.isAutoCommit_ = c.impl_.isAutoCommit_ := by
  unfold MySqlConnection.setDbError
  cases c.impl_.db_ <;> rfl

theorem setDbError_isSome (c : MySqlConnection) (n : Int) (s : String) :
    (c.setDbError n s).impl_.db_.isSome = c.impl_.db_.isSome := by
  unfold MySqlConnection.setDbError
  cases h : c.impl_.db_ <;> simp [h]

theorem setDbError_transactionName (c : MySqlConnection) (n : Int) (s : String) :
    (c.setDbError n s).transactionName_ = c.transactionName_ := by
  unfold MySqlConnection.setDbError
  cases c.impl_.db_ <;> rfl

theorem setDbError_serverLog (c : MySqlConnection) (n : Int) (s : String) :
    (c.setDbError n s).serverLog = c.serverLog := by
  unfold MySqlConnection.setDbError
  cases c.impl_.db_ <;> rfl

theorem setAutoCommit_of_db (report : ReportFn) (env : Env) (c : MySqlConnection) (b : Bool)
    (h : c.impl_.db_.isSome = true) :
    MySqlConnectionImpl.setAutoCommit report env c b
      = some (MySqlConnectionImpl.storeAutoCommit c b, 0) := by
  unfold MySqlConnectionImpl.setAutoCommit MySqlConnectionImpl.getdb
  cases hdb : c.impl_.db_ with
  | none => simp [hdb] at h
  | some db => simp [hdb]

/-- The driver's rollback, for any reporting function that keeps the contract. -/
theorem rollback_spec (report : ReportFn) (hrep : ReportOK report) (env : Env)
    (c c' : MySqlConnection) (rc : Int)
    (h : MySqlConnectionImpl.rollback report env c = some (c', rc)) :
    ConnFrame c c' ∧
    (c.impl_.db_ = none ∨ c.impl_.isAutoCommit_ = true → c' = c ∧ rc = 0) ∧
    (c.impl_.db_.isSome = true → c.impl_.isAutoCommit_ = false →
      c'.impl_.isAutoCommit_ = true ∧
      (rc = 0 → c'.transactionName_ = c.transactionName_) ∧
      (rc ≠ 0 → c.isTransactions_ = true → c'.transactionName_ = "")) := by
  unfold MySqlConnectionImpl.rollback at h
  rcases hdb : c.impl_.db_ with _ | db
  · simp only [hdb] at h
    cases h
    exact ⟨ConnFrame.refl _, fun _ => ⟨rfl, rfl⟩, fun h => by simp at h⟩
  · simp only [hdb] at h
    rcases hac : c.impl_.isAutoCommit_ with _ | _
    · simp only [hac, Bool.false_eq_true, if_false] at h
      have hf1 : ConnFrame c ((c.logCall ServerCall.mysql_rollback).setDbError
          (env.srv.mysql_rollback c.serverLog.length).errno
          (env.srv.mysql_rollback c.serverLog.length).error) :=
        (ConnFrame.logCall c _).trans (ConnFrame.setDbError _ _ _)
      have hac1 : ((c.logCall ServerCall.mysql_rollback).setDbError
          (env.srv.mysql_rollback c.serverLog.length).errno
          (env.srv.mysql_rollback c.serverLog.length).error).impl_.isAutoCommit_ = false := by
        rw [setDbError_autoCommit]; exact hac
      have hdb1 : ((c.logCall ServerCall.mysql_rollback).setDbError
          (env.srv.mysql_rollback c.serverLog.length).errno
          (env.srv.mysql_rollback c.serverLog.length).error).impl_.db_.isSome = true := by
        rw [setDbError_isSome]; simp [MySqlConnection.logCall, hdb]
      have hn1 : ((c.logCall ServerCall.mysql_rollback).setDbError
          (env.srv.mysql_rollback c.serverLog.length).errno
          (env.srv.mysql_rollback c.serverLog.length).error).transactionName_
            = c.transactionName_ := by
        rw [setDbError_transactionName]; rfl
      by_cases hrc : (env.srv.mysql_rollback c.serverLog.length).rc = 0
      · simp only [hrc, ne_eq, not_true_eq_false, if_false] at h
        rw [setAutoCommit_of_db _ _ _ _ hdb1] at h
        simp only [Option.some.injEq, Prod.mk.injEq] at h
        obtain ⟨h1, h2⟩ := h
        subst h1; subst h2
        refine ⟨hf1.trans (ConnFrame.storeAutoCommit _ _), fun h => ?_,
          fun _ _ => ⟨rfl, fun _ => hn1, fun h => absurd rfl h⟩⟩
        simp at h
      · simp only [hrc, ne_eq, not_false_eq_true, if_true] at h
        rcases hr : MySqlConnectionImpl.reportMySqlError report
            ((c.logCall ServerCall.mysql_rollback).setDbError
              (env.srv.mysql_rollback c.serverLog.length).errno
              (env.srv.mysql_rollback c.serverLog.length).error)
            "rolling back transaction" with _ | ⟨c2, rc2⟩
        · simp [hr] at h
        · simp only [hr] at h
          unfold MySqlConnectionImpl.reportMySqlError at hr
          have hp := hrep _ _ _ _ _ _ hr
          have hdb2 : c2.impl_.db_.isSome = true := hp.frame.db hdb1
          rw [setAutoCommit_of_db _ _ _ _ hdb2] at h
          simp only [Option.some.injEq, Prod.mk.injEq] at h
          obtain ⟨h1, h2⟩ := h
          subst h1; subst h2
          refine ⟨(hf1.trans hp.frame).trans (ConnFrame.storeAutoCommit _ _), fun h => ?_,
            fun _ _ => ⟨rfl, fun h => absurd h hrc, fun _ ht => ?_⟩⟩
          · simp at h
          · have ht1 := hf1.isTransactions_.trans ht
            exact (hp.opened ht1 hac1 hdb1).2
    · simp only [hac, if_true] at h
      cases h
      exact ⟨ConnFrame.refl _, fun _ => ⟨rfl, rfl⟩, fun _ h => by simp at h⟩

/-- The facade's rollback, for any reporting function that keeps the contract. -/
theorem rollbackTransaction_spec (report : ReportFn) (hrep : ReportOK report) (env : Env)
    (c c' : MySqlConnection) (reason : String) (rc : Int)
    (h : MySqlConnection.rollbackTransaction report env c reason = some (c', rc)) :
    ConnFrame c c' ∧
    (c.isTransactions_ = false ∨ c.impl_.isAutoCommit_ = true → c' = c ∧ rc = 0) ∧
    (c.isTransactions_ = true → c.impl_.isAutoCommit_ = false → c.impl_.db_.isSome = true →
      c'.impl_.isAutoCommit_ = true ∧ c'.transactionName_ = "") := by
  unfold MySqlConnection.rollbackTransaction at h
  rcases ht : c.isTransactions_ with _ | _
  · simp only [ht, if_true] at h
    cases h
    exact ⟨ConnFrame.refl _, fun _ => ⟨rfl, rfl⟩, fun h => by simp at h⟩
  · rcases hac : c.impl_.isAutoCommit_ with _ | _
    · simp only [ht, hac, Bool.true_eq_false, Bool.false_eq_true, if_false] at h
      have hfl : ConnFrame c (if c.async_ = true then
          c.flushExecutionThread RequestType.ROLLBACK_TRANSACTION_REQUEST 0 "" else c) := by
        split
        · exact ConnFrame.flush _ _ _ _
        · exact ConnFrame.refl _
      have himpl : (if c.async_ = true then
          c.flushExecutionThread RequestType.ROLLBACK_TRANSACTION_REQUEST 0 "" else c).impl_
            = c.impl_ := by
        split <;> rfl
      have hname : (if c.async_ = true then
          c.flushExecutionThread RequestType.ROLLBACK_TRANSACTION_REQUEST 0 "" else c).transactionName_
            = c.transactionName_ := by
        split <;> rfl
      rcases hr : MySqlConnectionImpl.rollback report env (if c.async_ = true then
          c.flushExecutionThread RequestType.ROLLBACK_TRANSACTION_REQUEST 0 "" else c)
        with _ | ⟨c2, rc2⟩
      · simp [hr] at h
      · simp only [hr] at h
        obtain ⟨hf2, _, hopen⟩ := rollback_spec report hrep env _ _ _ hr
        rw [himpl] at hopen
        refine ⟨?_, fun h => by simp at h, fun _ _ hdb => ?_⟩
        · by_cases hz : rc2 = 0
          · simp only [hz, if_true, Option.some.injEq, Prod.mk.injEq] at h
            obtain ⟨h1, _⟩ := h
            subst h1
            exact (hfl.trans hf2).trans ⟨rfl, rfl, rfl, rfl, rfl, rfl, rfl, rfl, id, rfl⟩
          · simp only [hz, if_false, Option.some.injEq, Prod.mk.injEq] at h
            obtain ⟨h1, _⟩ := h
            subst h1
            exact hfl.trans hf2
        · obtain ⟨ha, _, hn⟩ := hopen hdb hac
          by_cases hz : rc2 = 0
          · simp only [hz, if_true, Option.some.injEq, Prod.mk.injEq] at h
            obtain ⟨h1, _⟩ := h
            subst h1
            exact ⟨ha, rfl⟩
          · simp only [hz, if_false, Option.some.injEq, Prod.mk.injEq] at h
            obtain ⟨h1, _⟩ := h
            subst h1
            refine ⟨ha, hn hz ?_⟩
            rw [hfl.isTransactions_]; exact ht
    · simp only [ht, hac, Bool.true_eq_false, if_false, if_true] at h
      cases h
      exact ⟨ConnFrame.refl _, fun _ => ⟨rfl, rfl⟩, fun _ h => by simp at h⟩

theorem ConnFrame.withError (c : MySqlConnection) (m : String) (n : Int) (xh : Nat) :
    ConnFrame c (c.withError m n xh) :=
  ⟨rfl, rfl, rfl, rfl, rfl, rfl, rfl, rfl, id, rfl⟩

/-- The model of `reportError` keeps its contract, whatever the fuel. -/
theorem reportError_ok (env : Env) (fuel : Nat) : ReportOK (MySqlConnection.reportError fuel env) := by
  induction fuel with
  | zero =>
    intro c m n xh c' rc h
    simp [MySqlConnection.reportError] at h
  | succ fuel ih =>
    intro c m n xh c' rc h
    unfold MySqlConnection.reportError at h
    change (match MySqlConnection.rollbackTransaction (MySqlConnection.reportError fuel env) env
        (c.withError m n xh) "execution failed" with
      | none => none
      | some (c2, _) => some (c2, n)) = some (c', rc) at h
    rcases hr : MySqlConnection.rollbackTransaction (MySqlConnection.reportError fuel env) env
        (c.withError m n xh) "execution failed" with _ | ⟨c2, rc2⟩
    · simp [hr] at h
    · simp only [hr, Option.some.injEq, Prod.mk.injEq] at h
      obtain ⟨h1, h2⟩ := h
      subst h1; subst h2
      obtain ⟨hf, hclosed, hopen⟩ := rollbackTransaction_spec _ ih env _ _ _ _ hr
      exact ⟨rfl, (ConnFrame.withError c m n xh).trans hf, fun h => (hclosed h).1,
        fun h1 h2 h3 => hopen h1 h2 h3⟩

theorem setDbError_logLength (c : MySqlConnection) (call : ServerCall) (n : Int) (e : String) :
    ((c.logCall call).setDbError n e).serverLog.length = c.serverLog.length + 1 := by
  rw [setDbError_serverLog]
  simp [MySqlConnection.logCall]

theorem reportMySqlError_eq (report : ReportFn) (c : MySqlConnection) (context : String) :
    ∃ m n, MySqlConnectionImpl.reportMySqlError report c context = report c m n 0 :=
  ⟨_, _, rfl⟩

/-- The driver's rollback returns when the report of its failure returns. -/
theorem rollback_total (report : ReportFn) (hrep : ReportOK report) (env : Env)
    (c : MySqlConnection)
    (hrt : (env.srv.mysql_rollback c.serverLog.length).rc ≠ 0 →
      ∀ c1 m n xh, c1.serverLog.length = c.serverLog.length + 1 →
        ∃ r, report c1 m n xh = some r) :
    ∃ r, MySqlConnectionImpl.rollback report env c = some r := by
  unfold MySqlConnectionImpl.rollback
  rcases hdb : c.impl_.db_ with _ | db
  · exact ⟨_, rfl⟩
  · simp only []
    rcases hac : c.impl_.isAutoCommit_ with _ | _
    · simp only [Bool.false_eq_true, if_false]
      have hdb1 : ((c.logCall ServerCall.mysql_rollback).setDbError
          (env.srv.mysql_rollback c.serverLog.length).errno
          (env.srv.mysql_rollback c.serverLog.length).error).impl_.db_.isSome = true := by
        rw [setDbError_isSome]; simp [MySqlConnection.logCall, hdb]
      by_cases hrc : (env.srv.mysql_rollback c.serverLog.length).rc = 0
      · simp only [hrc, ne_eq, not_true_eq_false, if_false]
        rw [setAutoCommit_of_db _ _ _ _ hdb1]
        exact ⟨_, rfl⟩
      · simp only [hrc, ne_eq, not_false_eq_true, if_true]
        obtain ⟨m, n, hm⟩ := reportMySqlError_eq report
          ((c.logCall ServerCall.mysql_rollback).setDbError
            (env.srv.mysql_rollback c.serverLog.length).errno
            (env.srv.mysql_rollback c.serverLog.length).error) "rolling back transaction"
        obtain ⟨⟨c2, rc2⟩, hr⟩ := hrt hrc
          ((c.logCall ServerCall.mysql_rollback).setDbError
            (env.srv.mysql_rollback c.serverLog.length).errno
            (env.srv.mysql_rollback c.serverLog.length).error) m n 0
          (setDbError_logLength _ _ _ _)
        have hp := hrep _ _ _ _ _ _ hr
        have hdb2 : c2.impl_.db_.isSome = true := hp.frame.db hdb1
        rw [hm, hr]
        simp only []
        rw [setAutoCommit_of_db _ _ _ _ hdb2]
        exact ⟨_, rfl⟩
    · exact ⟨_, rfl⟩

/-- The facade's rollback returns when the report of its failure returns. -/
theorem rollbackTransaction_total (report : ReportFn) (hrep : ReportOK report) (env : Env)
    (c : MySqlConnection) (reason : String)
    (hrt : (env.srv.mysql_rollback c.serverLog.length).rc ≠ 0 →
      ∀ c1 m n xh, c1.serverLog.length = c.serverLog.length + 1 →
        ∃ r, report c1 m n xh = some r) :
    ∃ r, MySqlConnection.rollbackTransaction report env c reason = some r := by
  unfold MySqlConnection.rollbackTransaction
  split
  · exact ⟨_, rfl⟩
  · split
    · exact ⟨_, rfl⟩
    · have hlog : (if c.async_ = true then
          c.flushExecutionThread RequestType.ROLLBACK_TRANSACTION_REQUEST 0 "" else c).serverLog
            = c.serverLog := by
        split <;> rfl
      obtain ⟨⟨c2, rc2⟩, hr⟩ := rollback_total report hrep env (if c.async_ = true then
          c.flushExecutionThread RequestType.ROLLBACK_TRANSACTION_REQUEST 0 "" else c)
        (by rw [hlog]; exact hrt)
      simp only [hr]
      split <;> exact ⟨_, rfl⟩

/-- With enough fuel `reportError` returns, provided the server lets a rollback
succeed after finitely many attempts. -/
theorem reportError_total (env : Env) (k : Nat) :
    ∀ (fuel : Nat) (c : MySqlConnection) (m : String) (n : Int) (xh : Nat),
      (env.srv.mysql_rollback (c.serverLog.length + k)).rc = 0 → k + 1 ≤ fuel →
      ∃ r, MySqlConnection.reportError fuel env c m n xh = some r := by
  induction k with
  | zero =>
    intro fuel c m n xh hk hfuel
    obtain ⟨f, rfl⟩ : ∃ f, fuel = f + 1 := ⟨fuel - 1, by omega⟩
    unfold MySqlConnection.reportError
    obtain ⟨⟨c2, rc2⟩, hr⟩ := rollbackTransaction_total (MySqlConnection.reportError f env)
      (reportError_ok env f) env (c.withError m n xh) "execution failed"
      (fun hne => absurd hk hne)
    change ∃ r, (match MySqlConnection.rollbackTransaction (MySqlConnection.reportError f env) env
        (c.withError m n xh) "execution failed" with
      | none => none
      | some (c2, _) => some (c2, n)) = some r
    rw [hr]
    exact ⟨_, rfl⟩
  | succ k ih =>
    intro fuel c m n xh hk hfuel
    obtain ⟨f, rfl⟩ : ∃ f, fuel = f + 1 := ⟨fuel - 1, by omega⟩
    unfold MySqlConnection.reportError
    obtain ⟨⟨c2, rc2⟩, hr⟩ := rollbackTransaction_total (MySqlConnection.reportError f env)
      (reportError_ok env f) env (c.withError m n xh) "execution failed"
      (fun _ c1 m1 n1 xh1 hlen => ih f c1 m1 n1 xh1
        (by
          have : c1.serverLog.length + k = c.serverLog.length + (k + 1) := by
            rw [hlen]; simp only [MySqlConnection.withError]; omega
          rw [this]; exact hk)
        (by omega))
    change ∃ r, (match MySqlConnection.rollbackTransaction (MySqlConnection.reportError f env) env
        (c.withError m n xh) "execution failed" with
      | none => none
      | some (c2, _) => some (c2, n)) = some r
    rw [hr]
    exact ⟨_, rfl⟩

theorem TxInv_of_on {c : MySqlConnection} (h1 : c.impl_.isAutoCommit_ = true)
    (h2 : c.transactionName_ = "") : TxInv c := by
  constructor
  · simp [h1, h2]
  · simp [h1]

theorem TxInv_report (report : ReportFn) (hrep : ReportOK report) (c c' : MySqlConnection)
    (m : String) (n : Int) (xh : Nat) (rc : Int) (hinv : TxInv c)
    (h : report c m n xh = some (c', rc)) : TxInv c' := by
  have hp := hrep _ _ _ _ _ _ h
  by_cases hcl : c.isTransactions_ = false ∨ c.impl_.isAutoCommit_ = true
  · rw [hp.closed hcl]
    exact hinv
  · have ht : c.isTransactions_ = true := by
      cases hh : c.isTransactions_ <;> simp_all
    have hac : c.impl_.isAutoCommit_ = false := by
      cases hh : c.impl_.isAutoCommit_ <;> simp_all
    obtain ⟨h1, h2⟩ := hp.opened ht hac (hinv.2 hac)
    exact TxInv_of_on h1 h2

theorem open_spec (report : ReportFn) (hrep : ReportOK report) (env : Env)
    (c c' : MySqlConnection) (rc : Int) (hac : c.impl_.isAutoCommit_ = true)
    (h : MySqlConnectionImpl.open report env c = some (c', rc)) :
    c'.impl_.isAutoCommit_ = true ∧ c'.transactionName_ = c.transactionName_ := by
  unfold MySqlConnectionImpl.open at h
  rcases hdb : c.impl_.db_ with _ | db
  · simp only [hdb] at h
    split at h
    · have hp := hrep _ _ _ _ _ _ h
      rw [hp.closed (Or.inr hac)]
      exact ⟨hac, rfl⟩
    · split at h
      · have hp := hrep _ _ _ _ _ _ h
        rw [hp.closed (Or.inr hac)]
        exact ⟨hac, rfl⟩
      · simp only [Option.some.injEq, Prod.mk.injEq] at h
        obtain ⟨h1, _⟩ := h
        subst h1
        exact ⟨rfl, rfl⟩
  · simp only [hdb, Option.some.injEq, Prod.mk.injEq] at h
    obtain ⟨h1, _⟩ := h
    subst h1
    exact ⟨hac, rfl⟩

theorem setAutoCommit_spec (report : ReportFn) (hrep : ReportOK report) (env : Env)
    (c c' : MySqlConnection) (b : Bool) (rc : Int) (hac : c.impl_.isAutoCommit_ = true)
    (h : MySqlConnectionImpl.setAutoCommit report env c b = some (c', rc)) :
    c'.transactionName_ = c.transactionName_ ∧
    (rc = 0 → c'.impl_.isAutoCommit_ = b ∧ c'.impl_.db_.isSome = true) ∧
    (rc ≠ 0 → c'.impl_.isAutoCommit_ = true) := by
  unfold MySqlConnectionImpl.setAutoCommit MySqlConnectionImpl.getdb at h
  rcases hdb : c.impl_.db_ with _ | db
  · simp only [hdb] at h
    rcases ho : MySqlConnectionImpl.open report env c with _ | ⟨c1, rc1⟩
    · simp [ho] at h
    · simp only [ho] at h
      obtain ⟨ha1, hn1⟩ := open_spec report hrep env c c1 rc1 hac ho
      rcases hdb1 : c1.impl_.db_ with _ | db1
      · simp only [hdb1, Option.some.injEq, Prod.mk.injEq] at h
        obtain ⟨h1, h2⟩ := h
        subst h1; subst h2
        exact ⟨hn1, fun h => absurd h (by decide), fun _ => ha1⟩
      · simp only [hdb1, Option.some.injEq, Prod.mk.injEq] at h
        obtain ⟨h1, h2⟩ := h
        subst h1; subst h2
        refine ⟨hn1, fun _ => ⟨rfl, ?_⟩, fun h => absurd rfl h⟩
        simp [MySqlConnectionImpl.storeAutoCommit, MySqlConnection.logCall, hdb1]
  · simp only [hdb, Option.some.injEq, Prod.mk.injEq] at h
    obtain ⟨h1, h2⟩ := h
    subst h1; subst h2
    refine ⟨rfl, fun _ => ⟨rfl, ?_⟩, fun h => absurd rfl h⟩
    simp [MySqlConnectionImpl.storeAutoCommit, MySqlConnection.logCall, hdb]

theorem TxInv_flush (c : MySqlConnection) (t : RequestType) (n : Nat) (s : String)
    (h : TxInv c) : TxInv (c.flushExecutionThread t n s) := h

theorem TxInv_startTransaction (fuel : Nat) (env : Env) (c c' : MySqlConnection) (name : String)
    (rc : Int) (hname : name ≠ "") (hinv : TxInv c)
    (h : MySqlConnection.startTransaction fuel env c name = some (c', rc)) : TxInv c' := by
  unfold MySqlConnection.startTransaction at h
  split at h
  · cases h; exact hinv
  · have hinv1 : TxInv (if c.async_ = true then
        c.flushExecutionThread RequestType.START_TRANSACTION_REQUEST 0 name else c) := by
      split
      · exact TxInv_flush _ _ _ _ hinv
      · exact hinv
    revert h
    generalize (if c.async_ = true then
        c.flushExecutionThread RequestType.START_TRANSACTION_REQUEST 0 name else c) = c1 at hinv1 ⊢
    intro h
    simp only [] at h
    split at h
    · exact TxInv_report _ (reportError_ok env fuel) _ _ _ _ _ _ hinv1 h
    · rename_i hac
      have hac1 : c1.impl_.isAutoCommit_ = true := by
        cases hh : c1.impl_.isAutoCommit_ <;> simp_all
      rcases hs : MySqlConnectionImpl.setAutoCommit (MySqlConnection.reportError fuel env) env c1
          false with _ | ⟨c2, rc2⟩
      · simp [hs] at h
      · simp only [hs] at h
        obtain ⟨hn, hz, hnz⟩ := setAutoCommit_spec _ (reportError_ok env fuel) env _ _ _ _ hac1 hs
        by_cases hrc : rc2 = 0
        · simp only [hrc, if_true, Option.some.injEq, Prod.mk.injEq] at h
          obtain ⟨h1, _⟩ := h
          subst h1
          obtain ⟨ha, hd⟩ := hz hrc
          exact ⟨by simp [hname, ha], fun _ => hd⟩
        · simp only [hrc, if_false, Option.some.injEq, Prod.mk.injEq] at h
          obtain ⟨h1, _⟩ := h
          subst h1
          refine TxInv_of_on (hnz hrc) ?_
          rw [hn]
          by_contra hne
          have := hinv1.1.mp hne
          simp [hac1] at this

theorem commit_spec (report : ReportFn) (hrep : ReportOK report) (env : Env)
    (c c' : MySqlConnection) (rc : Int) (ht : c.isTransactions_ = true)
    (hac : c.impl_.isAutoCommit_ = false) (hdb : c.impl_.db_.isSome = true)
    (h : MySqlConnectionImpl.commit report env c = some (c', rc)) :
    c'.impl_.isAutoCommit_ = true ∧
    (rc = 0 → c'.transactionName_ = c.transactionName_) ∧
    (rc ≠ 0 → c'.transactionName_ = "") := by
  unfold MySqlConnectionImpl.commit at h
  rcases hdb0 : c.impl_.db_ with _ | db
  · simp [hdb0] at hdb
  · simp only [hdb0, hac, Bool.false_eq_true, if_false] at h
    have hf1 : ConnFrame c ((c.logCall ServerCall.mysql_commit).setDbError
        (env.srv.mysql_commit c.serverLog.length).errno
        (env.srv.mysql_commit c.serverLog.length).error) :=
      (ConnFrame.logCall c _).trans (ConnFrame.setDbError _ _ _)
    have hac1 : ((c.logCall ServerCall.mysql_commit).setDbError
        (env.srv.mysql_commit c.serverLog.length).errno
        (env.srv.mysql_commit c.serverLog.length).error).impl_.isAutoCommit_ = false := by
      rw [setDbError_autoCommit]; exact hac
    have hdb1 : ((c.logCall ServerCall.mysql_commit).setDbError
        (env.srv.mysql_commit c.serverLog.length).errno
        (env.srv.mysql_commit c.serverLog.length).error).impl_.db_.isSome = true := by
      rw [setDbError_isSome]; simp [MySqlConnection.logCall, hdb0]
    have hn1 : ((c.logCall ServerCall.mysql_commit).setDbError
        (env.srv.mysql_commit c.serverLog.length).errno
        (env.srv.mysql_commit c.serverLog.length).error).transactionName_
          = c.transactionName_ := by
      rw [setDbError_transactionName]; rfl
    by_cases hrc : (env.srv.mysql_commit c.serverLog.length).rc = 0
    · simp only [hrc, ne_eq, not_true_eq_false, if_false] at h
      rw [setAutoCommit_of_db _ _ _ _ hdb1] at h
      simp only [Option.some.injEq, Prod.mk.injEq] at h
      obtain ⟨h1, h2⟩ := h
      subst h1; subst h2
      exact ⟨rfl, fun _ => hn1, fun h => absurd rfl h⟩
    · simp only [hrc, ne_eq, not_false_eq_true, if_true] at h
      obtain ⟨m, n, hm⟩ := reportMySqlError_eq report
        ((c.logCall ServerCall.mysql_commit).setDbError
          (env.srv.mysql_commit c.serverLog.length).errno
          (env.srv.mysql_commit c.serverLog.length).error) "committing transaction"
      rw [hm] at h
      rcases hr : report ((c.logCall ServerCall.mysql_commit).setDbError
          (env.srv.mysql_commit c.serverLog.length).errno
          (env.srv.mysql_commit c.serverLog.length).error) m n 0 with _ | ⟨c2, rc2⟩
      · simp [hr] at h
      · simp only [hr] at h
        have hp := hrep _ _ _ _ _ _ hr
        have hdb2 : c2.impl_.db_.isSome = true := hp.frame.db hdb1
        rw [setAutoCommit_of_db _ _ _ _ hdb2] at h
        simp only [Option.some.injEq, Prod.mk.injEq] at h
        obtain ⟨h1, h2⟩ := h
        subst h1; subst h2
        exact ⟨rfl, fun h => absurd h hrc,
          fun _ => (hp.opened (hf1.isTransactions_.trans ht) hac1 hdb1).2⟩

theorem TxInv_commitTransaction (fuel : Nat) (env : Env) (c c' : MySqlConnection)
    (rc : Int) (hinv : TxInv c)
    (h : MySqlConnection.commitTransaction fuel env c = some (c', rc)) : TxInv c' := by
  unfold MySqlConnection.commitTransaction at h
  split at h
  · cases h; exact hinv
  · rename_i ht
    have ht0 : c.isTransactions_ = true := by
      cases hh : c.isTransactions_ <;> simp_all
    have hinv1 : TxInv (if c.async_ = true then
        c.flushExecutionThread RequestType.COMMIT_TRANSACTION_REQUEST 0 "" else c) := by
      split
      · exact TxInv_flush _ _ _ _ hinv
      · exact hinv
    have ht1 : (if c.async_ = true then
        c.flushExecutionThread RequestType.COMMIT_TRANSACTION_REQUEST 0 "" else c).isTransactions_
          = true := by
      split
      · exact ht0
      · exact ht0
    revert h
    generalize (if c.async_ = true then
        c.flushExecutionThread RequestType.COMMIT_TRANSACTION_REQUEST 0 "" else c) = c1
      at hinv1 ht1 ⊢
    intro h
    simp only [] at h
    split at h
    · exact TxInv_report _ (reportError_ok env fuel) _ _ _ _ _ _ hinv1 h
    · rename_i hac
      have hac1 : c1.impl_.isAutoCommit_ = false := by
        cases hh : c1.impl_.isAutoCommit_ <;> simp_all
      rcases hs : MySqlConnectionImpl.commit (MySqlConnection.reportError fuel env) env c1
        with _ | ⟨c2, rc2⟩
      · simp [hs] at h
      · simp only [hs] at h
        obtain ⟨ha, hz, hnz⟩ := commit_spec _ (reportError_ok env fuel) env _ _ _ ht1 hac1
          (hinv1.2 hac1) hs
        by_cases hrc : rc2 = 0
        · simp only [hrc, if_true, Option.some.injEq, Prod.mk.injEq] at h
          obtain ⟨h1, _⟩ := h
          subst h1
          exact TxInv_of_on ha rfl
        · simp only [hrc, if_false, Option.some.injEq, Prod.mk.injEq] at h
          obtain ⟨h1, _⟩ := h
          subst h1
          exact TxInv_of_on ha (hnz hrc)

theorem TxInv_rollbackTransaction (fuel : Nat) (env : Env) (c c' : MySqlConnection)
    (reason : String) (rc : Int) (hinv : TxInv c)
    (h : MySqlConnection.rollbackTransaction (MySqlConnection.reportError fuel env) env c reason
      = some (c', rc)) : TxInv c' := by
  obtain ⟨_, hclosed, hopen⟩ := rollbackTransaction_spec _ (reportError_ok env fuel) env _ _ _ _ h
  by_cases hcl : c.isTransactions_ = false ∨ c.impl_.isAutoCommit_ = true
  · rw [(hclosed hcl).1]
    exact hinv
  · have ht : c.isTransactions_ = true := by
      cases hh : c.isTransactions_ <;> simp_all
    have hac : c.impl_.isAutoCommit_ = false := by
      cases hh : c.impl_.isAutoCommit_ <;> simp_all
    obtain ⟨h1, h2⟩ := hopen ht hac (hinv.2 hac)
    exact TxInv_of_on h1 h2

theorem TxInv_applyOp (fuel : Nat) (env : Env) (c c' : MySqlConnection) (op : ConnOp)
    (hop : op.named = true) (hinv : TxInv c) (h : applyOp fuel env c op = some c') : TxInv c' := by
  cases op with
  | startTransaction name =>
    simp only [applyOp, Option.map_eq_some', Prod.exists, exists_and_right, exists_eq_right] at h
    obtain ⟨rc, h⟩ := h
    exact TxInv_startTransaction fuel env c c' name rc (by simpa [ConnOp.named] using hop) hinv h
  | commitTransaction =>
    simp only [applyOp, Option.map_eq_some', Prod.exists, exists_and_right, exists_eq_right] at h
    obtain ⟨rc, h⟩ := h
    exact TxInv_commitTransaction fuel env c c' rc hinv h
  | rollbackTransaction reason =>
    simp only [applyOp, Option.map_eq_some', Prod.exists, exists_and_right, exists_eq_right] at h
    obtain ⟨rc, h⟩ := h
    exact TxInv_rollbackTransaction fuel env c c' reason rc hinv h
  | reportError m n xh =>
    simp only [applyOp, Option.map_eq_some', Prod.exists, exists_and_right, exists_eq_right] at h
    obtain ⟨rc, h⟩ := h
    exact TxInv_report _ (reportError_ok env fuel) _ _ _ _ _ _ hinv h
  | close => simp [ConnOp.named] at hop

theorem TxInv_runOps (env : Env) (ops : List (Nat × ConnOp)) :
    ∀ (c c' : MySqlConnection), (∀ op ∈ ops, op.2.named = true) → TxInv c →
      runOps env c ops = some c' → TxInv c' := by
  induction ops with
  | nil =>
    intro c c' _ hinv h
    simp only [runOps, Option.some.injEq] at h
    subst h
    exact hinv
  | cons op rest ih =>
    intro c c' hops hinv h
    obtain ⟨fuel, o⟩ := op
    simp only [runOps] at h
    rcases ha : applyOp fuel env c o with _ | c1
    · simp [ha] at h
    · simp only [ha] at h
      exact ih c1 c' (fun p hp => hops p (List.mem_cons_of_mem _ hp))
        (TxInv_applyOp fuel env c c1 o (hops (fuel, o) (List.mem_cons_self _ _)) hinv ha) h

theorem TxInv_createConnection (name databaseName statementPath user password host : String)
    (async : Bool) :
    TxInv (MySqlConnection.createConnection name databaseName statementPath user password host
      async) :=
  TxInv_of_on rfl rfl


/-! ## Claims C4 and C5: rollback on error, the transaction invariant -/

/-- C4: for a connection with a transaction open (transactions enabled,
auto-commit off on a server session) and every behaviour of the server: whenever
`reportError` returns, the driver's auto-commit flag is true and the facade's
transaction name is empty; and it does return, with enough fuel, as soon as the
server lets one of the successive rollback attempts succeed. -/
theorem C4_reportError_ends_transaction (env : Env) (c : MySqlConnection)
    (errorMessage : String) (errorNo : Int) (xh : Nat)
    (ht : c.isTransactions_ = true) (hac : c.impl_.isAutoCommit_ = false)
    (hdb : c.impl_.db_.isSome = true) :
    (∀ fuel c' rc, MySqlConnection.reportError fuel env c errorMessage errorNo xh = some (c', rc) →
      c'.impl_.isAutoCommit_ = true ∧ c'.transactionName_ = "") ∧
    ((∃ k, (env.srv.mysql_rollback (c.serverLog.length + k)).rc = 0) →
      ∃ fuel r, MySqlConnection.reportError fuel env c errorMessage errorNo xh = some r) := by
  constructor
  · intro fuel c' rc h
    exact (reportError_ok env fuel _ _ _ _ _ _ h).opened ht hac hdb
  · rintro ⟨k, hk⟩
    exact ⟨k + 1, reportError_total env k (k + 1) c errorMessage errorNo xh hk (Nat.le_refl _)⟩

/-- Witness of C4: the connection after `startTransaction("t")`. -/
theorem C4_reportError_ends_transaction_witness :
    exampleOpenTransaction.isTransactions_ = true ∧
    exampleOpenTransaction.impl_.isAutoCommit_ = false ∧
    exampleOpenTransaction.impl_.db_.isSome = true ∧
    exampleOpenTransaction.transactionName_ = "t" ∧
    ((∀ fuel c' rc,
        MySqlConnection.reportError fuel exampleEnv exampleOpenTransaction "failed" 1 0
          = some (c', rc) →
        c'.impl_.isAutoCommit_ = true ∧ c'.transactionName_ = "") ∧
      ((∃ k, (exampleEnv.srv.mysql_rollback (exampleOpenTransaction.serverLog.length + k)).rc = 0) →
        ∃ fuel r, MySqlConnection.reportError fuel exampleEnv exampleOpenTransaction "failed" 1 0
          = some r)) :=
  ⟨by decide, by decide, by decide, by decide,
   C4_reportError_ends_transaction exampleEnv exampleOpenTransaction "failed" 1 0
     (by decide) (by decide) (by decide)⟩

/-- C5 as stated fails on the code: after `startTransaction("")` auto-commit
is off while the name is empty, and after `startTransaction("t")` followed by
`close` auto-commit is on while the name is still `t`. -/
theorem C5_counterexample :
    (runOps exampleEnv exampleConnection [(1, ConnOp.startTransaction "")]).map
        (fun c => (c.transactionName_, c.impl_.isAutoCommit_)) = some ("", false) ∧
    (runOps exampleEnv exampleConnection
        [(1, ConnOp.startTransaction "t"), (1, ConnOp.close)]).map
        (fun c => (c.transactionName_, c.impl_.isAutoCommit_)) = some ("t", true) := by
  constructor <;> decide

/-- C5, amended: in every state reached from a freshly created connection
through `startTransaction` with a non-empty name, `commitTransaction`,
`rollbackTransaction` and `reportError` (any fuel, any server), the facade's
transaction name is non-empty exactly when the driver's auto-commit flag is
false. -/
theorem C5_name_iff_not_autocommit (env : Env)
    (name databaseName statementPath user password host : String) (async : Bool)
    (ops : List (Nat × ConnOp)) (c' : MySqlConnection)
    (hops : ∀ op ∈ ops, op.2.named = true)
    (h : runOps env
      (MySqlConnection.createConnection name databaseName statementPath user password host async)
      ops = some c') :
    (c'.transactionName_ ≠ "" ↔ c'.impl_.isAutoCommit_ = false) :=
  (TxInv_runOps env ops _ c' hops (TxInv_createConnection _ _ _ _ _ _ _) h).1

/-- Witness of C5, amended: a transaction is started and an error reported. -/
theorem C5_name_iff_not_autocommit_witness :
    (∀ op ∈ [((1 : Nat), ConnOp.startTransaction "t"), (2, ConnOp.reportError "failed" 1 0)],
      op.2.named = true) ∧
    runOps exampleEnv
      (MySqlConnection.createConnection "conn" "employees" "employees.json" "user" "password"
        "host" false)
      [(1, ConnOp.startTransaction "t"), (2, ConnOp.reportError "failed" 1 0)]
      = some exampleAfterError ∧
    (exampleAfterError.transactionName_ ≠ "" ↔ exampleAfterError.impl_.isAutoCommit_ = false) :=
  ⟨by decide, by decide,
   C5_name_iff_not_autocommit exampleEnv "conn" "employees" "employees.json" "user" "password"
     "host" false [(1, ConnOp.startTransaction "t"), (2, ConnOp.reportError "failed" 1 0)]
     exampleAfterError (by decide) (by decide)⟩

/-! ## Observers that do not redirect a transition -/

theorem ObsFrame.same (a b : Nat) (c : MySqlConnection) : ObsFrame a b c c :=
  ⟨rfl, rfl, fun _ => rfl, rfl, fun _ _ => rfl, fun _ => rfl, fun _ => rfl⟩

theorem ObsFrame.chain {a b d : Nat} {c1 c2 c3 : MySqlConnection}
    (h1 : ObsFrame a b c1 c2) (h2 : ObsFrame b d c2 c3) (hab : a ≤ b) (hbd : b ≤ d) :
    ObsFrame a d c1 c3 :=
  ⟨h2.core.trans h1.core, h2.execLen.trans h1.execLen,
   fun j => (h2.execCore j).trans (h1.execCore j), h2.obsLen.trans h1.obsLen,
   fun k hk => (h2.obsOther k (by omega)).trans (h1.obsOther k (by omega)),
   fun k => (h2.obsType k).trans (h1.obsType k),
   fun k => (h2.obsDoc k).trans (h1.obsDoc k)⟩

theorem set_of_length_le {α : Type} (l : List α) (i : Nat) (a : α) (h : l.length ≤ i) :
    l.set i a = l := by
  induction l generalizing i with
  | nil => simp
  | cons x xs ih =>
    cases i with
    | zero => simp at h
    | succ n =>
      simp only [List.set_cons_succ, List.cons.injEq, true_and]
      exact ih n (by simpa using h)

theorem setExec_of_length_le (c : MySqlConnection) (i : Nat) (e : MySqlExecution)
    (h : c.executions_.length ≤ i) : c.setExec i e = c := by
  simp only [MySqlConnection.setExec, set_of_length_le _ _ _ h]

theorem length_setExec (c : MySqlConnection) (i : Nat) (e : MySqlExecution) :
    (c.setExec i e).executions_.length = c.executions_.length := by
  simp [MySqlConnection.setExec]

/-- Storing an execution that differs from the stored one only in what `core`
erases. -/
theorem exec_core_setExec (c : MySqlConnection) (i : Nat) (e : MySqlExecution)
    (h : e.core = (c.exec i).core) (j : Nat) : ((c.setExec i e).exec j).core = (c.exec j).core := by
  by_cases hi : i < c.executions_.length
  · by_cases hj : j = i
    · subst hj; rw [exec_setExec_same _ _ _ hi]; exact h
    · rw [exec_setExec_other _ _ _ _ hj]
  · rw [setExec_of_length_le _ _ _ (by omega)]

theorem obs_setObs_same (c : MySqlConnection) (k : Nat) (o : MySqlObserver)
    (h : k < c.observers_.length) : (c.setObs k o).obs k = o := by
  simp only [MySqlConnection.obs, MySqlConnection.setObs]
  exact getD_set_same _ _ _ _ h

theorem obs_setObs_other (c : MySqlConnection) (k j : Nat) (o : MySqlObserver) (h : j ≠ k) :
    (c.setObs k o).obs j = c.obs j := by
  simp only [MySqlConnection.obs, MySqlConnection.setObs]
  exact getD_set_other _ _ _ _ _ h

theorem setObs_of_length_le (c : MySqlConnection) (k : Nat) (o : MySqlObserver)
    (h : c.observers_.length ≤ k) : c.setObs k o = c := by
  simp only [MySqlConnection.setObs, set_of_length_le _ _ _ h]

/-- Storing an execution that differs only in what `core` erases is within the
frame of the observers. -/
theorem ObsFrame.setExec (a b : Nat) (c : MySqlConnection) (i : Nat) (e : MySqlExecution)
    (h : e.core = (c.exec i).core) : ObsFrame a b c (c.setExec i e) :=
  ⟨rfl, length_setExec _ _ _, exec_core_setExec c i e h, rfl, fun _ _ => rfl, fun _ => rfl,
   fun _ => rfl⟩

/-- Storing an observer of the same class with the same replay document at
position `k` is within the frame of the observer at position `k`. -/
theorem ObsFrame.setObs (c : MySqlConnection) (k : Nat) (o : MySqlObserver)
    (ht : o.observerType = (c.obs k).observerType)
    (hd : o.replayExecutions_ = (c.obs k).replayExecutions_) :
    ObsFrame k (k + 1) c (c.setObs k o) := by
  refine ⟨rfl, rfl, fun _ => rfl, by simp [MySqlConnection.setObs], fun j hj => ?_,
    fun j => ?_, fun j => ?_⟩
  · exact obs_setObs_other _ _ _ _ (by omega)
  · by_cases hk : k < c.observers_.length
    · by_cases hj : j = k
      · subst hj; rw [obs_setObs_same _ _ _ hk]; exact ht
      · rw [obs_setObs_other _ _ _ _ hj]
    · rw [setObs_of_length_le _ _ _ (by omega)]
  · by_cases hk : k < c.observers_.length
    · by_cases hj : j = k
      · subst hj; rw [obs_setObs_same _ _ _ hk]; exact hd
      · rw [obs_setObs_other _ _ _ _ hj]
    · rw [setObs_of_length_le _ _ _ (by omega)]

theorem asJson_frame (a b : Nat) (c : MySqlConnection) (i : Nat) :
    ObsFrame a b c (MySqlExecution.asJson c i).1 := by
  unfold MySqlExecution.asJson
  split
  · exact ObsFrame.same _ _ _
  · exact ObsFrame.setExec _ _ _ _ _ rfl

theorem AuditObserver_onEvent_frame (c : MySqlConnection) (k i : Nat) (ns : ExecutionState) :
    (AuditObserver.onEvent c k i ns).2 = ns ∧
    ObsFrame k (k + 1) c (AuditObserver.onEvent c k i ns).1 := by
  unfold AuditObserver.onEvent
  split
  · exact ⟨rfl, ObsFrame.same _ _ _⟩
  · split
    · exact ⟨rfl, ObsFrame.same _ _ _⟩
    · refine ⟨rfl, ?_⟩
      have h := asJson_frame k (k + 1) c i
      exact ⟨h.core, h.execLen, h.execCore, h.obsLen, h.obsOther, h.obsType, h.obsDoc⟩

theorem obs_setExec (c : MySqlConnection) (i : Nat) (e : MySqlExecution) (k : Nat) :
    (c.setExec i e).obs k = c.obs k := rfl

theorem exec_setObs (c : MySqlConnection) (k : Nat) (o : MySqlObserver) (i : Nat) :
    (c.setObs k o).exec i = c.exec i := rfl

theorem exec_asJson (c : MySqlConnection) (i : Nat) (hi : i < c.executions_.length) :
    ((MySqlExecution.asJson c i).1.exec i) =
      { c.exec i with dom_ := ((MySqlExecution.asJson c i).1.exec i).dom_ } := by
  unfold MySqlExecution.asJson
  split
  · rfl
  · simp only [exec_setExec_same _ _ _ hi]

theorem CaptureObserver_onEvent_frame (c : MySqlConnection) (k i : Nat) (ns : ExecutionState)
    (hi : i < c.executions_.length) :
    (CaptureObserver.onEvent c k i ns).2 = ns ∧
    ObsFrame k (k + 1) c (CaptureObserver.onEvent c k i ns).1 := by
  unfold CaptureObserver.onEvent
  split
  · refine ⟨rfl, ?_⟩
    simp only []
    · have h1 : (c.setExec i { c.exec i with state_ := ns }).executions_.length
          = c.executions_.length := length_setExec _ _ _
      have ha := asJson_frame k (k + 1) (c.setExec i { c.exec i with state_ := ns }) i
      have he := exec_asJson (c.setExec i { c.exec i with state_ := ns }) i (by rw [h1]; exact hi)
      rw [exec_setExec_same _ _ _ hi] at he
      generalize (MySqlExecution.asJson (c.setExec i { c.exec i with state_ := ns }) i) = r
        at ha he ⊢
      obtain ⟨c2, dom⟩ := r
      simp only [] at ha he ⊢
      have hlen2 : c2.executions_.length = c.executions_.length := ha.execLen.trans h1
      refine ⟨?_, ?_, ?_, ?_, ?_, ?_, ?_⟩
      · exact ha.core
      · simp only [length_setExec]
        simpa [MySqlConnection.setObs] using hlen2
      · intro j
        by_cases hj : j = i
        · subst hj
          rw [exec_setExec_same _ _ _ (by simpa [MySqlConnection.setObs] using (hlen2 ▸ hi))]
          rw [exec_setObs, he]
          rfl
        · rw [exec_setExec_other _ _ _ _ hj, exec_setObs]
          have := ha.execCore j
          rw [exec_setExec_other _ _ _ _ hj] at this
          exact this
      · simp only [MySqlConnection.setExec, MySqlConnection.setObs, List.length_set]
        exact ha.obsLen
      · intro j hj
        rw [obs_setExec, obs_setObs_other _ _ _ _ (by omega)]
        exact ha.obsOther j hj
      · intro j
        rw [obs_setExec]
        by_cases hk : k < c2.observers_.length
        · by_cases hj : j = k
          · subst hj
            rw [obs_setObs_same _ _ _ hk]
            exact ha.obsType j
          · rw [obs_setObs_other _ _ _ _ hj]
            exact ha.obsType j
        · rw [setObs_of_length_le _ _ _ (by omega)]
          exact ha.obsType j
      · intro j
        rw [obs_setExec]
        by_cases hk : k < c2.observers_.length
        · by_cases hj : j = k
          · subst hj
            rw [obs_setObs_same _ _ _ hk]
            exact ha.obsDoc j
          · rw [obs_setObs_other _ _ _ _ hj]
            exact ha.obsDoc j
        · rw [setObs_of_length_le _ _ _ (by omega)]
          exact ha.obsDoc j
  · exact ⟨rfl, ObsFrame.same _ _ _⟩

theorem ReplayObserver_onEvent_quiet (fuel : Nat) (env : Env) (c : MySqlConnection) (k i : Nat)
    (ns : ExecutionState) (hns : ns ≠ ExecutionState.SQL_GENERATED_STATE) :
    ∃ c', ReplayObserver.onEvent fuel env c k i ns = some (c', ns) ∧ ObsFrame k (k + 1) c c' := by
  unfold ReplayObserver.onEvent
  simp only [hns, ne_eq, not_false_eq_true, if_true]
  refine ⟨_, rfl, ?_⟩
  split
  · exact ObsFrame.setObs c k _ rfl rfl
  · exact ObsFrame.same _ _ _

/-- An observer that does not redirect answers with the proposed state and
stays within its frame. -/
theorem onEvent_quiet (fuel : Nat) (env : Env) (c : MySqlConnection) (k i : Nat)
    (ns : ExecutionState) (hi : i < c.executions_.length) (hq : Quiet (c.obs k) ns) :
    ∃ c', MySqlObserver.onEvent fuel env c k i ns = some (c', ns) ∧ ObsFrame k (k + 1) c c' := by
  unfold MySqlObserver.onEvent
  rcases ht : (c.obs k).observerType with _ | _ | _ | _ | _
  · simp only []
    exact ⟨_, congrArg some (Prod.ext rfl (AuditObserver_onEvent_frame c k i ns).1),
      (AuditObserver_onEvent_frame c k i ns).2⟩
  · exact ⟨_, rfl, ObsFrame.same _ _ _⟩
  · exact ⟨_, rfl, ObsFrame.same _ _ _⟩
  · simp only []
    exact ⟨_, congrArg some (Prod.ext rfl (CaptureObserver_onEvent_frame c k i ns hi).1),
      (CaptureObserver_onEvent_frame c k i ns hi).2⟩
  · simp only []
    rcases hq with hq | hq
    · exact absurd ht hq
    · exact ReplayObserver_onEvent_quiet fuel env c k i ns hq

/-- A run of the loop of `changeState` over observers that do not redirect. -/
theorem changeStateLoop_quiet (fuel : Nat) (env : Env) (i : Nat) (ns : ExecutionState) (n : Nat) :
    ∀ (k : Nat) (c : MySqlConnection) (real : ExecutionState),
      i < c.executions_.length →
      (∀ k', k ≤ k' → k' < k + n → Quiet (c.obs k') ns) →
      ∃ c', MySqlExecution.changeStateLoop fuel env i ns n k c real = some (c', real) ∧
        ObsFrame k (k + n) c c' := by
  induction n with
  | zero =>
    intro k c real _ _
    exact ⟨c, rfl, ObsFrame.same _ _ _⟩
  | succ n ih =>
    intro k c real hi hq
    obtain ⟨c1, h1, hf1⟩ := onEvent_quiet fuel env c k i ns hi (hq k (Nat.le_refl _) (by omega))
    obtain ⟨c2, h2, hf2⟩ := ih (k + 1) c1 real (by rw [hf1.execLen]; exact hi)
      (fun k' hk1 hk2 => by
        have := hq k' (by omega) (by omega)
        unfold Quiet at this ⊢
        rw [hf1.obsType k']
        exact this)
    refine ⟨c2, ?_, ?_⟩
    · unfold MySqlExecution.changeStateLoop
      simp only [h1, ne_eq, not_true_eq_false, if_false]
      exact h2
    · have := hf1.chain hf2 (by omega) (by omega)
      have e : k + 1 + n = k + (n + 1) := by omega
      rw [e] at this
      exact this

theorem stamp_frame (c : MySqlConnection) (i : Nat) (ns : ExecutionState) :
    ObsFrame 0 0 c (if ns = ExecutionState.STATEMENT_COMPLETE_STATE
        ∨ ns = ExecutionState.ERROR_STATE then
      (c.setExec i { c.exec i with completeTime_ := c.now }).tick
    else c) := by
  split
  · have h := ObsFrame.setExec 0 0 c i { c.exec i with completeTime_ := c.now } rfl
    exact ⟨h.core, h.execLen, h.execCore, h.obsLen, h.obsOther, h.obsType, h.obsDoc⟩
  · exact ObsFrame.same _ _ _

theorem changeState_quiet (fuel : Nat) (env : Env) (c : MySqlConnection) (i : Nat)
    (ns : ExecutionState) (hi : i < c.executions_.length) (hq : ∀ k, Quiet (c.obs k) ns) :
    ∃ c', MySqlExecution.changeState fuel env c i ns = some (c', (c.exec i).errorNo_) ∧
      StateFrame i ns c c' := by
  unfold MySqlExecution.changeState
  have h0 := stamp_frame c i ns
  revert h0
  generalize (if ns = ExecutionState.STATEMENT_COMPLETE_STATE
        ∨ ns = ExecutionState.ERROR_STATE then
      (c.setExec i { c.exec i with completeTime_ := c.now }).tick
    else c) = c0
  intro h0
  simp only []
  have hi0 : i < c0.executions_.length := by rw [h0.execLen]; exact hi
  obtain ⟨c1, h1, hf1⟩ := changeStateLoop_quiet fuel env i ns c0.observers_.length 0 c0 ns hi0
    (fun k _ _ => by
      have := hq k
      unfold Quiet at this ⊢
      rw [h0.obsType k]
      exact this)
  rw [h1]
  simp only []
  have hi1 : i < c1.executions_.length := by rw [hf1.execLen]; exact hi0
  have hcore1 : (c1.exec i).core = (c.exec i).core := (hf1.execCore i).trans (h0.execCore i)
  refine ⟨c1.setExec i { c1.exec i with state_ := ns }, ?_, ?_⟩
  · rw [exec_setExec_same _ _ _ hi1]
    have := congrArg MySqlExecution.errorNo_ hcore1
    exact congrArg some (Prod.ext rfl this)
  · refine ⟨hf1.core.trans h0.core, ?_, ?_, ?_, ?_, ?_, ?_⟩
    · rw [length_setExec, hf1.execLen, h0.execLen]
    · intro j hj
      rw [exec_setExec_other _ _ _ _ hj]
      exact (hf1.execCore j).trans (h0.execCore j)
    · rw [exec_setExec_same _ _ _ hi1]
      show { (c1.exec i).core with state_ := ns } = _
      rw [hcore1]
    · exact hf1.obsLen.trans h0.obsLen
    · intro k
      exact (hf1.obsType k).trans (h0.obsType k)
    · intro k
      exact (hf1.obsDoc k).trans (h0.obsDoc k)

theorem core_trace {c c' : MySqlConnection} (h : c'.core = c.core) : c'.trace = c.trace := by
  have h1 := congrArg MySqlConnection.trace h
  exact h1

theorem core_impl {c c' : MySqlConnection} (h : c'.core = c.core) : c'.impl_ = c.impl_ := by
  have h1 := congrArg MySqlConnection.impl_ h
  exact h1

theorem core_serverLog {c c' : MySqlConnection} (h : c'.core = c.core) :
    c'.serverLog = c.serverLog := by
  have h1 := congrArg MySqlConnection.serverLog h
  exact h1

theorem core_isTransactions {c c' : MySqlConnection} (h : c'.core = c.core) :
    c'.isTransactions_ = c.isTransactions_ := by
  have h1 := congrArg MySqlConnection.isTransactions_ h
  exact h1

theorem core_async {c c' : MySqlConnection} (h : c'.core = c.core) : c'.async_ = c.async_ := by
  have h1 := congrArg MySqlConnection.async_ h
  exact h1

theorem core_transactionName {c c' : MySqlConnection} (h : c'.core = c.core) :
    c'.transactionName_ = c.transactionName_ := by
  have h1 := congrArg MySqlConnection.transactionName_ h
  exact h1

theorem core_nextAlloc {c c' : MySqlConnection} (h : c'.core = c.core) :
    c'.nextAlloc = c.nextAlloc := by
  have h1 := congrArg MySqlConnection.nextAlloc h
  exact h1

theorem core_setExec (c : MySqlConnection) (i : Nat) (e : MySqlExecution) :
    (c.setExec i e).core = c.core := rfl

theorem quiet_error (o : MySqlObserver) : Quiet o ExecutionState.ERROR_STATE :=
  Or.inr (by decide)

theorem exec_congr {c c' : MySqlConnection} (h : c'.executions_ = c.executions_) (j : Nat) :
    c'.exec j = c.exec j := by
  simp only [MySqlConnection.exec, h]

theorem obs_congr {c c' : MySqlConnection} (h : c'.observers_ = c.observers_) (k : Nat) :
    c'.obs k = c.obs k := by
  simp only [MySqlConnection.obs, h]

/-- `MySqlExecution::reportError`, when it returns. -/
theorem exec_reportError_spec (fuel : Nat) (env : Env) (c : MySqlConnection) (i : Nat)
    (errorMessage : String) (errorNo : Int) (hi : i < c.executions_.length)
    (c' : MySqlConnection) (rc : Int)
    (h : MySqlExecution.reportError fuel env c i errorMessage errorNo = some (c', rc)) :
    rc = errorNo ∧ ErrorFrame i errorMessage errorNo c c' := by
  unfold MySqlExecution.reportError at h
  simp only [] at h
  have hlen : (c.setExec i { c.exec i with
      rc_ := errorNo, errorNo_ := errorNo, errorMessage_ := errorMessage }).executions_.length
        = c.executions_.length := length_setExec _ _ _
  obtain ⟨c2, h2, hf2⟩ := changeState_quiet fuel env (c.setExec i { c.exec i with
      rc_ := errorNo, errorNo_ := errorNo, errorMessage_ := errorMessage }) i
    ExecutionState.ERROR_STATE (by rw [hlen]; exact hi) (fun k => quiet_error _)
  rw [h2] at h
  simp only [] at h
  have hp := reportError_ok env fuel _ _ _ _ _ _ h
  have hcore2 : c2.core = c.core := hf2.core
  refine ⟨hp.rc, ?_⟩
  refine ⟨?_, ?_, ?_, ?_, ?_, ?_, ?_, ?_, ?_, ?_, ?_⟩
  · rw [hp.frame.executions_, hf2.execLen, hlen]
  · intro j hj
    rw [exec_congr hp.frame.executions_ j, hf2.execOther j hj, exec_setExec_other _ _ _ _ hj]
  · rw [exec_congr hp.frame.executions_ i, hf2.execSelf, exec_setExec_same _ _ _ hi]
    rfl
  · rw [hp.frame.trace]
    exact core_trace hcore2
  · rw [hp.frame.isTransactions_]
    exact core_isTransactions hcore2
  · rw [hp.frame.async_]
    exact core_async hcore2
  · rw [hp.frame.observers_]
    exact hf2.obsLen
  · intro k
    rw [obs_congr hp.frame.observers_ k]
    exact hf2.obsType k
  · intro k
    rw [obs_congr hp.frame.observers_ k]
    exact hf2.obsDoc k
  · intro hdb
    apply hp.frame.db
    have : c2.impl_ = c.impl_ := core_impl hcore2
    rw [this]
    exact hdb
  · intro hcl
    have himpl : c2.impl_ = c.impl_ := core_impl hcore2
    have htx : c2.isTransactions_ = c.isTransactions_ := core_isTransactions hcore2
    have hlog : c2.serverLog = c.serverLog := core_serverLog hcore2
    have hname : c2.transactionName_ = c.transactionName_ := core_transactionName hcore2
    have := hp.closed (by rw [htx, himpl]; exact hcl)
    rw [this]
    exact ⟨himpl, hlog, hname⟩

/-- `MySqlExecution::reportError` returns, with enough fuel, when the server
lets a rollback succeed after finitely many attempts. -/
theorem exec_reportError_total (fuel : Nat) (env : Env) (c : MySqlConnection) (i : Nat)
    (errorMessage : String) (errorNo : Int) (hi : i < c.executions_.length) (k : Nat)
    (hk : (env.srv.mysql_rollback (c.serverLog.length + k)).rc = 0) (hfuel : k + 1 ≤ fuel) :
    ∃ r, MySqlExecution.reportError fuel env c i errorMessage errorNo = some r := by
  unfold MySqlExecution.reportError
  simp only []
  have hlen : (c.setExec i { c.exec i with
      rc_ := errorNo, errorNo_ := errorNo, errorMessage_ := errorMessage }).executions_.length
        = c.executions_.length := length_setExec _ _ _
  obtain ⟨c2, h2, hf2⟩ := changeState_quiet fuel env (c.setExec i { c.exec i with
      rc_ := errorNo, errorNo_ := errorNo, errorMessage_ := errorMessage }) i
    ExecutionState.ERROR_STATE (by rw [hlen]; exact hi) (fun k => quiet_error _)
  rw [h2]
  simp only []
  have hlog : c2.serverLog = c.serverLog := core_serverLog (c := c) hf2.core
  exact reportError_total env k fuel c2 _ _ _ (by rw [hlog]; exact hk) hfuel

theorem prepareToExecute_started (fuel : Nat) (env : Env) (c : MySqlConnection)
    (execution : MySqlExecution) :
    MySqlExecution.prepareToExecute fuel env
        { c with executions_ := c.executions_ ++ [execution] } c.executions_.length
      = MySqlExecution.crankStateMachine fuel env (c.started execution) c.executions_.length
          ExecutionState.SQL_GENERATED_STATE := rfl

theorem getD_append_length {α : Type} (l : List α) (a d : α) : (l ++ [a]).getD l.length d = a := by
  induction l with
  | nil => rfl
  | cons x xs ih => simp

theorem getD_append_lt {α : Type} (l : List α) (a d : α) (j : Nat) (h : j < l.length) :
    (l ++ [a]).getD j d = l.getD j d := by
  induction l generalizing j with
  | nil => simp at h
  | cons x xs ih =>
    cases j with
    | zero => rfl
    | succ n =>
      simp only [List.cons_append, List.getD_cons_succ]
      exact ih n (by simpa using h)

theorem started_length (c : MySqlConnection) (e : MySqlExecution) :
    (c.started e).executions_.length = c.executions_.length + 1 := by
  simp [MySqlConnection.started, MySqlConnection.setExec, MySqlConnection.tick]

theorem started_exec (c : MySqlConnection) (e : MySqlExecution) :
    (c.started e).exec c.executions_.length =
      { e with state_ := ExecutionState.INITIAL_STATE, rowCount_ := 0, rowsAffected_ := 0,
               startTime_ := c.now } := by
  have h1 : ({ c with executions_ := c.executions_ ++ [e] } : MySqlConnection).exec
      c.executions_.length = e := by
    simp only [MySqlConnection.exec]
    exact getD_append_length _ _ _
  have hl : c.executions_.length
      < ({ c with executions_ := c.executions_ ++ [e] } : MySqlConnection).executions_.length := by
    simp
  unfold MySqlConnection.started
  simp only [MySqlConnection.tick]
  show (MySqlConnection.setExec _ _ _).exec _ = _
  rw [exec_setExec_same]
  · show ({ (MySqlConnection.setExec _ _ _).exec _ with startTime_ := c.now } : MySqlExecution) = _
    rw [exec_setExec_same _ _ _ hl, h1]
  · simp [MySqlConnection.setExec]

theorem started_exec_other (c : MySqlConnection) (e : MySqlExecution) (j : Nat)
    (hj : j < c.executions_.length) : (c.started e).exec j = c.exec j := by
  unfold MySqlConnection.started
  simp only [MySqlConnection.tick]
  show (MySqlConnection.setExec _ _ _).exec _ = _
  rw [exec_setExec_other _ _ _ _ (by omega)]
  show (MySqlConnection.setExec _ _ _).exec _ = _
  rw [exec_setExec_other _ _ _ _ (by omega)]
  simp only [MySqlConnection.exec]
  exact getD_append_lt _ _ _ _ hj

theorem started_trace (c : MySqlConnection) (e : MySqlExecution) :
    (c.started e).trace = c.trace := rfl

theorem started_serverLog (c : MySqlConnection) (e : MySqlExecution) :
    (c.started e).serverLog = c.serverLog := rfl

theorem started_observers (c : MySqlConnection) (e : MySqlExecution) :
    (c.started e).observers_ = c.observers_ := rfl

theorem started_impl (c : MySqlConnection) (e : MySqlExecution) :
    (c.started e).impl_ = c.impl_ := rfl

theorem started_isTransactions (c : MySqlConnection) (e : MySqlExecution) :
    (c.started e).isTransactions_ = c.isTransactions_ := rfl

theorem started_async (c : MySqlConnection) (e : MySqlExecution) :
    (c.started e).async_ = c.async_ := rfl

theorem findStatement_none (statements : Statements) (name : String) :
    findStatement statements name = none ↔ ∀ d, (name, d) ∉ statements := by
  induction statements with
  | nil => simp [findStatement]
  | cons x xs ih =>
    obtain ⟨n, d⟩ := x
    unfold findStatement
    by_cases h : n = name
    · subst h
      simp only [if_true]
      constructor
      · intro h; cases h
      · intro h
        exact absurd (List.mem_cons_self _ _) (h d)
    · simp only [h, if_false, ih]
      constructor
      · intro hx d' hmem
        rcases List.mem_cons.mp hmem with heq | hmem
        · exact h (congrArg Prod.fst heq).symm
        · exact hx d' hmem
      · intro hx d' hmem
        exact hx d' (List.mem_cons_of_mem _ hmem)

theorem doExecute_eq (fuel : Nat) (env : Env) (c : MySqlConnection) (execution : MySqlExecution) :
    MySqlConnection.doExecute fuel env c execution =
      match MySqlExecution.crankStateMachine fuel env (c.started execution) c.executions_.length
          ExecutionState.SQL_GENERATED_STATE with
      | none => none
      | some (c2, rc) =>
        if rc ≠ 0 then some (c2, (c2.exec c.executions_.length).executionHandle_)
        else if c2.async_ then
          let r := ExecutionThread.putRequest c2 RequestType.EXECUTION_REQUEST
            (c2.exec c.executions_.length).executionHandle_ ""
          let c3 := r.1.setExec c.executions_.length
            { r.1.exec c.executions_.length with requestSequence_ := r.2 }
          some (c3, (c3.exec c.executions_.length).executionHandle_)
        else
          match MySqlExecution.execute fuel env c2 c.executions_.length with
          | none => none
          | some (c3, _) => some (c3, (c3.exec c.executions_.length).executionHandle_) := rfl

/-- The first turn of the crank loop on an execution whose statement is not in
the dictionary: `validateStatement` reports the error. -/
theorem crankLoop_unknown (env : Env) (i : Nat) (exitState : ExecutionState) (f : Nat)
    (c : MySqlConnection) (rc : Int) (statements : Statements)
    (hdict : env.statementDict = some statements)
    (hst : (c.exec i).state_ = ExecutionState.INITIAL_STATE)
    (hexit : exitState ≠ ExecutionState.INITIAL_STATE)
    (hfind : findStatement statements (c.exec i).statementName_ = none) :
    MySqlExecution.crankLoop env i exitState (f + 1) c rc =
      match MySqlExecution.reportError f env
          { c with trace := c.trace ++ [((c.exec i).executionHandle_,
            StateFunction.validateStatement)] } i
          ("Unknown statement \x27" ++ (c.exec i).statementName_ ++ "\x27") 1 with
      | none => none
      | some (c1, rc1) =>
        if rc1 ≠ 0 then some (c1, rc1)
        else MySqlExecution.crankLoop env i exitState f c1 rc1 := by
  have hne : ¬ ExecutionState.INITIAL_STATE = exitState := fun h => hexit h.symm
  have hex : ({ c with trace := c.trace ++ [((c.exec i).executionHandle_,
      StateFunction.validateStatement)] } : MySqlConnection).exec i = c.exec i := rfl
  rw [MySqlExecution.crankLoop]
  simp only [hst, hne, if_false, stateFunctionMap_, MySqlExecution.callStateFunction,
    MySqlExecution.validateStatement, hdict, hex, hfind]

theorem findHandle_spec (l : List MySqlExecution) (xh : Nat) :
    ∀ (p n : Nat), n < l.length →
      (∀ j, j < n → (l.getD j default).executionHandle_ ≠ xh) →
      (l.getD n default).executionHandle_ = xh → findHandle l xh p = some (p + n) := by
  induction l with
  | nil => intro p n h; simp at h
  | cons x xs ih =>
    intro p n hn hlt heq
    unfold findHandle
    cases n with
    | zero =>
      simp only [List.getD_cons_zero] at heq
      simp [heq]
    | succ m =>
      have h0 := hlt 0 (by omega)
      simp only [List.getD_cons_zero] at h0
      simp only [h0, if_false]
      rw [ih (p + 1) m (by simpa using hn)
        (fun j hj => by
          have := hlt (j + 1) (by omega)
          simpa using this)
        (by simpa using heq)]
      congr 1
      omega

theorem exec_mem (c : MySqlConnection) (j : Nat) (hj : j < c.executions_.length) :
    c.exec j ∈ c.executions_ := by
  simp only [MySqlConnection.exec]
  rw [List.getD_eq_getElem _ _ hj]
  exact List.getElem_mem _

theorem core_handle {e e' : MySqlExecution} (h : e'.core = e.core) :
    e'.executionHandle_ = e.executionHandle_ := by
  have h1 := congrArg MySqlExecution.executionHandle_ h
  exact h1

/-- C1: for every statement name that is not a member of the dictionary's
`statements`: whenever `execute` returns, it returns the handle of the new
execution, that execution is in the ERROR state with the error message
`Unknown statement '<name>'`, `getReturnCode` reports 1 for it (asked for the
most recent execution, or by its handle when the handle is fresh), and
`validateStatement` is the only transition function that was run; and
`execute` does return, with enough fuel, when the server lets a rollback
succeed after finitely many attempts. -/
theorem C1_unknown_statement (env : Env) (c : MySqlConnection) (statements : Statements)
    (statementName : String) (args : List (String × ArgValue)) (argDoc : Bool)
    (hdict : env.statementDict = some statements)
    (hname : ∀ d, (statementName, d) ∉ statements) :
    (∀ fuel c' h,
      MySqlConnection.execute fuel env c statementName args argDoc = some (c', h) →
      h = c.nextExecutionHandle_ ∧
      c'.executions_.length = c.executions_.length + 1 ∧
      (c'.exec c.executions_.length).executionHandle_ = h ∧
      (c'.exec c.executions_.length).state_ = ExecutionState.ERROR_STATE ∧
      (c'.exec c.executions_.length).errorMessage_
        = "Unknown statement \x27" ++ statementName ++ "\x27" ∧
      c'.getReturnCode 0 = some 1 ∧
      ((∀ e ∈ c.executions_, e.executionHandle_ ≠ h) → h ≠ 0 → c'.getReturnCode h = some 1) ∧
      c'.trace = c.trace ++ [(h, StateFunction.validateStatement)]) ∧
    ((∀ n, ∃ k, (env.srv.mysql_rollback (n + k)).rc = 0) →
      ∃ fuel r, MySqlConnection.execute fuel env c statementName args argDoc = some r) := by
  have hfind := (findStatement_none statements statementName).mpr hname
  have hS := started_exec { c with nextExecutionHandle_ := c.nextExecutionHandle_ + 1 }
    (MySqlExecution.new c statementName args argDoc)
  have hSlen := started_length { c with nextExecutionHandle_ := c.nextExecutionHandle_ + 1 }
    (MySqlExecution.new c statementName args argDoc)
  have hSother := started_exec_other { c with nextExecutionHandle_ := c.nextExecutionHandle_ + 1 }
    (MySqlExecution.new c statementName args argDoc)
  have hStrace := started_trace { c with nextExecutionHandle_ := c.nextExecutionHandle_ + 1 }
    (MySqlExecution.new c statementName args argDoc)
  revert hS hSlen hSother hStrace
  generalize hSdef : MySqlConnection.started
    { c with nextExecutionHandle_ := c.nextExecutionHandle_ + 1 }
    (MySqlExecution.new c statementName args argDoc) = S
  intro hS hSlen hSother hStrace
  simp only [] at hS hSlen hSother hStrace
  have hSst : (S.exec c.executions_.length).state_ = ExecutionState.INITIAL_STATE := by rw [hS]
  have hSname : (S.exec c.executions_.length).statementName_ = statementName := by rw [hS]; rfl
  have hShandle : (S.exec c.executions_.length).executionHandle_ = c.nextExecutionHandle_ := by
    rw [hS]; rfl
  have hcl := crankLoop_unknown env c.executions_.length ExecutionState.SQL_GENERATED_STATE
  have hi : c.executions_.length < S.executions_.length := by rw [hSlen]; omega
  constructor
  · intro fuel c' h hrun
    unfold MySqlConnection.execute at hrun
    rw [doExecute_eq] at hrun
    simp only [] at hrun
    rw [hSdef] at hrun
    unfold MySqlExecution.crankStateMachine at hrun
    cases fuel with
    | zero => simp [MySqlExecution.crankLoop] at hrun
    | succ f =>
      rw [hcl f S 0 statements hdict hSst (by decide) (by rw [hSname]; exact hfind)] at hrun
      rw [hSname, hShandle] at hrun
      rcases hr : MySqlExecution.reportError f env
          { S with trace := S.trace ++ [(c.nextExecutionHandle_, StateFunction.validateStatement)] }
          c.executions_.length ("Unknown statement \x27" ++ statementName ++ "\x27") 1
        with _ | ⟨c1, rc1⟩
      · simp [hr] at hrun
      · simp only [hr] at hrun
        obtain ⟨hrc, hf⟩ := exec_reportError_spec f env
          { S with trace := S.trace ++ [(c.nextExecutionHandle_, StateFunction.validateStatement)] }
          c.executions_.length _ _ hi c1 rc1 hr
        subst hrc
        simp only [ne_eq, one_ne_zero, not_false_eq_true, if_true, Option.some.injEq,
          Prod.mk.injEq] at hrun
        obtain ⟨h1, h2⟩ := hrun
        have hlen1 : c1.executions_.length = c.executions_.length + 1 := by
          rw [hf.execLen]; exact hSlen
        have hi1 : c.executions_.length < c1.executions_.length := by omega
        have hself := hf.execSelf
        have hex : ({ S with trace := S.trace ++
            [(c.nextExecutionHandle_, StateFunction.validateStatement)] } : MySqlConnection).exec
              c.executions_.length = S.exec c.executions_.length := rfl
        rw [hex] at hself
        have hc'exec : c'.exec c.executions_.length
            = { c1.exec c.executions_.length with rc_ := 1 } := by
          rw [← h1, exec_setExec_same _ _ _ hi1]
        have hhandle : (c1.exec c.executions_.length).executionHandle_ = c.nextExecutionHandle_ := by
          have h3 := congrArg MySqlExecution.executionHandle_ hself
          exact h3.trans hShandle
        have hh : h = c.nextExecutionHandle_ := by
          rw [← h2, exec_setExec_same _ _ _ hi1]; exact hhandle
        have hc'len : c'.executions_.length = c.executions_.length + 1 := by
          rw [← h1, length_setExec]; exact hlen1
        have hrc' : (c'.exec c.executions_.length).rc_ = 1 := by rw [hc'exec]
        refine ⟨hh, hc'len, ?_, ?_, ?_, ?_, ?_, ?_⟩
        · rw [hc'exec, hh]; exact hhandle
        · rw [hc'exec]
          have := congrArg MySqlExecution.state_ hself
          exact this
        · rw [hc'exec]
          have := congrArg MySqlExecution.errorMessage_ hself
          exact this
        · unfold MySqlConnection.getReturnCode MySqlConnection.getCompletedExecution
            MySqlConnection.findExecution
          have hne : c'.executions_.isEmpty = false := by
            cases hl : c'.executions_ with
            | nil => rw [hl] at hc'len; simp at hc'len
            | cons x xs => rfl
          simp only [hne, Bool.false_eq_true, if_false, if_true, hc'len, Nat.add_sub_cancel, hrc']
        · intro hfresh hnz
          unfold MySqlConnection.getReturnCode MySqlConnection.getCompletedExecution
            MySqlConnection.findExecution
          have hne : c'.executions_.isEmpty = false := by
            cases hl : c'.executions_ with
            | nil => rw [hl] at hc'len; simp at hc'len
            | cons x xs => rfl
          simp only [hne, Bool.false_eq_true, if_false, hnz]
          have hfh := findHandle_spec c'.executions_ h 0 c.executions_.length (by omega)
            (fun j hj => by
              have hcj : c'.exec j = c1.exec j := by
                rw [← h1, exec_setExec_other _ _ _ _ (by omega)]
              have h3 : (c1.exec j).core = (c.exec j).core := by
                rw [hf.execOther j (by omega)]
                show (S.exec j).core = _
                rw [hSother j hj]
                rfl
              show (c'.exec j).executionHandle_ ≠ h
              rw [hcj, core_handle h3]
              exact hfresh _ (exec_mem c j hj))
            (by
              show (c'.exec c.executions_.length).executionHandle_ = h
              rw [hc'exec, hh]; exact hhandle)
          rw [hfh]
          simp only [Nat.zero_add, hrc']
        · rw [← h1]
          show c1.trace = _
          rw [hf.trace, hh]
          show S.trace ++ _ = _
          rw [hStrace]
  · intro hsrv
    obtain ⟨k, hk⟩ := hsrv S.serverLog.length
    refine ⟨k + 2, ?_⟩
    unfold MySqlConnection.execute
    rw [doExecute_eq]
    simp only []
    rw [hSdef]
    unfold MySqlExecution.crankStateMachine
    rw [hcl (k + 1) S 0 statements hdict hSst (by decide) (by rw [hSname]; exact hfind)]
    obtain ⟨⟨c1, rc1⟩, hr⟩ := exec_reportError_total (k + 1) env
      { S with trace := S.trace ++ [((S.exec c.executions_.length).executionHandle_,
        StateFunction.validateStatement)] }
      c.executions_.length
      ("Unknown statement \x27" ++ (S.exec c.executions_.length).statementName_ ++ "\x27") 1 hi k
      hk (Nat.le_refl _)
    obtain ⟨hrc, _⟩ := exec_reportError_spec (k + 1) env
      { S with trace := S.trace ++ [((S.exec c.executions_.length).executionHandle_,
        StateFunction.validateStatement)] }
      c.executions_.length _ _ hi c1 rc1 hr
    subst hrc
    rw [hr]
    simp only [ne_eq, one_ne_zero, not_false_eq_true, if_true]
    exact ⟨_, rfl⟩

theorem C1_unknown_statement_witness :
    exampleEnv.statementDict = some exampleStatements ∧
    (∀ d, ("nope", d) ∉ exampleStatements) ∧
    ((∀ fuel c' h,
      MySqlConnection.execute fuel exampleEnv exampleConnection "nope" [] false = some (c', h) →
      h = exampleConnection.nextExecutionHandle_ ∧
      c'.executions_.length = exampleConnection.executions_.length + 1 ∧
      (c'.exec exampleConnection.executions_.length).executionHandle_ = h ∧
      (c'.exec exampleConnection.executions_.length).state_ = ExecutionState.ERROR_STATE ∧
      (c'.exec exampleConnection.executions_.length).errorMessage_
        = "Unknown statement \x27" ++ "nope" ++ "\x27" ∧
      c'.getReturnCode 0 = some 1 ∧
      ((∀ e ∈ exampleConnection.executions_, e.executionHandle_ ≠ h) → h ≠ 0 →
        c'.getReturnCode h = some 1) ∧
      c'.trace = exampleConnection.trace ++ [(h, StateFunction.validateStatement)]) ∧
    ((∀ n, ∃ k, (exampleEnv.srv.mysql_rollback (n + k)).rc = 0) →
      ∃ fuel r,
        MySqlConnection.execute fuel exampleEnv exampleConnection "nope" [] false = some r)) :=
  ⟨rfl, fun d h => by simp [exampleStatements] at h,
   C1_unknown_statement exampleEnv exampleConnection exampleStatements "nope" [] false rfl
     (fun d h => by simp [exampleStatements] at h)⟩

/-! ## Reuse of a prepared statement -/

theorem getdb_of_db (report : ReportFn) (env : Env) (c : MySqlConnection)
    (h : c.impl_.db_.isSome = true) : MySqlConnectionImpl.getdb report env c = some c := by
  unfold MySqlConnectionImpl.getdb
  cases hdb : c.impl_.db_ with
  | none => simp [hdb] at h
  | some db => rfl

theorem moveFrom_length (c : MySqlConnection) (i j : Nat) :
    (MySqlExecution.moveFrom c i j).executions_.length = c.executions_.length := by
  simp [MySqlExecution.moveFrom, MySqlConnection.setExec]

theorem moveFrom_core (c : MySqlConnection) (i j : Nat) :
    (MySqlExecution.moveFrom c i j).core = c.core := rfl

theorem moveFrom_observers (c : MySqlConnection) (i j : Nat) :
    (MySqlExecution.moveFrom c i j).observers_ = c.observers_ := rfl

theorem isSameStatementAs_iff (e p : MySqlExecution) :
    e.isSameStatementAs p = true ↔
      p.statementName_ = e.statementName_ ∧ p.statementText_ = e.statementText_ ∧
      p.isAutoCommit_ = e.isAutoCommit_ := by
  unfold MySqlExecution.isSameStatementAs
  by_cases h1 : p.statementName_ = e.statementName_
  · by_cases h2 : p.statementText_ = e.statementText_
    · by_cases h3 : p.isAutoCommit_ = e.isAutoCommit_
      · simp [h1, h2, h3]
      · simp [h1, h2, h3]
    · simp [h1, h2]
  · simp [h1]

theorem findLivePriorFrom_some (executions : List MySqlExecution) (e : MySqlExecution) (n j : Nat) :
    findLivePriorFrom executions e n = some j ↔
      j < n ∧ LivePrior e (executions.getD j default) ∧
      ∀ j', j < j' → j' < n → ¬ LivePrior e (executions.getD j' default) := by
  induction n with
  | zero => simp [findLivePriorFrom]
  | succ n ih =>
    unfold findLivePriorFrom
    by_cases hl : LivePrior e (executions.getD n default)
    · have hc : (executions.getD n default).statementHandle_ ≠ none
          ∧ e.isSameStatementAs (executions.getD n default) = true :=
        ⟨hl.1, (isSameStatementAs_iff _ _).mpr hl.2⟩
      simp only [hc, ne_eq, not_false_eq_true, and_self, if_true, Option.some.injEq]
      constructor
      · intro h
        subst h
        exact ⟨Nat.lt_succ_self _, hl, fun j' h1 h2 => by omega⟩
      · rintro ⟨h1, h2, h3⟩
        by_contra hne
        exact h3 n (by omega) (Nat.lt_succ_self _) hl
    · have hc : ¬ ((executions.getD n default).statementHandle_ ≠ none
          ∧ e.isSameStatementAs (executions.getD n default) = true) := by
        rintro ⟨h1, h2⟩
        exact hl ⟨h1, (isSameStatementAs_iff _ _).mp h2⟩
      simp only [hc, if_false]
      rw [ih]
      constructor
      · rintro ⟨h1, h2, h3⟩
        refine ⟨by omega, h2, fun j' h4 h5 => ?_⟩
        by_cases hj : j' = n
        · subst hj; exact hl
        · exact h3 j' h4 (by omega)
      · rintro ⟨h1, h2, h3⟩
        have hjn : j ≠ n := by
          rintro rfl
          exact hl h2
        exact ⟨by omega, h2, fun j' h4 h5 => h3 j' h4 (by omega)⟩

theorem findLivePriorFrom_none (executions : List MySqlExecution) (e : MySqlExecution) (n : Nat) :
    findLivePriorFrom executions e n = none ↔
      ∀ j, j < n → ¬ LivePrior e (executions.getD j default) := by
  induction n with
  | zero => simp [findLivePriorFrom]
  | succ n ih =>
    unfold findLivePriorFrom
    by_cases hl : LivePrior e (executions.getD n default)
    · have hc : (executions.getD n default).statementHandle_ ≠ none
          ∧ e.isSameStatementAs (executions.getD n default) = true :=
        ⟨hl.1, (isSameStatementAs_iff _ _).mpr hl.2⟩
      simp only [hc, ne_eq, not_false_eq_true, and_self, if_true]
      constructor
      · intro h; cases h
      · intro h
        exact absurd hl (h n (Nat.lt_succ_self _))
    · have hc : ¬ ((executions.getD n default).statementHandle_ ≠ none
          ∧ e.isSameStatementAs (executions.getD n default) = true) := by
        rintro ⟨h1, h2⟩
        exact hl ⟨h1, (isSameStatementAs_iff _ _).mp h2⟩
      simp only [hc, if_false]
      rw [ih]
      constructor
      · intro h j hj
        by_cases hjn : j = n
        · subst hjn; exact hl
        · exact h j (by omega)
      · intro h j hj
        exact h j (by omega)

/-- C7: for every executions list and every execution `e`,
`findLivePriorExecution(e)` returns the position `j` of an execution of the
list exactly when that execution satisfies the four conditions (live server
handle, same name, same generated text, same auto-commit snapshot) and no
execution created after it (at a later position of the list) does; it returns
the null pointer exactly when no execution of the list satisfies them. -/
theorem C7_findLivePriorExecution (c : MySqlConnection) (e : MySqlExecution) :
    (∀ j, MySqlConnectionImpl.findLivePriorExecution c e = some j ↔
      j < c.executions_.length ∧ LivePrior e (c.exec j) ∧
      ∀ j', j < j' → j' < c.executions_.length → ¬ LivePrior e (c.exec j')) ∧
    (MySqlConnectionImpl.findLivePriorExecution c e = none ↔
      ∀ j, j < c.executions_.length → ¬ LivePrior e (c.exec j)) :=
  ⟨fun j => findLivePriorFrom_some c.executions_ e c.executions_.length j,
   findLivePriorFrom_none c.executions_ e c.executions_.length⟩

theorem moveFrom_exec_self (c : MySqlConnection) (i j : Nat) (hij : i ≠ j)
    (hi : i < c.executions_.length) (hj : j < c.executions_.length) :
    (MySqlExecution.moveFrom c i j).exec i =
      { c.exec i with statementHandle_ := (c.exec j).statementHandle_,
                      paramCount_ := (c.exec j).paramCount_,
                      parameterBindArray_ := (c.exec j).parameterBindArray_ } := by
  have hji : j ≠ i := Ne.symm hij
  unfold MySqlExecution.moveFrom
  simp (disch := first | assumption | (simp only [length_setExec]; assumption)) only
    [exec_setExec_same, exec_setExec_other]

theorem moveFrom_exec_prior (c : MySqlConnection) (i j : Nat) (hij : i ≠ j)
    (hi : i < c.executions_.length) (hj : j < c.executions_.length) :
    (MySqlExecution.moveFrom c i j).exec j =
      { c.exec j with statementHandle_ := none, parameterBindArray_ := none } := by
  have hji : j ≠ i := Ne.symm hij
  unfold MySqlExecution.moveFrom
  simp (disch := first | assumption | (simp only [length_setExec]; assumption)) only
    [exec_setExec_same, exec_setExec_other]

theorem moveFrom_exec_other (c : MySqlConnection) (i j k : Nat) (hi : k ≠ i) (hj : k ≠ j) :
    (MySqlExecution.moveFrom c i j).exec k = c.exec k := by
  unfold MySqlExecution.moveFrom
  simp (disch := assumption) only [exec_setExec_other]

theorem exec_append_left (c : MySqlConnection) (pre rest : List MySqlExecution)
    (h : c.executions_ = pre ++ rest) (j : Nat) (hj : j < pre.length) :
    c.exec j = pre.getD j default := by
  simp only [MySqlConnection.exec, h]
  exact List.getD_append _ _ _ _ hj

theorem exec_append_right (c : MySqlConnection) (pre rest : List MySqlExecution)
    (h : c.executions_ = pre ++ rest) (j : Nat) :
    c.exec (pre.length + j) = rest.getD j default := by
  simp only [MySqlConnection.exec, h]
  rw [List.getD_append_right _ _ _ _ (by omega)]
  simp

/-- Reuse step: an execution whose immediate predecessor holds a server
statement handle for the same name, text and transaction mode takes the handle
over. -/
theorem C6_reuse_takes_over_handle (fuel : Nat) (env : Env) (c : MySqlConnection)
    (pre : List MySqlExecution) (e1 e2 : MySqlExecution) (h : MYSQL_STMT)
    (hexecs : c.executions_ = pre ++ [e1, e2])
    (hdb : c.impl_.db_.isSome = true)
    (hh1 : e1.statementHandle_ = some h)
    (hh2 : e2.statementHandle_ = none)
    (hname : e1.statementName_ = e2.statementName_)
    (htext : e1.statementText_ = e2.statementText_)
    (hac : e1.isAutoCommit_ = e2.isAutoCommit_) :
    ∃ c', MySqlExecution.createPreparedStatement fuel env c (pre.length + 1)
        = some (c', e2.errorNo_) ∧
      c'.executions_.length = c.executions_.length ∧
      (c'.exec (pre.length + 1)).state_ = ExecutionState.MYSQL_STMT_CREATED_STATE ∧
      (c'.exec (pre.length + 1)).statementHandle_ = some h ∧
      (c'.exec (pre.length + 1)).parameterBindArray_ = e1.parameterBindArray_ ∧
      (c'.exec (pre.length + 1)).paramCount_ = e1.paramCount_ ∧
      (c'.exec (pre.length + 1)).paramBuffer_ = e2.paramBuffer_ ∧
      (c'.exec pre.length).statementHandle_ = none ∧
      (c'.exec pre.length).parameterBindArray_ = none ∧
      (c'.exec pre.length).paramBuffer_ = e1.paramBuffer_ ∧
      (c'.exec pre.length).state_ = e1.state_ ∧
      c'.serverLog = c.serverLog ∧ c'.trace = c.trace ∧ c'.impl_ = c.impl_ := by
  have hlen : c.executions_.length = pre.length + 2 := by simp [hexecs]
  have he1 : c.exec pre.length = e1 := by
    have := exec_append_right c pre [e1, e2] hexecs 0
    simpa using this
  have he2 : c.exec (pre.length + 1) = e2 := by
    have := exec_append_right c pre [e1, e2] hexecs 1
    simpa using this
  have hfind : MySqlConnectionImpl.findLivePriorExecution c e2 = some pre.length := by
    unfold MySqlConnectionImpl.findLivePriorExecution
    rw [findLivePriorFrom_some]
    have g1 : c.executions_.getD pre.length default = e1 := he1
    have g2 : c.executions_.getD (pre.length + 1) default = e2 := he2
    refine ⟨by omega, ?_, ?_⟩
    · rw [g1]; exact ⟨by rw [hh1]; simp, hname, htext, hac⟩
    · intro j' h1 h2
      have : j' = pre.length + 1 := by omega
      subst this
      rw [g2]
      intro hl
      exact hl.1 hh2
  unfold MySqlExecution.createPreparedStatement
  rw [getdb_of_db _ _ _ hdb]
  simp only [he2, hfind]
  have hne : pre.length + 1 ≠ pre.length := by omega
  obtain ⟨c', hc', hf⟩ := changeState_quiet fuel env
    (MySqlExecution.moveFrom c (pre.length + 1) pre.length) (pre.length + 1)
    ExecutionState.MYSQL_STMT_CREATED_STATE (by rw [moveFrom_length]; omega)
    (fun k => Or.inr (by decide))
  have hself := hf.execSelf
  have hother := hf.execOther pre.length (by omega)
  rw [moveFrom_exec_self c _ _ hne (by omega) (by omega), he2, he1] at hself
  rw [moveFrom_exec_prior c _ _ hne (by omega) (by omega), he1] at hother
  rw [moveFrom_exec_self c _ _ hne (by omega) (by omega), he2] at hc'
  refine ⟨c', hc', ?_, ?_, ?_, ?_, ?_, ?_, ?_, ?_, ?_, ?_, ?_, ?_, ?_⟩
  · rw [hf.execLen, moveFrom_length]
  · have h1 := congrArg MySqlExecution.state_ hself; exact h1
  · have h1 := congrArg MySqlExecution.statementHandle_ hself; exact h1.trans hh1
  · have h1 := congrArg MySqlExecution.parameterBindArray_ hself; exact h1
  · have h1 := congrArg MySqlExecution.paramCount_ hself; exact h1
  · have h1 := congrArg MySqlExecution.paramBuffer_ hself; exact h1
  · have h1 := congrArg MySqlExecution.statementHandle_ hother; exact h1
  · have h1 := congrArg MySqlExecution.parameterBindArray_ hother; exact h1
  · have h1 := congrArg MySqlExecution.paramBuffer_ hother; exact h1
  · have h1 := congrArg MySqlExecution.state_ hother; exact h1
  · exact (core_serverLog hf.core).trans rfl
  · exact (core_trace hf.core).trans rfl
  · exact (core_impl hf.core).trans rfl

/-- C2, evaluation of the code: a statement whose server prepare fails (error
1064) stops the state machine with return code 1064, but the execution is left
in SQL_GENERATED with error number 0 and an empty error message; the error is
recorded on the connection only. -/
theorem C2_failed_prepare_not_recorded :
    (MySqlConnection.execute 20 exampleEnv exampleConnection "bad" [] false).map
      (fun r => (r.2, (r.1.exec 0).state_, (r.1.exec 0).rc_, (r.1.exec 0).errorNo_,
        (r.1.exec 0).errorMessage_, r.1.errorNo_, r.1.errorMessage_))
    = some (1, ExecutionState.SQL_GENERATED_STATE, 1064, 0, "", 1064,
        "MySql error preparing statement bad: syntax error (1064)") := by
  rfl

/-- C3, evaluation of the code: under a replay observer whose record at the
position of the execution names another statement, the execution ends in ERROR
and `getReturnCode` reports 0 for it. -/
theorem C3_replay_mismatch_returns_zero :
    (MySqlConnection.execute 20 exampleEnv
      (exampleObserved ObserverType.REPLAY_OBS
        [("/work/obs.prog.json",
          [exampleRecord "other" "select 1" ExecutionState.STATEMENT_COMPLETE_STATE])])
      "good" [] false).map
      (fun r => (r.2, (r.1.exec 0).state_, r.1.getReturnCode r.2, r.1.getReturnCode 0,
        r.1.errorMessage_))
    = some (1, ExecutionState.ERROR_STATE, some 0, some 0,
        "Statement names don\x27t match: other NE good") := by
  decide

/-- C8, evaluation of the code: the first execution of `two` is prepared
afresh, the server reports two markers where one is declared, and it ends in
ERROR keeping its handle; the second execution takes that handle over and
enters MYSQL_STMT_CREATED with parameter count 2 and one MARKER setting, then
runs to completion. -/
theorem C8_reuse_skips_marker_check :
    (exampleAfterTwo.exec 0).state_ = ExecutionState.ERROR_STATE ∧
    (exampleAfterTwo.exec 0).statementHandle_.isSome = true ∧
    exampleSecondTwo.map (fun r => ((r.1.exec 1).state_, (r.1.exec 1).paramCount_,
        countMarkers (r.1.exec 1).settings_, (r.1.exec 1).statementHandle_.isSome))
      = some (ExecutionState.MYSQL_STMT_CREATED_STATE, 2, 1, true) ∧
    (MySqlConnection.execute 20 exampleEnv exampleAfterTwo "two" [("a", Value.int 5)] false).map
      (fun r => ((r.1.exec 1).state_, r.1.getReturnCode r.2, (r.1.exec 1).paramCount_,
        countMarkers (r.1.exec 1).settings_))
      = some (ExecutionState.STATEMENT_COMPLETE_STATE, some 0, 2, 1) := by
  decide

/-- C9, evaluation of the code: the program `bad`, `good` run live under a
capture observer reads back return codes 1064 and 0; the execution of `bad`
never reaches a terminal state and is not captured; the replay of the same
program from the captured file reads back return code 0 for `bad`, and other
rows-affected for `good`. -/
theorem C9_replay_differs_from_live :
    exampleLiveRun.map (fun r => r.2.map (readBack r.1))
      = some [(some 1064, 0, 0, none), (some 0, 0, 1, none)] ∧
    (readFile exampleCaptured "/work/obs.prog.json").map
      (fun docs => docs.map (fun d => d.statement_name)) = some ["good"] ∧
    exampleReplayRun.map (fun r => r.2.map (readBack r.1))
      = some [(some 0, 0, 0, none), (some 0, 0, 0, none)] := by
  refine ⟨?_, ?_, ?_⟩ <;> rfl

/-- C10, counterexample: a replay record with the name and the text of the
execution whose recorded state is SQL_GENERATED does not redirect it;
`createPreparedStatement` and the transition functions after it run, and a
server session is opened. -/
theorem C10_counterexample :
    (MySqlConnection.execute 20 exampleEnv
      (exampleObserved ObserverType.REPLAY_OBS
        [("/work/obs.prog.json",
          [exampleRecord "good" "select 1" ExecutionState.SQL_GENERATED_STATE])])
      "good" [] false).map
      (fun r => (r.1.trace, r.1.impl_.db_.isSome, r.1.serverLog.length))
    = some ([(1, StateFunction.validateStatement), (1, StateFunction.createSettings),
        (1, StateFunction.generateStatementText), (1, StateFunction.createPreparedStatement),
        (1, StateFunction.prepareToBind), (1, StateFunction.bindParameters),
        (1, StateFunction.executeStatement)], true, 5) := by
  decide

theorem C6_reuse_takes_over_handle_witness :
    exampleSecondOne.executions_ = [] ++ [exampleSecondOne.exec 0, exampleSecondOne.exec 1] ∧
    exampleSecondOne.impl_.db_.isSome = true ∧
    (exampleSecondOne.exec 0).statementHandle_
      = some { id := 2, param_count := 1, fields := none } ∧
    (exampleSecondOne.exec 1).statementHandle_ = none ∧
    (exampleSecondOne.exec 0).statementName_ = (exampleSecondOne.exec 1).statementName_ ∧
    (exampleSecondOne.exec 0).statementText_ = (exampleSecondOne.exec 1).statementText_ ∧
    (exampleSecondOne.exec 0).isAutoCommit_ = (exampleSecondOne.exec 1).isAutoCommit_ ∧
    (exampleSecondOne.exec 0).parameterBindArray_.isSome = true ∧
    ∃ c', MySqlExecution.createPreparedStatement 20 exampleEnv exampleSecondOne 1
        = some (c', (exampleSecondOne.exec 1).errorNo_) ∧
      c'.executions_.length = exampleSecondOne.executions_.length ∧
      (c'.exec 1).state_ = ExecutionState.MYSQL_STMT_CREATED_STATE ∧
      (c'.exec 1).statementHandle_ = some { id := 2, param_count := 1, fields := none } ∧
      (c'.exec 1).parameterBindArray_ = (exampleSecondOne.exec 0).parameterBindArray_ ∧
      (c'.exec 1).paramCount_ = (exampleSecondOne.exec 0).paramCount_ ∧
      (c'.exec 1).paramBuffer_ = (exampleSecondOne.exec 1).paramBuffer_ ∧
      (c'.exec 0).statementHandle_ = none ∧
      (c'.exec 0).parameterBindArray_ = none ∧
      (c'.exec 0).paramBuffer_ = (exampleSecondOne.exec 0).paramBuffer_ ∧
      (c'.exec 0).state_ = (exampleSecondOne.exec 0).state_ ∧
      c'.serverLog = exampleSecondOne.serverLog ∧ c'.trace = exampleSecondOne.trace ∧
      c'.impl_ = exampleSecondOne.impl_ :=
  ⟨by rfl, by decide, by decide, by decide, by decide, by decide, by decide, by decide,
   C6_reuse_takes_over_handle 20 exampleEnv exampleSecondOne [] (exampleSecondOne.exec 0)
     (exampleSecondOne.exec 1) { id := 2, param_count := 1, fields := none }
     (by rfl) (by decide) (by decide) (by decide) (by decide) (by decide) (by decide)⟩

/-! ## The transition to SQL_GENERATED under a replay observer -/

theorem changeStateLoop_add (fuel : Nat) (env : Env) (i : Nat) (ns : ExecutionState) (a : Nat) :
    ∀ (b k : Nat) (c : MySqlConnection) (real : ExecutionState),
      MySqlExecution.changeStateLoop fuel env i ns (a + b) k c real =
        match MySqlExecution.changeStateLoop fuel env i ns a k c real with
        | none => none
        | some (c1, r1) => MySqlExecution.changeStateLoop fuel env i ns b (k + a) c1 r1 := by
  induction a with
  | zero =>
    intro b k c real
    simp [MySqlExecution.changeStateLoop]
  | succ a ih =>
    intro b k c real
    have e : a + 1 + b = (a + b) + 1 := by omega
    rw [e]
    simp only [MySqlExecution.changeStateLoop]
    rcases h : MySqlObserver.onEvent fuel env c k i ns with _ | ⟨c1, s1⟩
    · rfl
    · simp only []
      rw [ih]
      have e2 : k + 1 + a = k + (a + 1) := by omega
      rw [e2]

theorem reportError_noTransactions (fuel : Nat) (env : Env) (c : MySqlConnection)
    (errorMessage : String) (errorNo : Int) (xh : Nat) (htx : c.isTransactions_ = false) :
    MySqlConnection.reportError (fuel + 1) env c errorMessage errorNo xh
      = some (c.withError errorMessage errorNo xh, errorNo) := by
  unfold MySqlConnection.reportError
  change (match MySqlConnection.rollbackTransaction (MySqlConnection.reportError fuel env) env
      (c.withError errorMessage errorNo xh) "execution failed" with
    | none => none
    | some (c2, _) => some (c2, errorNo)) = _
  have h : MySqlConnection.rollbackTransaction (MySqlConnection.reportError fuel env) env
      (c.withError errorMessage errorNo xh) "execution failed"
        = some (c.withError errorMessage errorNo xh, 0) := by
    unfold MySqlConnection.rollbackTransaction
    have : (c.withError errorMessage errorNo xh).isTransactions_ = false := htx
    simp only [this, if_true]
  rw [h]

theorem isSameAs_none (e : MySqlExecution) (doc : ExecutionDoc)
    (hname : doc.statement_name = e.statementName_)
    (htext : doc.statement_text = e.statementText_) :
    MySqlExecution.isSameAs e doc = none := by
  unfold MySqlExecution.isSameAs
  simp [hname, htext]

theorem ReplayFrame.of_setExec (c : MySqlConnection) (i : Nat) (doc : ExecutionDoc)
    (e : MySqlExecution) (hi : i < c.executions_.length)
    (hrc : e.rc_ = doc.rc)
    (hrow : e.rowCount_ = doc.rows_returned.getD (c.exec i).rowCount_)
    (haff : e.rowsAffected_ = doc.rows_affected.getD (c.exec i).rowsAffected_)
    (hres : e.results_ = (doc.results.map some).getD (c.exec i).results_)
    (hh : e.statementHandle_ = (c.exec i).statementHandle_) :
    ReplayFrame i doc c (c.setExec i e) := by
  refine ⟨length_setExec _ _ _, fun j hj => by rw [exec_setExec_other _ _ _ _ hj], ?_, ?_, ?_, ?_,
    ?_, rfl, fun _ => rfl, rfl, rfl, rfl⟩ <;> rw [exec_setExec_same _ _ _ hi] <;> assumption

theorem ReplayFrame.storeError {i : Nat} {doc : ExecutionDoc} {c c' : MySqlConnection}
    (h : ReplayFrame i doc c c') (errorMessage : String) (errorNo : Int) (xh : Nat) :
    ReplayFrame i doc c (c'.withError errorMessage errorNo xh) :=
  ⟨h.execLen, h.execOther, h.rc, h.rowCount, h.rowsAffected, h.results, h.handle, h.obsLen,
   h.obsType, h.trace, h.serverLog, h.impl⟩

theorem setExec_setExec (c : MySqlConnection) (i : Nat) (e1 e2 : MySqlExecution) :
    (c.setExec i e1).setExec i e2 = c.setExec i e2 := by
  simp [MySqlConnection.setExec, List.set_set]

theorem ReplayObserver_onEvent_match (fuel : Nat) (env : Env) (c : MySqlConnection)
    (R i n : Nat) (recs : List ExecutionDoc) (doc : ExecutionDoc)
    (hi : i < c.executions_.length)
    (hstate : (c.exec i).state_ ≠ ExecutionState.INITIAL_STATE)
    (hdoc : (c.obs R).replayExecutions_ = some recs)
    (hnum : (c.obs R).executionNumber_ = n + 1)
    (hrec : recs.get? n = some doc)
    (hname : doc.statement_name = (c.exec i).statementName_)
    (htext : doc.statement_text = (c.exec i).statementText_)
    (htx : c.isTransactions_ = false) :
    ∃ c', ReplayObserver.onEvent (fuel + 1) env c R i ExecutionState.SQL_GENERATED_STATE
        = some (c', doc.state) ∧ ReplayFrame i doc c c' := by
  have hn : ¬ recs.length < n + 1 := by
    have := List.get?_eq_some.1 hrec
    obtain ⟨h, _⟩ := this
    omega
  unfold ReplayObserver.onEvent
  simp only [hstate, if_false, ne_eq, not_true_eq_false, hdoc, hnum, hn, hrec,
    isSameAs_none _ _ hname htext]
  have hrow : ∀ (o : Option Int) (d : Int),
      (match o with
        | some n => n
        | none => d) = o.getD d := by
    intro o d; cases o <;> rfl
  have hres : (match doc.results with
      | some r => some r
      | none => (c.exec i).results_) = (doc.results.map some).getD (c.exec i).results_ := by
    cases doc.results <;> rfl
  rcases he : doc.error_no with _ | en
  · simp only []
    exact ⟨_, rfl, ReplayFrame.of_setExec c i doc _ hi rfl (hrow _ _) (hrow _ _) hres rfl⟩
  · by_cases h0 : en = 0
    · simp only [h0, if_true]
      exact ⟨_, rfl, ReplayFrame.of_setExec c i doc _ hi rfl (hrow _ _) (hrow _ _) hres rfl⟩
    · simp only [h0, if_false]
      rw [setExec_setExec, reportError_noTransactions _ _ _ _ _ _ (by exact htx)]
      simp only []
      refine ⟨_, rfl, ?_⟩
      apply ReplayFrame.storeError
      refine ReplayFrame.of_setExec c i doc _ hi ?_ ?_ ?_ ?_ ?_
      · rfl
      · exact hrow _ _
      · exact hrow _ _
      · exact hres
      · rfl

theorem execCore_rc {e e' : MySqlExecution} (h : e'.core = e.core) :
    e'.rc_ = e.rc_ := by
  have h1 := congrArg MySqlExecution.rc_ h
  exact h1

theorem execCore_rowCount {e e' : MySqlExecution} (h : e'.core = e.core) :
    e'.rowCount_ = e.rowCount_ := by
  have h1 := congrArg MySqlExecution.rowCount_ h
  exact h1

theorem execCore_rowsAffected {e e' : MySqlExecution} (h : e'.core = e.core) :
    e'.rowsAffected_ = e.rowsAffected_ := by
  have h1 := congrArg MySqlExecution.rowsAffected_ h
  exact h1

theorem execCore_results {e e' : MySqlExecution} (h : e'.core = e.core) :
    e'.results_ = e.results_ := by
  have h1 := congrArg MySqlExecution.results_ h
  exact h1

theorem execCore_statementHandle {e e' : MySqlExecution} (h : e'.core = e.core) :
    e'.statementHandle_ = e.statementHandle_ := by
  have h1 := congrArg MySqlExecution.statementHandle_ h
  exact h1

theorem execCore_state {e e' : MySqlExecution} (h : e'.core = e.core) :
    e'.state_ = e.state_ := by
  have h1 := congrArg MySqlExecution.state_ h
  exact h1

theorem execCore_statementName {e e' : MySqlExecution} (h : e'.core = e.core) :
    e'.statementName_ = e.statementName_ := by
  have h1 := congrArg MySqlExecution.statementName_ h
  exact h1

theorem execCore_statementText {e e' : MySqlExecution} (h : e'.core = e.core) :
    e'.statementText_ = e.statementText_ := by
  have h1 := congrArg MySqlExecution.statementText_ h
  exact h1

theorem ReplayFrame.after {a b i : Nat} {doc : ExecutionDoc} {c c1 c2 : MySqlConnection}
    (h1 : ObsFrame a b c c1) (h2 : ReplayFrame i doc c1 c2) : ReplayFrame i doc c c2 := by
  have hc := h1.execCore i
  have e1 : (c1.exec i).rowCount_ = (c.exec i).rowCount_ := execCore_rowCount hc
  have e2 : (c1.exec i).rowsAffected_ = (c.exec i).rowsAffected_ := execCore_rowsAffected hc
  have e3 : (c1.exec i).results_ = (c.exec i).results_ := execCore_results hc
  have e4 : (c1.exec i).statementHandle_ = (c.exec i).statementHandle_ := execCore_statementHandle hc
  exact ⟨h2.execLen.trans h1.execLen, fun j hj => (h2.execOther j hj).trans (h1.execCore j),
    h2.rc, by rw [← e1]; exact h2.rowCount, by rw [← e2]; exact h2.rowsAffected,
    by rw [← e3]; exact h2.results, h2.handle.trans e4, h2.obsLen.trans h1.obsLen,
    fun k => (h2.obsType k).trans (h1.obsType k), h2.trace.trans (core_trace h1.core),
    h2.serverLog.trans (core_serverLog h1.core), h2.impl.trans (core_impl h1.core)⟩

theorem ReplayFrame.before {a b i : Nat} {doc : ExecutionDoc} {c c1 c2 : MySqlConnection}
    (h1 : ReplayFrame i doc c c1) (h2 : ObsFrame a b c1 c2) : ReplayFrame i doc c c2 := by
  have hc := h2.execCore i
  have e0 : (c2.exec i).rc_ = (c1.exec i).rc_ := execCore_rc hc
  have e1 : (c2.exec i).rowCount_ = (c1.exec i).rowCount_ := execCore_rowCount hc
  have e2 : (c2.exec i).rowsAffected_ = (c1.exec i).rowsAffected_ := execCore_rowsAffected hc
  have e3 : (c2.exec i).results_ = (c1.exec i).results_ := execCore_results hc
  have e4 : (c2.exec i).statementHandle_ = (c1.exec i).statementHandle_ := execCore_statementHandle hc
  exact ⟨h2.execLen.trans h1.execLen, fun j hj => (h2.execCore j).trans (h1.execOther j hj),
    e0.trans h1.rc, e1.trans h1.rowCount, e2.trans h1.rowsAffected, e3.trans h1.results,
    e4.trans h1.handle, h2.obsLen.trans h1.obsLen,
    fun k => (h2.obsType k).trans (h1.obsType k), (core_trace h2.core).trans h1.trace,
    (core_serverLog h2.core).trans h1.serverLog, (core_impl h2.core).trans h1.impl⟩

theorem ReplayFrame.setState {i : Nat} {doc : ExecutionDoc} {c c1 : MySqlConnection}
    (h : ReplayFrame i doc c c1) (hi : i < c1.executions_.length) (s : ExecutionState) :
    ReplayFrame i doc c (c1.setExec i { c1.exec i with state_ := s }) := by
  refine ⟨(length_setExec _ _ _).trans h.execLen,
    fun j hj => by rw [exec_setExec_other _ _ _ _ hj]; exact h.execOther j hj,
    ?_, ?_, ?_, ?_, ?_, h.obsLen, h.obsType, h.trace, h.serverLog, h.impl⟩ <;>
    rw [exec_setExec_same _ _ _ hi]
  · exact h.rc
  · exact h.rowCount
  · exact h.rowsAffected
  · exact h.results
  · exact h.handle

theorem crankLoop_terminal (env : Env) (i : Nat) (exitState : ExecutionState) (f : Nat)
    (c : MySqlConnection) (rc : Int) (h : stateFunctionMap_ (c.exec i).state_ = none) :
    MySqlExecution.crankLoop env i exitState (f + 1) c rc = some (c, rc) := by
  rw [MySqlExecution.crankLoop]
  split
  · rfl
  · simp only [h]

theorem changeState_eq_loop (fuel : Nat) (env : Env) (c : MySqlConnection) (i : Nat)
    (ns : ExecutionState) (h1 : ns ≠ ExecutionState.STATEMENT_COMPLETE_STATE)
    (h2 : ns ≠ ExecutionState.ERROR_STATE) :
    MySqlExecution.changeState fuel env c i ns =
      match MySqlExecution.changeStateLoop fuel env i ns c.observers_.length 0 c ns with
      | none => none
      | some (c1, realNewState) =>
        some (c1.setExec i { c1.exec i with state_ := realNewState },
          ((c1.setExec i { c1.exec i with state_ := realNewState }).exec i).errorNo_) := by
  unfold MySqlExecution.changeState
  have h : ¬ (ns = ExecutionState.STATEMENT_COMPLETE_STATE ∨ ns = ExecutionState.ERROR_STATE) := by
    rintro (h | h)
    · exact h1 h
    · exact h2 h
  simp only [h, if_false]

/-- The observer loop of `changeState(SQL_GENERATED)` when the observer at
position `R` is the only replay observer and its record matches. -/
theorem changeStateLoop_replay (fuel : Nat) (env : Env) (c : MySqlConnection)
    (R i n : Nat) (recs : List ExecutionDoc) (doc : ExecutionDoc)
    (hi : i < c.executions_.length)
    (hR : R < c.observers_.length)
    (hRO : (c.obs R).observerType = ObserverType.REPLAY_OBS)
    (hother : ∀ k, k ≠ R → (c.obs k).observerType ≠ ObserverType.REPLAY_OBS)
    (hstate : (c.exec i).state_ ≠ ExecutionState.INITIAL_STATE)
    (hdoc : (c.obs R).replayExecutions_ = some recs)
    (hnum : (c.obs R).executionNumber_ = n + 1)
    (hrec : recs.get? n = some doc)
    (hname : doc.statement_name = (c.exec i).statementName_)
    (htext : doc.statement_text = (c.exec i).statementText_)
    (hterm : doc.state ≠ ExecutionState.SQL_GENERATED_STATE)
    (htx : c.isTransactions_ = false) :
    ∃ c', MySqlExecution.changeStateLoop (fuel + 1) env i ExecutionState.SQL_GENERATED_STATE
        c.observers_.length 0 c ExecutionState.SQL_GENERATED_STATE = some (c', doc.state) ∧
      ReplayFrame i doc c c' := by
  obtain ⟨m, hm⟩ : ∃ m, c.observers_.length = R + (1 + m) :=
    ⟨c.observers_.length - R - 1, by omega⟩
  rw [hm, changeStateLoop_add]
  obtain ⟨ca, ha, fa⟩ := changeStateLoop_quiet (fuel + 1) env i
    ExecutionState.SQL_GENERATED_STATE R 0 c ExecutionState.SQL_GENERATED_STATE hi
    (fun k _ hk => Or.inl (hother k (by omega)))
  rw [ha]
  simp only [Nat.zero_add]
  have hca := fa.execCore i
  have hia : i < ca.executions_.length := by rw [fa.execLen]; exact hi
  have hobs : ca.obs R = c.obs R := fa.obsOther R (Or.inr (by omega))
  obtain ⟨cb, hb, fb⟩ := ReplayObserver_onEvent_match fuel env ca R i n recs doc hia
    (by rw [execCore_state hca]; exact hstate)
    (by rw [hobs]; exact hdoc) (by rw [hobs]; exact hnum) hrec
    (by rw [execCore_statementName hca]; exact hname)
    (by rw [execCore_statementText hca]; exact htext)
    ((core_isTransactions fa.core).trans htx)
  have hev : MySqlObserver.onEvent (fuel + 1) env ca R i ExecutionState.SQL_GENERATED_STATE
      = some (cb, doc.state) := by
    unfold MySqlObserver.onEvent
    have ht : (ca.obs R).observerType = ObserverType.REPLAY_OBS := by rw [hobs]; exact hRO
    simp only [ht]
    exact hb
  have hstep : MySqlExecution.changeStateLoop (fuel + 1) env i ExecutionState.SQL_GENERATED_STATE
      1 R ca ExecutionState.SQL_GENERATED_STATE = some (cb, doc.state) := by
    simp only [MySqlExecution.changeStateLoop, hev, ne_eq, hterm, not_false_eq_true, if_true]
  rw [changeStateLoop_add, hstep]
  simp only []
  obtain ⟨cc, hc, fc⟩ := changeStateLoop_quiet (fuel + 1) env i
    ExecutionState.SQL_GENERATED_STATE m (R + 1) cb doc.state
    (by rw [fb.execLen]; exact hia)
    (fun k hk _ => Or.inl (by
      rw [fb.obsType k, fa.obsType k]
      exact hother k (by omega)))
  rw [hc]
  exact ⟨cc, rfl, ((ReplayFrame.after fa fb).before fc)⟩

/-- After a terminal state is reached without a statement handle, `execute`
calls no transition function and leaves the driver alone. -/
theorem execute_terminal (fuel : Nat) (env : Env) (c : MySqlConnection) (i : Nat)
    (hi : i < c.executions_.length)
    (hs : stateFunctionMap_ (c.exec i).state_ = none)
    (hh : (c.exec i).statementHandle_ = none) :
    MySqlExecution.execute (fuel + 1) env c i
      = some (c.setExec i { c.exec i with rc_ := 0 }, 0) := by
  unfold MySqlExecution.execute MySqlExecution.crankStateMachine
  rw [crankLoop_terminal env i _ fuel c 0 hs]
  simp only []
  unfold MySqlExecution.close
  rw [exec_setExec_same _ _ _ hi]
  simp only [hh]

/-- C10 (amended): under a replay observer whose record at the position of the
execution has the name and the text of the execution and a recorded state
STATEMENT_COMPLETE or ERROR, the observer answers the proposed SQL_GENERATED
transition with the recorded state, `changeState` puts the execution into
that state with the recorded return code, counts and results, and the
`execute` that follows calls no transition function: the trace, the server
log and the driver (with its session) are those before the transition. -/
theorem C10_replay_short_circuits (fuel fuel' : Nat) (env : Env) (c : MySqlConnection)
    (R i n : Nat) (recs : List ExecutionDoc) (doc : ExecutionDoc)
    (hi : i < c.executions_.length)
    (hR : R < c.observers_.length)
    (hRO : (c.obs R).observerType = ObserverType.REPLAY_OBS)
    (hother : ∀ k, k ≠ R → (c.obs k).observerType ≠ ObserverType.REPLAY_OBS)
    (hstate : (c.exec i).state_ = ExecutionState.SETTINGS_CREATED_STATE)
    (hhandle : (c.exec i).statementHandle_ = none)
    (hdoc : (c.obs R).replayExecutions_ = some recs)
    (hnum : (c.obs R).executionNumber_ = n + 1)
    (hrec : recs.get? n = some doc)
    (hname : doc.statement_name = (c.exec i).statementName_)
    (htext : doc.statement_text = (c.exec i).statementText_)
    (hterm : doc.state = ExecutionState.STATEMENT_COMPLETE_STATE
      ∨ doc.state = ExecutionState.ERROR_STATE)
    (htx : c.isTransactions_ = false) :
    (∃ c1, ReplayObserver.onEvent (fuel + 1) env c R i ExecutionState.SQL_GENERATED_STATE
      = some (c1, doc.state)) ∧
    ∃ c' rc,
      MySqlExecution.changeState (fuel + 1) env c i ExecutionState.SQL_GENERATED_STATE
        = some (c', rc) ∧
      (c'.exec i).state_ = doc.state ∧
      (c'.exec i).rc_ = doc.rc ∧
      (c'.exec i).rowCount_ = doc.rows_returned.getD (c.exec i).rowCount_ ∧
      (c'.exec i).rowsAffected_ = doc.rows_affected.getD (c.exec i).rowsAffected_ ∧
      (c'.exec i).results_ = (doc.results.map some).getD (c.exec i).results_ ∧
      c'.trace = c.trace ∧ c'.serverLog = c.serverLog ∧ c'.impl_ = c.impl_ ∧
      ∃ c'', MySqlExecution.execute (fuel' + 1) env c' i = some (c'', 0) ∧
        (c''.exec i).state_ = doc.state ∧
        c''.trace = c.trace ∧ c''.serverLog = c.serverLog ∧ c''.impl_ = c.impl_ := by
  have hst : (c.exec i).state_ ≠ ExecutionState.INITIAL_STATE := by rw [hstate]; decide
  have hne : doc.state ≠ ExecutionState.SQL_GENERATED_STATE := by
    rcases hterm with h | h <;> rw [h] <;> decide
  have hmap : stateFunctionMap_ doc.state = none := by
    rcases hterm with h | h <;> rw [h] <;> rfl
  refine ⟨?_, ?_⟩
  · obtain ⟨c1, h1, _⟩ := ReplayObserver_onEvent_match fuel env c R i n recs doc hi hst hdoc hnum
      hrec hname htext htx
    exact ⟨c1, h1⟩
  · obtain ⟨c1, h1, f1⟩ := changeStateLoop_replay fuel env c R i n recs doc hi hR hRO hother hst
      hdoc hnum hrec hname htext hne htx
    have hi1 : i < c1.executions_.length := by rw [f1.execLen]; exact hi
    have f2 := f1.setState hi1 doc.state
    have hs2 : ((c1.setExec i { c1.exec i with state_ := doc.state }).exec i).state_ = doc.state := by
      rw [exec_setExec_same _ _ _ hi1]
    have hi2 : i < (c1.setExec i { c1.exec i with state_ := doc.state }).executions_.length := by
      rw [length_setExec]; exact hi1
    have key : ∃ c2, MySqlExecution.changeState (fuel + 1) env c i
          ExecutionState.SQL_GENERATED_STATE = some (c2, (c2.exec i).errorNo_) ∧
        ReplayFrame i doc c c2 ∧ (c2.exec i).state_ = doc.state ∧ i < c2.executions_.length :=
      ⟨_, by rw [changeState_eq_loop _ _ _ _ _ (by decide) (by decide), h1], f2, hs2, hi2⟩
    obtain ⟨c2, hc2, g2, hs, hlen⟩ := key
    refine ⟨c2, _, hc2, hs, g2.rc, g2.rowCount, g2.rowsAffected, g2.results, g2.trace,
      g2.serverLog, g2.impl, ?_⟩
    refine ⟨_, execute_terminal fuel' env c2 i hlen (by rw [hs]; exact hmap)
      (g2.handle.trans hhandle), ?_, g2.trace, g2.serverLog, g2.impl⟩
    rw [exec_setExec_same _ _ _ hlen]
    exact hs

theorem obs_of_length_le (c : MySqlConnection) (k : Nat) (h : c.observers_.length ≤ k) :
    c.obs k = default := by
  simp only [MySqlConnection.obs]
  exact List.getD_eq_default _ _ h

theorem C10_replay_short_circuits_witness :
    0 < exampleReplayPoint.executions_.length ∧
    0 < exampleReplayPoint.observers_.length ∧
    (exampleReplayPoint.obs 0).observerType = ObserverType.REPLAY_OBS ∧
    (∀ k, k ≠ 0 → (exampleReplayPoint.obs k).observerType ≠ ObserverType.REPLAY_OBS) ∧
    (exampleReplayPoint.exec 0).state_ = ExecutionState.SETTINGS_CREATED_STATE ∧
    (exampleReplayPoint.exec 0).statementHandle_ = none ∧
    (exampleReplayPoint.obs 0).replayExecutions_
      = some [exampleRecord "good" "select 1" ExecutionState.STATEMENT_COMPLETE_STATE] ∧
    (exampleReplayPoint.obs 0).executionNumber_ = 0 + 1 ∧
    exampleReplayPoint.isTransactions_ = false ∧
    ((∃ c1, ReplayObserver.onEvent (0 + 1) exampleEnv exampleReplayPoint 0 0
        ExecutionState.SQL_GENERATED_STATE
      = some (c1, (exampleRecord "good" "select 1"
          ExecutionState.STATEMENT_COMPLETE_STATE).state)) ∧
    ∃ c' rc,
      MySqlExecution.changeState (0 + 1) exampleEnv exampleReplayPoint 0
        ExecutionState.SQL_GENERATED_STATE = some (c', rc) ∧
      (c'.exec 0).state_
        = (exampleRecord "good" "select 1" ExecutionState.STATEMENT_COMPLETE_STATE).state ∧
      (c'.exec 0).rc_
        = (exampleRecord "good" "select 1" ExecutionState.STATEMENT_COMPLETE_STATE).rc ∧
      (c'.exec 0).rowCount_
        = (exampleRecord "good" "select 1"
            ExecutionState.STATEMENT_COMPLETE_STATE).rows_returned.getD
          (exampleReplayPoint.exec 0).rowCount_ ∧
      (c'.exec 0).rowsAffected_
        = (exampleRecord "good" "select 1"
            ExecutionState.STATEMENT_COMPLETE_STATE).rows_affected.getD
          (exampleReplayPoint.exec 0).rowsAffected_ ∧
      (c'.exec 0).results_
        = ((exampleRecord "good" "select 1"
            ExecutionState.STATEMENT_COMPLETE_STATE).results.map some).getD
          (exampleReplayPoint.exec 0).results_ ∧
      c'.trace = exampleReplayPoint.trace ∧ c'.serverLog = exampleReplayPoint.serverLog ∧
      c'.impl_ = exampleReplayPoint.impl_ ∧
      ∃ c'', MySqlExecution.execute (0 + 1) exampleEnv c' 0 = some (c'', 0) ∧
        (c''.exec 0).state_
          = (exampleRecord "good" "select 1" ExecutionState.STATEMENT_COMPLETE_STATE).state ∧
        c''.trace = exampleReplayPoint.trace ∧ c''.serverLog = exampleReplayPoint.serverLog ∧
        c''.impl_ = exampleReplayPoint.impl_) ∧
    (MySqlConnection.execute 20 exampleEnv
      (exampleObserved ObserverType.REPLAY_OBS
        [("/work/obs.prog.json",
          [exampleRecord "good" "select 1" ExecutionState.STATEMENT_COMPLETE_STATE])])
      "good" [] false).map
      (fun r => ((r.1.exec 0).state_, r.1.trace, r.1.impl_.db_.isSome, r.1.serverLog.length))
    = some (ExecutionState.STATEMENT_COMPLETE_STATE,
        [(1, StateFunction.validateStatement), (1, StateFunction.createSettings),
         (1, StateFunction.generateStatementText)], false, 0) :=
  have hother : ∀ k, k ≠ 0 →
      (exampleReplayPoint.obs k).observerType ≠ ObserverType.REPLAY_OBS := fun k hk => by
    rw [obs_of_length_le _ _ (by
      have h : exampleReplayPoint.observers_.length = 1 := by decide
      omega)]
    decide
  ⟨by decide, by decide, by decide, hother, by decide, by decide, by decide, by decide,
   by decide,
   C10_replay_short_circuits 0 0 exampleEnv exampleReplayPoint 0 0 0
     [exampleRecord "good" "select 1" ExecutionState.STATEMENT_COMPLETE_STATE]
     (exampleRecord "good" "select 1" ExecutionState.STATEMENT_COMPLETE_STATE)
     (by decide) (by decide) (by decide) hother (by decide) (by decide) (by decide) (by decide)
     (by rfl) (by decide) (by decide) (Or.inl rfl) (by decide),
   by decide⟩

theorem dropWhile_isDigit_append (ds t : List Char) (hd : ∀ ch ∈ ds, ch.isDigit = true)
    (ht : NoDigitAhead t) : (ds ++ t).dropWhile Char.isDigit = t := by
  induction ds with
  | nil =>
    cases t with
    | nil => rfl
    | cons ch rest =>
      have := ht ch rfl
      simp [List.dropWhile, this]
  | cons d ds ih =>
    have h1 := hd d (List.mem_cons_self _ _)
    simp only [List.cons_append, List.dropWhile, h1]
    exact ih (fun ch hch => hd ch (List.mem_cons_of_mem _ hch))

theorem skipDigits_append (ds t : List Char) (hg : IsDigitGroup ds) (ht : NoDigitAhead t) :
    skipDigits (ds ++ t) = some t := by
  obtain ⟨hne, hd⟩ := hg
  cases ds with
  | nil => exact absurd rfl hne
  | cons d ds =>
    have h1 := hd d (List.mem_cons_self _ _)
    simp only [List.cons_append, skipDigits, h1, if_true]
    rw [dropWhile_isDigit_append ds t (fun ch hch => hd ch (List.mem_cons_of_mem _ hch)) ht]

theorem digitsValue_append (ds t : List Char) (hd : ∀ ch ∈ ds, ch.isDigit = true)
    (ht : NoDigitAhead t) : ∀ acc, digitsValue (ds ++ t) acc = digitsValue ds acc := by
  induction ds with
  | nil =>
    intro acc
    cases t with
    | nil => rfl
    | cons ch rest =>
      have := ht ch rfl
      simp [digitsValue, this]
  | cons d ds ih =>
    intro acc
    have h1 := hd d (List.mem_cons_self _ _)
    simp only [List.cons_append, digitsValue, h1, if_true]
    exact ih (fun ch hch => hd ch (List.mem_cons_of_mem _ hch)) _

theorem isDigit_not_isspace (ch : Char) (h : ch.isDigit = true) : isspace ch = false := by
  cases hs : isspace ch with
  | false => rfl
  | true =>
    simp only [isspace, Bool.decide_or, Bool.or_eq_true, decide_eq_true_eq] at hs
    rcases hs with h1 | h1 | h1 | h1 | h1 | h1 <;> subst h1 <;> exact absurd h (by decide)

theorem atoi_digits (ds t : List Char) (hg : IsDigitGroup ds) (ht : NoDigitAhead t)
    (hv : digitsValue ds 0 ≤ INT_MAX) : atoi (ds ++ t) = some (digitsValue ds 0 : Int) := by
  obtain ⟨hne, hd⟩ := hg
  cases ds with
  | nil => exact absurd rfl hne
  | cons d ds =>
    have h1 := hd d (List.mem_cons_self _ _)
    have hsp := isDigit_not_isspace d h1
    have hminus : d ≠ '-' := by rintro rfl; exact absurd h1 (by decide)
    have hplus : d ≠ '+' := by rintro rfl; exact absurd h1 (by decide)
    have hval := digitsValue_append (d :: ds) t hd ht 0
    unfold atoi
    simp only [List.cons_append, List.dropWhile, hsp]
    split
    · rename_i rest heq
      exact absurd (List.cons.inj heq).1 hminus
    · rename_i rest heq
      exact absurd (List.cons.inj heq).1 hplus
    · have hval2 : digitsValue (d :: ds.append t) 0 = digitsValue (d :: ds) 0 := hval
      rw [hval2]
      simp only [hv, if_true]

theorem toUnsigned_natCast (n : Nat) (h : n ≤ INT_MAX) : toUnsigned (n : Int) = n := by
  unfold toUnsigned
  unfold INT_MAX at h
  omega

theorem isDateSeparator_noDigit (sep : Char) (t : List Char) (h : isDateSeparator sep = true) :
    NoDigitAhead (sep :: t) := by
  intro ch hch
  simp only [List.head?, Option.some.injEq] at hch
  subst hch
  simp only [isDateSeparator, Bool.decide_or, Bool.or_eq_true, decide_eq_true_eq] at h
  rcases h with h1 | h1 | h1 <;> subst h1 <;> decide

theorem dateMatchAt_groups (ys ms ds rest : List Char) (sep1 sep2 : Char)
    (hy : IsDigitGroup ys) (hm : IsDigitGroup ms) (hd : IsDigitGroup ds)
    (h1 : isDateSeparator sep1 = true) (h2 : isDateSeparator sep2 = true)
    (hrest : NoDigitAhead rest) :
    dateMatchAt (ys ++ sep1 :: (ms ++ sep2 :: (ds ++ rest)))
      = some (ys ++ sep1 :: (ms ++ sep2 :: (ds ++ rest)), ms ++ sep2 :: (ds ++ rest), ds ++ rest) := by
  unfold dateMatchAt
  rw [skipDigits_append ys _ hy (isDateSeparator_noDigit sep1 _ h1)]
  simp only [h1, if_true]
  rw [skipDigits_append ms _ hm (isDateSeparator_noDigit sep2 _ h2)]
  simp only [h2, if_true]
  rw [skipDigits_append ds _ hd hrest]

theorem dateSearch_start (s : List Char) (m : List Char × List Char × List Char)
    (h : dateMatchAt s = some m) : dateSearch s true = some m := by
  cases s with
  | nil => simp [dateMatchAt, skipDigits] at h
  | cons ch rest =>
    unfold dateSearch
    simp only [if_true, h]

theorem parseDatePart_groups (ys ms ds rest : List Char) (sep1 sep2 : Char)
    (hy : IsDigitGroup ys) (hm : IsDigitGroup ms) (hd : IsDigitGroup ds)
    (h1 : isDateSeparator sep1 = true) (h2 : isDateSeparator sep2 = true)
    (hrest : NoDigitAhead rest)
    (hyv : digitsValue ys 0 ≤ INT_MAX) (hmv : digitsValue ms 0 ≤ INT_MAX)
    (hdv : digitsValue ds 0 ≤ INT_MAX) :
    (DateInRange (digitsValue ys 0) (digitsValue ms 0) (digitsValue ds 0) →
      parseDatePart (String.mk (ys ++ sep1 :: (ms ++ sep2 :: (ds ++ rest))))
        = some (Except.ok ((if digitsValue ys 0 < 100 then digitsValue ys 0 + 2000
            else digitsValue ys 0), digitsValue ms 0, digitsValue ds 0))) ∧
    (¬ DateInRange (digitsValue ys 0) (digitsValue ms 0) (digitsValue ds 0) →
      ∃ message, parseDatePart (String.mk (ys ++ sep1 :: (ms ++ sep2 :: (ds ++ rest))))
        = some (Except.error message)) := by
  have hs := dateSearch_start _ _ (dateMatchAt_groups ys ms ds rest sep1 sep2 hy hm hd h1 h2 hrest)
  have a1 := atoi_digits ys _ hy (isDateSeparator_noDigit sep1 (ms ++ sep2 :: (ds ++ rest)) h1) hyv
  have a2 := atoi_digits ms _ hm (isDateSeparator_noDigit sep2 (ds ++ rest) h2) hmv
  have a3 := atoi_digits ds _ hd hrest hdv
  have u1 := toUnsigned_natCast _ hyv
  have u2 := toUnsigned_natCast _ hmv
  have u3 := toUnsigned_natCast _ hdv
  have hmod : (digitsValue ys 0 + 2000) % 4294967296 = digitsValue ys 0 + 2000 := by
    unfold INT_MAX at hyv
    omega
  unfold parseDatePart
  simp only [hs, a1, a2, a3, u1, u2, u3, hmod]
  unfold DateInRange
  generalize digitsValue ys 0 = y
  generalize digitsValue ms 0 = m
  generalize digitsValue ds 0 = d
  constructor
  · intro hr
    rw [if_neg (by omega), if_neg (by omega), if_neg (by omega)]
  · intro hr
    by_cases c1 : ((if y < 100 then y + 2000 else y) < 1970 ∨ (if y < 100 then y + 2000 else y) > 3000)
        ∧ (if y < 100 then y + 2000 else y) ≠ 9999
    · rw [if_pos c1]; exact ⟨_, rfl⟩
    · rw [if_neg c1]
      by_cases c2 : m < 1 ∨ m > 12
      · rw [if_pos c2]; exact ⟨_, rfl⟩
      · rw [if_neg c2]
        by_cases c3 : d < 1 ∨ d > 31
        · rw [if_pos c3]; exact ⟨_, rfl⟩
        · exfalso; apply hr; omega

theorem digitGroup_ne_literal (ys t : List Char) (hy : IsDigitGroup ys) :
    String.mk (ys ++ t) ≠ "not-a-date-time" := by
  intro h
  obtain ⟨hne, hd⟩ := hy
  cases ys with
  | nil => exact hne rfl
  | cons ch rest =>
    have h1 := hd ch (List.mem_cons_self _ _)
    have h2 := congrArg String.data h
    have h3 : ch = 'n' := (List.cons.inj h2).1
    subst h3
    exact absurd h1 (by decide)

theorem parseTime_date (timeString : String) (h : timeString ≠ "not-a-date-time") :
    parseTime timeString enum_field_types.MYSQL_TYPE_DATE =
      match parseDatePart timeString with
      | none => none
      | some (Except.error message) => some (TimeParse.error message)
      | some (Except.ok (year, month, day)) =>
        some (TimeParse.ok { year := year, month := month, day := day, hour := 0,
                             minute := 0, second := 0, second_part := 0 }) := by
  unfold parseTime
  rw [if_neg h]
  simp only [ne_eq, reduceCtorEq, not_false_eq_true, if_true, not_true_eq_false, if_false]

/-- C17: for type date, a string that begins with three digit groups separated
by `-`, `_` or `/` is accepted (return code 0, whatever text follows) exactly
when the year, after 2000 is added to a value below 100, is in [1970, 3000] or
is 9999, the month is in [1, 12] and the day in [1, 31]; otherwise the error
is reported and the return code is 1. -/
theorem C17_date_accepted_iff (env : Env) (c : MySqlConnection) (i : Nat)
    (ys ms ds rest : List Char) (sep1 sep2 : Char)
    (hi : i < c.executions_.length)
    (hy : IsDigitGroup ys) (hm : IsDigitGroup ms) (hd : IsDigitGroup ds)
    (h1 : isDateSeparator sep1 = true) (h2 : isDateSeparator sep2 = true)
    (hrest : NoDigitAhead rest)
    (hyv : digitsValue ys 0 ≤ INT_MAX) (hmv : digitsValue ms 0 ≤ INT_MAX)
    (hdv : digitsValue ds 0 ≤ INT_MAX) :
    (DateInRange (digitsValue ys 0) (digitsValue ms 0) (digitsValue ds 0) →
      ∀ fuel, MySqlExecution.stringToMySqlTime fuel env c i
          (String.mk (ys ++ sep1 :: (ms ++ sep2 :: (ds ++ rest))))
          enum_field_types.MYSQL_TYPE_DATE
        = some (c, 0, some
            { year := if digitsValue ys 0 < 100 then digitsValue ys 0 + 2000
                else digitsValue ys 0,
              month := digitsValue ms 0, day := digitsValue ds 0,
              hour := 0, minute := 0, second := 0, second_part := 0 })) ∧
    (¬ DateInRange (digitsValue ys 0) (digitsValue ms 0) (digitsValue ds 0) →
      (∀ fuel c' rc t, MySqlExecution.stringToMySqlTime fuel env c i
          (String.mk (ys ++ sep1 :: (ms ++ sep2 :: (ds ++ rest))))
          enum_field_types.MYSQL_TYPE_DATE = some (c', rc, t) →
        rc = 1 ∧ (c'.exec i).state_ = ExecutionState.ERROR_STATE) ∧
      ((∃ k, (env.srv.mysql_rollback (c.serverLog.length + k)).rc = 0) →
        ∃ fuel r, MySqlExecution.stringToMySqlTime fuel env c i
          (String.mk (ys ++ sep1 :: (ms ++ sep2 :: (ds ++ rest))))
          enum_field_types.MYSQL_TYPE_DATE = some r)) := by
  have hne := digitGroup_ne_literal ys (sep1 :: (ms ++ sep2 :: (ds ++ rest))) hy
  have hp := parseDatePart_groups ys ms ds rest sep1 sep2 hy hm hd h1 h2 hrest hyv hmv hdv
  constructor
  · intro hr fuel
    unfold MySqlExecution.stringToMySqlTime
    rw [parseTime_date _ hne, hp.1 hr]
  · intro hr
    obtain ⟨message, hmsg⟩ := hp.2 hr
    constructor
    · intro fuel c' rc t h
      unfold MySqlExecution.stringToMySqlTime at h
      rw [parseTime_date _ hne, hmsg] at h
      simp only [] at h
      rcases hrep : MySqlExecution.reportError fuel env c i message 1 with _ | ⟨c1, rc1⟩
      · rw [hrep] at h; simp at h
      · rw [hrep] at h
        simp only [Option.some.injEq, Prod.mk.injEq] at h
        obtain ⟨hc, hrc, _⟩ := h
        obtain ⟨e1, e2⟩ := exec_reportError_spec fuel env c i message 1 hi c1 rc1 hrep
        subst hc hrc
        have hst := congrArg MySqlExecution.state_ e2.execSelf
        exact ⟨e1, hst⟩
    · rintro ⟨k, hk⟩
      obtain ⟨r, hr2⟩ := exec_reportError_total (k + 1) env c i message 1 hi k hk (Nat.le_refl _)
      refine ⟨k + 1, ?_⟩
      unfold MySqlExecution.stringToMySqlTime
      rw [parseTime_date _ hne, hmsg]
      simp only [hr2]
      exact ⟨_, rfl⟩

theorem C17_date_accepted_iff_witness :
    0 < exampleAfterOne.executions_.length ∧
    IsDigitGroup ['9', '9', '9', '9'] ∧ IsDigitGroup ['0', '1'] ∧
    isDateSeparator '-' = true ∧ NoDigitAhead [] ∧
    digitsValue ['9', '9', '9', '9'] 0 ≤ INT_MAX ∧ digitsValue ['0', '1'] 0 ≤ INT_MAX ∧
    DateInRange (digitsValue ['9', '9', '9', '9'] 0) (digitsValue ['0', '1'] 0)
      (digitsValue ['0', '1'] 0) ∧
    String.mk (['9', '9', '9', '9'] ++ '-' :: (['0', '1'] ++ '-' :: (['0', '1'] ++ [])))
      = "9999-01-01" ∧
    ∀ fuel, MySqlExecution.stringToMySqlTime fuel exampleEnv exampleAfterOne 0
        (String.mk (['9', '9', '9', '9'] ++ '-' :: (['0', '1'] ++ '-' :: (['0', '1'] ++ []))))
        enum_field_types.MYSQL_TYPE_DATE
      = some (exampleAfterOne, 0, some
          { year := if digitsValue ['9', '9', '9', '9'] 0 < 100
              then digitsValue ['9', '9', '9', '9'] 0 + 2000
              else digitsValue ['9', '9', '9', '9'] 0,
            month := digitsValue ['0', '1'] 0, day := digitsValue ['0', '1'] 0,
            hour := 0, minute := 0, second := 0, second_part := 0 }) :=
  have g4 : IsDigitGroup ['9', '9', '9', '9'] := ⟨by decide, by decide⟩
  have g2 : IsDigitGroup ['0', '1'] := ⟨by decide, by decide⟩
  have n0 : NoDigitAhead [] := fun ch h => by simp at h
  have hr : DateInRange (digitsValue ['9', '9', '9', '9'] 0) (digitsValue ['0', '1'] 0)
      (digitsValue ['0', '1'] 0) := by
    unfold DateInRange
    decide
  ⟨by decide, g4, g2, by decide, n0, by decide, by decide, hr, by decide,
   (C17_date_accepted_iff exampleEnv exampleAfterOne 0 ['9', '9', '9', '9'] ['0', '1']
     ['0', '1'] [] '-' '-' (by decide) g4 g2 g2 (by decide) (by decide) n0 (by decide)
     (by decide) (by decide)).1 hr⟩

/-- C18, counterexample: for type date the string `0001-01-01` is accepted;
its year is read as 1, which is below 100, hence as 2001. -/
theorem C18_counterexample :
    (MySqlExecution.stringToMySqlTime 0 exampleEnv exampleAfterOne 0 "0001-01-01"
      enum_field_types.MYSQL_TYPE_DATE).map (fun r => (r.2.1, r.2.2))
    = some (0, some { year := 2001, month := 1, day := 1, hour := 0, minute := 0,
                      second := 0, second_part := 0 }) := by
  decide

theorem parseTime_0001_date :
    parseTime "0001-01-01" enum_field_types.MYSQL_TYPE_DATE
      = some (TimeParse.ok { year := 2001, month := 1, day := 1, hour := 0, minute := 0,
                             second := 0, second_part := 0 }) := by
  decide

theorem parseTime_0001_datetime (typeCode : enum_field_types)
    (h : typeCode = enum_field_types.MYSQL_TYPE_DATETIME
      ∨ typeCode = enum_field_types.MYSQL_TYPE_TIMESTAMP) :
    parseTime "0001-01-01" typeCode
      = some (TimeParse.error
          "Parameter \x270001-01-01\x27 not in correct format: expect hh:mm:ss.ffffff") := by
  rcases h with h | h <;> subst h <;> decide

/-- C18 (amended): for type date the string `0001-01-01` is accepted, with
year 2001; a date parameter given that value is bound and executed.  For
datetime and timestamp the string is rejected with return code 1, because it
has no time part, and a datetime parameter given that value leaves the
execution in ERROR. -/
theorem C18_date_0001 (fuel : Nat) (env : Env) (c : MySqlConnection) (i : Nat)
    (typeCode : enum_field_types) (hi : i < c.executions_.length)
    (htype : typeCode = enum_field_types.MYSQL_TYPE_DATETIME
      ∨ typeCode = enum_field_types.MYSQL_TYPE_TIMESTAMP) :
    MySqlExecution.stringToMySqlTime fuel env c i "0001-01-01" enum_field_types.MYSQL_TYPE_DATE
      = some (c, 0, some { year := 2001, month := 1, day := 1, hour := 0, minute := 0,
                           second := 0, second_part := 0 }) ∧
    (∀ c' rc t, MySqlExecution.stringToMySqlTime fuel env c i "0001-01-01" typeCode
        = some (c', rc, t) →
      rc = 1 ∧ (c'.exec i).state_ = ExecutionState.ERROR_STATE ∧
      (c'.exec i).errorMessage_
        = "Parameter \x270001-01-01\x27 not in correct format: expect hh:mm:ss.ffffff") ∧
    ((∃ k, (env.srv.mysql_rollback (c.serverLog.length + k)).rc = 0 ∧ k + 1 ≤ fuel) →
      ∃ r, MySqlExecution.stringToMySqlTime fuel env c i "0001-01-01" typeCode = some r) ∧
    (MySqlConnection.execute 20 temporalEnv exampleConnection "when"
        [("d", Value.string "0001-01-01")] false).map
      (fun r => ((r.1.exec 0).state_, r.1.getReturnCode r.2,
        (r.1.exec 0).paramBuffer_.map (fun b => b.values)))
      = some (ExecutionState.STATEMENT_COMPLETE_STATE, some 0,
          some [(0, BufferValue.time { year := 2001, month := 1, day := 1, hour := 0,
                                       minute := 0, second := 0, second_part := 0 })]) ∧
    (MySqlConnection.execute 20 temporalEnv exampleConnection "at"
        [("d", Value.string "0001-01-01")] false).map
      (fun r => ((r.1.exec 0).state_, r.1.getReturnCode r.2, r.1.trace))
      = some (ExecutionState.ERROR_STATE, some 1,
          [(1, StateFunction.validateStatement), (1, StateFunction.createSettings)]) := by
  refine ⟨?_, ?_, ?_, by decide, by decide⟩
  · unfold MySqlExecution.stringToMySqlTime
    rw [parseTime_0001_date]
  · intro c' rc t h
    unfold MySqlExecution.stringToMySqlTime at h
    rw [parseTime_0001_datetime typeCode htype] at h
    simp only [] at h
    rcases hrep : MySqlExecution.reportError fuel env c i
        "Parameter \x270001-01-01\x27 not in correct format: expect hh:mm:ss.ffffff" 1
      with _ | ⟨c1, rc1⟩
    · rw [hrep] at h; simp at h
    · rw [hrep] at h
      simp only [Option.some.injEq, Prod.mk.injEq] at h
      obtain ⟨hc, hrc, _⟩ := h
      obtain ⟨e1, e2⟩ := exec_reportError_spec fuel env c i _ 1 hi c1 rc1 hrep
      subst hc hrc
      have hst := congrArg MySqlExecution.state_ e2.execSelf
      have hmsg := congrArg MySqlExecution.errorMessage_ e2.execSelf
      exact ⟨e1, hst, hmsg⟩
  · rintro ⟨k, hk, hfuel⟩
    obtain ⟨r, hr2⟩ := exec_reportError_total fuel env c i
      "Parameter \x270001-01-01\x27 not in correct format: expect hh:mm:ss.ffffff" 1 hi k hk hfuel
    unfold MySqlExecution.stringToMySqlTime
    rw [parseTime_0001_datetime typeCode htype]
    simp only [hr2]
    exact ⟨_, rfl⟩

theorem C18_date_0001_witness :
    0 < exampleAfterOne.executions_.length ∧
    MySqlExecution.stringToMySqlTime 2 exampleEnv exampleAfterOne 0 "0001-01-01"
        enum_field_types.MYSQL_TYPE_DATE
      = some (exampleAfterOne, 0, some { year := 2001, month := 1, day := 1, hour := 0,
                                         minute := 0, second := 0, second_part := 0 }) ∧
    ∃ r, MySqlExecution.stringToMySqlTime 2 exampleEnv exampleAfterOne 0 "0001-01-01"
        enum_field_types.MYSQL_TYPE_DATETIME = some r :=
  ⟨by decide,
   (C18_date_0001 2 exampleEnv exampleAfterOne 0 enum_field_types.MYSQL_TYPE_DATETIME
     (by decide) (Or.inl rfl)).1,
   (C18_date_0001 2 exampleEnv exampleAfterOne 0 enum_field_types.MYSQL_TYPE_DATETIME
     (by decide) (Or.inl rfl)).2.2.1 ⟨0, by decide, by decide⟩⟩

theorem parseTime_literal (typeCode : enum_field_types) :
    parseTime "not-a-date-time" typeCode = some TimeParse.notADateTime := by
  unfold parseTime
  simp only [if_true]

/-- C19: on the literal `not-a-date-time` `stringToMySqlTime` returns -1 and
leaves the connection, with the execution and its state, as it is; the loop
of `createSettings` stores the value and goes on to the next argument; the
filling pass of `bindParameter` sets the type and `is_null` of the bind record
to the static true flag and writes nothing into the parameter buffer. -/
theorem C19_not_a_date_time (fuel : Nat) (env : Env) (c : MySqlConnection) (i : Nat) :
    (∀ typeCode, MySqlExecution.stringToMySqlTime fuel env c i "not-a-date-time" typeCode
      = some (c, -1, none)) ∧
    (∀ n tag rest setting,
      findSetting (c.exec i).settings_ tag = some setting →
      isTemporal setting.param_data_type = true →
      ¬ ((c.exec i).argDoc_ = false ∧ tag = "end") →
      MySqlExecution.addParameterValues fuel env i (n + 1)
          ((tag, Value.string "not-a-date-time") :: rest) c
        = MySqlExecution.addParameterValues fuel env i n rest
            (c.setExec i { c.exec i with
              settings_ := addParamValue (c.exec i).settings_ tag
                (Value.string "not-a-date-time") })) ∧
    (∀ setting k offset arr,
      (c.exec i).parameterBindArray_ = some arr →
      k < arr.binds.length →
      isTemporal setting.param_data_type = true →
      setting.param_value = some (Value.string "not-a-date-time") →
      MySqlExecution.bindParameter fuel env c i setting k (some offset)
        = some (c.setExec i { c.exec i with
                  parameterBindArray_ := some { arr with
                    binds := arr.binds.set k { arr.binds.getD k zeroBind with
                      buffer_type := some setting.param_data_type,
                      is_null := some IsNullPtr.mysqlTrue_ } } },
                env.sizeofMysqlTime,
                if env.sizeofMysqlTime ≠ 0 then some (offset + env.sizeofMysqlTime)
                else some offset)) := by
  have hlit : ∀ (c0 : MySqlConnection) typeCode,
      MySqlExecution.stringToMySqlTime fuel env c0 i "not-a-date-time" typeCode
        = some (c0, -1, none) := by
    intro c0 typeCode
    unfold MySqlExecution.stringToMySqlTime
    rw [parseTime_literal]
  refine ⟨hlit c, ?_, ?_⟩
  · intro n tag rest setting hfind htemp hend
    rw [MySqlExecution.addParameterValues]
    simp only [hend, if_false, hfind]
    rcases hty : setting.param_data_type <;> rw [hty] at htemp <;>
      first
        | (exfalso; revert htemp; simp [isTemporal]; done)
        | (simp only [hlit]; rfl)
  · intro setting k offset arr harr hk htemp hval
    have hget : arr.binds.get? k = some (arr.binds.getD k zeroBind) := by
      rw [List.getD_eq_getElem?_getD, List.get?_eq_getElem?, List.getElem?_eq_getElem hk]
      rfl
    unfold MySqlExecution.bindParameter
    simp only [harr, hget, hval]
    rcases hty : setting.param_data_type <;> rw [hty] at htemp <;>
      first
        | (exfalso; revert htemp; simp [isTemporal]; done)
        | (simp only [hlit, setParameterBind, harr]; try rfl)

theorem C19_not_a_date_time_witness :
    MySqlExecution.stringToMySqlTime 0 exampleEnv exampleConnection 0 "not-a-date-time"
        enum_field_types.MYSQL_TYPE_TIMESTAMP = some (exampleConnection, -1, none) ∧
    (MySqlConnection.execute 20 temporalEnv exampleConnection "when"
        [("d", Value.string "not-a-date-time")] false).map
      (fun r => ((r.1.exec 0).state_, r.1.getReturnCode r.2,
        (r.1.exec 0).parameterBindArray_.map (fun a => a.binds),
        (r.1.exec 0).paramBuffer_.map (fun b => (b.size, b.values))))
      = some (ExecutionState.STATEMENT_COMPLETE_STATE, some 0,
          some [{ buffer_type := some enum_field_types.MYSQL_TYPE_DATE, buffer := none,
                  buffer_length := 0, length := none,
                  is_null := some IsNullPtr.mysqlTrue_ }],
          some (40, [])) :=
  ⟨(C19_not_a_date_time 0 exampleEnv exampleConnection 0).1
     enum_field_types.MYSQL_TYPE_TIMESTAMP, by rfl⟩

theorem supersede_cons (start newState answer : ExecutionState)
    (answers : List ExecutionState) :
    supersede start newState (answer :: answers)
      = supersede (if answer ≠ newState then answer else start) newState answers := by
  unfold supersede
  by_cases h : answer ≠ newState
  · have hd : decide (answer ≠ newState) = true := decide_eq_true h
    rw [List.filter_cons, if_pos h]
    simp only [hd, if_true]
    cases hf : answers.filter (fun a => decide (a ≠ newState)) with
    | nil => rfl
    | cons b l =>
      simp only [List.getLast?_cons_cons]
      rw [List.getLast?_eq_getLast (b :: l) (List.cons_ne_nil _ _)]
      rfl
  · have hd : decide (answer ≠ newState) = false := decide_eq_false h
    rw [List.filter_cons, if_neg h]
    simp only [hd, Bool.false_eq_true, if_false]

theorem changeStateLoop_calls (fuel : Nat) (env : Env) (i : Nat) (newState : ExecutionState)
    (n : Nat) : ∀ (k : Nat) (c c' : MySqlConnection) (real r : ExecutionState),
      MySqlExecution.changeStateLoop fuel env i newState n k c real = some (c', r) ↔
        ∃ answers, ObserverCalls fuel env i newState n k c c' answers ∧
          r = supersede real newState answers := by
  induction n with
  | zero =>
    intro k c c' real r
    simp only [MySqlExecution.changeStateLoop, Option.some.injEq, Prod.mk.injEq]
    constructor
    · rintro ⟨rfl, rfl⟩
      exact ⟨[], ObserverCalls.done k c, rfl⟩
    · rintro ⟨answers, hc, hr⟩
      cases hc
      exact ⟨rfl, hr.symm⟩
  | succ n ih =>
    intro k c c' real r
    rw [MySqlExecution.changeStateLoop]
    constructor
    · intro h
      rcases hev : MySqlObserver.onEvent fuel env c k i newState with _ | ⟨c1, a⟩
      · rw [hev] at h; simp at h
      · rw [hev] at h
        simp only [] at h
        obtain ⟨answers, hc, hr⟩ := (ih (k + 1) c1 c' _ r).1 h
        exact ⟨a :: answers, ObserverCalls.call n k c c1 c' a answers hev hc,
          by rw [supersede_cons]; exact hr⟩
    · rintro ⟨answers, hc, hr⟩
      cases hc with
      | call _ _ _ c1 _ a rest h1 h2 =>
        rw [h1]
        simp only []
        rw [supersede_cons] at hr
        exact (ih (k + 1) c1 c' _ r).2 ⟨rest, h2, hr⟩

theorem reportError_execLen (fuel : Nat) (env : Env) (c c' : MySqlConnection)
    (errorMessage : String) (errorNo : Int) (xh : Nat) (rc : Int)
    (h : MySqlConnection.reportError fuel env c errorMessage errorNo xh = some (c', rc)) :
    c'.executions_.length = c.executions_.length := by
  have := (reportError_ok env fuel _ _ _ _ _ _ h).frame.executions_
  rw [this]

theorem ReplayObserver_onEvent_execLen (fuel : Nat) (env : Env) (c c' : MySqlConnection)
    (k i : Nat) (newState answer : ExecutionState)
    (h : ReplayObserver.onEvent fuel env c k i newState = some (c', answer)) :
    c'.executions_.length = c.executions_.length := by
  unfold ReplayObserver.onEvent at h
  have h0 : (if (c.exec i).state_ = ExecutionState.INITIAL_STATE then
      c.setObs k { c.obs k with executionNumber_ := (c.obs k).executionNumber_ + 1 }
    else c).executions_.length = c.executions_.length := by
    split <;> rfl
  revert h h0
  generalize (if (c.exec i).state_ = ExecutionState.INITIAL_STATE then
      c.setObs k { c.obs k with executionNumber_ := (c.obs k).executionNumber_ + 1 }
    else c) = c1
  intro h h0
  simp only [] at h
  rw [← h0]
  split at h
  · cases h; rfl
  · split at h
    · cases h; rfl
    · split at h
      · split at h
        · cases h
        · rename_i c2 rc2 hrep
          cases h
          exact reportError_execLen _ _ _ _ _ _ _ _ hrep
      · split at h
        · cases h
        · split at h
          · cases h
          · split at h
            · split at h
              · cases h
              · rename_i c2 rc2 hrep
                cases h
                exact reportError_execLen _ _ _ _ _ _ _ _ hrep
            · split at h
              · cases h; exact length_setExec _ _ _
              · split at h
                · cases h; exact length_setExec _ _ _
                · split at h
                  · cases h
                  · rename_i c4 rc4 hrep
                    cases h
                    rw [reportError_execLen _ _ _ _ _ _ _ _ hrep, length_setExec, length_setExec]

theorem onEvent_execLen (fuel : Nat) (env : Env) (c c' : MySqlConnection)
    (k i : Nat) (newState answer : ExecutionState) (hi : i < c.executions_.length)
    (h : MySqlObserver.onEvent fuel env c k i newState = some (c', answer)) :
    c'.executions_.length = c.executions_.length := by
  by_cases hq : (c.obs k).observerType = ObserverType.REPLAY_OBS
  · unfold MySqlObserver.onEvent at h
    simp only [hq] at h
    exact ReplayObserver_onEvent_execLen _ _ _ _ _ _ _ _ h
  · obtain ⟨c1, h1, f1⟩ := onEvent_quiet fuel env c k i newState hi (Or.inl hq)
    rw [h1] at h
    cases h
    exact f1.execLen

theorem ObserverCalls.execLen {fuel : Nat} {env : Env} {i : Nat} {newState : ExecutionState}
    {n k : Nat} {c c' : MySqlConnection} {answers : List ExecutionState}
    (h : ObserverCalls fuel env i newState n k c c' answers) (hi : i < c.executions_.length) :
    c'.executions_.length = c.executions_.length ∧ answers.length = n := by
  induction h with
  | done k c => exact ⟨rfl, rfl⟩
  | call n k c c1 c2 a answers h1 _ ih =>
    have e1 := onEvent_execLen _ _ _ _ _ _ _ _ hi h1
    obtain ⟨e2, e3⟩ := ih (by rw [e1]; exact hi)
    exact ⟨e2.trans e1, by simp [e3]⟩

theorem stamped_execLen (c : MySqlConnection) (i : Nat) (newState : ExecutionState) :
    (MySqlExecution.stamped c i newState).executions_.length = c.executions_.length ∧
    (MySqlExecution.stamped c i newState).observers_ = c.observers_ := by
  unfold MySqlExecution.stamped
  split
  · exact ⟨length_setExec _ _ _, rfl⟩
  · exact ⟨rfl, rfl⟩

/-- C15: `changeState` returns exactly when every observer of the chain,
called in the order of the chain with the state originally proposed, returns;
the state of the execution is then the last answer that differs from the
proposed state, and the proposed state when none differs.  With an empty
chain it is the proposed state.  `addObserver` puts a new observer at the end
of the chain, so the order of the chain is the order of registration. -/
theorem C15_changeState_observers (fuel : Nat) (env : Env) (c : MySqlConnection) (i : Nat)
    (newState : ExecutionState) (hi : i < c.executions_.length) :
    (∀ c' rc, MySqlExecution.changeState fuel env c i newState = some (c', rc) ↔
      ∃ c1 answers,
        ObserverCalls fuel env i newState c.observers_.length 0
          (MySqlExecution.stamped c i newState) c1 answers ∧
        c' = c1.setExec i { c1.exec i with state_ := supersede newState newState answers } ∧
        rc = (c'.exec i).errorNo_) ∧
    (∀ c' rc, MySqlExecution.changeState fuel env c i newState = some (c', rc) →
      ∃ c1 answers,
        ObserverCalls fuel env i newState c.observers_.length 0
          (MySqlExecution.stamped c i newState) c1 answers ∧
        answers.length = c.observers_.length ∧
        (c'.exec i).state_ = supersede newState newState answers) ∧
    (c.observers_ = [] →
      ∃ c' rc, MySqlExecution.changeState fuel env c i newState = some (c', rc) ∧
        (c'.exec i).state_ = newState) ∧
    (∀ observerName type workingDirectory c',
      MySqlConnection.addObserver env c observerName type workingDirectory = some c' →
      ∃ o, c'.observers_ = c.observers_ ++ [o] ∧ o.observerType = type
        ∧ o.name_ = observerName) := by
  have hiff : ∀ c' rc, MySqlExecution.changeState fuel env c i newState = some (c', rc) ↔
      ∃ c1 answers,
        ObserverCalls fuel env i newState c.observers_.length 0
          (MySqlExecution.stamped c i newState) c1 answers ∧
        c' = c1.setExec i { c1.exec i with state_ := supersede newState newState answers } ∧
        rc = (c'.exec i).errorNo_ := by
    intro c' rc
    unfold MySqlExecution.changeState
    change (match MySqlExecution.changeStateLoop fuel env i newState
        (MySqlExecution.stamped c i newState).observers_.length 0
        (MySqlExecution.stamped c i newState) newState with
      | none => none
      | some (c1, realNewState) =>
        some (c1.setExec i { c1.exec i with state_ := realNewState },
          ((c1.setExec i { c1.exec i with state_ := realNewState }).exec i).errorNo_))
        = some (c', rc) ↔ _
    rw [(stamped_execLen c i newState).2]
    constructor
    · intro h
      rcases hl : MySqlExecution.changeStateLoop fuel env i newState c.observers_.length 0
          (MySqlExecution.stamped c i newState) newState with _ | ⟨c1, r⟩
      · rw [hl] at h; simp at h
      · rw [hl] at h
        simp only [Option.some.injEq, Prod.mk.injEq] at h
        obtain ⟨answers, hc, hr⟩ := (changeStateLoop_calls _ _ _ _ _ _ _ _ _ _).1 hl
        subst hr
        exact ⟨c1, answers, hc, h.1.symm, by rw [← h.2, ← h.1]⟩
    · rintro ⟨c1, answers, hc, hc', hrc⟩
      have hl := (changeStateLoop_calls fuel env i newState c.observers_.length 0
        (MySqlExecution.stamped c i newState) c1 newState _).2 ⟨answers, hc, rfl⟩
      rw [hl]
      simp only [Option.some.injEq, Prod.mk.injEq]
      subst hc'
      exact ⟨rfl, hrc.symm⟩
  refine ⟨hiff, ?_, ?_, ?_⟩
  · intro c' rc h
    obtain ⟨c1, answers, hc, hc', _⟩ := (hiff c' rc).1 h
    have hlen := hc.execLen (by rw [(stamped_execLen c i newState).1]; exact hi)
    refine ⟨c1, answers, hc, hlen.2, ?_⟩
    rw [hc', exec_setExec_same _ _ _ (by rw [hlen.1, (stamped_execLen c i newState).1]; exact hi)]
  · intro hobs
    have hc : ObserverCalls fuel env i newState c.observers_.length 0
        (MySqlExecution.stamped c i newState) (MySqlExecution.stamped c i newState) [] := by
      rw [hobs]
      exact ObserverCalls.done 0 _
    refine ⟨_, _, (hiff _ _).2 ⟨_, [], hc, rfl, rfl⟩, ?_⟩
    rw [exec_setExec_same _ _ _ (by rw [(stamped_execLen c i newState).1]; exact hi)]
    rfl
  · intro observerName type workingDirectory c' h
    unfold MySqlConnection.addObserver at h
    cases type <;> simp only [] at h
    · split at h <;> cases h <;> exact ⟨_, rfl, rfl, rfl⟩
    · cases h
    · cases h; exact ⟨_, rfl, rfl, rfl⟩
    · cases h; exact ⟨_, rfl, rfl, rfl⟩
    · cases h; exact ⟨_, rfl, rfl, rfl⟩

theorem C15_changeState_observers_witness :
    0 < exampleAfterOne.executions_.length ∧ exampleAfterOne.observers_ = [] ∧
    (∃ c' rc, MySqlExecution.changeState 0 exampleEnv exampleAfterOne 0
        ExecutionState.SQL_GENERATED_STATE = some (c', rc) ∧
      (c'.exec 0).state_ = ExecutionState.SQL_GENERATED_STATE) ∧
    (MySqlExecution.changeState 1 exampleEnv exampleReplayPoint 0
        ExecutionState.SQL_GENERATED_STATE).map (fun r => (r.1.exec 0).state_)
      = some ExecutionState.STATEMENT_COMPLETE_STATE :=
  ⟨by decide, by decide,
   (C15_changeState_observers 0 exampleEnv exampleAfterOne 0 ExecutionState.SQL_GENERATED_STATE
     (by decide)).2.2.1 (by decide),
   by decide⟩

theorem setExec_exec_self (c : MySqlConnection) (i : Nat) (hi : i < c.executions_.length) :
    c.setExec i (c.exec i) = c := by
  have h : c.executions_.set i (c.executions_.getD i default) = c.executions_ := by
    apply List.ext_getElem
    · simp
    · intro n h1 h2
      by_cases h : i = n
      · subst h; simp [List.getD_eq_getElem?_getD, List.getElem?_eq_getElem hi]
      · simp [List.getElem_set_ne h]
  cases c
  simp only [MySqlConnection.setExec, MySqlConnection.exec] at h ⊢
  rw [h]

theorem addParameterSettings_declared (fuel : Nat) (env : Env) (i : Nat)
    (params : List ParameterDef) :
    ∀ (c : MySqlConnection) (ss : Settings), i < c.executions_.length →
      declaredSettings (c.exec i).statementName_ params = some ss →
      MySqlExecution.addParameterSettings fuel env i params c
        = some (c.setExec i { c.exec i with settings_ := (c.exec i).settings_ ++ ss }, 0) := by
  induction params with
  | nil =>
    intro c ss hi h
    simp only [declaredSettings, Option.some.injEq] at h
    subst h
    simp only [MySqlExecution.addParameterSettings, List.append_nil]
    rw [setExec_exec_self c i hi]
  | cons p rest ih =>
    intro c ss hi h
    unfold declaredSettings at h
    rcases hp : parameterSetting (c.exec i).statementName_ p with e | s
    · rw [hp] at h; simp at h
    · rcases hr : declaredSettings (c.exec i).statementName_ rest with _ | ss1
      · rw [hp, hr] at h; simp at h
      · rw [hp, hr] at h
        simp only [Option.some.injEq] at h
        subst h
        unfold MySqlExecution.addParameterSettings
        simp only [hp]
        have hlen : i < (c.setExec i { c.exec i with
            settings_ := (c.exec i).settings_ ++ [(p.name, s)] }).executions_.length := by
          rw [length_setExec]; exact hi
        rw [ih _ ss1 hlen (by rw [exec_setExec_same _ _ _ hi]; exact hr)]
        rw [exec_setExec_same _ _ _ hi, setExec_setExec]
        simp only [List.append_assoc, List.singleton_append]

theorem findSetting_addParamValue (ss : Settings) (t t' : String) (v : Value) :
    (findSetting ss t' = none → findSetting (addParamValue ss t v) t' = none) ∧
    (∀ s, findSetting ss t' = some s →
      ∃ s', findSetting (addParamValue ss t v) t' = some s' ∧
        s'.param_data_type = s.param_data_type ∧ s'.param_type = s.param_type) := by
  induction ss with
  | nil => exact ⟨fun _ => rfl, fun s h => by simp [findSetting] at h⟩
  | cons x rest ih =>
    obtain ⟨n, s0⟩ := x
    by_cases hn : n = t
    · by_cases hn' : n = t'
      · simp only [findSetting, addParamValue, hn, hn', if_true]
        subst hn; subst hn'
        simp only [if_true]
        exact ⟨fun h => by simp at h, fun s h => by
          simp only [Option.some.injEq] at h
          subst h
          exact ⟨_, rfl, rfl, rfl⟩⟩
      · simp only [findSetting, addParamValue, hn, if_true]
        subst hn
        simp only [hn', if_false]
        exact ⟨fun h => h, fun s h => ⟨s, h, rfl, rfl⟩⟩
    · by_cases hn' : n = t'
      · subst hn'
        simp only [findSetting, addParamValue, hn, if_true, if_false]
        exact ⟨fun h => by simp at h, fun s h => ⟨s, h, rfl, rfl⟩⟩
      · simp only [findSetting, addParamValue, hn, hn', if_false]
        exact ih

theorem Accepted.addParamValue {argDoc : Bool} {ss : Settings} {pair : String × Value}
    (h : Accepted argDoc ss pair) (t : String) (v : Value) :
    Accepted argDoc (MySqlAt.addParamValue ss t v) pair := by
  obtain ⟨h1, s, hs, hv⟩ := h
  obtain ⟨s', hs', ht, _⟩ := (findSetting_addParamValue ss t pair.1 v).2 s hs
  exact ⟨h1, s', hs', by rw [ht]; exact hv⟩

theorem stringToMySqlTime_fits (fuel : Nat) (env : Env) (c : MySqlConnection) (i : Nat)
    (timeArg : String) (typeCode : enum_field_types)
    (h : (match parseTime timeArg typeCode with
      | some TimeParse.notADateTime => true
      | some (TimeParse.ok _) => true
      | _ => false) = true) :
    ∃ rc t, MySqlExecution.stringToMySqlTime fuel env c i timeArg typeCode = some (c, rc, t)
      ∧ ¬ rc > 0 := by
  unfold MySqlExecution.stringToMySqlTime
  rcases hp : parseTime timeArg typeCode with _ | (_ | m | t)
  · rw [hp] at h; simp at h
  · exact ⟨-1, none, rfl, by decide⟩
  · rw [hp] at h; simp at h
  · exact ⟨0, some t, rfl, by decide⟩

theorem addParameterValues_accept (fuel : Nat) (env : Env) (i n : Nat) (tag : String)
    (v : Value) (rest : List (String × ArgValue)) (c : MySqlConnection)
    (h : Accepted (c.exec i).argDoc_ (c.exec i).settings_ (tag, v)) :
    MySqlExecution.addParameterValues fuel env i (n + 1) ((tag, v) :: rest) c
      = MySqlExecution.addParameterValues fuel env i n rest
          (c.setExec i { c.exec i with settings_ := addParamValue (c.exec i).settings_ tag v }) := by
  obtain ⟨hend, s, hs, hv⟩ := h
  rw [MySqlExecution.addParameterValues]
  simp only [hend, if_false, hs]
  rcases hty : s.param_data_type <;> rcases v with _ | _ | _ | timeArg | _ <;>
    rw [hty] at hv <;> simp only [valueFits] at hv <;>
    first
      | exact absurd hv (by decide)
      | rfl
      | (obtain ⟨rc, t, h1, h2⟩ := stringToMySqlTime_fits fuel env c i timeArg _ hv
         simp only [h1, h2, if_false])

theorem storeValues_findSetting_none (pairs : List (String × Value)) :
    ∀ (ss : Settings) (t : String), findSetting ss t = none →
      findSetting (storeValues ss pairs) t = none := by
  induction pairs with
  | nil => intro ss t h; exact h
  | cons p rest ih =>
    intro ss t h
    exact ih _ t ((findSetting_addParamValue ss p.1 t p.2).1 h)

theorem addParameterValues_prefix (fuel : Nat) (env : Env) (i : Nat)
    (pre : List (String × Value)) :
    ∀ (c : MySqlConnection) (n : Nat) (rest : List (String × Value)),
      i < c.executions_.length →
      (∀ pair ∈ pre, Accepted (c.exec i).argDoc_ (c.exec i).settings_ pair) →
      MySqlExecution.addParameterValues fuel env i (pre.length + n) (pre ++ rest) c
        = MySqlExecution.addParameterValues fuel env i n rest
            (c.setExec i { c.exec i with
              settings_ := storeValues (c.exec i).settings_ pre }) := by
  induction pre with
  | nil =>
    intro c n rest hi _
    simp only [List.length_nil, Nat.zero_add, List.nil_append, storeValues, List.foldl_nil]
    have : ({ c.exec i with settings_ := (c.exec i).settings_ } : MySqlExecution) = c.exec i := rfl
    rw [this, setExec_exec_self c i hi]
  | cons p pre ih =>
    intro c n rest hi hacc
    obtain ⟨tag, v⟩ := p
    have e : (List.length ((tag, v) :: pre)) + n = (pre.length + n) + 1 := by
      simp only [List.length_cons]; omega
    rw [e, List.cons_append,
      addParameterValues_accept fuel env i _ tag v _ c (hacc _ (List.mem_cons_self _ _))]
    have hlen : i < (c.setExec i { c.exec i with
        settings_ := addParamValue (c.exec i).settings_ tag v }).executions_.length := by
      rw [length_setExec]; exact hi
    rw [ih _ n rest hlen (by
      intro pair hp
      rw [exec_setExec_same _ _ _ hi]
      exact (hacc pair (List.mem_cons_of_mem _ hp)).addParamValue tag v)]
    rw [exec_setExec_same _ _ _ hi, setExec_setExec]
    rfl

theorem declaredSettings_names (statementName : String) (params : List ParameterDef) :
    ∀ ss, declaredSettings statementName params = some ss →
      ss.map Prod.fst = params.map (fun p => p.name) := by
  induction params with
  | nil => intro ss h; simp only [declaredSettings, Option.some.injEq] at h; subst h; rfl
  | cons p rest ih =>
    intro ss h
    unfold declaredSettings at h
    rcases hp : parameterSetting statementName p with e | s
    · rw [hp] at h; simp at h
    · rcases hr : declaredSettings statementName rest with _ | ss1
      · rw [hp, hr] at h; simp at h
      · rw [hp, hr] at h
        simp only [Option.some.injEq] at h
        subst h
        simp only [List.map_cons, ih ss1 hr]

theorem findSetting_none_of_names (ss : Settings) (t : String)
    (h : t ∉ ss.map Prod.fst) : findSetting ss t = none := by
  induction ss with
  | nil => rfl
  | cons x rest ih =>
    obtain ⟨n, s0⟩ := x
    simp only [List.map_cons, List.mem_cons, not_or] at h
    simp only [findSetting, Ne.symm h.1, if_false]
    exact ih h.2

theorem declaredSettings_length (statementName : String) (params : List ParameterDef)
    (ss : Settings) (h : declaredSettings statementName params = some ss) :
    ss.length = params.length := by
  have := congrArg List.length (declaredSettings_names statementName params ss h)
  simpa using this

/-- `createSettings` on a statement with well-formed parameter records: what is
left is the second loop and the change of state. -/
theorem createSettings_declared (fuel : Nat) (env : Env) (c : MySqlConnection) (i : Nat)
    (statements : Statements) (statement : StatementDef) (params : List ParameterDef)
    (args : List (String × ArgValue)) (settings : Settings)
    (hi : i < c.executions_.length)
    (hdict : env.statementDict = some statements)
    (hfind : findStatement statements (c.exec i).statementName_ = some statement)
    (hparams : statement.parameters = some params)
    (hargs : (c.exec i).args_ = some args)
    (hdecl : declaredSettings (c.exec i).statementName_ params = some settings) :
    MySqlExecution.createSettings fuel env c i =
      match MySqlExecution.addParameterValues fuel env i params.length args
          (c.setExec i { c.exec i with settings_ := settings }) with
      | none => none
      | some (c3, rc3) =>
        if rc3 ≠ 0 then some (c3, rc3)
        else
          MySqlExecution.changeState fuel env
            (c3.setExec i { c3.exec i with args_ := none }) i
            ExecutionState.SETTINGS_CREATED_STATE := by
  unfold MySqlExecution.createSettings
  simp only [hdict, hfind, hparams]
  split
  · rename_i heq
    rw [hargs] at heq
    cases heq
  rename_i args1 heq
  have hargs1 : args1 = args := by
    rw [hargs] at heq
    exact (Option.some.inj heq).symm
  subst hargs1
  have hlen : i < (c.setExec i { c.exec i with settings_ := [] }).executions_.length := by
    rw [length_setExec]; exact hi
  rw [addParameterSettings_declared fuel env i params _ settings hlen
    (by rw [exec_setExec_same _ _ _ hi]; exact hdecl)]
  simp only [exec_setExec_same _ _ _ hi, setExec_setExec, List.nil_append, ne_eq,
    not_true_eq_false, if_false, declaredSettings_length _ _ _ hdecl]

/-- C20, counterexample: the statement `one` declares one parameter; the loop
of `createSettings` reads one tag/value pair, so the tag `zzz` that follows
is never looked at and the execution completes without error. -/
theorem C20_counterexample :
    (MySqlConnection.execute 20 exampleEnv exampleConnection "one"
        [("a", Value.int 5), ("zzz", Value.int 7)] false).map
      (fun r => ((r.1.exec 0).state_, r.1.getReturnCode r.2, (r.1.exec 0).errorMessage_))
    = some (ExecutionState.STATEMENT_COMPLETE_STATE, some 0, "") := by
  decide

/-- C20 (amended): when the parameter records of the statement are well formed
and the caller's list is `pre ++ (tag, v) :: post`, where `pre` holds fewer
pairs than there are declared parameters, every pair of `pre` is taken by the
loop, and `tag` names no declared parameter and does not end a variadic list,
`createSettings` reports `Unknown parameter '<tag>' for statement <name>` with
error number 1 and leaves the execution in ERROR. -/
theorem C20_unknown_tag (env : Env) (c : MySqlConnection) (i : Nat)
    (statements : Statements) (statement : StatementDef) (params : List ParameterDef)
    (settings : Settings) (pre post : List (String × ArgValue)) (tag : String) (v : ArgValue)
    (hi : i < c.executions_.length)
    (hdict : env.statementDict = some statements)
    (hfind : findStatement statements (c.exec i).statementName_ = some statement)
    (hparams : statement.parameters = some params)
    (hargs : (c.exec i).args_ = some (pre ++ (tag, v) :: post))
    (hdecl : declaredSettings (c.exec i).statementName_ params = some settings)
    (hpre : ∀ pair ∈ pre, Accepted (c.exec i).argDoc_ settings pair)
    (hlen : pre.length < params.length)
    (htag : ∀ p ∈ params, p.name ≠ tag)
    (hend : ¬ ((c.exec i).argDoc_ = false ∧ tag = "end")) :
    (∀ fuel c' rc, MySqlExecution.createSettings fuel env c i = some (c', rc) →
      rc = 1 ∧ (c'.exec i).state_ = ExecutionState.ERROR_STATE ∧
      (c'.exec i).errorNo_ = 1 ∧
      (c'.exec i).errorMessage_
        = "Unknown parameter \x27" ++ tag ++ "\x27" ++ " for statement " ++
            (c.exec i).statementName_) ∧
    ((∃ k, (env.srv.mysql_rollback (c.serverLog.length + k)).rc = 0) →
      ∃ fuel r, MySqlExecution.createSettings fuel env c i = some r) := by
  obtain ⟨m, hm⟩ : ∃ m, params.length = pre.length + (m + 1) :=
    ⟨params.length - pre.length - 1, by omega⟩
  have hnone : findSetting settings tag = none := by
    apply findSetting_none_of_names
    rw [declaredSettings_names _ _ _ hdecl]
    intro hmem
    obtain ⟨p, hp, hpn⟩ := List.mem_map.1 hmem
    exact htag p hp hpn
  have hi2 : i < (c.setExec i { c.exec i with settings_ := settings }).executions_.length := by
    rw [length_setExec]; exact hi
  have hi3 : i < ((c.setExec i { c.exec i with settings_ := settings }).setExec i
      { (c.setExec i { c.exec i with settings_ := settings }).exec i with
        settings_ := storeValues
          ((c.setExec i { c.exec i with settings_ := settings }).exec i).settings_ pre
      }).executions_.length := by
    rw [length_setExec]; exact hi2
  have key : ∀ fuel, MySqlExecution.createSettings fuel env c i =
      MySqlExecution.reportError fuel env
        (c.setExec i { c.exec i with settings_ := storeValues settings pre }) i
        ("Unknown parameter \x27" ++ tag ++ "\x27" ++ " for statement " ++
          (c.exec i).statementName_) 1 := by
    intro fuel
    rw [createSettings_declared fuel env c i statements statement params _ settings hi hdict
      hfind hparams hargs hdecl, hm,
      addParameterValues_prefix fuel env i pre _ (m + 1) _ hi2 (by
        intro pair hp
        rw [exec_setExec_same _ _ _ hi]
        exact hpre pair hp)]
    rw [MySqlExecution.addParameterValues]
    simp only [exec_setExec_same _ _ _ hi, setExec_setExec, hend, if_false,
      storeValues_findSetting_none pre settings tag hnone]
    have hi4 : i < (c.setExec i { c.exec i with
        settings_ := storeValues settings pre }).executions_.length := by
      rw [length_setExec]; exact hi
    rcases hrep : MySqlExecution.reportError fuel env
        (c.setExec i { c.exec i with settings_ := storeValues settings pre }) i
        ("Unknown parameter \x27" ++ tag ++ "\x27" ++ " for statement " ++
          (c.exec i).statementName_) 1 with _ | ⟨c1, rc1⟩
    · rfl
    · have h1 : rc1 = 1 := (exec_reportError_spec fuel env _ i _ 1 hi4 c1 rc1 hrep).1
      subst h1
      rfl
  have hi4 : i < (c.setExec i { c.exec i with
      settings_ := storeValues settings pre }).executions_.length := by
    rw [length_setExec]; exact hi
  constructor
  · intro fuel c' rc h
    rw [key] at h
    obtain ⟨e1, e2⟩ := exec_reportError_spec fuel env _ i _ 1 hi4 c' rc h
    have hst := congrArg MySqlExecution.state_ e2.execSelf
    have hno := congrArg MySqlExecution.errorNo_ e2.execSelf
    have hmsg := congrArg MySqlExecution.errorMessage_ e2.execSelf
    exact ⟨e1, hst, hno, hmsg⟩
  · rintro ⟨k, hk⟩
    obtain ⟨r, hr⟩ := exec_reportError_total (k + 1) env
      (c.setExec i { c.exec i with settings_ := storeValues settings pre }) i
      ("Unknown parameter \x27" ++ tag ++ "\x27" ++ " for statement " ++
        (c.exec i).statementName_) 1 hi4 k hk (Nat.le_refl _)
    exact ⟨k + 1, r, by rw [key]; exact hr⟩

theorem C20_unknown_tag_witness :
    0 < (exampleConnection.started (MySqlExecution.new exampleConnection "one"
      [("zzz", Value.int 7)] false)).executions_.length ∧
    (∀ p ∈ [({ name := "a", param_type := some "marker", data_type := some "int" } :
        ParameterDef)], p.name ≠ "zzz") ∧
    (∃ fuel r, MySqlExecution.createSettings fuel exampleEnv
      (exampleConnection.started (MySqlExecution.new exampleConnection "one"
        [("zzz", Value.int 7)] false)) 0 = some r) ∧
    (MySqlConnection.execute 20 exampleEnv exampleConnection "one"
        [("zzz", Value.int 7)] false).map
      (fun r => ((r.1.exec 0).state_, r.1.getReturnCode r.2, (r.1.exec 0).errorMessage_))
    = some (ExecutionState.ERROR_STATE, some 1,
        "Unknown parameter \x27zzz\x27 for statement one") :=
  ⟨by decide, by decide,
   (C20_unknown_tag exampleEnv
     (exampleConnection.started (MySqlExecution.new exampleConnection "one"
       [("zzz", Value.int 7)] false)) 0 exampleStatements
     { statement_text := some ["select ?"],
       parameters := some [{ name := "a", param_type := some "marker",
                             data_type := some "int" }] }
     [{ name := "a", param_type := some "marker", data_type := some "int" }]
     [("a", { param_type := ParamType.MARKER,
              param_data_type := enum_field_types.MYSQL_TYPE_LONG, param_value := none })]
     [] [] "zzz" (Value.int 7)
     (by decide) (by rfl) (by decide) (by rfl) (by rfl) (by decide)
     (fun pair h => by simp at h) (by decide) (by decide) (by decide)).2 ⟨0, by decide⟩,
   by decide⟩

theorem substituteSettings_ready (env : Env) (settings : Settings) :
    ∀ text, SubstituteReady settings → ∃ text', substituteSettings env settings text = some text' := by
  induction settings with
  | nil => intro text _; exact ⟨text, rfl⟩
  | cons x rest ih =>
    intro text h
    obtain ⟨name, s⟩ := x
    have hrest : SubstituteReady rest := fun y hy => h y (List.mem_cons_of_mem _ hy)
    unfold substituteSettings
    by_cases hs : s.param_type = ParamType.SUBSTITUTE
    · obtain ⟨v, hv⟩ := h (name, s) (List.mem_cons_self _ _) hs
      simp only [hs, if_true]
      have hv2 : s.param_value = some (Value.string v) := hv
      rw [hv2]
      exact ih _ hrest
    · simp only [hs, if_false]
      exact ih _ hrest

theorem addParamValue_eq_map (ss : Settings) (t : String) (v : Value)
    (hnd : (ss.map Prod.fst).Nodup) :
    addParamValue ss t v = ss.map (fun x => storeStep x (t, v)) := by
  induction ss with
  | nil => rfl
  | cons x rest ih =>
    obtain ⟨n, s⟩ := x
    simp only [List.map_cons, List.nodup_cons] at hnd
    by_cases hn : n = t
    · subst hn
      have hrest : rest.map (fun x => storeStep x (n, v)) = rest := by
        conv_rhs => rw [← List.map_id rest]
        apply List.map_congr_left
        intro y hy
        have hne : y.1 ≠ n := fun h => hnd.1 (h ▸ List.mem_map_of_mem Prod.fst hy)
        simp [storeStep, hne]
      simp only [addParamValue, if_true, List.map_cons, hrest]
      simp [storeStep]
    · simp only [addParamValue, hn, if_false, List.map_cons, storeStep]
      rw [ih hnd.2]
      rfl

theorem storeStep_fst (x : String × Setting) (pair : String × Value) :
    (storeStep x pair).1 = x.1 := by
  unfold storeStep
  split <;> rfl

theorem storeValues_eq_map (pairs : List (String × Value)) :
    ∀ ss : Settings, (ss.map Prod.fst).Nodup →
      storeValues ss pairs = ss.map (fun x => pairs.foldl storeStep x) := by
  induction pairs with
  | nil => intro ss _; simp [storeValues]
  | cons p rest ih =>
    intro ss hnd
    obtain ⟨t, v⟩ := p
    have h1 : storeValues ss ((t, v) :: rest) = storeValues (addParamValue ss t v) rest := rfl
    rw [h1, addParamValue_eq_map ss t v hnd, ih _ (by
      rw [List.map_map]
      have : (Prod.fst ∘ fun x => storeStep x (t, v)) = Prod.fst := by
        funext x; exact storeStep_fst x (t, v)
      rw [this]; exact hnd), List.map_map]
    rfl

theorem foldl_storeStep (pairs : List (String × Value)) :
    ∀ x : String × Setting,
      (pairs.foldl storeStep x).1 = x.1 ∧
      (pairs.foldl storeStep x).2.param_type = x.2.param_type ∧
      (pairs.foldl storeStep x).2.param_data_type = x.2.param_data_type ∧
      ((∀ pair ∈ pairs, pair.1 = x.1 → ∃ v, pair.2 = Value.string v) →
        (x.2.param_value = none ∨ ∃ v, x.2.param_value = some (Value.string v)) →
        (x.1 ∈ pairs.map Prod.fst ∨ ∃ v, x.2.param_value = some (Value.string v)) →
        ∃ v, (pairs.foldl storeStep x).2.param_value = some (Value.string v)) := by
  induction pairs with
  | nil =>
    intro x
    refine ⟨rfl, rfl, rfl, fun _ _ h => ?_⟩
    rcases h with h | h
    · simp at h
    · exact h
  | cons p rest ih =>
    intro x
    obtain ⟨e1, e2, e3, e4⟩ := ih (storeStep x p)
    have s1 : (storeStep x p).1 = x.1 := storeStep_fst x p
    have s2 : (storeStep x p).2.param_type = x.2.param_type := by
      unfold storeStep; split <;> rfl
    have s3 : (storeStep x p).2.param_data_type = x.2.param_data_type := by
      unfold storeStep; split <;> rfl
    simp only [List.foldl_cons]
    refine ⟨e1.trans s1, e2.trans s2, e3.trans s3, fun hstr hval hcov => ?_⟩
    apply e4
    · intro pair hp hpe
      exact hstr pair (List.mem_cons_of_mem _ hp) (hpe.trans s1)
    · unfold storeStep
      by_cases hx : x.1 = p.1
      · simp only [hx, if_true]
        rcases hval with hv | ⟨v, hv⟩
        · right
          obtain ⟨w, hw⟩ := hstr p (List.mem_cons_self _ _) hx.symm
          exact ⟨w, by simp [hv, hw]⟩
        · right; exact ⟨v, by simp [hv]⟩
      · simp only [hx, if_false]; exact hval
    · by_cases hx : x.1 = p.1
      · right
        unfold storeStep
        simp only [hx, if_true]
        rcases hval with hv | ⟨v, hv⟩
        · obtain ⟨w, hw⟩ := hstr p (List.mem_cons_self _ _) hx.symm
          exact ⟨w, by simp [hv, hw]⟩
        · exact ⟨v, by simp [hv]⟩
      · rcases hcov with hc | hc
        · left
          rw [s1]
          simp only [List.map_cons, List.mem_cons] at hc
          rcases hc with hc | hc
          · exact absurd hc hx
          · exact hc
        · right
          unfold storeStep
          simp only [hx, if_false]
          exact hc

theorem findSetting_of_mem (ss : Settings) (n : String) (s : Setting)
    (hnd : (ss.map Prod.fst).Nodup) (hm : (n, s) ∈ ss) : findSetting ss n = some s := by
  induction ss with
  | nil => simp at hm
  | cons x rest ih =>
    obtain ⟨n0, s0⟩ := x
    simp only [List.map_cons, List.nodup_cons] at hnd
    simp only [List.mem_cons, Prod.mk.injEq] at hm
    rcases hm with ⟨h1, h2⟩ | hm
    · subst h1; subst h2
      simp [findSetting]
    · have hne : n0 ≠ n := fun h => hnd.1 (h ▸ List.mem_map_of_mem Prod.fst hm)
      simp only [findSetting, hne, if_false]
      exact ih hnd.2 hm

theorem valueFits_string (typeCode : enum_field_types) (v : Value)
    (h1 : typeCode ≠ enum_field_types.MYSQL_TYPE_LONG)
    (h2 : typeCode ≠ enum_field_types.MYSQL_TYPE_DOUBLE)
    (h : valueFits typeCode v = true) : ∃ w, v = Value.string w := by
  cases typeCode <;> cases v <;> simp only [valueFits] at h <;>
    first
      | exact absurd h (by decide)
      | exact absurd rfl h1
      | exact absurd rfl h2
      | exact ⟨_, rfl⟩

theorem parameterSetting_value (statementName : String) (p : ParameterDef) (s : Setting)
    (hp : parameterSetting statementName p = Except.ok s) : s.param_value = none := by
  unfold parameterSetting at hp
  repeat' split at hp
  all_goals first | (cases hp; rfl) | cases hp

theorem declaredSettings_values (statementName : String) (params : List ParameterDef) :
    ∀ ss, declaredSettings statementName params = some ss →
      ∀ x ∈ ss, x.2.param_value = none := by
  induction params with
  | nil =>
    intro ss h x hx
    simp only [declaredSettings, Option.some.injEq] at h
    subst h
    simp at hx
  | cons p rest ih =>
    intro ss h x hx
    unfold declaredSettings at h
    rcases hp : parameterSetting statementName p with e | s
    · rw [hp] at h; simp at h
    · rcases hr : declaredSettings statementName rest with _ | ss1
      · rw [hp, hr] at h; simp at h
      · rw [hp, hr] at h
        simp only [Option.some.injEq] at h
        subst h
        simp only [List.mem_cons] at hx
        rcases hx with hx | hx
        · subst hx
          exact parameterSetting_value statementName p s hp
        · exact ih ss1 hr x hx

theorem storeValues_ready (settings : Settings) (args : List (String × Value)) (argDoc : Bool)
    (hnd : (settings.map Prod.fst).Nodup)
    (hnone : ∀ x ∈ settings, x.2.param_value = none)
    (hacc : ∀ pair ∈ args, Accepted argDoc settings pair)
    (hsubtype : ∀ x ∈ settings, x.2.param_type = ParamType.SUBSTITUTE →
      x.2.param_data_type ≠ enum_field_types.MYSQL_TYPE_LONG ∧
      x.2.param_data_type ≠ enum_field_types.MYSQL_TYPE_DOUBLE)
    (hcover : ∀ x ∈ settings, x.2.param_type = ParamType.SUBSTITUTE →
      x.1 ∈ args.map Prod.fst) :
    SubstituteReady (storeValues settings args) := by
  rw [storeValues_eq_map args settings hnd]
  intro y hy hsub
  obtain ⟨x, hx, rfl⟩ := List.mem_map.1 hy
  obtain ⟨e1, e2, e3, e4⟩ := foldl_storeStep args x
  have hxs : x.2.param_type = ParamType.SUBSTITUTE := e2 ▸ hsub
  apply e4
  · intro pair hp hpe
    obtain ⟨_, s, hs, hv⟩ := hacc pair hp
    have hfind : findSetting settings pair.1 = some x.2 := by
      rw [hpe]
      exact findSetting_of_mem settings x.1 x.2 hnd hx
    rw [hfind] at hs
    have hsx : s = x.2 := (Option.some.inj hs).symm
    subst hsx
    exact valueFits_string _ _ (hsubtype x hx hxs).1 (hsubtype x hx hxs).2 hv
  · left; exact hnone x hx
  · left; exact hcover x hx hxs

theorem countMarkers_map (ss : Settings) (f : String × Setting → String × Setting)
    (hf : ∀ x, (f x).2.param_type = x.2.param_type) :
    countMarkers (ss.map f) = countMarkers ss := by
  induction ss with
  | nil => rfl
  | cons x rest ih =>
    obtain ⟨n, s⟩ := x
    simp only [List.map_cons]
    have h := hf (n, s)
    rcases hfx : f (n, s) with ⟨n', s'⟩
    rw [hfx] at h
    simp only [countMarkers, ih]
    have h' : s'.param_type = s.param_type := h
    rw [h']

theorem countMarkers_storeValues (settings : Settings) (args : List (String × Value))
    (hnd : (settings.map Prod.fst).Nodup) :
    countMarkers (storeValues settings args) = countMarkers settings := by
  rw [storeValues_eq_map args settings hnd]
  exact countMarkers_map settings _ (fun x => (foldl_storeStep args x).2.1)

theorem validateStatement_ok (fuel : Nat) (env : Env) (c : MySqlConnection) (i : Nat)
    (statements : Statements) (statement : StatementDef)
    (hi : i < c.executions_.length)
    (hdict : env.statementDict = some statements)
    (hfind : findStatement statements (c.exec i).statementName_ = some statement) :
    ∃ c', MySqlExecution.validateStatement fuel env c i = some (c', (c.exec i).errorNo_) ∧
      StateFrame i ExecutionState.STATEMENT_VALID_STATE c c' := by
  unfold MySqlExecution.validateStatement
  simp only [hdict, hfind]
  exact changeState_quiet fuel env c i _ hi (fun k => Or.inr (by decide))

theorem addParameterValues_nil (fuel : Nat) (env : Env) (i n : Nat) (c : MySqlConnection)
    (h : n = 0 ∨ (c.exec i).argDoc_ = true) :
    MySqlExecution.addParameterValues fuel env i n [] c = some (c, 0) := by
  cases n with
  | zero => rfl
  | succ n =>
    rcases h with h | h
    · cases h
    · simp [MySqlExecution.addParameterValues, h]

/-- The second loop of `createSettings` stops without reading a pair when it
has read as many as there are parameters, when the document has no pair left,
or when the next tag of a variadic list is `end`. -/
theorem addParameterValues_stop (fuel : Nat) (env : Env) (i n : Nat)
    (rest : List (String × ArgValue)) (c : MySqlConnection)
    (h : n = 0 ∨ ((c.exec i).argDoc_ = true ∧ rest = []) ∨
      ((c.exec i).argDoc_ = false ∧ ∃ v rest1, rest = ("end", v) :: rest1)) :
    MySqlExecution.addParameterValues fuel env i n rest c = some (c, 0) := by
  cases n with
  | zero => rw [MySqlExecution.addParameterValues]
  | succ n =>
    rcases h with h | ⟨hd, hr⟩ | ⟨hd, v, rest1, hr⟩
    · cases h
    · subst hr
      exact addParameterValues_nil fuel env i _ c (Or.inr hd)
    · subst hr
      rw [MySqlExecution.addParameterValues]
      simp only [hd, and_self, if_true]

theorem createSettings_ok (fuel : Nat) (env : Env) (c : MySqlConnection) (i : Nat)
    (statements : Statements) (statement : StatementDef) (params : List ParameterDef)
    (taken rest : List (String × ArgValue)) (settings : Settings)
    (hi : i < c.executions_.length)
    (hdict : env.statementDict = some statements)
    (hfind : findStatement statements (c.exec i).statementName_ = some statement)
    (hparams : statement.parameters = some params)
    (hargs : (c.exec i).args_ = some (taken ++ rest))
    (hdecl : declaredSettings (c.exec i).statementName_ params = some settings)
    (hacc : ∀ pair ∈ taken, Accepted (c.exec i).argDoc_ settings pair)
    (hlen : taken.length ≤ params.length)
    (hstop : taken.length = params.length ∨ ((c.exec i).argDoc_ = true ∧ rest = []) ∨
      ((c.exec i).argDoc_ = false ∧ ∃ v rest1, rest = ("end", v) :: rest1)) :
    ∃ c', MySqlExecution.createSettings fuel env c i = some (c', (c.exec i).errorNo_) ∧
      StateFrame i ExecutionState.SETTINGS_CREATED_STATE
        (c.setExec i { c.exec i with settings_ := storeValues settings taken, args_ := none })
        c' := by
  obtain ⟨n, hn⟩ : ∃ n, params.length = taken.length + n :=
    ⟨params.length - taken.length, by omega⟩
  have hi2 : i < (c.setExec i { c.exec i with settings_ := settings }).executions_.length := by
    rw [length_setExec]; exact hi
  have hloop : MySqlExecution.addParameterValues fuel env i params.length (taken ++ rest)
      (c.setExec i { c.exec i with settings_ := settings })
      = some (c.setExec i { c.exec i with settings_ := storeValues settings taken }, 0) := by
    have h1 := addParameterValues_prefix fuel env i taken
      (c.setExec i { c.exec i with settings_ := settings }) n rest hi2 (by
        intro pair hp
        rw [exec_setExec_same _ _ _ hi]
        exact hacc pair hp)
    rw [hn, h1, exec_setExec_same _ _ _ hi, setExec_setExec]
    apply addParameterValues_stop
    rw [exec_setExec_same _ _ _ hi]
    rcases hstop with h | h | h
    · left; omega
    · right; left; exact h
    · right; right; exact h
  have hi3 : i < (c.setExec i { c.exec i with
      settings_ := storeValues settings taken, args_ := none }).executions_.length := by
    rw [length_setExec]; exact hi
  obtain ⟨c', h1, f1⟩ := changeState_quiet fuel env
    (c.setExec i { c.exec i with settings_ := storeValues settings taken, args_ := none }) i
    ExecutionState.SETTINGS_CREATED_STATE hi3 (fun k => Or.inr (by decide))
  refine ⟨c', ?_, f1⟩
  rw [createSettings_declared fuel env c i statements statement params (taken ++ rest) settings
    hi hdict hfind hparams hargs hdecl, hloop]
  simp only [ne_eq, not_true_eq_false, if_false, exec_setExec_same _ _ _ hi, setExec_setExec]
  rw [exec_setExec_same _ _ _ hi] at h1
  exact h1

theorem generateStatementText_ok (fuel : Nat) (env : Env) (c : MySqlConnection) (i : Nat)
    (statements : Statements) (statement : StatementDef) (lines : List String)
    (hi : i < c.executions_.length)
    (hdict : env.statementDict = some statements)
    (hfind : findStatement statements (c.exec i).statementName_ = some statement)
    (htext : statement.statement_text = some lines)
    (hready : SubstituteReady (c.exec i).settings_)
    (hq : ∀ k, (c.obs k).observerType ≠ ObserverType.REPLAY_OBS) :
    ∃ c' text,
      substituteSettings env (c.exec i).settings_ (lines.foldl (fun acc line => acc ++ line) "")
        = some text ∧
      MySqlExecution.generateStatementText fuel env c i = some (c', (c.exec i).errorNo_) ∧
      StateFrame i ExecutionState.SQL_GENERATED_STATE
        (c.setExec i { c.exec i with statementText_ := text }) c' := by
  obtain ⟨text, ht⟩ := substituteSettings_ready env (c.exec i).settings_
    (lines.foldl (fun acc line => acc ++ line) "") hready
  have hi2 : i < (c.setExec i { c.exec i with statementText_ := text }).executions_.length := by
    rw [length_setExec]; exact hi
  obtain ⟨c', h1, f1⟩ := changeState_quiet fuel env
    (c.setExec i { c.exec i with statementText_ := text }) i
    ExecutionState.SQL_GENERATED_STATE hi2 (fun k => Or.inl (hq k))
  refine ⟨c', text, ht, ?_, f1⟩
  unfold MySqlExecution.generateStatementText
  simp only [hdict, hfind, htext, ht]
  rw [exec_setExec_same _ _ _ hi] at h1
  exact h1

theorem crankLoop_step (env : Env) (i : Nat) (exitState : ExecutionState) (f : Nat)
    (c : MySqlConnection) (rc : Int) (fn : StateFunction)
    (hne : (c.exec i).state_ ≠ exitState)
    (hfn : stateFunctionMap_ (c.exec i).state_ = some fn) :
    MySqlExecution.crankLoop env i exitState (f + 1) c rc =
      match MySqlExecution.callStateFunction f env
          { c with trace := c.trace ++ [((c.exec i).executionHandle_, fn)] } i fn with
      | none => none
      | some (c1, rc1) =>
        if rc1 ≠ 0 then some (c1, rc1)
        else MySqlExecution.crankLoop env i exitState f c1 rc1 := by
  rw [MySqlExecution.crankLoop]
  simp only [hne, if_false, hfn]

theorem crankLoop_exit (env : Env) (i : Nat) (exitState : ExecutionState) (f : Nat)
    (c : MySqlConnection) (rc : Int) (h : (c.exec i).state_ = exitState) :
    MySqlExecution.crankLoop env i exitState (f + 1) c rc = some (c, rc) := by
  rw [MySqlExecution.crankLoop]
  simp only [h, if_true]

/-- The members of the execution that a change of state leaves alone. -/
theorem StateFrame.fields {i : Nat} {ns : ExecutionState} {c c' : MySqlConnection}
    (h : StateFrame i ns c c') :
    (c'.exec i).state_ = ns ∧
    (c'.exec i).statementName_ = (c.exec i).statementName_ ∧
    (c'.exec i).args_ = (c.exec i).args_ ∧
    (c'.exec i).argDoc_ = (c.exec i).argDoc_ ∧
    (c'.exec i).errorNo_ = (c.exec i).errorNo_ ∧
    (c'.exec i).errorMessage_ = (c.exec i).errorMessage_ ∧
    (c'.exec i).settings_ = (c.exec i).settings_ ∧
    (c'.exec i).executionHandle_ = (c.exec i).executionHandle_ ∧
    (c'.exec i).statementText_ = (c.exec i).statementText_ ∧
    (c'.exec i).statementHandle_ = (c.exec i).statementHandle_ := by
  have h0 := congrArg MySqlExecution.state_ h.execSelf
  have h1 := congrArg MySqlExecution.statementName_ h.execSelf
  have h2 := congrArg MySqlExecution.args_ h.execSelf
  have h3 := congrArg MySqlExecution.argDoc_ h.execSelf
  have h4 := congrArg MySqlExecution.errorNo_ h.execSelf
  have h5 := congrArg MySqlExecution.errorMessage_ h.execSelf
  have h6 := congrArg MySqlExecution.settings_ h.execSelf
  have h7 := congrArg MySqlExecution.executionHandle_ h.execSelf
  have h8 := congrArg MySqlExecution.statementText_ h.execSelf
  have h9 := congrArg MySqlExecution.statementHandle_ h.execSelf
  exact ⟨h0, h1, h2, h3, h4, h5, h6, h7, h8, h9⟩

theorem core_errorNo {c c' : MySqlConnection} (h : c'.core = c.core) :
    c'.errorNo_ = c.errorNo_ ∧ c'.errorMessage_ = c.errorMessage_ := by
  have h1 := congrArg MySqlConnection.errorNo_ h
  have h2 := congrArg MySqlConnection.errorMessage_ h
  exact ⟨h1, h2⟩

theorem WellFormedCall.congr {env : Env} {e e' : MySqlExecution} {params : List ParameterDef}
    {lines : List String} {taken rest : List (String × ArgValue)} {settings : Settings}
    (h : WellFormedCall env e params lines taken rest settings)
    (h1 : e'.statementName_ = e.statementName_) (h2 : e'.args_ = e.args_)
    (h3 : e'.argDoc_ = e.argDoc_) (h4 : e'.errorNo_ = e.errorNo_) :
    WellFormedCall env e' params lines taken rest settings :=
  ⟨by rw [h1]; exact h.dict, by rw [h2]; exact h.supplied, by rw [h1]; exact h.decl,
   by rw [h3]; exact h.acc, h.len, by rw [h3]; exact h.stop, h.ready,
   by rw [h4]; exact h.fresh⟩

theorem crankLoop_advance (env : Env) (i : Nat) (exitState : ExecutionState) (f : Nat)
    (c T c1 : MySqlConnection) (rc : Int) (fn : StateFunction)
    (hT : T = { c with trace := c.trace ++ [((c.exec i).executionHandle_, fn)] })
    (hne : (c.exec i).state_ ≠ exitState)
    (hfn : stateFunctionMap_ (c.exec i).state_ = some fn)
    (hcall : MySqlExecution.callStateFunction f env T i fn = some (c1, 0)) :
    MySqlExecution.crankLoop env i exitState (f + 1) c rc =
      MySqlExecution.crankLoop env i exitState f c1 0 := by
  rw [crankLoop_step env i exitState f c rc fn hne hfn, ← hT, hcall]
  simp

/-- The crank loop of `prepareToExecute` on a well-formed call, without a
replay observer. -/
theorem crank_prepares (f : Nat) (env : Env) (S : MySqlConnection) (i : Nat)
    (params : List ParameterDef) (lines : List String) (taken rest : List (String × ArgValue))
    (settings : Settings)
    (hi : i < S.executions_.length)
    (hw : WellFormedCall env (S.exec i) params lines taken rest settings)
    (hstate : (S.exec i).state_ = ExecutionState.INITIAL_STATE)
    (hq : ∀ k, (S.obs k).observerType ≠ ObserverType.REPLAY_OBS) :
    ∃ c', MySqlExecution.crankStateMachine (f + 4) env S i ExecutionState.SQL_GENERATED_STATE
        = some (c', 0) ∧ PreparedPost env S i lines taken settings c' := by
  obtain ⟨statements, statement, hdict, hfind, hparams, htext⟩ := hw.dict
  -- validateStatement
  obtain ⟨T0, hT0⟩ : ∃ T0 : MySqlConnection, T0 = { S with trace := S.trace ++
    [((S.exec i).executionHandle_, StateFunction.validateStatement)] } := ⟨_, rfl⟩
  have hT0e : T0.exec i = S.exec i := by rw [hT0]; rfl
  have hT0l : T0.executions_.length = S.executions_.length := by rw [hT0]
  have hT0o : ∀ k, T0.obs k = S.obs k := by intro k; rw [hT0]; rfl
  have hT0t : T0.trace = S.trace ++
    [((S.exec i).executionHandle_, StateFunction.validateStatement)] := by rw [hT0]
  have hT0s : T0.serverLog = S.serverLog := by rw [hT0]
  have hT0n : T0.errorNo_ = S.errorNo_ := by rw [hT0]
  have hT0m : T0.errorMessage_ = S.errorMessage_ := by rw [hT0]
  obtain ⟨c1, r1, f1⟩ := validateStatement_ok (f + 3) env T0 i statements statement
    (by rw [hT0l]; exact hi) hdict (by rw [hT0e]; exact hfind)
  obtain ⟨s1, n1, a1, d1, e1, -, t1, x1, -, -⟩ := f1.fields
  rw [hT0e] at n1 a1 d1 e1 t1 x1 r1
  rw [hw.fresh] at r1
  have hi1 : i < c1.executions_.length := by rw [f1.execLen, hT0l]; exact hi
  have hw1 : WellFormedCall env (c1.exec i) params lines taken rest settings :=
    hw.congr n1 a1 d1 e1
  -- createSettings
  obtain ⟨T1, hT1⟩ : ∃ T1 : MySqlConnection, T1 = { c1 with trace := c1.trace ++
    [((c1.exec i).executionHandle_, StateFunction.createSettings)] } := ⟨_, rfl⟩
  have hT1e : T1.exec i = c1.exec i := by rw [hT1]; rfl
  have hT1l : T1.executions_.length = c1.executions_.length := by rw [hT1]
  have hT1o : ∀ k, T1.obs k = c1.obs k := by intro k; rw [hT1]; rfl
  have hT1t : T1.trace = c1.trace ++
    [((c1.exec i).executionHandle_, StateFunction.createSettings)] := by rw [hT1]
  have hT1s : T1.serverLog = c1.serverLog := by rw [hT1]
  have hT1n : T1.errorNo_ = c1.errorNo_ := by rw [hT1]
  have hT1m : T1.errorMessage_ = c1.errorMessage_ := by rw [hT1]
  have hw1T : WellFormedCall env (T1.exec i) params lines taken rest settings := by
    rw [hT1e]; exact hw1
  have hfind1 : findStatement statements (T1.exec i).statementName_ = some statement := by
    rw [hT1e, n1]; exact hfind
  obtain ⟨c2, r2, f2⟩ := createSettings_ok (f + 2) env T1 i statements statement params taken
    rest settings (by rw [hT1l]; exact hi1) hdict hfind1 hparams hw1T.supplied hw1T.decl
    hw1T.acc hw1T.len hw1T.stop
  have hiT1 : i < T1.executions_.length := by rw [hT1l]; exact hi1
  obtain ⟨s2, n2, -, d2, e2, -, t2, x2, -, -⟩ := f2.fields
  rw [exec_setExec_same _ _ _ hiT1] at n2 d2 e2 t2 x2
  rw [hT1e] at n2 d2 e2 x2 r2
  rw [e1, hw.fresh] at r2
  have hi2 : i < c2.executions_.length := by rw [f2.execLen, length_setExec]; exact hiT1
  -- generateStatementText
  obtain ⟨T2, hT2⟩ : ∃ T2 : MySqlConnection, T2 = { c2 with trace := c2.trace ++
    [((c2.exec i).executionHandle_, StateFunction.generateStatementText)] } := ⟨_, rfl⟩
  have hT2e : T2.exec i = c2.exec i := by rw [hT2]; rfl
  have hT2l : T2.executions_.length = c2.executions_.length := by rw [hT2]
  have hT2o : ∀ k, T2.obs k = c2.obs k := by intro k; rw [hT2]; rfl
  have hT2t : T2.trace = c2.trace ++
    [((c2.exec i).executionHandle_, StateFunction.generateStatementText)] := by rw [hT2]
  have hT2s : T2.serverLog = c2.serverLog := by rw [hT2]
  have hT2n : T2.errorNo_ = c2.errorNo_ := by rw [hT2]
  have hT2m : T2.errorMessage_ = c2.errorMessage_ := by rw [hT2]
  have hiT2 : i < T2.executions_.length := by rw [hT2l]; exact hi2
  have hq2 : ∀ k, (T2.obs k).observerType ≠ ObserverType.REPLAY_OBS := by
    intro k
    rw [hT2o, f2.obsType k, obs_setExec, hT1o, f1.obsType k, hT0o]
    exact hq k
  have hfind2 : findStatement statements (T2.exec i).statementName_ = some statement := by
    rw [hT2e, n2, n1]; exact hfind
  have hready : SubstituteReady (T2.exec i).settings_ := by
    rw [hT2e, t2]
    exact hw.ready
  obtain ⟨c3, text, ht, r3, f3⟩ := generateStatementText_ok (f + 1) env T2 i statements
    statement lines hiT2 hdict hfind2 htext hready hq2
  obtain ⟨s3, n3, -, -, e3, -, t3, x3, tx3, -⟩ := f3.fields
  rw [exec_setExec_same _ _ _ hiT2] at n3 e3 t3 x3 tx3
  rw [hT2e] at e3 t3 x3 r3 ht
  rw [e2, e1, hw.fresh] at r3 e3
  rw [t2] at t3 ht
  have hi3 : i < c3.executions_.length := by rw [f3.execLen, length_setExec]; exact hiT2
  -- the loop
  have hloop : MySqlExecution.crankLoop env i ExecutionState.SQL_GENERATED_STATE (f + 4) S 0
      = some (c3, 0) := by
    rw [crankLoop_advance env i _ (f + 3) S T0 c1 0 StateFunction.validateStatement hT0
      (by rw [hstate]; decide) (by rw [hstate]; rfl) r1]
    rw [crankLoop_advance env i _ (f + 2) c1 T1 c2 0 StateFunction.createSettings hT1
      (by rw [s1]; decide) (by rw [s1]; rfl) r2]
    rw [crankLoop_advance env i _ (f + 1) c2 T2 c3 0 StateFunction.generateStatementText hT2
      (by rw [s2]; decide) (by rw [s2]; rfl) r3]
    exact crankLoop_exit env i _ f c3 0 s3
  refine ⟨c3.setExec i { c3.exec i with rc_ := 0 }, ?_, ?_⟩
  · rw [MySqlExecution.crankStateMachine, hloop]
  · have hc3t : c3.trace = T2.trace := core_trace f3.core
    have hc2t : c2.trace = T1.trace := core_trace f2.core
    have hc1t : c1.trace = T0.trace := core_trace f1.core
    have hc3s : c3.serverLog = T2.serverLog := core_serverLog f3.core
    have hc2s : c2.serverLog = T1.serverLog := core_serverLog f2.core
    have hc1s : c1.serverLog = T0.serverLog := core_serverLog f1.core
    have hc3n := core_errorNo f3.core
    have hc2n := core_errorNo f2.core
    have hc1n := core_errorNo f1.core
    refine ⟨?_, ?_, ?_, ?_, ?_, ?_, ?_, ?_, ?_, ?_⟩
    · rw [length_setExec, f3.execLen, length_setExec, hT2l, f2.execLen, length_setExec, hT1l,
        f1.execLen, hT0l]
    · rw [exec_setExec_same _ _ _ hi3]; exact s3
    · rw [exec_setExec_same _ _ _ hi3]; exact e3
    · rw [exec_setExec_same _ _ _ hi3]
    · rw [exec_setExec_same _ _ _ hi3]; exact t3
    · rw [exec_setExec_same _ _ _ hi3]
      have : (c3.exec i).statementText_ = text := tx3
      rw [show ({ c3.exec i with rc_ := 0 } : MySqlExecution).statementText_
        = (c3.exec i).statementText_ from rfl, this]
      exact ht
    · have : (c3.setExec i { c3.exec i with rc_ := 0 }).trace = c3.trace := rfl
      rw [this, hc3t, hT2t, hc2t, hT1t, hc1t, hT0t, x2, x1, List.append_assoc,
        List.append_assoc]
      rfl
    · have : (c3.setExec i { c3.exec i with rc_ := 0 }).serverLog = c3.serverLog := rfl
      rw [this, hc3s, hT2s, hc2s, hT1s, hc1s, hT0s]
    · have : (c3.setExec i { c3.exec i with rc_ := 0 }).errorNo_ = c3.errorNo_ := rfl
      have h3 : c3.errorNo_ = T2.errorNo_ := hc3n.1
      have h2 : c2.errorNo_ = T1.errorNo_ := hc2n.1
      rw [this, h3, hT2n, h2, hT1n, hc1n.1, hT0n]
    · have : (c3.setExec i { c3.exec i with rc_ := 0 }).errorMessage_ = c3.errorMessage_ := rfl
      have h3 : c3.errorMessage_ = T2.errorMessage_ := hc3n.2
      have h2 : c2.errorMessage_ = T1.errorMessage_ := hc2n.2
      rw [this, h3, hT2m, h2, hT1m, hc1n.2, hT0m]

/-- The connection on which `prepareToExecute` starts the crank loop. -/
theorem prepareToExecute_eq (fuel : Nat) (env : Env) (c : MySqlConnection) (i : Nat) :
    ∃ S : MySqlConnection,
      MySqlExecution.prepareToExecute fuel env c i =
        MySqlExecution.crankStateMachine fuel env S i ExecutionState.SQL_GENERATED_STATE ∧
      S.executions_.length = c.executions_.length ∧
      (i < c.executions_.length →
        (S.exec i).state_ = ExecutionState.INITIAL_STATE ∧
        (S.exec i).statementName_ = (c.exec i).statementName_ ∧
        (S.exec i).args_ = (c.exec i).args_ ∧
        (S.exec i).argDoc_ = (c.exec i).argDoc_ ∧
        (S.exec i).errorNo_ = (c.exec i).errorNo_ ∧
        (S.exec i).executionHandle_ = (c.exec i).executionHandle_) ∧
      (∀ k, S.obs k = c.obs k) ∧ S.trace = c.trace ∧ S.serverLog = c.serverLog ∧
      S.errorNo_ = 0 ∧ S.errorMessage_ = "" := by
  refine ⟨_, rfl, ?_, ?_, fun k => rfl, rfl, rfl, rfl, rfl⟩
  · simp [MySqlConnection.tick, MySqlConnection.setExec]
  · intro hi
    have h1 : ∀ (d : MySqlConnection) (e : MySqlExecution), (d.setExec i e).tick.exec i
        = (d.setExec i e).exec i := fun _ _ => rfl
    rw [h1, exec_setExec_same _ _ _ (by simp [MySqlConnection.setExec]; exact hi)]
    have h2 : ∀ (d : MySqlConnection) (m : String) (n : Int),
        ({ d with errorMessage_ := m, errorNo_ := n } : MySqlConnection).exec i = d.exec i :=
      fun _ _ _ => rfl
    simp only [h2, exec_setExec_same _ _ _ hi]
    simp

/-- C13, counterexample: the statement `when` of the dictionary declares one
date parameter `d`; the call supplies the value `1900-01-01` for it.
`prepareToExecute` returns 1 and the execution ends in ERROR: the range check
of `stringToMySqlTime` refuses the year. -/
theorem C13_counterexample :
    (MySqlExecution.prepareToExecute 20 temporalEnv
        (exampleConnection.started (MySqlExecution.new exampleConnection "when"
          [("d", Value.string "1900-01-01")] false)) 0).map
      (fun r => (r.2, (r.1.exec 0).state_, (r.1.exec 0).errorNo_, (r.1.exec 0).errorMessage_))
    = some (1, ExecutionState.ERROR_STATE, 1,
        "Illegal year 1900 in parameter \x271900-01-01\x27") := by
  decide

/-- C13 (amended): for a statement name whose dictionary entry has a
`parameters` array of well-formed records and a `statement_text`, and a call
on a fresh execution in which the second loop of `createSettings` takes every
pair it reads (the loop reads pairs until it has read as many as there are
parameters, the document ends, or the variadic list has the tag `end` next;
the tag of each pair read names a declared parameter and its value fits the
declared data type, a temporal value being one that `stringToMySqlTime`
accepts) and after which every SUBSTITUTE setting holds a string, with no
replay observer attached: `prepareToExecute` returns 0 within four steps of
the crank loop and leaves the execution in SQL_GENERATED with no error on the
execution or on the connection; the settings hold the values read, the text
is the text of the dictionary after substitution, and the server was not
called. -/
theorem C13_prepareToExecute_succeeds (f : Nat) (env : Env) (c : MySqlConnection) (i : Nat)
    (params : List ParameterDef) (lines : List String) (taken rest : List (String × ArgValue))
    (settings : Settings)
    (hi : i < c.executions_.length)
    (hw : WellFormedCall env (c.exec i) params lines taken rest settings)
    (hq : ∀ k, (c.obs k).observerType ≠ ObserverType.REPLAY_OBS) :
    ∃ c', MySqlExecution.prepareToExecute (f + 4) env c i = some (c', 0) ∧
      (c'.exec i).state_ = ExecutionState.SQL_GENERATED_STATE ∧
      (c'.exec i).errorNo_ = 0 ∧ (c'.exec i).rc_ = 0 ∧
      c'.errorNo_ = 0 ∧ c'.errorMessage_ = "" ∧
      (c'.exec i).settings_ = storeValues settings taken ∧
      substituteSettings env (storeValues settings taken)
        (lines.foldl (fun acc line => acc ++ line) "") = some (c'.exec i).statementText_ ∧
      c'.trace = c.trace ++
        [((c.exec i).executionHandle_, StateFunction.validateStatement),
         ((c.exec i).executionHandle_, StateFunction.createSettings),
         ((c.exec i).executionHandle_, StateFunction.generateStatementText)] ∧
      c'.serverLog = c.serverLog := by
  obtain ⟨S, hS, hlen, hfields, hobs, htrace, hlog, hno, hmsg⟩ :=
    prepareToExecute_eq (f + 4) env c i
  obtain ⟨s0, n0, a0, d0, e0, x0⟩ := hfields hi
  obtain ⟨c', hrun, post⟩ := crank_prepares f env S i params lines taken rest settings
    (by rw [hlen]; exact hi) (hw.congr n0 a0 d0 e0) s0 (fun k => by rw [hobs k]; exact hq k)
  refine ⟨c', by rw [hS]; exact hrun, post.state, post.errorNo, post.rc, ?_, ?_, post.stored,
    post.text, ?_, ?_⟩
  · rw [post.connErrorNo, hno]
  · rw [post.connErrorMessage, hmsg]
  · rw [post.trace, htrace, x0]
  · rw [post.serverLog, hlog]

theorem C13_prepareToExecute_succeeds_witness :
    0 < (exampleConnection.started (MySqlExecution.new exampleConnection "one"
      [("a", Value.int 1), ("zzz", Value.int 2)] true)).executions_.length ∧
    WellFormedCall exampleEnv
      ((exampleConnection.started (MySqlExecution.new exampleConnection "one"
        [("a", Value.int 1), ("zzz", Value.int 2)] true)).exec 0)
      [{ name := "a", param_type := some "marker", data_type := some "int" }]
      ["select ?"] [("a", Value.int 1)] [("zzz", Value.int 2)]
      [("a", { param_type := ParamType.MARKER,
               param_data_type := enum_field_types.MYSQL_TYPE_LONG, param_value := none })] ∧
    ∃ c', MySqlExecution.prepareToExecute 4 exampleEnv
        (exampleConnection.started (MySqlExecution.new exampleConnection "one"
          [("a", Value.int 1), ("zzz", Value.int 2)] true)) 0 = some (c', 0) ∧
      (c'.exec 0).state_ = ExecutionState.SQL_GENERATED_STATE ∧
      (c'.exec 0).errorNo_ = 0 ∧ (c'.exec 0).statementText_ = "select ?" ∧
      (c'.exec 0).settings_ =
        [("a", { param_type := ParamType.MARKER,
                 param_data_type := enum_field_types.MYSQL_TYPE_LONG,
                 param_value := some (Value.int 1) })] :=
  have hw : WellFormedCall exampleEnv
      ((exampleConnection.started (MySqlExecution.new exampleConnection "one"
        [("a", Value.int 1), ("zzz", Value.int 2)] true)).exec 0)
      [{ name := "a", param_type := some "marker", data_type := some "int" }]
      ["select ?"] [("a", Value.int 1)] [("zzz", Value.int 2)]
      [("a", { param_type := ParamType.MARKER,
               param_data_type := enum_field_types.MYSQL_TYPE_LONG, param_value := none })] :=
    { dict := ⟨exampleStatements,
        { statement_text := some ["select ?"],
          parameters := some [{ name := "a", param_type := some "marker",
                                data_type := some "int" }] }, rfl, by decide, rfl, rfl⟩
      supplied := rfl
      decl := by decide
      acc := fun pair h => by
        rw [List.mem_singleton] at h
        subst h
        exact ⟨by decide,
          ⟨({ param_type := ParamType.MARKER,
              param_data_type := enum_field_types.MYSQL_TYPE_LONG,
              param_value := none } : Setting), by decide, by decide⟩⟩
      len := by decide
      stop := Or.inl (by decide)
      ready := fun x h hs => by
        have h2 : x ∈ [("a", ({ param_type := ParamType.MARKER,
                                param_data_type := enum_field_types.MYSQL_TYPE_LONG,
                                param_value := some (Value.int 1) } : Setting))] := h
        rw [List.mem_singleton] at h2
        subst h2
        exact absurd hs (by decide)
      fresh := rfl }
  ⟨by decide, hw,
   match C13_prepareToExecute_succeeds 0 exampleEnv
     (exampleConnection.started (MySqlExecution.new exampleConnection "one"
       [("a", Value.int 1), ("zzz", Value.int 2)] true)) 0 _ _ _ _ _ (by decide) hw (fun k => by
         have h : (exampleConnection.started (MySqlExecution.new exampleConnection "one"
           [("a", Value.int 1), ("zzz", Value.int 2)] true)).obs k = default := by
           show List.getD [] k default = default
           simp
         rw [h]
         decide) with
   | ⟨c', h, hs, he, _, _, _, hst, ht, _, _⟩ =>
     ⟨c', h, hs, he, by
       have h2 : some (c'.exec 0).statementText_ = some "select ?" := by
         rw [← ht]; rfl
       exact Option.some.inj h2, by rw [hst]; rfl⟩⟩

/-- C14, counterexample: the entry `two` of the dictionary has the text
`select ?, ?` and declares one MARKER parameter.  `prepareToExecute`, whose
last transition function is `generateStatementText`, returns 0 and leaves the
execution in SQL_GENERATED with two `?` in the text and one MARKER setting. -/
theorem C14_counterexample :
    (MySqlExecution.prepareToExecute 20 exampleEnv
        (exampleConnection.started (MySqlExecution.new exampleConnection "two"
          [("a", Value.int 5)] false)) 0).map
      (fun r => (r.2, (r.1.exec 0).state_, r.1.trace.getLast?.map (fun t => t.2),
        (r.1.exec 0).statementText_, countQuestionMarks (r.1.exec 0).statementText_,
        countMarkers (r.1.exec 0).settings_))
    = some (0, ExecutionState.SQL_GENERATED_STATE, some StateFunction.generateStatementText,
        "select ?, ?", 2, 1) := by
  decide

theorem BindFrame.unchanged (i : Nat) (c : MySqlConnection) : BindFrame i [] c c := by
  refine ⟨rfl, rfl, rfl, ?_, rfl, rfl, rfl⟩
  rcases (c.exec i).paramBuffer_ with _ | buf
  · rfl
  · simp

theorem BindFrame.andThen {i : Nat} {w1 w2 : List (Nat × BufferValue)}
    {c1 c2 c3 : MySqlConnection} (h1 : BindFrame i w1 c1 c2) (h2 : BindFrame i w2 c2 c3) :
    BindFrame i (w1 ++ w2) c1 c3 := by
  refine ⟨h2.execLen.trans h1.execLen, h2.settings.trans h1.settings,
    h2.paramBufferLen.trans h1.paramBufferLen, ?_, h2.binds.trans h1.binds,
    h2.statementHandle.trans h1.statementHandle, h2.columnBindArray.trans h1.columnBindArray⟩
  rw [h2.paramBuffer, h1.paramBuffer]
  rcases (c1.exec i).paramBuffer_ with _ | buf
  · rfl
  · simp [List.append_assoc]

theorem BindFrame.setParameterBind (c : MySqlConnection) (i k : Nat) (b : MYSQL_BIND)
    (hi : i < c.executions_.length) : BindFrame i [] c (setParameterBind c i k b) := by
  unfold MySqlAt.setParameterBind
  rcases harr : (c.exec i).parameterBindArray_ with _ | arr
  · exact BindFrame.unchanged i c
  · simp only
    refine ⟨length_setExec _ _ _, ?_, ?_, ?_, ?_, ?_, ?_⟩
    all_goals rw [exec_setExec_same _ _ _ hi]
    · simp only
      rcases (c.exec i).paramBuffer_ with _ | buf
      · rfl
      · simp
    · simp [harr]

theorem BindFrame.writeParamBuffer (c : MySqlConnection) (i offset : Nat) (v : BufferValue)
    (hi : i < c.executions_.length) :
    BindFrame i [(offset, v)] c (writeParamBuffer c i offset v) := by
  unfold MySqlAt.writeParamBuffer
  rcases hbuf : (c.exec i).paramBuffer_ with _ | buf
  · simp only
    refine ⟨rfl, rfl, rfl, ?_, rfl, rfl, rfl⟩
    rw [hbuf]; rfl
  · simp only
    refine ⟨length_setExec _ _ _, ?_, ?_, ?_, ?_, ?_, ?_⟩
    all_goals rw [exec_setExec_same _ _ _ hi]
    simp [hbuf]

theorem BindFrame.ofError {i : Nat} {msg : String} {errNo : Int} {c c' : MySqlConnection}
    (h : ErrorFrame i msg errNo c c') : BindFrame i [] c c' := by
  have h1 := congrArg MySqlExecution.settings_ h.execSelf
  have h2 := congrArg MySqlExecution.paramBufferLen_ h.execSelf
  have h3 := congrArg MySqlExecution.paramBuffer_ h.execSelf
  have h4 := congrArg MySqlExecution.parameterBindArray_ h.execSelf
  have h5 := congrArg MySqlExecution.statementHandle_ h.execSelf
  have h6 := congrArg MySqlExecution.columnBindArray_ h.execSelf
  refine ⟨h.execLen, h1, h2, ?_, ?_, h5, h6⟩
  · have h3' : (c'.exec i).paramBuffer_ = (c.exec i).paramBuffer_ := h3
    rw [h3']
    rcases (c.exec i).paramBuffer_ with _ | buf
    · rfl
    · simp
  · have h4' : (c'.exec i).parameterBindArray_ = (c.exec i).parameterBindArray_ := h4
    rw [h4']

theorem stringToMySqlTime_frame (fuel : Nat) (env : Env) (c c1 : MySqlConnection) (i : Nat)
    (timeString : String) (typeCode : enum_field_types) (rc : Int) (tv : Option MYSQL_TIME)
    (hi : i < c.executions_.length)
    (h : MySqlExecution.stringToMySqlTime fuel env c i timeString typeCode = some (c1, rc, tv)) :
    BindFrame i [] c c1 ∧
    ((∃ v, parseTime timeString typeCode = some (TimeParse.ok v) ∧ rc = 0 ∧ tv = some v) ∨
     (tv = none ∧ ∀ v, parseTime timeString typeCode ≠ some (TimeParse.ok v))) := by
  unfold MySqlExecution.stringToMySqlTime at h
  rcases hp : parseTime timeString typeCode with _ | p
  · rw [hp] at h; cases h
  · rw [hp] at h
    rcases p with _ | msg | t
    · simp only at h
      cases h
      exact ⟨BindFrame.unchanged i c, Or.inr ⟨rfl, fun v hv => by cases hv⟩⟩
    · simp only at h
      rcases hr : MySqlExecution.reportError fuel env c i msg 1 with _ | ⟨c2, rc2⟩
      · rw [hr] at h; cases h
      · rw [hr] at h
        cases h
        exact ⟨BindFrame.ofError (exec_reportError_spec fuel env c i msg 1 hi _ _ hr).2,
          Or.inr ⟨rfl, fun v hv => by cases hv⟩⟩
    · simp only at h
      cases h
      exact ⟨BindFrame.unchanged i c, Or.inl ⟨t, rfl, rfl, rfl⟩⟩

theorem map_add_zero (buffer : Option Nat) : buffer = buffer.map (fun o => o + 0) := by
  cases buffer <;> rfl

theorem bindParameter_frame (fuel : Nat) (env : Env) (c c1 : MySqlConnection) (i : Nat)
    (s : Setting) (k : Nat) (buffer buffer1 : Option Nat) (space : Nat)
    (hi : i < c.executions_.length)
    (h : MySqlExecution.bindParameter fuel env c i s k buffer = some (c1, space, buffer1)) :
    space = specMarkerSize env s.param_data_type ∧
    buffer1 = buffer.map (fun o => o + space) ∧
    BindFrame i (buffer.elim [] (specWrite s)) c c1 := by
  unfold MySqlExecution.bindParameter at h
  rcases harr : (c.exec i).parameterBindArray_ with _ | arr
  · rw [harr] at h; cases h
  rw [harr] at h
  simp only at h
  rcases hk : arr.binds.get? k with _ | bind0
  · rw [hk] at h; cases h
  rw [hk] at h
  simp only at h
  obtain ⟨pt, dt, pv⟩ := s
  have hw : ∀ offset v b, BindFrame i [(offset, v)] c
      (setParameterBind (writeParamBuffer c i offset v) i k b) := fun offset v b =>
    (BindFrame.writeParamBuffer c i offset v hi).andThen
      (BindFrame.setParameterBind _ i k b (by
        rw [(BindFrame.writeParamBuffer c i offset v hi).execLen]; exact hi))
  cases dt <;> cases buffer <;> simp only at h
  all_goals first
    | (cases h; exact ⟨rfl, rfl, BindFrame.setParameterBind c i k _ hi⟩)
    | skip
  -- int, filling pass
  · rcases pv with _ | v
    · cases h; exact ⟨rfl, rfl, hw _ _ _⟩
    · cases v <;> simp only at h
      all_goals first
        | (cases h; exact ⟨rfl, rfl, hw _ _ _⟩)
        | cases h
  -- double, filling pass
  · rcases pv with _ | v
    · cases h; exact ⟨rfl, rfl, hw _ _ _⟩
    · cases v <;> simp only at h
      all_goals first
        | (cases h; exact ⟨rfl, rfl, hw _ _ _⟩)
        | cases h
  -- string, sizing pass
  · rcases pv with _ | v
    · cases h; exact ⟨rfl, rfl, BindFrame.setParameterBind c i k _ hi⟩
    · cases v <;> simp only at h
      all_goals first
        | (cases h; exact ⟨rfl, rfl, BindFrame.setParameterBind c i k _ hi⟩)
        | cases h
  -- string, filling pass
  · rcases pv with _ | v
    · cases h; exact ⟨rfl, rfl, BindFrame.setParameterBind c i k _ hi⟩
    · cases v <;> simp only at h
      all_goals first
        | (cases h; exact ⟨rfl, rfl, BindFrame.setParameterBind c i k _ hi⟩)
        | cases h
  -- temporal, filling pass
  all_goals
    rename_i offset
    have hadv : (if env.sizeofMysqlTime ≠ 0 then some (offset + env.sizeofMysqlTime)
        else some offset) = some (offset + env.sizeofMysqlTime) := by
      by_cases hz : env.sizeofMysqlTime = 0
      · simp [hz]
      · simp [hz]
    rw [hadv] at h
    rcases pv with _ | v
    · cases h; exact ⟨rfl, rfl, BindFrame.setParameterBind c i k _ hi⟩
    · cases v <;> simp only at h
      all_goals first
        | cases h
        | skip
      rename_i timeArg
      have f0 := fun b => BindFrame.setParameterBind c i k b hi
      split at h
      · cases h
      · rename_i c2 rc tv hst
        have hi0 := fun b => (f0 b).execLen
        obtain ⟨f1, hcase⟩ := stringToMySqlTime_frame fuel env _ c2 i timeArg _ rc tv
          (by rw [hi0]; exact hi) hst
        have hi2 : i < c2.executions_.length := by rw [f1.execLen, hi0]; exact hi
        rcases hcase with ⟨v, hp, hrc, htv⟩ | ⟨htv, hnp⟩
        · subst hrc htv
          simp only at h
          cases h
          refine ⟨rfl, rfl, ?_⟩
          have f2 := BindFrame.writeParamBuffer c2 i offset (BufferValue.time v) hi2
          have f3 : ∀ b, BindFrame i [(offset, BufferValue.time v)] c
              (setParameterBind (writeParamBuffer c2 i offset (BufferValue.time v)) i k b) :=
            fun b => ((f0 _).andThen f1).andThen (f2.andThen (BindFrame.setParameterBind _ i k b
              (by rw [f2.execLen]; exact hi2)))
          simp only [Option.elim, specWrite, hp]
          exact f3 _
        · subst htv
          simp only at h
          cases h
          refine ⟨rfl, rfl, ?_⟩
          have f3 := (f0 _).andThen f1
          simp only [Option.elim, specWrite]
          rcases hp : parseTime timeArg _ with _ | p
          · exact f3
          · rcases p with _ | msg | t
            · exact f3
            · exact f3
            · exact absurd hp (hnp t)

/-- One pass of `prepareToBind` over the markers: the space summed is the
length of the packed buffer, the filling pass appends the writes of the
markers. -/
theorem bindMarkers_frame (fuel : Nat) (env : Env) (i : Nat) :
    ∀ (settings : Settings) (k : Nat) (buffer : Option Nat) (len : Nat)
      (c c' : MySqlConnection) (len' : Nat),
      i < c.executions_.length →
      MySqlExecution.bindMarkers fuel env i settings k buffer len c = some (c', len') →
      len' = len + specBufferLength env settings ∧
      BindFrame i (buffer.elim [] (specWrites env settings)) c c' := by
  intro settings
  induction settings with
  | nil =>
    intro k buffer len c c' len' hi h
    rw [MySqlExecution.bindMarkers] at h
    cases h
    refine ⟨rfl, ?_⟩
    cases buffer <;> exact BindFrame.unchanged i c
  | cons x rest ih =>
    intro k buffer len c c' len' hi h
    obtain ⟨name, s⟩ := x
    rw [MySqlExecution.bindMarkers] at h
    by_cases hm : s.param_type = ParamType.MARKER
    · simp only [hm, if_true] at h
      rcases hb : MySqlExecution.bindParameter fuel env c i s k buffer with _ | ⟨c1, space, buffer1⟩
      · rw [hb] at h; cases h
      · rw [hb] at h
        simp only at h
        obtain ⟨hspace, hbuf, f1⟩ := bindParameter_frame fuel env c c1 i s k buffer buffer1 space
          hi hb
        obtain ⟨hlen, f2⟩ := ih (k + 1) buffer1 (len + space) c1 c' len'
          (by rw [f1.execLen]; exact hi) h
        refine ⟨?_, ?_⟩
        · rw [hlen, hspace]
          simp only [specBufferLength, hm, if_true]
          omega
        · have f3 := f1.andThen f2
          rw [hbuf, hspace] at f3
          cases buffer
          · exact f3
          · simp only [Option.elim, specWrites, hm, if_true]
            exact f3
    · simp only [hm, if_false] at h
      obtain ⟨hlen, f2⟩ := ih k buffer len c c' len' hi h
      refine ⟨?_, ?_⟩
      · rw [hlen]
        simp only [specBufferLength, hm, if_false]
      · cases buffer
        · exact f2
        · simp only [Option.elim, specWrites, hm, if_false]
          exact f2

/-- A write of one marker is at the offset of the marker and has its size. -/
theorem specWrite_mem (env : Env) (s : Setting) (offset : Nat) (w : Nat × BufferValue)
    (h : w ∈ specWrite s offset) :
    w.1 = offset ∧ BufferValue.size env w.2 = specMarkerSize env s.param_data_type := by
  obtain ⟨pt, dt, pv⟩ := s
  unfold specWrite at h
  cases dt <;> rcases pv with _ | v <;> simp only at h
  all_goals first
    | (simp at h; done)
    | (rw [List.mem_singleton] at h; subst h; exact ⟨rfl, rfl⟩)
    | skip
  all_goals cases v <;> simp only at h
  all_goals first
    | (simp at h; done)
    | (rw [List.mem_singleton] at h; subst h; exact ⟨rfl, rfl⟩)
    | skip
  all_goals
    split at h
    · rw [List.mem_singleton] at h; subst h; exact ⟨rfl, rfl⟩
    · simp at h

/-- Every write of the filling pass lies between the start offset and the end
of the buffer. -/
theorem specWrites_bounds (env : Env) :
    ∀ (settings : Settings) (offset : Nat) (w : Nat × BufferValue),
      w ∈ specWrites env settings offset →
      offset ≤ w.1 ∧ w.1 + BufferValue.size env w.2 ≤ offset + specBufferLength env settings := by
  intro settings
  induction settings with
  | nil => intro offset w h; simp [specWrites] at h
  | cons x rest ih =>
    intro offset w h
    obtain ⟨name, s⟩ := x
    by_cases hm : s.param_type = ParamType.MARKER
    · simp only [specWrites, hm, if_true, List.mem_append] at h
      simp only [specBufferLength, hm, if_true]
      rcases h with h | h
      · obtain ⟨h1, h2⟩ := specWrite_mem env s offset w h
        omega
      · have := ih _ w h
        omega
    · simp only [specWrites, hm, if_false] at h
      simp only [specBufferLength, hm, if_false]
      exact ih _ w h

/-- The writes of the filling pass follow each other without overlap. -/
theorem specWrites_pairwise (env : Env) :
    ∀ (settings : Settings) (offset : Nat),
      (specWrites env settings offset).Pairwise
        (fun a b => a.1 + BufferValue.size env a.2 ≤ b.1) := by
  intro settings
  induction settings with
  | nil => intro offset; simp [specWrites]
  | cons x rest ih =>
    intro offset
    obtain ⟨name, s⟩ := x
    by_cases hm : s.param_type = ParamType.MARKER
    · simp only [specWrites, hm, if_true]
      rw [List.pairwise_append]
      refine ⟨?_, ih _, ?_⟩
      · obtain ⟨pt, dt, pv⟩ := s
        have hlen : (specWrite { param_type := pt, param_data_type := dt, param_value := pv }
            offset).length ≤ 1 := by
          unfold specWrite
          repeat' split
          all_goals simp
        match hw : specWrite { param_type := pt, param_data_type := dt, param_value := pv }
            offset with
        | [] => exact List.Pairwise.nil
        | [a] => exact List.pairwise_singleton _ _
        | a :: b :: l => rw [hw] at hlen; simp at hlen
      · intro a ha b hb
        obtain ⟨h1, h2⟩ := specWrite_mem env s offset a ha
        have := (specWrites_bounds env rest _ b hb).1
        omega
    · simp only [specWrites, hm, if_false]
      exact ih _

/-- The write of a marker is at the offset equal to the sum of the sizes of
the markers before it. -/
theorem specWrites_placed (env : Env) :
    ∀ (pre : Settings) (name : String) (s : Setting) (post : Settings) (offset : Nat)
      (w : Nat × BufferValue),
      s.param_type = ParamType.MARKER →
      w ∈ specWrite s (offset + specBufferLength env pre) →
      w ∈ specWrites env (pre ++ (name, s) :: post) offset := by
  intro pre
  induction pre with
  | nil =>
    intro name s post offset w hm hw
    simp only [List.nil_append, specWrites, hm, if_true, List.mem_append]
    left
    simpa [specBufferLength] using hw
  | cons x rest ih =>
    intro name s post offset w hm hw
    obtain ⟨n0, s0⟩ := x
    by_cases hm0 : s0.param_type = ParamType.MARKER
    · simp only [List.cons_append, specWrites, hm0, if_true, List.mem_append]
      right
      apply ih name s post _ w hm
      simp only [specBufferLength, hm0, if_true] at hw
      rw [Nat.add_assoc]
      exact hw
    · simp only [List.cons_append, specWrites, hm0, if_false]
      apply ih name s post _ w hm
      simp only [specBufferLength, hm0, if_false] at hw
      exact hw

/-- A setting that fits is bound whenever the bind array has a record for it. -/
theorem bindParameter_total (fuel : Nat) (env : Env) (c : MySqlConnection) (i : Nat)
    (s : Setting) (k : Nat) (buffer : Option Nat) (n : Nat)
    (harr : (c.exec i).parameterBindArray_.map (fun a => a.binds.length) = some n)
    (hk : k < n) (hfit : markerFits s = true) :
    ∃ r, MySqlExecution.bindParameter fuel env c i s k buffer = some r := by
  unfold MySqlExecution.bindParameter
  rcases ha : (c.exec i).parameterBindArray_ with _ | arr
  · rw [ha] at harr; cases harr
  rw [ha] at harr
  have hn : arr.binds.length = n := Option.some.inj harr
  simp only
  rcases hg : arr.binds.get? k with _ | bind0
  · rw [List.get?_eq_none] at hg; omega
  simp only
  obtain ⟨pt, dt, pv⟩ := s
  rcases pv with _ | v
  · cases dt <;> cases buffer <;> exact ⟨_, rfl⟩
  · have hfits : valueFits dt v = true := hfit
    cases dt <;> cases v <;> simp only [valueFits] at hfits
    all_goals first
      | (exact absurd hfits (by decide))
      | (cases buffer <;> exact ⟨_, rfl⟩)
      | skip
    all_goals
      rename_i timeArg
      cases buffer
      · exact ⟨_, rfl⟩
      · simp only
        unfold MySqlExecution.stringToMySqlTime
        revert hfits
        split
        · intro hfits
          rename_i hp
          simp only [hp]
          split <;> exact ⟨_, rfl⟩
        · intro hfits
          rename_i hp
          simp only [hp]
          split <;> exact ⟨_, rfl⟩
        · intro hfits; exact absurd hfits (by decide)

/-- A pass over settings that fit returns whenever the bind array has a record
for every marker. -/
theorem bindMarkers_total (fuel : Nat) (env : Env) (i : Nat) :
    ∀ (settings : Settings) (k : Nat) (buffer : Option Nat) (len : Nat) (c : MySqlConnection)
      (n : Nat),
      i < c.executions_.length →
      (c.exec i).parameterBindArray_.map (fun a => a.binds.length) = some n →
      k + countMarkers settings ≤ n →
      (∀ x ∈ settings, x.2.param_type = ParamType.MARKER → markerFits x.2 = true) →
      ∃ r, MySqlExecution.bindMarkers fuel env i settings k buffer len c = some r := by
  intro settings
  induction settings with
  | nil =>
    intro k buffer len c n _ _ _ _
    exact ⟨_, by rw [MySqlExecution.bindMarkers]⟩
  | cons x rest ih =>
    intro k buffer len c n hi harr hk hfit
    obtain ⟨name, s⟩ := x
    rw [MySqlExecution.bindMarkers]
    have hrest : ∀ y ∈ rest, y.2.param_type = ParamType.MARKER → markerFits y.2 = true :=
      fun y hy => hfit y (List.mem_cons_of_mem _ hy)
    by_cases hm : s.param_type = ParamType.MARKER
    · simp only [hm, if_true]
      simp only [countMarkers, hm, if_true] at hk
      obtain ⟨⟨c1, space, buffer1⟩, hb⟩ := bindParameter_total fuel env c i s k buffer n harr
        (by omega) (hfit (name, s) (List.mem_cons_self _ _) hm)
      rw [hb]
      simp only
      obtain ⟨-, -, f1⟩ := bindParameter_frame fuel env c c1 i s k buffer buffer1 space hi hb
      exact ih (k + 1) buffer1 (len + space) c1 n (by rw [f1.execLen]; exact hi)
        (by rw [f1.binds]; exact harr) (by omega) hrest
    · simp only [hm, if_false]
      simp only [countMarkers, hm, if_false] at hk
      exact ih k buffer len c n hi harr hk hrest

/-- `prepareToBind` is its parameter part followed by its result part. -/
theorem prepareToBind_eq (fuel : Nat) (env : Env) (c : MySqlConnection) (i : Nat) :
    MySqlExecution.prepareToBind fuel env c i =
      match bindParameterBuffer fuel env c i with
      | none => none
      | some c1 => bindResultColumns fuel env c1 i := by
  rfl

theorem resetParameterBinds_spec (c : MySqlConnection) (i : Nat) (hi : i < c.executions_.length) :
    (resetParameterBinds c i).executions_.length = c.executions_.length ∧
    ((resetParameterBinds c i).exec i).settings_ = (c.exec i).settings_ ∧
    ((resetParameterBinds c i).exec i).paramBuffer_ = none ∧
    ((resetParameterBinds c i).exec i).paramBufferLen_ = 0 ∧
    ((resetParameterBinds c i).exec i).parameterBindArray_.map (fun a => a.binds.length)
      = some (c.exec i).paramCount_ ∧
    ((resetParameterBinds c i).exec i).statementHandle_ = (c.exec i).statementHandle_ ∧
    ((resetParameterBinds c i).exec i).columnBindArray_ = (c.exec i).columnBindArray_ := by
  rcases hp : (c.exec i).parameterBindArray_ with _ | arr
  · have hi1 : i < ({ c with nextAlloc := c.nextAlloc + 1 } : MySqlConnection).executions_.length :=
      hi
    simp only [resetParameterBinds, hp]
    refine ⟨length_setExec _ _ _, ?_, ?_, ?_, ?_, ?_, ?_⟩
    all_goals rw [exec_setExec_same _ _ _ hi1]
    all_goals first
      | rfl
      | simp
  · simp only [resetParameterBinds, hp]
    refine ⟨length_setExec _ _ _, ?_, ?_, ?_, ?_, ?_, ?_⟩
    all_goals rw [exec_setExec_same _ _ _ hi]
    all_goals first
      | rfl
      | simp

theorem allocParamBuffer_spec (c : MySqlConnection) (i len : Nat) (hi : i < c.executions_.length) :
    (allocParamBuffer c i len).executions_.length = c.executions_.length ∧
    ((allocParamBuffer c i len).exec i).settings_ = (c.exec i).settings_ ∧
    ((allocParamBuffer c i len).exec i).paramBuffer_.map (fun buf => (buf.size, buf.values))
      = some (len, []) ∧
    ((allocParamBuffer c i len).exec i).paramBufferLen_ = len ∧
    ((allocParamBuffer c i len).exec i).parameterBindArray_ = (c.exec i).parameterBindArray_ ∧
    ((allocParamBuffer c i len).exec i).statementHandle_ = (c.exec i).statementHandle_ ∧
    ((allocParamBuffer c i len).exec i).columnBindArray_ = (c.exec i).columnBindArray_ := by
  unfold allocParamBuffer
  simp only
  have hi1 : i < ({ c.setExec i { c.exec i with paramBufferLen_ := len } with
      nextAlloc := (c.setExec i { c.exec i with paramBufferLen_ := len }).nextAlloc + 1 } :
      MySqlConnection).executions_.length := by
    show i < (c.setExec i { c.exec i with paramBufferLen_ := len }).executions_.length
    rw [length_setExec]; exact hi
  have he : ({ c.setExec i { c.exec i with paramBufferLen_ := len } with
      nextAlloc := (c.setExec i { c.exec i with paramBufferLen_ := len }).nextAlloc + 1 } :
      MySqlConnection).exec i = { c.exec i with paramBufferLen_ := len } := by
    show (c.setExec i { c.exec i with paramBufferLen_ := len }).exec i = _
    rw [exec_setExec_same _ _ _ hi]
  refine ⟨?_, ?_, ?_, ?_, ?_, ?_, ?_⟩
  · rw [length_setExec]
    show (c.setExec i { c.exec i with paramBufferLen_ := len }).executions_.length = _
    rw [length_setExec]
  all_goals rw [exec_setExec_same _ _ _ hi1, he]
  all_goals rfl

/-- The parameter part of `prepareToBind`, when it returns. -/
theorem bindParameterBuffer_spec (fuel : Nat) (env : Env) (c c1 : MySqlConnection) (i : Nat)
    (hi : i < c.executions_.length) (hcount : (c.exec i).paramCount_ ≠ 0)
    (h : bindParameterBuffer fuel env c i = some c1) :
    c1.executions_.length = c.executions_.length ∧
    (c1.exec i).paramBufferLen_ = specBufferLength env (c.exec i).settings_ ∧
    (c1.exec i).paramBuffer_.map (fun buf => (buf.size, buf.values)) =
      (if 0 < specBufferLength env (c.exec i).settings_ then
        some (specBufferLength env (c.exec i).settings_, specWrites env (c.exec i).settings_ 0)
      else none) ∧
    (c1.exec i).statementHandle_ = (c.exec i).statementHandle_ ∧
    (c1.exec i).columnBindArray_ = (c.exec i).columnBindArray_ := by
  unfold bindParameterBuffer at h
  rw [if_pos hcount] at h
  obtain ⟨r1, r2, r3, r4, -, r6, r7⟩ := resetParameterBinds_spec c i hi
  rw [r2] at h
  rcases h1 : MySqlExecution.bindMarkers fuel env i (c.exec i).settings_ 0 none 0
      (resetParameterBinds c i) with _ | ⟨c3, len⟩
  · rw [h1] at h; cases h
  rw [h1] at h
  simp only at h
  obtain ⟨hlen, f1⟩ := bindMarkers_frame fuel env i _ 0 none 0 _ c3 len (by rw [r1]; exact hi) h1
  rw [Nat.zero_add] at hlen
  have hi3 : i < c3.executions_.length := by rw [f1.execLen, r1]; exact hi
  by_cases hl : len > 0
  · rw [if_pos hl] at h
    obtain ⟨a1, a2, a3, a4, -, a6, a7⟩ := allocParamBuffer_spec c3 i len hi3
    rw [a2, f1.settings, r2] at h
    rcases h2 : MySqlExecution.bindMarkers fuel env i (c.exec i).settings_ 0 (some 0) 0
        (allocParamBuffer c3 i len) with _ | ⟨c7, len7⟩
    · rw [h2] at h; cases h
    rw [h2] at h
    simp only at h
    have hc : c7 = c1 := Option.some.inj h
    subst hc
    obtain ⟨-, f2⟩ := bindMarkers_frame fuel env i _ 0 (some 0) 0 _ c7 len7
      (by rw [a1]; exact hi3) h2
    refine ⟨by rw [f2.execLen, a1, f1.execLen, r1], by rw [f2.paramBufferLen, a4, hlen], ?_,
      by rw [f2.statementHandle, a6, f1.statementHandle, r6],
      by rw [f2.columnBindArray, a7, f1.columnBindArray, r7]⟩
    rw [← hlen, if_pos hl, f2.paramBuffer]
    rcases hb : ((allocParamBuffer c3 i len).exec i).paramBuffer_ with _ | buf
    · rw [hb] at a3; cases a3
    · rw [hb] at a3
      have hsz : buf.size = len := congrArg Prod.fst (Option.some.inj a3)
      have hvs : buf.values = [] := congrArg Prod.snd (Option.some.inj a3)
      simp only [Option.map_some', Option.elim, hsz, hvs, List.nil_append]
  · rw [if_neg hl] at h
    have hc : c3.setExec i { c3.exec i with paramBufferLen_ := len } = c1 := Option.some.inj h
    subst hc
    refine ⟨by rw [length_setExec, f1.execLen, r1], ?_, ?_, ?_, ?_⟩
    · rw [exec_setExec_same _ _ _ hi3]
      exact hlen
    rotate_left
    · rw [exec_setExec_same _ _ _ hi3]
      exact f1.statementHandle.trans r6
    · rw [exec_setExec_same _ _ _ hi3]
      exact f1.columnBindArray.trans r7
    · rw [exec_setExec_same _ _ _ hi3, ← hlen, if_neg hl]
      have hb : (c3.exec i).paramBuffer_ = none := by
        rw [f1.paramBuffer, r3]; rfl
      show (c3.exec i).paramBuffer_.map _ = none
      rw [hb]; rfl

/-- The parameter part of `prepareToBind` returns when the settings fit and the
server counted at least as many markers as the settings hold. -/
theorem bindParameterBuffer_total (fuel : Nat) (env : Env) (c : MySqlConnection) (i : Nat)
    (hi : i < c.executions_.length)
    (hmarkers : countMarkers (c.exec i).settings_ ≤ (c.exec i).paramCount_)
    (hfit : ∀ x ∈ (c.exec i).settings_, x.2.param_type = ParamType.MARKER → markerFits x.2 = true) :
    ∃ c1, bindParameterBuffer fuel env c i = some c1 := by
  unfold bindParameterBuffer
  by_cases hcount : (c.exec i).paramCount_ ≠ 0
  · rw [if_pos hcount]
    obtain ⟨r1, r2, r3, r4, r5, -, -⟩ := resetParameterBinds_spec c i hi
    rw [r2]
    obtain ⟨⟨c3, len⟩, h1⟩ := bindMarkers_total fuel env i (c.exec i).settings_ 0 none 0
      (resetParameterBinds c i) _ (by rw [r1]; exact hi) r5 (by omega) hfit
    rw [h1]
    simp only
    obtain ⟨-, f1⟩ := bindMarkers_frame fuel env i _ 0 none 0 _ c3 len (by rw [r1]; exact hi) h1
    have hi3 : i < c3.executions_.length := by rw [f1.execLen, r1]; exact hi
    by_cases hl : len > 0
    · rw [if_pos hl]
      obtain ⟨a1, a2, -, -, a5, -, -⟩ := allocParamBuffer_spec c3 i len hi3
      rw [a2, f1.settings, r2]
      obtain ⟨⟨c7, len7⟩, h2⟩ := bindMarkers_total fuel env i (c.exec i).settings_ 0 (some 0) 0
        (allocParamBuffer c3 i len) _ (by rw [a1]; exact hi3)
        (by rw [a5, f1.binds]; exact r5) (by omega) hfit
      rw [h2]
      exact ⟨_, rfl⟩
    · rw [if_neg hl]
      exact ⟨_, rfl⟩
  · rw [if_neg hcount]
    exact ⟨_, rfl⟩

/-- The result part of `prepareToBind` leaves the parameter buffer alone. -/
theorem bindResultColumns_spec (fuel : Nat) (env : Env) (c1 c' : MySqlConnection) (i : Nat)
    (rc : Int) (hi : i < c1.executions_.length)
    (h : bindResultColumns fuel env c1 i = some (c', rc)) :
    (c'.exec i).paramBufferLen_ = (c1.exec i).paramBufferLen_ ∧
    (c'.exec i).paramBuffer_ = (c1.exec i).paramBuffer_ ∧
    (c'.exec i).state_ = ExecutionState.BINDINGS_PREPARED_STATE := by
  have key : ∀ (d : MySqlConnection), i < d.executions_.length →
      MySqlExecution.changeState fuel env d i
        ExecutionState.BINDINGS_PREPARED_STATE = some (c', rc) →
      (c'.exec i).paramBufferLen_ = (d.exec i).paramBufferLen_ ∧
      (c'.exec i).paramBuffer_ = (d.exec i).paramBuffer_ ∧
      (c'.exec i).state_ = ExecutionState.BINDINGS_PREPARED_STATE := by
    intro d hd he
    obtain ⟨c2, h2, f2⟩ := changeState_quiet fuel env d i
      ExecutionState.BINDINGS_PREPARED_STATE hd (fun _ => Or.inr (by decide))
    rw [h2] at he
    have hc : c2 = c' := congrArg Prod.fst (Option.some.inj he)
    subst hc
    have g1 := congrArg MySqlExecution.paramBufferLen_ f2.execSelf
    have g2 := congrArg MySqlExecution.paramBuffer_ f2.execSelf
    have g3 := congrArg MySqlExecution.state_ f2.execSelf
    exact ⟨g1, g2, g3⟩
  unfold bindResultColumns at h
  rcases hs : (c1.exec i).statementHandle_ with _ | handle
  · rw [hs] at h; cases h
  rw [hs] at h
  simp only at h
  obtain ⟨c2, hc2⟩ : ∃ c2 : MySqlConnection,
    c2 = c1.setExec i { c1.exec i with resultsMetadata_ := handle.fields } := ⟨_, rfl⟩
  rw [← hc2] at h
  have hi2 : i < c2.executions_.length := by rw [hc2, length_setExec]; exact hi
  have e2 : c2.exec i = { c1.exec i with resultsMetadata_ := handle.fields } := by
    rw [hc2, exec_setExec_same _ _ _ hi]
  have p1 : (c2.exec i).paramBufferLen_ = (c1.exec i).paramBufferLen_ := by rw [e2]
  have p2 : (c2.exec i).paramBuffer_ = (c1.exec i).paramBuffer_ := by rw [e2]
  rcases hf : handle.fields with _ | fields
  · rw [hf] at h
    obtain ⟨g1, g2, g3⟩ := key c2 hi2 h
    exact ⟨g1.trans p1, g2.trans p2, g3⟩
  · rw [hf] at h
    simp only at h
    split at h
    · cases h
    · have hi3 : i < ({ c2 with nextAlloc := c2.nextAlloc + 2 } :
          MySqlConnection).executions_.length := hi2
      obtain ⟨g1, g2, g3⟩ := key _ (by rw [length_setExec]; exact hi3) h
      rw [exec_setExec_same _ _ _ hi3] at g1 g2
      exact ⟨Eq.trans g1 p1, Eq.trans g2 p2, g3⟩

/-- The result part of `prepareToBind` returns when the execution holds a
statement handle and, for a statement with a result set, no column binds yet. -/
theorem bindResultColumns_total (fuel : Nat) (env : Env) (c1 : MySqlConnection) (i : Nat)
    (handle : MYSQL_STMT) (hi : i < c1.executions_.length)
    (hs : (c1.exec i).statementHandle_ = some handle)
    (hf : handle.fields = none ∨
      ∃ fields, handle.fields = some fields ∧ fields.length ≠ 0 ∧
        (c1.exec i).columnBindArray_ = none) :
    ∃ r, bindResultColumns fuel env c1 i = some r := by
  unfold bindResultColumns
  rw [hs]
  simp only
  obtain ⟨c2, hc2⟩ : ∃ c2 : MySqlConnection,
    c2 = c1.setExec i { c1.exec i with resultsMetadata_ := handle.fields } := ⟨_, rfl⟩
  rw [← hc2]
  have hi2 : i < c2.executions_.length := by rw [hc2, length_setExec]; exact hi
  have e2 : c2.exec i = { c1.exec i with resultsMetadata_ := handle.fields } := by
    rw [hc2, exec_setExec_same _ _ _ hi]
  have tot : ∀ d : MySqlConnection, i < d.executions_.length →
      ∃ r, MySqlExecution.changeState fuel env d i ExecutionState.BINDINGS_PREPARED_STATE
        = some r := by
    intro d hd
    obtain ⟨c3, h3, -⟩ := changeState_quiet fuel env d i
      ExecutionState.BINDINGS_PREPARED_STATE hd (fun _ => Or.inr (by decide))
    exact ⟨_, h3⟩
  rcases hf with hnone | ⟨fields, hsome, hlen, hcol⟩
  · rw [hnone]
    exact tot c2 hi2
  · rw [hsome]
    simp only
    have hcol2 : (c2.exec i).columnBindArray_ = none := by rw [e2]; exact hcol
    rw [if_neg (by rw [hcol2]; simp [hlen])]
    have hi3 : i < ({ c2 with nextAlloc := c2.nextAlloc + 2 } :
        MySqlConnection).executions_.length := hi2
    exact tot _ (by rw [length_setExec]; exact hi3)

theorem findCompleted_store_same (m : List (Nat × Request)) (seq : Nat) (request : Request) :
    findCompleted (storeCompleted m seq request) seq = some request := by
  simp [storeCompleted, findCompleted]

theorem findCompleted_filter (m : List (Nat × Request)) (seq k : Nat) (h : k ≠ seq) :
    findCompleted (m.filter (fun p => p.1 ≠ seq)) k = findCompleted m k := by
  induction m with
  | nil => rfl
  | cons x rest ih =>
    obtain ⟨k0, q0⟩ := x
    by_cases h0 : k0 = seq
    · subst h0
      have hne : ¬ k0 = k := fun e => h e.symm
      simp only [List.filter, ne_eq, not_true_eq_false, decide_False, findCompleted, hne,
        if_false]
      exact ih
    · simp only [List.filter, ne_eq, h0, not_false_eq_true, decide_True, findCompleted]
      rw [ih]

theorem findCompleted_store_other (m : List (Nat × Request)) (seq k : Nat) (request : Request)
    (h : k ≠ seq) : findCompleted (storeCompleted m seq request) k = findCompleted m k := by
  have hne : ¬ seq = k := fun e => h e.symm
  simp only [storeCompleted, findCompleted, hne, if_false]
  exact findCompleted_filter m seq k h

/-- What the switch of the worker leaves alone. -/
theorem process_frame (fuel : Nat) (env : Env) (c c1 : MySqlConnection) (request request1 : Request)
    (h : ExecutionThread.process fuel env c request = some (c1, request1)) :
    c1.executionThread_.requestQueue_ = c.executionThread_.requestQueue_ ∧
    c1.executionThread_.completedRequests_ = c.executionThread_.completedRequests_ ∧
    c1.executionThread_.lastCompletedRequest_ = c.executionThread_.lastCompletedRequest_ ∧
    c1.nextRequestSequence_ = c.nextRequestSequence_ ∧
    request1.key = request.key := by
  unfold ExecutionThread.process at h
  split at h
  · split at h
    · cases h
    · split at h
      · cases h
      · split at h
        · cases h
        · rename_i hne
          rw [not_or, not_not, not_not] at hne
          cases h
          exact ⟨by rw [hne.1], by rw [hne.1], by rw [hne.1], hne.2, rfl⟩
  · cases h
    exact ⟨rfl, rfl, rfl, rfl, rfl⟩
  · cases h
    exact ⟨rfl, rfl, rfl, rfl, rfl⟩

theorem getRequest_spec (c c1 : MySqlConnection) (request : Request)
    (h : ExecutionThread.getRequest c = some (c1, request)) :
    c.executionThread_.requestQueue_ = c1.executionThread_.requestQueue_ ++ [request] ∧
    c1.executionThread_.completedRequests_ = c.executionThread_.completedRequests_ ∧
    c1.executionThread_.lastCompletedRequest_ = c.executionThread_.lastCompletedRequest_ ∧
    c1.nextRequestSequence_ = c.nextRequestSequence_ := by
  unfold ExecutionThread.getRequest at h
  split at h
  · cases h
  · rename_i q hq
    cases h
    refine ⟨?_, rfl, rfl, rfl⟩
    exact (List.dropLast_append_getLast? _ (Option.mem_def.mpr hq)).symm

theorem WorkerInv.start (c : MySqlConnection)
    (hq : c.executionThread_.requestQueue_ = []) :
    WorkerInv c.executionThread_.lastCompletedRequest_ c.nextRequestSequence_
      (WorkerRun.start c) := by
  refine ⟨?_, ?_, ?_, ?_, ?_, ?_, ?_⟩
  · show [] ++ c.executionThread_.requestQueue_.reverse = []
    rw [hq]; rfl
  · exact List.Pairwise.nil
  · exact Nat.le_refl _
  · intro q hq2; cases hq2
  · rfl
  · intro d hd; cases hd
  · rfl

/-- A completed request was handed out before, hence was enqueued. -/
theorem WorkerInv.completed_keys {last0 next0 : Nat} {r : WorkerRun}
    (h : WorkerInv last0 next0 r) :
    ∃ rest, r.enqueued.map Request.key = r.completed.map Request.key ++ rest ∧
      ∀ k ∈ rest, ∀ d ∈ r.completed, d.sequence_ < k.1 := by
  refine ⟨r.current.toList.map Request.key
    ++ r.conn.executionThread_.requestQueue_.reverse.map Request.key, ?_, ?_⟩
  · rw [← h.fifo, List.map_append, ← h.order, List.append_assoc]
  · intro k hk d hd
    have hs := h.sorted
    have hkeys : r.enqueued.map (fun q => q.sequence_)
        = (r.completed.map Request.key ++ (r.current.toList.map Request.key
          ++ r.conn.executionThread_.requestQueue_.reverse.map Request.key)).map Prod.fst := by
      rw [← List.append_assoc, h.order, ← List.map_append, h.fifo, List.map_map]
      rfl
    rw [hkeys, List.map_append, List.pairwise_append] at hs
    exact hs.2.2 d.sequence_ (List.mem_map.mpr ⟨d.key, List.mem_map.mpr ⟨d, hd, rfl⟩, rfl⟩)
      k.1 (List.mem_map.mpr ⟨k, hk, rfl⟩)

/-- Every atomic step keeps the invariant. -/
theorem WorkerInv.step {last0 next0 : Nat} {r r' : WorkerRun} (env : Env) (event : WorkerEvent)
    (h : WorkerInv last0 next0 r) (hstep : WorkerRun.step env r event = some r') :
    WorkerInv last0 next0 r' := by
  cases event with
  | put type iparam strparam =>
    simp only [WorkerRun.step] at hstep
    split at hstep
    · cases hstep
    · cases hstep
      refine ⟨?_, ?_, ?_, ?_, h.order, h.stored, h.last⟩
      · show r.handed ++ (_ :: r.conn.executionThread_.requestQueue_).reverse = r.enqueued ++ [_]
        rw [List.reverse_cons, ← List.append_assoc, h.fifo]
        rfl
      · rw [List.map_append, List.pairwise_append]
        refine ⟨h.sorted, List.pairwise_singleton _ _, ?_⟩
        intro a ha b hb
        obtain ⟨q, hq, rfl⟩ := List.mem_map.mp ha
        rw [List.map_singleton, List.mem_singleton] at hb
        subst hb
        exact (h.bound q hq).2
      · show next0 ≤ r.conn.nextRequestSequence_ + 1
        have := h.counter
        omega
      · intro q hq
        rw [List.mem_append, List.mem_singleton] at hq
        show next0 ≤ q.sequence_ ∧ q.sequence_ < r.conn.nextRequestSequence_ + 1
        rcases hq with hq | hq
        · have := h.bound q hq
          omega
        · subst hq
          have := h.counter
          show next0 ≤ r.conn.nextRequestSequence_ ∧ r.conn.nextRequestSequence_
            < r.conn.nextRequestSequence_ + 1
          omega
  | foreign =>
    simp only [WorkerRun.step] at hstep
    split at hstep
    · cases hstep
    · cases hstep
      refine ⟨h.fifo, h.sorted, ?_, ?_, h.order, h.stored, h.last⟩
      · show next0 ≤ r.conn.nextRequestSequence_ + 1
        have := h.counter
        omega
      · intro q hq
        show next0 ≤ q.sequence_ ∧ q.sequence_ < r.conn.nextRequestSequence_ + 1
        have := h.bound q hq
        omega
  | get =>
    simp only [WorkerRun.step] at hstep
    split at hstep
    · cases hstep
    · rename_i hcur
      split at hstep
      · cases hstep
      · split at hstep
        · cases hstep
        · rename_i c1 request hget
          cases hstep
          obtain ⟨g1, g2, g3, g4⟩ := getRequest_spec _ _ _ hget
          refine ⟨?_, h.sorted, ?_, ?_, ?_, ?_, ?_⟩
          · show (r.handed ++ [request]) ++ c1.executionThread_.requestQueue_.reverse
              = r.enqueued
            rw [← h.fifo, g1, List.reverse_append, List.append_assoc]
            rfl
          · show next0 ≤ c1.nextRequestSequence_
            rw [g4]; exact h.counter
          · intro q hq
            show next0 ≤ q.sequence_ ∧ q.sequence_ < c1.nextRequestSequence_
            rw [g4]; exact h.bound q hq
          · show r.completed.map Request.key ++ [request.key]
              = (r.handed ++ [request]).map Request.key
            have ho := h.order
            rw [hcur] at ho
            rw [List.map_append, ← ho]
            simp
          · intro d hd
            show findCompleted c1.executionThread_.completedRequests_ d.sequence_ = some d
            rw [g2]; exact h.stored d hd
          · show c1.executionThread_.lastCompletedRequest_ = _
            rw [g3]; exact h.last
  | finish fuel =>
    simp only [WorkerRun.step] at hstep
    split at hstep
    · cases hstep
    · rename_i request hcur
      split at hstep
      · cases hstep
      · rename_i c1 request1 hproc
        cases hstep
        obtain ⟨p1, p2, p3, p4, p5⟩ := process_frame _ _ _ _ _ _ hproc
        obtain ⟨rest, hrest, hlt⟩ := h.completed_keys
        have hseq : request1.sequence_ = request.sequence_ := congrArg Prod.fst p5
        have hold : ∀ d ∈ r.completed, d.sequence_ < request.sequence_ := by
          intro d hd
          have ho := h.order
          rw [hcur] at ho
          have hs := h.sorted
          have hkeys : r.enqueued.map (fun q => q.sequence_)
              = (r.handed.map Request.key).map Prod.fst
                ++ r.conn.executionThread_.requestQueue_.reverse.map (fun q => q.sequence_) := by
            rw [← h.fifo, List.map_append, List.map_map]
            rfl
          rw [hkeys, ← ho, List.map_append, List.pairwise_append] at hs
          have hs1 := hs.1
          rw [List.pairwise_append] at hs1
          exact hs1.2.2 d.sequence_
            (List.mem_map.mpr ⟨d.key, List.mem_map.mpr ⟨d, hd, rfl⟩, rfl⟩)
            request.sequence_ (by simp [Request.key])
        refine ⟨?_, h.sorted, ?_, ?_, ?_, ?_, ?_⟩
        · show r.handed ++ c1.executionThread_.requestQueue_.reverse = r.enqueued
          rw [p1]; exact h.fifo
        · show next0 ≤ c1.nextRequestSequence_
          rw [p4]; exact h.counter
        · intro q hq
          show next0 ≤ q.sequence_ ∧ q.sequence_ < c1.nextRequestSequence_
          rw [p4]; exact h.bound q hq
        · show (r.completed ++ [request1]).map Request.key ++ [] = r.handed.map Request.key
          have ho := h.order
          rw [hcur] at ho
          rw [← ho, List.map_append]
          simp [p5]
        · intro d hd
          show findCompleted (storeCompleted c1.executionThread_.completedRequests_
            request1.sequence_ request1) d.sequence_ = some d
          rw [List.mem_append, List.mem_singleton] at hd
          rcases hd with hd | hd
          · rw [findCompleted_store_other _ _ _ _ (by have := hold d hd; omega), p2]
            exact h.stored d hd
          · subst hd
            exact findCompleted_store_same _ _ _
        · show request1.sequence_ = _
          simp

/-- Every schedule keeps the invariant. -/
theorem WorkerInv.run {last0 next0 : Nat} (env : Env) :
    ∀ (events : List WorkerEvent) (r r' : WorkerRun),
      WorkerInv last0 next0 r → WorkerRun.run env r events = some r' →
      WorkerInv last0 next0 r' := by
  intro events
  induction events with
  | nil =>
    intro r r' h hrun
    cases hrun
    exact h
  | cons event rest ih =>
    intro r r' h hrun
    rw [WorkerRun.run] at hrun
    split at hrun
    · cases hrun
    · rename_i r1 hstep
      exact ih r1 r' (h.step env event hstep) hrun

/-- The ghost list `enqueued` records the puts of the schedule, in order. -/
theorem run_enqueued (env : Env) :
    ∀ (events : List WorkerEvent) (r r' : WorkerRun),
      WorkerRun.run env r events = some r' →
      r'.enqueued.map (fun q => (q.type_, q.iparam_, q.strparam_))
        = r.enqueued.map (fun q => (q.type_, q.iparam_, q.strparam_))
          ++ events.filterMap WorkerEvent.putOf := by
  intro events
  induction events with
  | nil =>
    intro r r' hrun
    cases hrun
    simp
  | cons event rest ih =>
    intro r r' hrun
    rw [WorkerRun.run] at hrun
    split at hrun
    · cases hrun
    · rename_i r1 hstep
      rw [ih r1 r' hrun]
      cases event with
      | put type iparam strparam =>
        simp only [WorkerRun.step] at hstep
        split at hstep
        · cases hstep
        · cases hstep
          simp [WorkerEvent.putOf]
      | foreign =>
        simp only [WorkerRun.step] at hstep
        split at hstep
        · cases hstep
        · cases hstep
          simp [WorkerEvent.putOf]
      | get =>
        simp only [WorkerRun.step] at hstep
        split at hstep
        · cases hstep
        · split at hstep
          · cases hstep
          · split at hstep
            · cases hstep
            · cases hstep
              simp [WorkerEvent.putOf]
      | finish fuel =>
        simp only [WorkerRun.step] at hstep
        split at hstep
        · cases hstep
        · split at hstep
          · cases hstep
          · cases hstep
            simp [WorkerEvent.putOf]

/-- C11: `putRequest` pushes at the front of the queue and `getRequest` pops
at the back.  In every history of one worker that started with an empty queue,
whatever the interleaving of puts, of requests constructed for other workers
and of the two halves of the worker's iteration: the enqueued requests are
those of the puts of the schedule, in order; the requests that `getRequest`
handed out, followed by the queue read from the back, are the enqueued
requests in enqueue order; the completed requests, followed by the one in
progress, are the requests handed out in that order; so the completed requests
are a prefix of the enqueued ones. -/
theorem C11_requests_in_enqueue_order (env : Env) (c : MySqlConnection)
    (events : List WorkerEvent) (r : WorkerRun)
    (hq : c.executionThread_.requestQueue_ = [])
    (hrun : WorkerRun.run env (WorkerRun.start c) events = some r) :
    (∀ (d : MySqlConnection) type iparam strparam,
      ((ExecutionThread.putRequest d type iparam strparam).1.executionThread_.requestQueue_.map
        Request.key)
        = (d.nextRequestSequence_, type, iparam, strparam)
          :: d.executionThread_.requestQueue_.map Request.key ∧
      (ExecutionThread.putRequest d type iparam strparam).2 = d.nextRequestSequence_) ∧
    (∀ (d : MySqlConnection) rest q, d.executionThread_.requestQueue_ = rest ++ [q] →
      ∃ d1, ExecutionThread.getRequest d = some (d1, q) ∧
        d1.executionThread_.requestQueue_ = rest) ∧
    r.enqueued.map (fun q => (q.type_, q.iparam_, q.strparam_))
      = events.filterMap WorkerEvent.putOf ∧
    r.handed ++ r.conn.executionThread_.requestQueue_.reverse = r.enqueued ∧
    r.completed.map Request.key ++ r.current.toList.map Request.key
      = r.handed.map Request.key ∧
    r.completed.map Request.key <+: r.enqueued.map Request.key := by
  have hinv := WorkerInv.run env events _ r (WorkerInv.start c hq) hrun
  refine ⟨fun d type iparam strparam => ⟨rfl, rfl⟩, ?_, ?_, hinv.fifo, hinv.order, ?_⟩
  · intro d rest q hd
    refine ⟨{ d with executionThread_ := { d.executionThread_ with requestQueue_ := rest } },
      ?_, rfl⟩
    unfold ExecutionThread.getRequest
    rw [hd]
    simp
  · have := run_enqueued env events _ r hrun
    simpa [WorkerRun.start] using this
  · obtain ⟨rest, hrest, -⟩ := hinv.completed_keys
    exact ⟨rest, hrest.symm⟩

theorem C11_requests_in_enqueue_order_witness :
    exampleWorkerStart.executionThread_.requestQueue_ = [] ∧
    ∃ r, WorkerRun.run exampleEnv (WorkerRun.start exampleWorkerStart) exampleSchedule = some r ∧
      r.handed ++ r.conn.executionThread_.requestQueue_.reverse = r.enqueued ∧
      r.completed.map Request.key = r.enqueued.map Request.key ∧
      r.enqueued.map Request.key =
        [(1, RequestType.EXECUTION_REQUEST, 1, ""),
         (2, RequestType.COMMIT_TRANSACTION_REQUEST, 0, ""),
         (4, RequestType.END_PROGRAM_REQUEST, 0, "p")] := by
  have hsome : (WorkerRun.run exampleEnv (WorkerRun.start exampleWorkerStart)
      exampleSchedule).isSome = true := by rfl
  obtain ⟨r, hr⟩ := Option.isSome_iff_exists.mp hsome
  have hC := C11_requests_in_enqueue_order exampleEnv exampleWorkerStart exampleSchedule r
    (by rfl) hr
  have hvals : (WorkerRun.run exampleEnv (WorkerRun.start exampleWorkerStart)
      exampleSchedule).map (fun r => (r.completed.map Request.key, r.enqueued.map Request.key))
      = some ([(1, RequestType.EXECUTION_REQUEST, 1, ""),
         (2, RequestType.COMMIT_TRANSACTION_REQUEST, 0, ""),
         (4, RequestType.END_PROGRAM_REQUEST, 0, "p")],
        [(1, RequestType.EXECUTION_REQUEST, 1, ""),
         (2, RequestType.COMMIT_TRANSACTION_REQUEST, 0, ""),
         (4, RequestType.END_PROGRAM_REQUEST, 0, "p")]) := by rfl
  rw [hr] at hvals
  have h1 := congrArg Prod.fst (Option.some.inj hvals)
  have h2 := congrArg Prod.snd (Option.some.inj hvals)
  exact ⟨by rfl, r, hr, hC.2.2.2.1, h1.trans h2.symm, h2⟩

/-- C12: in every history of one worker that started with an empty queue and
a last completed sequence below the sequence counter: whenever the last
completed sequence is at least the sequence `s` of an enqueued request (the
value `putRequest` returned for it), every enqueued request with a sequence up
to `s` has been processed and its completed form is stored in the completion
map under its own sequence.  Hence `waitForRequest(s)` returns exactly then, it
returns the completed form of the request with sequence `s`, and all requests
enqueued before it are complete. -/
theorem C12_flush_waits_for_prior_requests (env : Env) (c : MySqlConnection)
    (events : List WorkerEvent) (r : WorkerRun)
    (hq : c.executionThread_.requestQueue_ = [])
    (hlast : c.executionThread_.lastCompletedRequest_ < c.nextRequestSequence_)
    (hrun : WorkerRun.run env (WorkerRun.start c) events = some r) :
    (∀ q ∈ r.enqueued, q.sequence_ ≤ r.conn.executionThread_.lastCompletedRequest_ →
      ∀ q' ∈ r.enqueued, q'.sequence_ ≤ q.sequence_ →
        ∃ d ∈ r.completed, d.key = q'.key ∧
          findCompleted r.conn.executionThread_.completedRequests_ q'.sequence_ = some d) ∧
    (∀ q ∈ r.enqueued,
      (q.sequence_ ≤ r.conn.executionThread_.lastCompletedRequest_ ↔
        ∃ d, ExecutionThread.waitForRequest r.conn q.sequence_ = some d) ∧
      ∀ d, ExecutionThread.waitForRequest r.conn q.sequence_ = some d →
        d ∈ r.completed ∧ d.key = q.key ∧
        ∀ q' ∈ r.enqueued, q'.sequence_ ≤ q.sequence_ →
          ∃ d' ∈ r.completed, d'.key = q'.key ∧
            findCompleted r.conn.executionThread_.completedRequests_ q'.sequence_
              = some d') := by
  have hinv := WorkerInv.run env events _ r (WorkerInv.start c hq) hrun
  have main : ∀ q ∈ r.enqueued, q.sequence_ ≤ r.conn.executionThread_.lastCompletedRequest_ →
      ∀ q' ∈ r.enqueued, q'.sequence_ ≤ q.sequence_ →
        ∃ d ∈ r.completed, d.key = q'.key ∧
          findCompleted r.conn.executionThread_.completedRequests_ q'.sequence_ = some d := by
    intro q hq1 hle q' hq' hle'
    obtain ⟨rest, hrest, hlt⟩ := hinv.completed_keys
    have hlastv := hinv.last
    rcases hl : r.completed.getLast? with _ | dl
    · rw [hl] at hlastv
      have hb := (hinv.bound q hq1).1
      simp only [Option.map_none', Option.getD_none] at hlastv
      omega
    · rw [hl] at hlastv
      simp only [Option.map_some', Option.getD_some] at hlastv
      have hdl : dl ∈ r.completed := List.mem_of_getLast?_eq_some hl
      have hk : q'.key ∈ r.enqueued.map Request.key := List.mem_map.mpr ⟨q', hq', rfl⟩
      rw [hrest, List.mem_append] at hk
      rcases hk with hk | hk
      · obtain ⟨d, hd, hdk⟩ := List.mem_map.mp hk
        have hseq : d.sequence_ = q'.sequence_ := congrArg Prod.fst hdk
        exact ⟨d, hd, hdk, by rw [← hseq]; exact hinv.stored d hd⟩
      · have := hlt _ hk dl hdl
        have hk1 : (q'.key).1 = q'.sequence_ := rfl
        omega
  refine ⟨main, ?_⟩
  intro q hq1
  constructor
  · constructor
    · intro hle
      obtain ⟨d, -, -, hf⟩ := main q hq1 hle q hq1 (Nat.le_refl _)
      refine ⟨d, ?_⟩
      unfold ExecutionThread.waitForRequest
      rw [if_neg (by omega)]
      exact hf
    · rintro ⟨d, hd⟩
      unfold ExecutionThread.waitForRequest at hd
      split at hd
      · cases hd
      · omega
  · intro d hd
    unfold ExecutionThread.waitForRequest at hd
    split at hd
    · cases hd
    · rename_i hnot
      have hle : q.sequence_ ≤ r.conn.executionThread_.lastCompletedRequest_ := by omega
      obtain ⟨d1, hd1, hk1, hf1⟩ := main q hq1 hle q hq1 (Nat.le_refl _)
      rw [hf1] at hd
      have hdd : d1 = d := Option.some.inj hd
      subst hdd
      exact ⟨hd1, hk1, main q hq1 hle⟩

theorem C12_flush_waits_for_prior_requests_witness :
    exampleWorkerStart.executionThread_.requestQueue_ = [] ∧
    exampleWorkerStart.executionThread_.lastCompletedRequest_
      < exampleWorkerStart.nextRequestSequence_ ∧
    ∃ r, WorkerRun.run exampleEnv (WorkerRun.start exampleWorkerStart)
        (exampleSchedule.take 8) = some r ∧
      r.conn.executionThread_.lastCompletedRequest_ = 2 ∧
      r.enqueued.map Request.key =
        [(1, RequestType.EXECUTION_REQUEST, 1, ""),
         (2, RequestType.COMMIT_TRANSACTION_REQUEST, 0, ""),
         (4, RequestType.END_PROGRAM_REQUEST, 0, "p")] ∧
      ∀ q' ∈ r.enqueued, q'.sequence_ ≤ 2 →
        ∃ d ∈ r.completed, d.key = q'.key ∧
          findCompleted r.conn.executionThread_.completedRequests_ q'.sequence_ = some d := by
  have hsome : (WorkerRun.run exampleEnv (WorkerRun.start exampleWorkerStart)
      (exampleSchedule.take 8)).isSome = true := by rfl
  obtain ⟨r, hr⟩ := Option.isSome_iff_exists.mp hsome
  have hC := C12_flush_waits_for_prior_requests exampleEnv exampleWorkerStart
    (exampleSchedule.take 8) r (by rfl) (by decide) hr
  have hvals : (WorkerRun.run exampleEnv (WorkerRun.start exampleWorkerStart)
      (exampleSchedule.take 8)).map (fun r => (r.conn.executionThread_.lastCompletedRequest_,
        r.enqueued.map Request.key, (r.enqueued.get? 1).map (fun q => q.sequence_)))
      = some (2, [(1, RequestType.EXECUTION_REQUEST, 1, ""),
         (2, RequestType.COMMIT_TRANSACTION_REQUEST, 0, ""),
         (4, RequestType.END_PROGRAM_REQUEST, 0, "p")], some 2) := by rfl
  rw [hr] at hvals
  have h1 : r.conn.executionThread_.lastCompletedRequest_ = 2 :=
    congrArg Prod.fst (Option.some.inj hvals)
  have h2 : r.enqueued.map Request.key = _ :=
    congrArg (fun p => p.2.1) (Option.some.inj hvals)
  have h3 : (r.enqueued.get? 1).map (fun q => q.sequence_) = some 2 :=
    congrArg (fun p => p.2.2) (Option.some.inj hvals)
  refine ⟨by rfl, by decide, r, hr, h1, h2, ?_⟩
  rcases hq : r.enqueued.get? 1 with _ | q
  · rw [hq] at h3; cases h3
  · rw [hq] at h3
    have hqs : q.sequence_ = 2 := Option.some.inj h3
    have hmem : q ∈ r.enqueued := List.get?_mem hq
    intro q' hq' hle
    exact hC.1 q hmem (by rw [hqs, h1]) q' hq' (by rw [hqs]; exact hle)

theorem setDbError_error (c : MySqlConnection) (n : Int) (s : String) :
    (c.setDbError n s).errorNo_ = c.errorNo_ ∧ (c.setDbError n s).errorMessage_ = c.errorMessage_ := by
  unfold MySqlConnection.setDbError
  cases c.impl_.db_ <;> exact ⟨rfl, rfl⟩

/-- A rollback that the server accepts leaves the error of the facade alone. -/
theorem rollback_keeps_error (report : ReportFn) (env : Env) (c c' : MySqlConnection) (rc : Int)
    (h : MySqlConnectionImpl.rollback report env c = some (c', rc))
    (hok : (env.srv.mysql_rollback c.serverLog.length).rc = 0) :
    c'.errorNo_ = c.errorNo_ ∧ c'.errorMessage_ = c.errorMessage_ := by
  unfold MySqlConnectionImpl.rollback at h
  rcases hdb : c.impl_.db_ with _ | db
  · simp only [hdb] at h
    cases h
    exact ⟨rfl, rfl⟩
  · simp only [hdb] at h
    rcases hac : c.impl_.isAutoCommit_ with _ | _
    · simp only [hac, Bool.false_eq_true, if_false, hok, ne_eq, not_true_eq_false] at h
      have hdb1 : ((c.logCall ServerCall.mysql_rollback).setDbError
          (env.srv.mysql_rollback c.serverLog.length).errno
          (env.srv.mysql_rollback c.serverLog.length).error).impl_.db_.isSome = true := by
        rw [setDbError_isSome]; simp [MySqlConnection.logCall, hdb]
      rw [setAutoCommit_of_db _ _ _ _ hdb1] at h
      cases h
      obtain ⟨e1, e2⟩ := setDbError_error (c.logCall ServerCall.mysql_rollback)
        (env.srv.mysql_rollback c.serverLog.length).errno
        (env.srv.mysql_rollback c.serverLog.length).error
      exact ⟨e1, e2⟩
    · simp only [hac, if_true] at h
      cases h
      exact ⟨rfl, rfl⟩

/-- The facade keeps the error that `reportError` stores when no rollback is
needed or the server accepts the rollback. -/
theorem reportError_stores (fuel : Nat) (env : Env) (c c' : MySqlConnection)
    (errorMessage : String) (errorNo : Int) (xh : Nat) (rc : Int)
    (h : MySqlConnection.reportError fuel env c errorMessage errorNo xh = some (c', rc))
    (hroll : c.isTransactions_ = false ∨ c.impl_.isAutoCommit_ = true
      ∨ (env.srv.mysql_rollback c.serverLog.length).rc = 0) :
    c'.errorNo_ = errorNo ∧ c'.errorMessage_ = errorMessage := by
  rcases hroll with h1 | h1 | h1
  · rw [(reportError_ok env fuel _ _ _ _ _ _ h).closed (Or.inl h1)]
    exact ⟨rfl, rfl⟩
  · rw [(reportError_ok env fuel _ _ _ _ _ _ h).closed (Or.inr h1)]
    exact ⟨rfl, rfl⟩
  · cases fuel with
    | zero => simp [MySqlConnection.reportError] at h
    | succ f =>
      unfold MySqlConnection.reportError at h
      change (match MySqlConnection.rollbackTransaction (MySqlConnection.reportError f env) env
          (c.withError errorMessage errorNo xh) "execution failed" with
        | none => none
        | some (c2, _) => some (c2, errorNo)) = some (c', rc) at h
      rcases hr : MySqlConnection.rollbackTransaction (MySqlConnection.reportError f env) env
          (c.withError errorMessage errorNo xh) "execution failed" with _ | ⟨c2, rc2⟩
      · simp [hr] at h
      · simp only [hr, Option.some.injEq, Prod.mk.injEq] at h
        obtain ⟨hc, -⟩ := h
        subst hc
        unfold MySqlConnection.rollbackTransaction at hr
        split at hr
        · cases hr; exact ⟨rfl, rfl⟩
        · split at hr
          · cases hr; exact ⟨rfl, rfl⟩
          · obtain ⟨F, hF⟩ : ∃ F : MySqlConnection,
                F = (if (c.withError errorMessage errorNo xh).async_ = true then
                  (c.withError errorMessage errorNo xh).flushExecutionThread
                    RequestType.ROLLBACK_TRANSACTION_REQUEST 0 ""
                  else c.withError errorMessage errorNo xh) := ⟨_, rfl⟩
            have hlog : F.serverLog = c.serverLog := by
              rw [hF]; split <;> rfl
            have herr : F.errorNo_ = errorNo ∧ F.errorMessage_ = errorMessage := by
              rw [hF]; split <;> exact ⟨rfl, rfl⟩
            rw [← hF] at hr
            dsimp only at hr
            rcases hrb : MySqlConnectionImpl.rollback (MySqlConnection.reportError f env) env F
              with _ | ⟨c3, rc3⟩
            · rw [hrb] at hr; cases hr
            · rw [hrb] at hr
              obtain ⟨k1, k2⟩ := rollback_keeps_error _ env _ _ _ hrb (by rw [hlog]; exact h1)
              dsimp only at hr
              split at hr
              · cases hr
                exact ⟨k1.trans herr.1, k2.trans herr.2⟩
              · cases hr
                exact ⟨k1.trans herr.1, k2.trans herr.2⟩

theorem assertRows_frame (fuel : Nat) (env : Env) (c c' : MySqlConnection) (m : String)
    (rc : Int) (h : MySqlConnection.reportError fuel env c m 1 0 = some (c', rc)) :
    c'.executions_ = c.executions_ :=
  (reportError_ok env fuel _ _ _ _ _ _ h).frame.executions_

/-- C21 (amended): for a completed execution with row count n and an expected count k,
`assertRowsReturned(k)` returns true (changing nothing) when n = k, and whenever
it returns, it returns true exactly when n = k.  When n differs from k it
returns false and what it leaves is the outcome of `reportError` with error
number 1 and the message `<statement name>(<arguments>) returned <n> row. <k>
expected`, with `row` exactly when n = 1 and `rows` otherwise: the facade holds
this number and message when no transaction has to be rolled back or the
server accepts the rollback.  It returns as soon as the server accepts a
rollback after finitely many attempts. -/
theorem C21_assertRowsReturned (fuel : Nat) (env : Env) (writer : Value → String)
    (c : MySqlConnection) (k : Int) (xh i : Nat)
    (hfind : c.getCompletedExecution xh = some i) :
    ((c.exec i).rowCount_ = k →
      MySqlConnection.assertRowsReturned fuel env writer c k xh = some (c, true)) ∧
    (∀ c' b, MySqlConnection.assertRowsReturned fuel env writer c k xh = some (c', b) →
      (b = true ↔ (c.exec i).rowCount_ = k)) ∧
    (∀ c' b, MySqlConnection.assertRowsReturned fuel env writer c k xh = some (c', b) →
      (c.exec i).rowCount_ ≠ k →
      b = false ∧
      (∃ rc, MySqlConnection.reportError fuel env c
        (MySqlExecution.toStream writer (c.exec i) ++ " returned "
          ++ toString (c.exec i).rowCount_
          ++ (if (c.exec i).rowCount_ = 1 then " row. " else " rows. ")
          ++ toString k ++ " expected") 1 0 = some (c', rc)) ∧
      (c.isTransactions_ = false ∨ c.impl_.isAutoCommit_ = true
          ∨ (env.srv.mysql_rollback c.serverLog.length).rc = 0 →
        c'.errorNo_ = 1 ∧
        c'.errorMessage_ = MySqlExecution.toStream writer (c.exec i) ++ " returned "
          ++ toString (c.exec i).rowCount_
          ++ (if (c.exec i).rowCount_ = 1 then " row. " else " rows. ")
          ++ toString k ++ " expected")) ∧
    (∀ j, (env.srv.mysql_rollback (c.serverLog.length + j)).rc = 0 → j + 1 ≤ fuel →
      ∃ r, MySqlConnection.assertRowsReturned fuel env writer c k xh = some r) := by
  refine ⟨?_, ?_, ?_, ?_⟩
  · intro heq
    simp only [MySqlConnection.assertRowsReturned, hfind, heq, if_true]
  · intro c' b h
    simp only [MySqlConnection.assertRowsReturned, hfind] at h
    split at h
    · rename_i heq
      cases h
      exact ⟨fun _ => heq, fun _ => rfl⟩
    · rename_i hne
      rcases hr : MySqlConnection.reportError fuel env c
          (countMessage writer (c.exec i) " returned " (c.exec i).rowCount_ k) 1 0
        with _ | ⟨c1, rc1⟩
      · rw [hr] at h; cases h
      · rw [hr] at h
        cases h
        exact ⟨fun hb => Bool.noConfusion hb, fun heq => absurd heq hne⟩
  · intro c' b h hne
    simp only [MySqlConnection.assertRowsReturned, hfind, hne, if_false] at h
    rcases hr : MySqlConnection.reportError fuel env c
        (countMessage writer (c.exec i) " returned " (c.exec i).rowCount_ k) 1 0
      with _ | ⟨c1, rc1⟩
    · rw [hr] at h; cases h
    · rw [hr] at h
      cases h
      refine ⟨rfl, ⟨rc1, hr⟩, ?_⟩
      intro hroll
      exact reportError_stores fuel env c c' _ 1 0 rc1 hr hroll
  · intro j hj hfuel
    obtain ⟨⟨c1, rc1⟩, hr⟩ := reportError_total env j fuel c
      (countMessage writer (c.exec i) " returned " (c.exec i).rowCount_ k) 1 0 hj hfuel
    simp only [MySqlConnection.assertRowsReturned, hfind]
    split
    · exact ⟨_, rfl⟩
    · rw [hr]
      exact ⟨_, rfl⟩

theorem C21_assertRowsReturned_witness :
    exampleAfterOne.getCompletedExecution 0 = some 0 ∧
    (exampleAfterOne.exec 0).rowCount_ = 0 ∧
    (∀ c' b, MySqlConnection.assertRowsReturned 5 exampleEnv exampleWriter exampleAfterOne 1 0
        = some (c', b) →
      b = false ∧ c'.errorNo_ = 1 ∧
      c'.errorMessage_ = "one(5) returned 0 rows. 1 expected") ∧
    (∃ r, MySqlConnection.assertRowsReturned 5 exampleEnv exampleWriter exampleAfterOne 1 0
      = some r) ∧
    MySqlConnection.assertRowsReturned 5 exampleEnv exampleWriter exampleAfterOne 0 0
      = some (exampleAfterOne, true) := by
  have w := C21_assertRowsReturned 5 exampleEnv exampleWriter exampleAfterOne 1 0 0 (by rfl)
  have w0 := C21_assertRowsReturned 5 exampleEnv exampleWriter exampleAfterOne 0 0 0 (by rfl)
  refine ⟨by rfl, by rfl, ?_, w.2.2.2 0 (by decide) (by decide), w0.1 (by rfl)⟩
  intro c' b h
  obtain ⟨hb, -, hst⟩ := w.2.2.1 c' b h (by decide)
  obtain ⟨h1, h2⟩ := hst (Or.inr (Or.inl (by rfl)))
  refine ⟨hb, h1, ?_⟩
  rw [h2]
  decide

/-- C22, as stated, fails: after `execute("one", a = 5)` has completed with no
row returned, `assertRowsReturned(1)` returns false and reports the error on the
facade, and the execution it examined is still in STATEMENT_COMPLETE with
return code 0. -/
theorem C22_counterexample :
    (exampleAfterOne.exec 0).rowCount_ ≠ 1 ∧
    (MySqlConnection.assertRowsReturned 5 exampleEnv exampleWriter exampleAfterOne 1 0).map
      (fun r => (r.2, r.1.errorNo_, (r.1.exec 0).state_, (r.1.exec 0).rc_,
        r.1.getReturnCode 0))
      = some (false, 1, ExecutionState.STATEMENT_COMPLETE_STATE, 0, some 0) := by
  refine ⟨by decide, ?_⟩
  rfl

/-- C22 (amended): whenever `assertRowsReturned` or `assertRowsAffected` finds a
count different from the expected one and returns, it returns false, what it
leaves is the outcome of `reportError` on the facade with error number 1, and
the executions of the connection, the examined one included, are as before:
its return code and its state do not change. -/
theorem C22_assert_reports_on_facade (fuel : Nat) (env : Env) (writer : Value → String)
    (c : MySqlConnection) (k : Int) (xh i : Nat)
    (hfind : c.getCompletedExecution xh = some i) :
    (∀ c' b, MySqlConnection.assertRowsReturned fuel env writer c k xh = some (c', b) →
      (c.exec i).rowCount_ ≠ k →
      b = false ∧
      (∃ m rc, MySqlConnection.reportError fuel env c m 1 0 = some (c', rc)) ∧
      c'.executions_ = c.executions_ ∧
      (c'.exec i).rc_ = (c.exec i).rc_ ∧ (c'.exec i).state_ = (c.exec i).state_) ∧
    (∀ c' b, MySqlConnection.assertRowsAffected fuel env writer c k xh = some (c', b) →
      (c.exec i).rowsAffected_ ≠ k →
      b = false ∧
      (∃ m rc, MySqlConnection.reportError fuel env c m 1 0 = some (c', rc)) ∧
      c'.executions_ = c.executions_ ∧
      (c'.exec i).rc_ = (c.exec i).rc_ ∧ (c'.exec i).state_ = (c.exec i).state_) := by
  constructor
  · intro c' b h hne
    simp only [MySqlConnection.assertRowsReturned, hfind, hne, if_false] at h
    rcases hr : MySqlConnection.reportError fuel env c
        (countMessage writer (c.exec i) " returned " (c.exec i).rowCount_ k) 1 0
      with _ | ⟨c1, rc1⟩
    · rw [hr] at h; cases h
    · rw [hr] at h
      cases h
      have hx := assertRows_frame fuel env c c' _ rc1 hr
      refine ⟨rfl, ⟨_, rc1, hr⟩, hx, ?_, ?_⟩
      · simp only [MySqlConnection.exec, hx]
      · simp only [MySqlConnection.exec, hx]
  · intro c' b h hne
    simp only [MySqlConnection.assertRowsAffected, hfind, hne, if_false] at h
    rcases hr : MySqlConnection.reportError fuel env c
        (countMessage writer (c.exec i) " affected " (c.exec i).rowsAffected_ k) 1 0
      with _ | ⟨c1, rc1⟩
    · rw [hr] at h; cases h
    · rw [hr] at h
      cases h
      have hx := assertRows_frame fuel env c c' _ rc1 hr
      refine ⟨rfl, ⟨_, rc1, hr⟩, hx, ?_, ?_⟩
      · simp only [MySqlConnection.exec, hx]
      · simp only [MySqlConnection.exec, hx]

theorem C22_assert_reports_on_facade_witness :
    exampleAfterOne.getCompletedExecution 0 = some 0 ∧
    (exampleAfterOne.exec 0).rowsAffected_ = 1 ∧
    (∀ c' b, MySqlConnection.assertRowsAffected 5 exampleEnv exampleWriter exampleAfterOne 2 0
        = some (c', b) →
      b = false ∧ (c'.exec 0).rc_ = 0 ∧
      (c'.exec 0).state_ = ExecutionState.STATEMENT_COMPLETE_STATE) ∧
    (MySqlConnection.assertRowsAffected 5 exampleEnv exampleWriter exampleAfterOne 2 0).isSome
      = true := by
  have w := C22_assert_reports_on_facade 5 exampleEnv exampleWriter exampleAfterOne 2 0 0
    (by rfl)
  refine ⟨by rfl, by rfl, ?_, by rfl⟩
  intro c' b h
  obtain ⟨hb, -, -, h1, h2⟩ := w.2 c' b h (by decide)
  exact ⟨hb, h1.trans (by rfl), h2.trans (by rfl)⟩

/-! ## The complete-timestamp -/

theorem timeKept_refl (c : MySqlConnection) : TimeKept c c := ⟨rfl, fun _ => rfl⟩

theorem timeKept_trans {c1 c2 c3 : MySqlConnection} (h1 : TimeKept c1 c2)
    (h2 : TimeKept c2 c3) : TimeKept c1 c3 :=
  ⟨h2.1.trans h1.1, fun j => (h2.2 j).trans (h1.2 j)⟩

theorem timeKept_of_executions {c c' : MySqlConnection} (h : c'.executions_ = c.executions_) :
    TimeKept c c' :=
  ⟨by rw [h], fun j => by simp only [MySqlConnection.exec, h]⟩

theorem timeKept_setObs (c : MySqlConnection) (k : Nat) (o : MySqlObserver) :
    TimeKept c (c.setObs k o) :=
  timeKept_of_executions rfl

theorem timeKept_setExec (c : MySqlConnection) (i : Nat) (e : MySqlExecution)
    (h : e.completeTime_ = (c.exec i).completeTime_) : TimeKept c (c.setExec i e) := by
  refine ⟨length_setExec _ _ _, fun j => ?_⟩
  by_cases hi : i < c.executions_.length
  · by_cases hj : j = i
    · subst hj
      rw [exec_setExec_same _ _ _ hi]
      exact h
    · rw [exec_setExec_other _ _ _ _ hj]
  · rw [setExec_of_length_le _ _ _ (by omega)]

theorem timeKept_capture_tail (d : MySqlConnection) (k : Nat) (o : MySqlObserver) (i : Nat)
    (e : MySqlExecution) (h : e.completeTime_ = (d.exec i).completeTime_) :
    TimeKept d ((d.setObs k o).setExec i e) :=
  timeKept_trans (timeKept_setObs d k o) (timeKept_setExec (d.setObs k o) i e h)

theorem timeKept_asJson (c : MySqlConnection) (i : Nat) :
    TimeKept c (MySqlExecution.asJson c i).1 := by
  unfold MySqlExecution.asJson
  split
  · exact timeKept_refl _
  · exact timeKept_setExec _ _ _ rfl

theorem AuditObserver_onEvent_timeKept (c : MySqlConnection) (k i : Nat)
    (ns : ExecutionState) : TimeKept c (AuditObserver.onEvent c k i ns).1 := by
  unfold AuditObserver.onEvent
  split
  · exact timeKept_refl _
  · split
    · exact timeKept_refl _
    · exact timeKept_trans (timeKept_asJson c i) (timeKept_of_executions rfl)

theorem CaptureObserver_onEvent_timeKept (c : MySqlConnection) (k i : Nat)
    (ns : ExecutionState) : TimeKept c (CaptureObserver.onEvent c k i ns).1 := by
  unfold CaptureObserver.onEvent
  split
  · simp only []
    exact timeKept_trans (timeKept_setExec c i { c.exec i with state_ := ns } rfl)
      (timeKept_trans (timeKept_asJson _ i) (timeKept_capture_tail _ k _ i _ rfl))
  · exact timeKept_refl _

theorem ReplayObserver_onEvent_timeKept (fuel : Nat) (env : Env) (c c' : MySqlConnection)
    (k i : Nat) (ns answer : ExecutionState)
    (h : ReplayObserver.onEvent fuel env c k i ns = some (c', answer)) : TimeKept c c' := by
  unfold ReplayObserver.onEvent at h
  obtain ⟨c1, hc1⟩ : ∃ c1 : MySqlConnection,
      c1 = (if (c.exec i).state_ = ExecutionState.INITIAL_STATE then
        c.setObs k { c.obs k with executionNumber_ := (c.obs k).executionNumber_ + 1 }
      else c) := ⟨_, rfl⟩
  have h0 : TimeKept c c1 := by
    rw [hc1]
    split
    · exact timeKept_of_executions rfl
    · exact timeKept_refl _
  rw [← hc1] at h
  simp only [] at h
  have hrep : ∀ d m n xh d' rc, MySqlConnection.reportError fuel env d m n xh = some (d', rc) →
      TimeKept d d' := fun d m n xh d' rc hr =>
    timeKept_of_executions (reportError_ok env fuel _ _ _ _ _ _ hr).frame.executions_
  split at h
  · cases h; exact h0
  · split at h
    · cases h; exact h0
    · split at h
      · split at h
        · cases h
        · rename_i c2 rc2 hr
          cases h
          exact timeKept_trans h0 (hrep _ _ _ _ _ _ hr)
      · split at h
        · cases h
        · split at h
          · cases h
          · split at h
            · split at h
              · cases h
              · rename_i c2 rc2 hr
                cases h
                exact timeKept_trans h0 (hrep _ _ _ _ _ _ hr)
            · have hs1 : ∀ e1 : MySqlExecution, e1.completeTime_ = (c1.exec i).completeTime_ →
                  TimeKept c (c1.setExec i e1) := fun e1 he =>
                timeKept_trans h0 (timeKept_setExec c1 i e1 he)
              split at h
              · cases h
                exact hs1 _ rfl
              · split at h
                · cases h
                  exact hs1 _ rfl
                · split at h
                  · cases h
                  · rename_i c4 rc4 hr
                    cases h
                    have k3 := hrep _ _ _ _ _ _ hr
                    refine timeKept_trans (timeKept_trans h0 ?_) k3
                    rw [setExec_setExec]
                    exact timeKept_setExec _ _ _ rfl

theorem onEvent_timeKept (fuel : Nat) (env : Env) (c c' : MySqlConnection)
    (k i : Nat) (ns answer : ExecutionState)
    (h : MySqlObserver.onEvent fuel env c k i ns = some (c', answer)) : TimeKept c c' := by
  unfold MySqlObserver.onEvent at h
  split at h
  · have k1 := AuditObserver_onEvent_timeKept c k i ns
    simp only [Option.some.injEq] at h
    rw [h] at k1
    exact k1
  · have k1 := CaptureObserver_onEvent_timeKept c k i ns
    simp only [Option.some.injEq] at h
    rw [h] at k1
    exact k1
  · exact ReplayObserver_onEvent_timeKept _ _ _ _ _ _ _ _ h
  · cases h; exact timeKept_refl _
  · cases h; exact timeKept_refl _

theorem changeStateLoop_timeKept (fuel : Nat) (env : Env) (i : Nat) (ns : ExecutionState)
    (n : Nat) : ∀ (k : Nat) (c c' : MySqlConnection) (real r : ExecutionState),
      MySqlExecution.changeStateLoop fuel env i ns n k c real = some (c', r) →
      TimeKept c c' := by
  induction n with
  | zero =>
    intro k c c' real r h
    simp only [MySqlExecution.changeStateLoop, Option.some.injEq, Prod.mk.injEq] at h
    rw [← h.1]
    exact timeKept_refl _
  | succ n ih =>
    intro k c c' real r h
    simp only [MySqlExecution.changeStateLoop] at h
    rcases ho : MySqlObserver.onEvent fuel env c k i ns with _ | ⟨c1, a⟩
    · rw [ho] at h; cases h
    · rw [ho] at h
      exact timeKept_trans (onEvent_timeKept _ _ _ _ _ _ _ _ ho) (ih _ _ _ _ _ h)

/-- The complete-timestamp after `changeState`: the clock of the call when the
proposed state is terminal, else the timestamp before the call. -/
theorem changeState_completeTime (fuel : Nat) (env : Env) (c c' : MySqlConnection) (i : Nat)
    (ns : ExecutionState) (rc : Int) (hi : i < c.executions_.length)
    (h : MySqlExecution.changeState fuel env c i ns = some (c', rc)) :
    (c'.exec i).completeTime_ =
      if ns = ExecutionState.STATEMENT_COMPLETE_STATE ∨ ns = ExecutionState.ERROR_STATE
      then c.now else (c.exec i).completeTime_ := by
  unfold MySqlExecution.changeState at h
  obtain ⟨c0, hc0⟩ : ∃ c0 : MySqlConnection,
      c0 = (if ns = ExecutionState.STATEMENT_COMPLETE_STATE
          ∨ ns = ExecutionState.ERROR_STATE then
        (c.setExec i { c.exec i with completeTime_ := c.now }).tick
      else c) := ⟨_, rfl⟩
  have h0 : (c0.exec i).completeTime_ =
      if ns = ExecutionState.STATEMENT_COMPLETE_STATE ∨ ns = ExecutionState.ERROR_STATE
      then c.now else (c.exec i).completeTime_ := by
    rw [hc0]
    split
    · have h1 : ((c.setExec i { c.exec i with completeTime_ := c.now }).tick).exec i
          = (c.setExec i { c.exec i with completeTime_ := c.now }).exec i := rfl
      rw [h1, exec_setExec_same _ _ _ hi]
    · rfl
  rw [← hc0] at h
  simp only [] at h
  rcases hl : MySqlExecution.changeStateLoop fuel env i ns c0.observers_.length 0 c0 ns
    with _ | ⟨c1, real⟩
  · rw [hl] at h; cases h
  · rw [hl] at h
    simp only [Option.some.injEq, Prod.mk.injEq] at h
    rw [← h.1, ← h0]
    have k1 := changeStateLoop_timeKept _ _ _ _ _ _ _ _ _ _ hl
    exact ((timeKept_setExec c1 i { c1.exec i with state_ := real } rfl).2 i).trans (k1.2 i)

/-- C23, evaluation of the code: against a server whose `mysql_stmt_bind_param`
fails (return value 1, error 2031), `bindParameters` for the statement `one`
with its marker parameter returns 0 and leaves the execution in
STATEMENT_PREPARED with no error recorded on the execution or the connection;
`execute("one", a = 5)` goes on to execute the statement and ends in
STATEMENT_COMPLETE with return code 0. -/
theorem C23_failed_bind_ignored :
    (exampleBindFailEnv.srv.mysql_stmt_bind_param 4).rc ≠ 0 ∧
    exampleBeforeBind.map (fun r => ((r.1.exec 0).state_, (r.1.exec 0).paramCount_,
        r.1.serverLog.length))
      = some (ExecutionState.BINDINGS_PREPARED_STATE, 1, 4) ∧
    (exampleBeforeBind.bind
        (fun r => MySqlExecution.bindParameters 20 exampleBindFailEnv r.1 0)).map
      (fun r => (r.2, (r.1.exec 0).state_, (r.1.exec 0).errorNo_, r.1.errorNo_))
      = some (0, ExecutionState.STATEMENT_PREPARED_STATE, 0, 0) ∧
    (MySqlConnection.execute 20 exampleBindFailEnv exampleConnection "one"
        [("a", Value.int 5)] false).map
      (fun r => ((r.1.exec 0).state_, (r.1.exec 0).rc_, (r.1.exec 0).errorNo_, r.1.errorNo_,
        r.1.getReturnCode 0))
      = some (ExecutionState.STATEMENT_COMPLETE_STATE, 0, 0, 0, some 0) := by
  refine ⟨by decide, ?_, ?_, ?_⟩ <;> rfl

/-- C24, as stated, fails: under a replay observer whose record is complete,
`changeState(SQL_GENERATED)` leaves the execution in STATEMENT_COMPLETE, the
accepted target, and the complete-timestamp is not stamped: it keeps the value
0 it had before the call, while the clock of the call reads 1. -/
theorem C24_counterexample :
    ((exampleReplayPoint.exec 0).completeTime_, exampleReplayPoint.now) = (0, 1) ∧
    (MySqlExecution.changeState 1 exampleEnv exampleReplayPoint 0
        ExecutionState.SQL_GENERATED_STATE).map
      (fun r => ((r.1.exec 0).state_, (r.1.exec 0).completeTime_))
      = some (ExecutionState.STATEMENT_COMPLETE_STATE, 0) := by
  constructor <;> rfl

/-- C24 (amended): for every call `changeState(proposed)` on an execution of
the connection and every observer chain, if the proposed state is
STATEMENT_COMPLETE or ERROR then the call returns and the complete-timestamp of
the execution is stamped by it: it holds the clock reading of the call.  For
any other proposed state a call that returns leaves the timestamp as it was,
whatever state the observers make the execution take. -/
theorem C24_stamped_when_proposed_terminal (fuel : Nat) (env : Env) (c : MySqlConnection)
    (i : Nat) (proposed : ExecutionState) (hi : i < c.executions_.length) :
    (proposed = ExecutionState.STATEMENT_COMPLETE_STATE ∨ proposed = ExecutionState.ERROR_STATE →
      (∃ r, MySqlExecution.changeState fuel env c i proposed = some r) ∧
      ∀ c' rc, MySqlExecution.changeState fuel env c i proposed = some (c', rc) →
        (c'.exec i).completeTime_ = c.now) ∧
    (¬ (proposed = ExecutionState.STATEMENT_COMPLETE_STATE
        ∨ proposed = ExecutionState.ERROR_STATE) →
      ∀ c' rc, MySqlExecution.changeState fuel env c i proposed = some (c', rc) →
        (c'.exec i).completeTime_ = (c.exec i).completeTime_) := by
  constructor
  · intro hp
    constructor
    · obtain ⟨c', h, -⟩ := changeState_quiet fuel env c i proposed hi
        (fun k => Or.inr (by rcases hp with hp | hp <;> rw [hp] <;> decide))
      exact ⟨_, h⟩
    · intro c' rc h
      rw [changeState_completeTime fuel env c c' i proposed rc hi h, if_pos hp]
  · intro hp c' rc h
    rw [changeState_completeTime fuel env c c' i proposed rc hi h, if_neg hp]

theorem C24_stamped_when_proposed_terminal_witness :
    0 < exampleReplayPoint.executions_.length ∧
    (∃ r, MySqlExecution.changeState 1 exampleEnv exampleReplayPoint 0
      ExecutionState.STATEMENT_COMPLETE_STATE = some r) ∧
    (∀ c' rc, MySqlExecution.changeState 1 exampleEnv exampleReplayPoint 0
        ExecutionState.STATEMENT_COMPLETE_STATE = some (c', rc) →
      (c'.exec 0).completeTime_ = 1) ∧
    (MySqlExecution.changeState 1 exampleEnv exampleReplayPoint 0
        ExecutionState.STATEMENT_COMPLETE_STATE).map
      (fun r => ((r.1.exec 0).state_, (r.1.exec 0).completeTime_))
      = some (ExecutionState.STATEMENT_COMPLETE_STATE, 1) := by
  have w := (C24_stamped_when_proposed_terminal 1 exampleEnv exampleReplayPoint 0
    ExecutionState.STATEMENT_COMPLETE_STATE (by decide)).1 (Or.inl rfl)
  refine ⟨by decide, w.1, fun c' rc h => (w.2 c' rc h).trans (by rfl), by rfl⟩

/-- C25, evaluation of the code: with an auditing audit observer registered
ahead of a capture observer, inside a program, `execute("good")` ends in
STATEMENT_COMPLETE, and the document that the capture observer stored for the
transition to STATEMENT_COMPLETE has the state STATEMENT_PREPARED, the state
before the transition.  With the capture observer alone the stored state is
STATEMENT_COMPLETE. -/
theorem C25_audit_ahead_of_capture :
    exampleAuditCapture.observers_.map (fun o => (o.observerType, o.isAuditing_,
        o.currentProgram_))
      = [(ObserverType.AUDIT_OBS, true, ""), (ObserverType.CAPTURE_OBS, false, "prog")] ∧
    (MySqlConnection.execute 20 exampleEnv exampleAuditCapture "good" [] false).map
      (fun r => ((r.1.exec 0).state_,
        (r.1.obs 1).capturedExecutions_.map (fun d => (d.statement_name, d.state))))
      = some (ExecutionState.STATEMENT_COMPLETE_STATE,
          [("good", ExecutionState.STATEMENT_PREPARED_STATE)]) ∧
    (MySqlConnection.execute 20 exampleEnv (exampleObserved ObserverType.CAPTURE_OBS [])
        "good" [] false).map
      (fun r => ((r.1.exec 0).state_,
        (r.1.obs 0).capturedExecutions_.map (fun d => (d.statement_name, d.state))))
      = some (ExecutionState.STATEMENT_COMPLETE_STATE,
          [("good", ExecutionState.STATEMENT_COMPLETE_STATE)]) := by
  refine ⟨by decide, ?_, ?_⟩ <;> rfl

/-- C26, evaluation of the code: for a column of type ENUM `bindColumn` leaves
the length pointer of the bind record null, where a STRING or VAR_STRING column
gets a length slot of the row buffer; the column loop of `storeResultRow` has
no defined result on a non-null ENUM cell bound that way, because it reads the
length through the null pointer.  A statement with one ENUM column and one row
completes when the cell is null and has no result when the cell holds a value;
with a STRING column it completes with the value. -/
theorem C26_enum_without_length_slot :
    (∀ (env : Env) (name : String) (length max_length : Nat) (columnBind : MYSQL_BIND)
        (buffer : Option Nat) (blobBufferLen : Nat),
      (MySqlExecution.bindColumn env
        { name := name, type := enum_field_types.MYSQL_TYPE_ENUM, length := length,
          max_length := max_length } columnBind buffer blobBufferLen).1.length = none) ∧
    (∀ (env : Env) (name : String) (length max_length : Nat) (columnBind : MYSQL_BIND)
        (offset : Nat) (blobBufferLen : Nat),
      (MySqlExecution.bindColumn env
        { name := name, type := enum_field_types.MYSQL_TYPE_STRING, length := length,
          max_length := max_length } columnBind (some offset) blobBufferLen).1.length
        = some offset ∧
      (MySqlExecution.bindColumn env
        { name := name, type := enum_field_types.MYSQL_TYPE_VAR_STRING, length := length,
          max_length := max_length } columnBind (some offset) blobBufferLen).1.length
        = some offset) ∧
    (∀ (fuel : Nat) (env : Env) (i icol : Nat) (c : MySqlConnection) (name v : String)
        (length max_length cellLength : Nat) (time : MYSQL_TIME) (columnBind : MYSQL_BIND)
        (fields : List MYSQL_FIELD) (binds : List MYSQL_BIND) (cells : List Cell),
      MySqlExecution.storeColumns fuel env i
        ({ name := name, type := enum_field_types.MYSQL_TYPE_ENUM, length := length,
           max_length := max_length } :: fields)
        ({ columnBind with length := none } :: binds)
        ({ is_null := false, length := cellLength, value := Value.string v, time := time }
          :: cells) icol c = none) ∧
    MySqlConnection.execute 20 (exampleColumnEnv enum_field_types.MYSQL_TYPE_ENUM false)
      exampleConnection "good" [] false = none ∧
    (MySqlConnection.execute 20 (exampleColumnEnv enum_field_types.MYSQL_TYPE_ENUM true)
        exampleConnection "good" [] false).map
      (fun r => ((r.1.exec 0).state_, (r.1.exec 0).results_.map (fun d => d.rows)))
      = some (ExecutionState.STATEMENT_COMPLETE_STATE, some [[("status", Value.null)]]) ∧
    (MySqlConnection.execute 20 (exampleColumnEnv enum_field_types.MYSQL_TYPE_STRING false)
        exampleConnection "good" [] false).map
      (fun r => ((r.1.exec 0).state_, (r.1.exec 0).results_.map (fun d => d.rows)))
      = some (ExecutionState.STATEMENT_COMPLETE_STATE,
          some [[("status", Value.string "active")]]) := by
  refine ⟨?_, ?_, ?_, ?_, ?_, ?_⟩
  · intro env name length max_length columnBind buffer blobBufferLen
    cases buffer <;> rfl
  · intro env name length max_length columnBind offset blobBufferLen
    exact ⟨rfl, rfl⟩
  · intro fuel env i icol c name v length max_length cellLength time columnBind fields binds
      cells
    rcases hn : columnBind.is_null with _ | p
    · simp [MySqlExecution.storeColumns, hn]
    · simp [MySqlExecution.storeColumns, hn]
  · rfl
  · rfl
  · rfl

/-- C27, evaluation of the code: for type datetime the string
`2020-01-02_10:20:30.` is accepted, and the hour written to the time record is
0, not 10, while minute and second are 20 and 30; with a hyphen before the hour
the hour written is 4294967286; with a blank before the hour it is 10.  The
hour is converted from the start of the whole match, which includes the
character before the hour. -/
theorem C27_hour_read_from_match_start :
    (MySqlExecution.stringToMySqlTime 0 exampleEnv exampleAfterOne 0 "2020-01-02_10:20:30."
        enum_field_types.MYSQL_TYPE_DATETIME).map (fun r => (r.2.1, r.2.2))
      = some (0, some { year := 2020, month := 1, day := 2, hour := 0, minute := 20,
                        second := 30, second_part := 0 }) ∧
    (MySqlExecution.stringToMySqlTime 0 exampleEnv exampleAfterOne 0 "2020-01-02-10:20:30."
        enum_field_types.MYSQL_TYPE_TIMESTAMP).map (fun r => (r.2.1, r.2.2))
      = some (0, some { year := 2020, month := 1, day := 2, hour := 4294967286, minute := 20,
                        second := 30, second_part := 0 }) ∧
    (MySqlExecution.stringToMySqlTime 0 exampleEnv exampleAfterOne 0 "x10:20:30."
        enum_field_types.MYSQL_TYPE_TIME).map (fun r => (r.2.1, r.2.2))
      = some (0, some { year := 0, month := 0, day := 0, hour := 0, minute := 20,
                        second := 30, second_part := 0 }) ∧
    (MySqlExecution.stringToMySqlTime 0 exampleEnv exampleAfterOne 0 "2020-01-02 10:20:30."
        enum_field_types.MYSQL_TYPE_DATETIME).map (fun r => (r.2.1, r.2.2))
      = some (0, some { year := 2020, month := 1, day := 2, hour := 10, minute := 20,
                        second := 30, second_part := 0 }) := by
  refine ⟨?_, ?_, ?_, ?_⟩ <;> decide

/-! ## The statement text -/

theorem textKept_refl (c : MySqlConnection) : TextKept c c := ⟨rfl, fun _ => rfl⟩

theorem textKept_trans {c1 c2 c3 : MySqlConnection} (h1 : TextKept c1 c2)
    (h2 : TextKept c2 c3) : TextKept c1 c3 :=
  ⟨h2.1.trans h1.1, fun j => (h2.2 j).trans (h1.2 j)⟩

theorem textKept_of_executions {c c' : MySqlConnection} (h : c'.executions_ = c.executions_) :
    TextKept c c' :=
  ⟨by rw [h], fun j => by simp only [MySqlConnection.exec, h]⟩

theorem textKept_setObs (c : MySqlConnection) (k : Nat) (o : MySqlObserver) :
    TextKept c (c.setObs k o) :=
  textKept_of_executions rfl

theorem textKept_setExec (c : MySqlConnection) (i : Nat) (e : MySqlExecution)
    (h : e.statementText_ = (c.exec i).statementText_) : TextKept c (c.setExec i e) := by
  refine ⟨length_setExec _ _ _, fun j => ?_⟩
  by_cases hi : i < c.executions_.length
  · by_cases hj : j = i
    · subst hj
      rw [exec_setExec_same _ _ _ hi]
      exact h
    · rw [exec_setExec_other _ _ _ _ hj]
  · rw [setExec_of_length_le _ _ _ (by omega)]

theorem textKept_capture_tail (d : MySqlConnection) (k : Nat) (o : MySqlObserver) (i : Nat)
    (e : MySqlExecution) (h : e.statementText_ = (d.exec i).statementText_) :
    TextKept d ((d.setObs k o).setExec i e) :=
  textKept_trans (textKept_setObs d k o) (textKept_setExec (d.setObs k o) i e h)

theorem textKept_asJson (c : MySqlConnection) (i : Nat) :
    TextKept c (MySqlExecution.asJson c i).1 := by
  unfold MySqlExecution.asJson
  split
  · exact textKept_refl _
  · exact textKept_setExec _ _ _ rfl

theorem AuditObserver_onEvent_textKept (c : MySqlConnection) (k i : Nat)
    (ns : ExecutionState) : TextKept c (AuditObserver.onEvent c k i ns).1 := by
  unfold AuditObserver.onEvent
  split
  · exact textKept_refl _
  · split
    · exact textKept_refl _
    · exact textKept_trans (textKept_asJson c i) (textKept_of_executions rfl)

theorem CaptureObserver_onEvent_textKept (c : MySqlConnection) (k i : Nat)
    (ns : ExecutionState) : TextKept c (CaptureObserver.onEvent c k i ns).1 := by
  unfold CaptureObserver.onEvent
  split
  · simp only []
    exact textKept_trans (textKept_setExec c i { c.exec i with state_ := ns } rfl)
      (textKept_trans (textKept_asJson _ i) (textKept_capture_tail _ k _ i _ rfl))
  · exact textKept_refl _

theorem ReplayObserver_onEvent_textKept (fuel : Nat) (env : Env) (c c' : MySqlConnection)
    (k i : Nat) (ns answer : ExecutionState)
    (h : ReplayObserver.onEvent fuel env c k i ns = some (c', answer)) : TextKept c c' := by
  unfold ReplayObserver.onEvent at h
  obtain ⟨c1, hc1⟩ : ∃ c1 : MySqlConnection,
      c1 = (if (c.exec i).state_ = ExecutionState.INITIAL_STATE then
        c.setObs k { c.obs k with executionNumber_ := (c.obs k).executionNumber_ + 1 }
      else c) := ⟨_, rfl⟩
  have h0 : TextKept c c1 := by
    rw [hc1]
    split
    · exact textKept_of_executions rfl
    · exact textKept_refl _
  rw [← hc1] at h
  simp only [] at h
  have hrep : ∀ d m n xh d' rc, MySqlConnection.reportError fuel env d m n xh = some (d', rc) →
      TextKept d d' := fun d m n xh d' rc hr =>
    textKept_of_executions (reportError_ok env fuel _ _ _ _ _ _ hr).frame.executions_
  split at h
  · cases h; exact h0
  · split at h
    · cases h; exact h0
    · split at h
      · split at h
        · cases h
        · rename_i c2 rc2 hr
          cases h
          exact textKept_trans h0 (hrep _ _ _ _ _ _ hr)
      · split at h
        · cases h
        · split at h
          · cases h
          · split at h
            · split at h
              · cases h
              · rename_i c2 rc2 hr
                cases h
                exact textKept_trans h0 (hrep _ _ _ _ _ _ hr)
            · have hs1 : ∀ e1 : MySqlExecution, e1.statementText_ = (c1.exec i).statementText_ →
                  TextKept c (c1.setExec i e1) := fun e1 he =>
                textKept_trans h0 (textKept_setExec c1 i e1 he)
              split at h
              · cases h
                exact hs1 _ rfl
              · split at h
                · cases h
                  exact hs1 _ rfl
                · split at h
                  · cases h
                  · rename_i c4 rc4 hr
                    cases h
                    have k3 := hrep _ _ _ _ _ _ hr
                    refine textKept_trans (textKept_trans h0 ?_) k3
                    rw [setExec_setExec]
                    exact textKept_setExec _ _ _ rfl

theorem onEvent_textKept (fuel : Nat) (env : Env) (c c' : MySqlConnection)
    (k i : Nat) (ns answer : ExecutionState)
    (h : MySqlObserver.onEvent fuel env c k i ns = some (c', answer)) : TextKept c c' := by
  unfold MySqlObserver.onEvent at h
  split at h
  · have k1 := AuditObserver_onEvent_textKept c k i ns
    simp only [Option.some.injEq] at h
    rw [h] at k1
    exact k1
  · have k1 := CaptureObserver_onEvent_textKept c k i ns
    simp only [Option.some.injEq] at h
    rw [h] at k1
    exact k1
  · exact ReplayObserver_onEvent_textKept _ _ _ _ _ _ _ _ h
  · cases h; exact textKept_refl _
  · cases h; exact textKept_refl _

theorem changeStateLoop_textKept (fuel : Nat) (env : Env) (i : Nat) (ns : ExecutionState)
    (n : Nat) : ∀ (k : Nat) (c c' : MySqlConnection) (real r : ExecutionState),
      MySqlExecution.changeStateLoop fuel env i ns n k c real = some (c', r) →
      TextKept c c' := by
  induction n with
  | zero =>
    intro k c c' real r h
    simp only [MySqlExecution.changeStateLoop, Option.some.injEq, Prod.mk.injEq] at h
    rw [← h.1]
    exact textKept_refl _
  | succ n ih =>
    intro k c c' real r h
    simp only [MySqlExecution.changeStateLoop] at h
    rcases ho : MySqlObserver.onEvent fuel env c k i ns with _ | ⟨c1, a⟩
    · rw [ho] at h; cases h
    · rw [ho] at h
      exact textKept_trans (onEvent_textKept _ _ _ _ _ _ _ _ ho) (ih _ _ _ _ _ h)

theorem changeState_textKept (fuel : Nat) (env : Env) (c c' : MySqlConnection) (i : Nat)
    (ns : ExecutionState) (rc : Int)
    (h : MySqlExecution.changeState fuel env c i ns = some (c', rc)) : TextKept c c' := by
  unfold MySqlExecution.changeState at h
  obtain ⟨c0, hc0⟩ : ∃ c0 : MySqlConnection,
      c0 = (if ns = ExecutionState.STATEMENT_COMPLETE_STATE
          ∨ ns = ExecutionState.ERROR_STATE then
        (c.setExec i { c.exec i with completeTime_ := c.now }).tick
      else c) := ⟨_, rfl⟩
  have h0 : TextKept c c0 := by
    rw [hc0]
    split
    · exact textKept_trans (textKept_setExec c i { c.exec i with completeTime_ := c.now } rfl)
        (textKept_of_executions rfl)
    · exact textKept_refl _
  rw [← hc0] at h
  simp only [] at h
  rcases hl : MySqlExecution.changeStateLoop fuel env i ns c0.observers_.length 0 c0 ns
    with _ | ⟨c1, real⟩
  · rw [hl] at h; cases h
  · rw [hl] at h
    simp only [Option.some.injEq, Prod.mk.injEq] at h
    rw [← h.1]
    exact textKept_trans h0 (textKept_trans (changeStateLoop_textKept _ _ _ _ _ _ _ _ _ _ hl)
      (textKept_setExec c1 i { c1.exec i with state_ := real } rfl))

/-- The substitution loop of the source, when it has a result, yields the text
of the substitutions made one after the other. -/
theorem substituteSettings_inOrder (env : Env) (settings : Settings) :
    ∀ text out, substituteSettings env settings text = some out →
      out = substituteInOrder env settings text := by
  induction settings with
  | nil =>
    intro text out h
    simp only [substituteSettings, Option.some.injEq] at h
    rw [← h]
    rfl
  | cons x rest ih =>
    intro text out h
    obtain ⟨name, setting⟩ := x
    rw [substituteSettings] at h
    by_cases hs : setting.param_type = ParamType.SUBSTITUTE
    · simp only [hs, if_true] at h
      rcases hv : setting.param_value with _ | v
      · simp [hv] at h
      · rcases v with _ | n | d | w | o
        · simp [hv] at h
        · simp [hv] at h
        · simp [hv] at h
        · simp only [hv] at h
          have h1 := ih _ _ h
          rw [h1]
          simp only [substituteInOrder, List.foldl_cons, hs, if_true, Setting.stringValue, hv]
        · simp [hv] at h
    · simp only [hs, if_false] at h
      have h1 := ih _ _ h
      rw [h1]
      simp only [substituteInOrder, List.foldl_cons, hs, if_false]

/-- C28, as stated, fails, with the literal replacement `replaceOccurrences` for
the library: for the statement `pick` with the text `select @ab` and the
SUBSTITUTE parameters `a` = `x` and `ab` = `y`, the generated text is
`select xb`, not `select y`: the substitution of `a` alters the placeholder of
`ab`.  For the statement `echo` with the text `select @a` and the parameters
`a` = `@b` and `b` = `z` the text is `select z`: the substitution of `b` alters
the text that the substitution of `a` introduced. -/
theorem C28_counterexample :
    (MySqlConnection.execute 20 substituteEnv exampleConnection "pick"
        [("a", Value.string "x"), ("ab", Value.string "y")] false).map
      (fun r => (r.1.exec 0).statementText_) = some "select xb" ∧
    (MySqlConnection.execute 20 substituteEnv exampleConnection "echo"
        [("a", Value.string "@b"), ("b", Value.string "z")] false).map
      (fun r => (r.1.exec 0).statementText_) = some "select z" := by
  constructor <;> rfl

/-- C28 (amended): for every dictionary entry with statement text lines and
every settings document, whenever `generateStatementText` returns, the text of
the execution is the one obtained from the concatenation of the lines by
making the substitutions one after the other: for each SUBSTITUTE parameter, in
the order of the settings document, the library replaces the pattern `@name` by
the value of the parameter in the text left by the substitutions before it.
Without SUBSTITUTE parameter the text is the concatenation of the lines.  It
returns, with the execution in SQL_GENERATED, when every SUBSTITUTE setting has
a string value and no replay observer is registered. -/
theorem C28_substitutions_in_order (fuel : Nat) (env : Env) (c : MySqlConnection) (i : Nat)
    (statements : Statements) (statement : StatementDef) (lines : List String)
    (hi : i < c.executions_.length)
    (hdict : env.statementDict = some statements)
    (hfind : findStatement statements (c.exec i).statementName_ = some statement)
    (hlines : statement.statement_text = some lines) :
    (∀ c' rc, MySqlExecution.generateStatementText fuel env c i = some (c', rc) →
      (c'.exec i).statementText_ =
        substituteInOrder env (c.exec i).settings_
          (lines.foldl (fun acc line => acc ++ line) "")) ∧
    ((∀ x ∈ (c.exec i).settings_, x.2.param_type ≠ ParamType.SUBSTITUTE) →
      substituteInOrder env (c.exec i).settings_ (lines.foldl (fun acc line => acc ++ line) "")
        = lines.foldl (fun acc line => acc ++ line) "") ∧
    (SubstituteReady (c.exec i).settings_ →
      (∀ k, (c.obs k).observerType ≠ ObserverType.REPLAY_OBS) →
      ∃ c' rc, MySqlExecution.generateStatementText fuel env c i = some (c', rc) ∧
        (c'.exec i).state_ = ExecutionState.SQL_GENERATED_STATE) := by
  refine ⟨?_, ?_, ?_⟩
  · intro c' rc h
    simp only [MySqlExecution.generateStatementText, hdict, hfind, hlines] at h
    rcases hs : substituteSettings env (c.exec i).settings_
        (lines.foldl (fun acc line => acc ++ line) "") with _ | text
    · rw [hs] at h; cases h
    · rw [hs] at h
      simp only [] at h
      have k1 := (changeState_textKept _ _ _ _ _ _ _ h).2 i
      rw [k1, exec_setExec_same _ _ _ hi]
      exact substituteSettings_inOrder env _ _ _ hs
  · intro hno
    unfold substituteInOrder
    generalize (lines.foldl (fun acc line => acc ++ line) "") = text
    generalize (c.exec i).settings_ = settings at hno
    induction settings generalizing text with
    | nil => rfl
    | cons x rest ih =>
      simp only [List.foldl_cons, hno x (List.mem_cons_self _ _), if_false]
      exact ih text (fun y hy => hno y (List.mem_cons_of_mem _ hy))
  · intro hready hq
    obtain ⟨text, ht⟩ := substituteSettings_ready env (c.exec i).settings_
      (lines.foldl (fun acc line => acc ++ line) "") hready
    simp only [MySqlExecution.generateStatementText, hdict, hfind, hlines, ht]
    have hi1 : i < (c.setExec i { c.exec i with statementText_ := text }).executions_.length := by
      rw [length_setExec]; exact hi
    obtain ⟨c', h, f⟩ := changeState_quiet fuel env
      (c.setExec i { c.exec i with statementText_ := text }) i
      ExecutionState.SQL_GENERATED_STATE hi1 (fun k => Or.inl (hq k))
    refine ⟨c', _, h, ?_⟩
    have h1 := congrArg MySqlExecution.state_ f.execSelf
    exact h1

theorem C28_substitutions_in_order_witness :
    0 < examplePickReady.executions_.length ∧
    (∀ c' rc, MySqlExecution.generateStatementText 1 substituteEnv examplePickReady 0
        = some (c', rc) →
      (c'.exec 0).statementText_ =
        substituteEnv.regex_replace (substituteEnv.regex_replace "select @ab" "@a" "x")
          "@ab" "y" ∧
      (c'.exec 0).statementText_ = "select xb") ∧
    (∃ c' rc, MySqlExecution.generateStatementText 1 substituteEnv examplePickReady 0
        = some (c', rc) ∧
      (c'.exec 0).state_ = ExecutionState.SQL_GENERATED_STATE) := by
  have w := C28_substitutions_in_order 1 substituteEnv examplePickReady 0 substituteStatements
    { statement_text := some ["select ", "@ab"],
      parameters := some [{ name := "a", param_type := some "substitute",
                            data_type := some "string" },
                          { name := "ab", param_type := some "substitute",
                            data_type := some "string" }] }
    ["select ", "@ab"] (by decide) rfl (by rfl) rfl
  refine ⟨by decide, ?_, ?_⟩
  · intro c' rc h
    have h1 := w.1 c' rc h
    exact ⟨h1.trans (by rfl), h1.trans (by rfl)⟩
  · refine w.2.2 ?_ ?_
    · intro x hx _
      have hs : (examplePickReady.exec 0).settings_ =
          [("a", { param_type := ParamType.SUBSTITUTE,
                   param_data_type := enum_field_types.MYSQL_TYPE_STRING,
                   param_value := some (Value.string "x") }),
           ("ab", { param_type := ParamType.SUBSTITUTE,
                    param_data_type := enum_field_types.MYSQL_TYPE_STRING,
                    param_value := some (Value.string "y") })] := rfl
      rw [hs] at hx
      simp only [List.mem_cons, List.mem_singleton, List.not_mem_nil, or_false] at hx
      rcases hx with rfl | rfl
      · exact ⟨_, rfl⟩
      · exact ⟨_, rfl⟩
    · intro k
      have hk : examplePickReady.obs k = default := by
        show List.getD [] k default = default
        simp
      rw [hk]
      decide

/-- C30, evaluation of the code: on an asynchronous connection with the open
transaction `t`, the worker holds the request of `execute("good")` and the
server fails the execution of the statement.  The `execute` that the worker
runs reports the error, and the rollback that `reportError` triggers calls
`flushExecutionThread`: it puts a ROLLBACK_TRANSACTION_REQUEST with sequence 3
on the worker's own queue, while the last completed sequence is 1, and waits
for it; the processing step of the worker has no result.  With a server that
executes the statement the same step completes. -/
theorem C30_worker_flushes_itself :
    (exampleWorkerHolds exampleExecuteFailEnv).map
      (fun r => (r.2.type_, r.2.sequence_, r.1.async_, r.1.impl_.isAutoCommit_,
        r.1.transactionName_, r.1.executionThread_.requestQueue_,
        r.1.executionThread_.lastCompletedRequest_))
      = some (RequestType.EXECUTION_REQUEST, 2, true, false, "t", [], 1) ∧
    ((exampleWorkerHolds exampleExecuteFailEnv).bind
        (fun r => MySqlExecution.execute 20 exampleExecuteFailEnv r.1 0)).map
      (fun r => (r.2, (r.1.exec 0).state_,
        r.1.executionThread_.requestQueue_.map (fun q => (q.type_, q.sequence_)),
        r.1.executionThread_.lastCompletedRequest_))
      = some (1062, ExecutionState.ERROR_STATE,
          [(RequestType.ROLLBACK_TRANSACTION_REQUEST, 3)], 1) ∧
    (exampleWorkerHolds exampleExecuteFailEnv).bind
        (fun r => ExecutionThread.process 20 exampleExecuteFailEnv r.1 r.2) = none ∧
    ((exampleWorkerHolds exampleEnv).bind
        (fun r => ExecutionThread.process 20 exampleEnv r.1 r.2)).map
      (fun r => (r.2.rc_, (r.1.exec 0).state_, r.1.executionThread_.requestQueue_))
      = some (0, ExecutionState.STATEMENT_COMPLETE_STATE, []) := by
  refine ⟨?_, ?_, ?_, ?_⟩ <;> rfl

/-! ## Progress of the state machine -/

theorem exec_of_length_le (c : MySqlConnection) (i : Nat) (h : c.executions_.length ≤ i) :
    c.exec i = default := by
  simp only [MySqlConnection.exec]
  exact List.getD_eq_default _ _ h

theorem state_setExec (c : MySqlConnection) (i : Nat) (e : MySqlExecution) :
    ((c.setExec i e).exec i).state_ = e.state_
      ∨ ((c.setExec i e).exec i).state_ = ExecutionState.NO_STATE := by
  by_cases hi : i < c.executions_.length
  · left; rw [exec_setExec_same _ _ _ hi]
  · right
    rw [setExec_of_length_le _ _ _ (by omega), exec_of_length_le _ _ (by omega)]
    rfl

theorem obsKept_refl (c : MySqlConnection) : ObsKept c c := fun _ => ⟨rfl, rfl⟩

theorem obsKept_trans {c1 c2 c3 : MySqlConnection} (h1 : ObsKept c1 c2) (h2 : ObsKept c2 c3) :
    ObsKept c1 c3 :=
  fun k => ⟨(h2 k).1.trans (h1 k).1, (h2 k).2.trans (h1 k).2⟩

theorem obsKept_of_observers {c c' : MySqlConnection} (h : c'.observers_ = c.observers_) :
    ObsKept c c' := by
  intro k
  simp only [MySqlConnection.obs, h, and_self]

theorem obsKept_setExec (c : MySqlConnection) (i : Nat) (e : MySqlExecution) :
    ObsKept c (c.setExec i e) :=
  obsKept_of_observers rfl

theorem obsKept_setObs (c : MySqlConnection) (k : Nat) (o : MySqlObserver)
    (ht : o.observerType = (c.obs k).observerType)
    (hd : o.replayExecutions_ = (c.obs k).replayExecutions_) : ObsKept c (c.setObs k o) :=
  fun j => ⟨(ObsFrame.setObs c k o ht hd).obsType j, (ObsFrame.setObs c k o ht hd).obsDoc j⟩

theorem obsKept_capture_tail (d : MySqlConnection) (k : Nat) (o : MySqlObserver) (i : Nat)
    (e : MySqlExecution) (ht : o.observerType = (d.obs k).observerType)
    (hd : o.replayExecutions_ = (d.obs k).replayExecutions_) :
    ObsKept d ((d.setObs k o).setExec i e) :=
  obsKept_trans (obsKept_setObs d k o ht hd) (obsKept_setExec _ _ _)

theorem obsKept_asJson (c : MySqlConnection) (i : Nat) :
    ObsKept c (MySqlExecution.asJson c i).1 := by
  unfold MySqlExecution.asJson
  split
  · exact obsKept_refl _
  · exact obsKept_setExec _ _ _

theorem ReplayTerminal.of_obsKept {c c' : MySqlConnection} (h : ObsKept c c')
    (ht : ReplayTerminal c) : ReplayTerminal c' := by
  intro k recs d h1 h2 h3
  exact ht k recs d ((h k).1 ▸ h1) ((h k).2 ▸ h2) h3

theorem reportError_obsKept (fuel : Nat) (env : Env) (c c' : MySqlConnection) (m : String)
    (n : Int) (xh : Nat) (rc : Int)
    (h : MySqlConnection.reportError fuel env c m n xh = some (c', rc)) : ObsKept c c' :=
  obsKept_of_observers (reportError_ok env fuel _ _ _ _ _ _ h).frame.observers_

theorem AuditObserver_onEvent_obsKept (c : MySqlConnection) (k i : Nat) (ns : ExecutionState) :
    ObsKept c (AuditObserver.onEvent c k i ns).1 := by
  unfold AuditObserver.onEvent
  split
  · exact obsKept_refl _
  · split
    · exact obsKept_refl _
    · exact obsKept_trans (obsKept_asJson c i) (obsKept_of_observers rfl)

theorem CaptureObserver_onEvent_obsKept (c : MySqlConnection) (k i : Nat)
    (ns : ExecutionState) : ObsKept c (CaptureObserver.onEvent c k i ns).1 := by
  unfold CaptureObserver.onEvent
  split
  · simp only []
    exact obsKept_trans (obsKept_setExec c i { c.exec i with state_ := ns })
      (obsKept_trans (obsKept_asJson _ i) (obsKept_capture_tail _ k _ i _ rfl rfl))
  · exact obsKept_refl _

theorem CaptureObserver_onEvent_answer (c : MySqlConnection) (k i : Nat)
    (ns : ExecutionState) : (CaptureObserver.onEvent c k i ns).2 = ns := by
  unfold CaptureObserver.onEvent
  split <;> rfl

/-- What a replay observer does to the observers, and what it answers: the
proposed state, ERROR, or the state of one of its records. -/
theorem ReplayObserver_onEvent_obsKept (fuel : Nat) (env : Env) (c c' : MySqlConnection)
    (k i : Nat) (ns answer : ExecutionState)
    (h : ReplayObserver.onEvent fuel env c k i ns = some (c', answer)) :
    ObsKept c c' ∧
    (answer = ns ∨ answer = ExecutionState.ERROR_STATE ∨
      (ns = ExecutionState.SQL_GENERATED_STATE ∧
        ∃ recs d, (c.obs k).replayExecutions_ = some recs ∧ d ∈ recs ∧ answer = d.state)) := by
  unfold ReplayObserver.onEvent at h
  obtain ⟨c1, hc1⟩ : ∃ c1 : MySqlConnection,
      c1 = (if (c.exec i).state_ = ExecutionState.INITIAL_STATE then
        c.setObs k { c.obs k with executionNumber_ := (c.obs k).executionNumber_ + 1 }
      else c) := ⟨_, rfl⟩
  have h0 : ObsKept c c1 := by
    rw [hc1]
    split
    · exact obsKept_setObs c k _ rfl rfl
    · exact obsKept_refl _
  rw [← hc1] at h
  simp only [] at h
  have hrep : ∀ d m n xh d' rc, MySqlConnection.reportError fuel env d m n xh = some (d', rc) →
      ObsKept d d' := fun d m n xh d' rc hr => reportError_obsKept _ _ _ _ _ _ _ _ hr
  split at h
  · cases h; exact ⟨h0, Or.inl rfl⟩
  · rename_i hns
    have hns' : ns = ExecutionState.SQL_GENERATED_STATE := by
      by_contra hne; exact hns hne
    split at h
    · cases h; exact ⟨h0, Or.inl rfl⟩
    · rename_i recs hrecs
      have hrecs' : (c.obs k).replayExecutions_ = some recs := by rw [← (h0 k).2]; exact hrecs
      split at h
      · split at h
        · cases h
        · rename_i c2 rc2 hr
          cases h
          exact ⟨obsKept_trans h0 (hrep _ _ _ _ _ _ hr), Or.inr (Or.inl rfl)⟩
      · split at h
        · cases h
        · split at h
          · cases h
          · rename_i n hnum doc hdoc
            have hmem : doc ∈ recs := List.get?_mem hdoc
            split at h
            · split at h
              · cases h
              · rename_i c2 rc2 hr
                cases h
                exact ⟨obsKept_trans h0 (hrep _ _ _ _ _ _ hr), Or.inr (Or.inl rfl)⟩
            · split at h
              · cases h
                exact ⟨obsKept_trans h0 (obsKept_setExec _ _ _),
                  Or.inr (Or.inr ⟨hns', recs, doc, hrecs', hmem, rfl⟩)⟩
              · split at h
                · cases h
                  exact ⟨obsKept_trans h0 (obsKept_setExec _ _ _),
                    Or.inr (Or.inr ⟨hns', recs, doc, hrecs', hmem, rfl⟩)⟩
                · split at h
                  · cases h
                  · rename_i c4 rc4 hr
                    cases h
                    have k3 := hrep _ _ _ _ _ _ hr
                    refine ⟨obsKept_trans (obsKept_trans h0 ?_) k3,
                      Or.inr (Or.inr ⟨hns', recs, doc, hrecs', hmem, rfl⟩)⟩
                    exact obsKept_trans (obsKept_setExec _ _ _) (obsKept_setExec _ _ _)

theorem onEvent_obsKept (fuel : Nat) (env : Env) (c c' : MySqlConnection)
    (k i : Nat) (ns answer : ExecutionState)
    (h : MySqlObserver.onEvent fuel env c k i ns = some (c', answer)) :
    ObsKept c c' ∧
    (answer = ns ∨ answer = ExecutionState.ERROR_STATE ∨
      (ns = ExecutionState.SQL_GENERATED_STATE ∧
        (c.obs k).observerType = ObserverType.REPLAY_OBS ∧
        ∃ recs d, (c.obs k).replayExecutions_ = some recs ∧ d ∈ recs ∧ answer = d.state)) := by
  unfold MySqlObserver.onEvent at h
  split at h
  · have k1 := AuditObserver_onEvent_obsKept c k i ns
    have k2 := (AuditObserver_onEvent_frame c k i ns).1
    simp only [Option.some.injEq] at h
    rw [h] at k1 k2
    exact ⟨k1, Or.inl k2⟩
  · have k1 := CaptureObserver_onEvent_obsKept c k i ns
    have k2 := CaptureObserver_onEvent_answer c k i ns
    simp only [Option.some.injEq] at h
    rw [h] at k1 k2
    exact ⟨k1, Or.inl k2⟩
  · rename_i ht
    obtain ⟨k1, k2⟩ := ReplayObserver_onEvent_obsKept _ _ _ _ _ _ _ _ h
    refine ⟨k1, ?_⟩
    rcases k2 with k2 | k2 | ⟨k2, k3⟩
    · exact Or.inl k2
    · exact Or.inr (Or.inl k2)
    · exact Or.inr (Or.inr ⟨k2, ht, k3⟩)
  · cases h; exact ⟨obsKept_refl _, Or.inl rfl⟩
  · cases h; exact ⟨obsKept_refl _, Or.inl rfl⟩

/-- The target that the observer loop leaves is the target it started with, ERROR
or, for the proposed state SQL_GENERATED, the state of a record of a replay
observer. -/
theorem changeStateLoop_obsKept (fuel : Nat) (env : Env) (i : Nat) (ns : ExecutionState)
    (n : Nat) : ∀ (k : Nat) (c c' : MySqlConnection) (real r : ExecutionState),
      MySqlExecution.changeStateLoop fuel env i ns n k c real = some (c', r) →
      ObsKept c c' ∧
      (r = real ∨ r = ExecutionState.ERROR_STATE ∨
        (ns = ExecutionState.SQL_GENERATED_STATE ∧
          ∃ j recs d, (c.obs j).observerType = ObserverType.REPLAY_OBS ∧
            (c.obs j).replayExecutions_ = some recs ∧ d ∈ recs ∧ r = d.state)) := by
  induction n with
  | zero =>
    intro k c c' real r h
    simp only [MySqlExecution.changeStateLoop, Option.some.injEq, Prod.mk.injEq] at h
    rw [← h.1, ← h.2]
    exact ⟨obsKept_refl _, Or.inl rfl⟩
  | succ n ih =>
    intro k c c' real r h
    simp only [MySqlExecution.changeStateLoop] at h
    rcases ho : MySqlObserver.onEvent fuel env c k i ns with _ | ⟨c1, a⟩
    · rw [ho] at h; cases h
    · rw [ho] at h
      obtain ⟨k1, k2⟩ := onEvent_obsKept _ _ _ _ _ _ _ _ ho
      obtain ⟨k3, k4⟩ := ih _ _ _ _ _ h
      refine ⟨obsKept_trans k1 k3, ?_⟩
      rcases k4 with k4 | k4 | ⟨k4, j, recs, d, j1, j2, j3, j4⟩
      · rw [k4]
        by_cases ha : a = ns
        · rw [if_neg (fun hn => hn ha)]
          exact Or.inl rfl
        · rw [if_pos ha]
          rcases k2 with k2 | k2 | ⟨k5, k6, recs, d, k7, k8, k9⟩
          · exact absurd k2 ha
          · exact Or.inr (Or.inl k2)
          · exact Or.inr (Or.inr ⟨k5, k, recs, d, k6, k7, k8, k9⟩)
      · exact Or.inr (Or.inl k4)
      · exact Or.inr (Or.inr ⟨k4, j, recs, d, (k1 j).1 ▸ j1, (k1 j).2 ▸ j2, j3, j4⟩)

/-- The state that `changeState` leaves: the proposed state, ERROR, the state
of a replay record when SQL_GENERATED is proposed, or, for an execution that is
not in the list, the state of the default execution. -/
theorem changeState_obsKept (fuel : Nat) (env : Env) (c c' : MySqlConnection) (i : Nat)
    (ns : ExecutionState) (rc : Int)
    (h : MySqlExecution.changeState fuel env c i ns = some (c', rc)) :
    ObsKept c c' ∧
    ((c'.exec i).state_ = ns ∨ (c'.exec i).state_ = ExecutionState.ERROR_STATE
      ∨ (c'.exec i).state_ = ExecutionState.NO_STATE ∨
      (ns = ExecutionState.SQL_GENERATED_STATE ∧
        ∃ j recs d, (c.obs j).observerType = ObserverType.REPLAY_OBS ∧
          (c.obs j).replayExecutions_ = some recs ∧ d ∈ recs ∧
          (c'.exec i).state_ = d.state)) := by
  unfold MySqlExecution.changeState at h
  obtain ⟨c0, hc0⟩ : ∃ c0 : MySqlConnection,
      c0 = (if ns = ExecutionState.STATEMENT_COMPLETE_STATE
          ∨ ns = ExecutionState.ERROR_STATE then
        (c.setExec i { c.exec i with completeTime_ := c.now }).tick
      else c) := ⟨_, rfl⟩
  have h0 : ObsKept c c0 := by
    rw [hc0]
    split
    · exact obsKept_of_observers rfl
    · exact obsKept_refl _
  rw [← hc0] at h
  simp only [] at h
  rcases hl : MySqlExecution.changeStateLoop fuel env i ns c0.observers_.length 0 c0 ns
    with _ | ⟨c1, real⟩
  · rw [hl] at h; cases h
  · rw [hl] at h
    simp only [Option.some.injEq, Prod.mk.injEq] at h
    rw [← h.1]
    obtain ⟨k1, k2⟩ := changeStateLoop_obsKept _ _ _ _ _ _ _ _ _ _ hl
    refine ⟨obsKept_trans h0 (obsKept_trans k1 (obsKept_setExec _ _ _)), ?_⟩
    rcases state_setExec c1 i { c1.exec i with state_ := real } with hs | hs
    · rw [hs]
      rcases k2 with k2 | k2 | ⟨k4, j, recs, d, j1, j2, j3, j4⟩
      · exact Or.inl k2
      · exact Or.inr (Or.inl k2)
      · exact Or.inr (Or.inr (Or.inr ⟨k4, j, recs, d, (h0 j).1 ▸ j1, (h0 j).2 ▸ j2, j3, j4⟩))
    · exact Or.inr (Or.inr (Or.inl hs))

theorem stateRank_terminal (s : ExecutionState)
    (h : MySqlExecution.isTerminalState s = true) : stateRank s = 9 := by
  cases s <;> first | rfl | (exact absurd h (by decide))

/-- A `changeState` to a state other than SQL_GENERATED leaves that state,
ERROR or the state of the default execution. -/
theorem changeState_rank (fuel : Nat) (env : Env) (c c' : MySqlConnection) (i : Nat)
    (ns : ExecutionState) (rc : Int) (hns : ns ≠ ExecutionState.SQL_GENERATED_STATE)
    (h : MySqlExecution.changeState fuel env c i ns = some (c', rc)) :
    ObsKept c c' ∧ (stateRank (c'.exec i).state_ = stateRank ns
      ∨ stateRank (c'.exec i).state_ = 9) := by
  obtain ⟨k1, k2⟩ := changeState_obsKept _ _ _ _ _ _ _ h
  refine ⟨k1, ?_⟩
  rcases k2 with k2 | k2 | k2 | ⟨k2, -⟩
  · left; rw [k2]
  · right; rw [k2]; rfl
  · right; rw [k2]; rfl
  · exact absurd k2 hns

/-- The report of an error on an execution returns the error number and leaves
ERROR (or the state of the default execution). -/
theorem exec_reportError_rank (fuel : Nat) (env : Env) (c c' : MySqlConnection) (i : Nat)
    (m : String) (n rc : Int)
    (h : MySqlExecution.reportError fuel env c i m n = some (c', rc)) :
    rc = n ∧ ObsKept c c' ∧ stateRank (c'.exec i).state_ = 9 := by
  unfold MySqlExecution.reportError at h
  simp only [] at h
  rcases hc : MySqlExecution.changeState fuel env
      (c.setExec i { c.exec i with rc_ := n, errorNo_ := n, errorMessage_ := m }) i
      ExecutionState.ERROR_STATE with _ | ⟨c2, rc2⟩
  · rw [hc] at h; cases h
  · rw [hc] at h
    simp only [] at h
    obtain ⟨k1, k2⟩ := changeState_rank _ _ _ _ _ _ _ (by decide) hc
    have hp := reportError_ok env fuel _ _ _ _ _ _ h
    have he : c'.exec i = c2.exec i := by
      simp only [MySqlConnection.exec, hp.frame.executions_]
    refine ⟨hp.rc, obsKept_trans (obsKept_setExec _ _ _)
      (obsKept_trans k1 (obsKept_of_observers hp.frame.observers_)), ?_⟩
    rw [he]
    rcases k2 with k2 | k2
    · rw [k2]; rfl
    · exact k2

theorem exec_reportMySqlError_rank (fuel : Nat) (env : Env) (c c' : MySqlConnection) (i : Nat)
    (errno : Int) (error context : String) (rc : Int)
    (h : MySqlExecution.reportMySqlError fuel env c i errno error context = some (c', rc)) :
    rc = errno ∧ ObsKept c c' ∧ stateRank (c'.exec i).state_ = 9 :=
  exec_reportError_rank _ _ _ _ _ _ _ _ h

theorem stringToMySqlTime_obsKept (fuel : Nat) (env : Env) (c c' : MySqlConnection) (i : Nat)
    (timeString : String) (typeCode : enum_field_types) (rc : Int) (t : Option MYSQL_TIME)
    (h : MySqlExecution.stringToMySqlTime fuel env c i timeString typeCode = some (c', rc, t)) :
    ObsKept c c' := by
  unfold MySqlExecution.stringToMySqlTime at h
  split at h
  · cases h
  · cases h; exact obsKept_refl _
  · split at h
    · cases h
    · rename_i c1 rc1 hr
      cases h
      exact (exec_reportError_rank _ _ _ _ _ _ _ _ hr).2.1
  · cases h; exact obsKept_refl _

theorem addParameterSettings_obsKept (fuel : Nat) (env : Env) (i : Nat)
    (params : List ParameterDef) : ∀ (c c' : MySqlConnection) (rc : Int),
      MySqlExecution.addParameterSettings fuel env i params c = some (c', rc) →
      ObsKept c c' := by
  induction params with
  | nil =>
    intro c c' rc h
    simp only [MySqlExecution.addParameterSettings, Option.some.injEq, Prod.mk.injEq] at h
    rw [← h.1]
    exact obsKept_refl _
  | cons p rest ih =>
    intro c c' rc h
    rw [MySqlExecution.addParameterSettings] at h
    split at h
    · exact (exec_reportError_rank _ _ _ _ _ _ _ _ h).2.1
    · exact obsKept_trans (obsKept_setExec _ _ _) (ih _ _ _ h)

theorem addParameterValues_obsKept (fuel : Nat) (env : Env) (i : Nat) (n : Nat) :
    ∀ (args : List (String × ArgValue)) (c c' : MySqlConnection) (rc : Int),
      MySqlExecution.addParameterValues fuel env i n args c = some (c', rc) →
      ObsKept c c' := by
  induction n with
  | zero =>
    intro args c c' rc h
    simp only [MySqlExecution.addParameterValues, Option.some.injEq, Prod.mk.injEq] at h
    rw [← h.1]
    exact obsKept_refl _
  | succ n ih =>
    intro args c c' rc h
    rcases args with _ | ⟨⟨tag, v⟩, rest⟩
    · simp only [MySqlExecution.addParameterValues] at h
      split at h
      · cases h; exact obsKept_refl _
      · cases h
    · rw [MySqlExecution.addParameterValues] at h
      split at h
      · cases h; exact obsKept_refl _
      · split at h
        · exact (exec_reportError_rank _ _ _ _ _ _ _ _ h).2.1
        · simp only [] at h
          split at h
          · exact obsKept_trans (obsKept_setExec _ _ _) (ih _ _ _ _ h)
          · exact obsKept_trans (obsKept_setExec _ _ _) (ih _ _ _ _ h)
          · exact obsKept_trans (obsKept_setExec _ _ _) (ih _ _ _ _ h)
          all_goals first
            | (cases h)
            | (split at h
               · cases h
               · rename_i c1 rc1 t1 hs
                 have k1 := stringToMySqlTime_obsKept _ _ _ _ _ _ _ _ _ hs
                 split at h
                 · cases h; exact k1
                 · exact obsKept_trans k1 (obsKept_trans (obsKept_setExec _ _ _) (ih _ _ _ _ h)))

/-- A `validateStatement` that returns 0 leaves STATEMENT_VALID (or the state of
the default execution) and keeps the argument list and the observers. -/
theorem validateStatement_progress (fuel : Nat) (env : Env) (c c' : MySqlConnection) (i : Nat)
    (rc : Int) (hs : (c.exec i).state_ = ExecutionState.INITIAL_STATE)
    (h : MySqlExecution.validateStatement fuel env c i = some (c', rc)) :
    rc ≠ 0 ∨ (1 < stateRank (c'.exec i).state_ ∧ ObsKept c c' ∧
      (c'.exec i).args_ = (c.exec i).args_) := by
  have hi : i < c.executions_.length := by
    by_contra hn
    rw [exec_of_length_le _ _ (by omega)] at hs
    exact absurd hs (by decide)
  unfold MySqlExecution.validateStatement at h
  split at h
  · left
    rw [(exec_reportError_rank _ _ _ _ _ _ _ _ h).1]; decide
  · split at h
    · left
      rw [(exec_reportError_rank _ _ _ _ _ _ _ _ h).1]; decide
    · right
      obtain ⟨k1, k2⟩ := changeState_rank _ _ _ _ _ _ _ (by decide) h
      obtain ⟨c2, h2, f2⟩ := changeState_quiet fuel env c i
        ExecutionState.STATEMENT_VALID_STATE hi (fun k => Or.inr (by decide))
      rw [h] at h2
      simp only [Option.some.injEq, Prod.mk.injEq] at h2
      refine ⟨?_, k1, ?_⟩
      · rcases k2 with k2 | k2 <;> rw [k2] <;> decide
      · rw [h2.1]
        have h3 := congrArg MySqlExecution.args_ f2.execSelf
        exact h3

/-- A `createSettings` that finds the argument list and returns 0 leaves
SETTINGS_CREATED (or the state of the default execution) and keeps the
observers. -/
theorem createSettings_progress (fuel : Nat) (env : Env) (c c' : MySqlConnection) (i : Nat)
    (rc : Int) (ha : (c.exec i).args_ ≠ none)
    (h : MySqlExecution.createSettings fuel env c i = some (c', rc)) :
    rc ≠ 0 ∨ (2 < stateRank (c'.exec i).state_ ∧ ObsKept c c') := by
  unfold MySqlExecution.createSettings at h
  simp only [] at h
  split at h
  · cases h
  · split at h
    · cases h
    · split at h
      · split at h
        · left
          rw [(exec_reportError_rank _ _ _ _ _ _ _ _ h).1]; decide
        · rename_i hn
          exact absurd hn ha
      · split at h
        · rename_i hn
          exact absurd hn ha
        · split at h
          · cases h
          · rename_i c2 rc2 h2
            split at h
            · rename_i hne
              cases h
              exact Or.inl hne
            · split at h
              · cases h
              · rename_i c3 rc3 h3
                split at h
                · rename_i hne
                  cases h
                  exact Or.inl hne
                · right
                  obtain ⟨k1, k2⟩ := changeState_rank _ _ _ _ _ _ _ (by decide) h
                  refine ⟨?_, ?_⟩
                  · rcases k2 with k2 | k2 <;> rw [k2] <;> decide
                  · exact obsKept_trans (obsKept_setExec _ _ _)
                      (obsKept_trans (addParameterSettings_obsKept _ _ _ _ _ _ _ h2)
                        (obsKept_trans (addParameterValues_obsKept _ _ _ _ _ _ _ _ h3)
                          (obsKept_trans (obsKept_setExec _ _ _) k1)))

/-- A `generateStatementText` that returns 0 under replay records with terminal
states leaves SQL_GENERATED or a state without transition function. -/
theorem generateStatementText_progress (fuel : Nat) (env : Env) (c c' : MySqlConnection)
    (i : Nat) (rc : Int) (ht : ReplayTerminal c)
    (h : MySqlExecution.generateStatementText fuel env c i = some (c', rc)) :
    rc ≠ 0 ∨ 3 < stateRank (c'.exec i).state_ := by
  unfold MySqlExecution.generateStatementText at h
  simp only [] at h
  split at h
  · cases h
  · split at h
    · cases h
    · split at h
      · left
        rw [(exec_reportError_rank _ _ _ _ _ _ _ _ h).1]; decide
      · split at h
        · cases h
        · right
          obtain ⟨-, k2⟩ := changeState_obsKept _ _ _ _ _ _ _ h
          rcases k2 with k2 | k2 | k2 | ⟨-, j, recs, d, j1, j2, j3, j4⟩
          · rw [k2]; decide
          · rw [k2]; decide
          · rw [k2]; decide
          · rw [j4, stateRank_terminal _ (ht j recs d j1 j2 j3)]
            decide

theorem setDbError_errno (c : MySqlConnection) (db : MYSQL) (errno : Int) (error : String)
    (h : c.impl_.db_ = some db) :
    (c.setDbError errno error).impl_.db_
      = some { db with last_errno := errno, last_error := error } := by
  unfold MySqlConnection.setDbError
  rw [h]

/-- A `createPreparedStatement` that returns 0 leaves MYSQL_STMT_CREATED or a
state without transition function, when the server reports a failed prepare
with an error number. -/
theorem createPreparedStatement_progress (fuel : Nat) (env : Env) (c c' : MySqlConnection)
    (i : Nat) (rc : Int) (hprep : PrepareReportsErrno env)
    (h : MySqlExecution.createPreparedStatement fuel env c i = some (c', rc)) :
    rc ≠ 0 ∨ 4 < stateRank (c'.exec i).state_ := by
  unfold MySqlExecution.createPreparedStatement at h
  split at h
  · cases h
  · rename_i c1 hg
    split at h
    · right
      obtain ⟨-, k2⟩ := changeState_rank _ _ _ _ _ _ _ (by decide) h
      rcases k2 with k2 | k2 <;> rw [k2] <;> decide
    · split at h
      · cases h
      · rename_i db hdb
        simp only [] at h
        split at h
        · rename_i hrc
          left
          have herr := hprep c1.serverLog.length (c1.exec i).statementText_ hrc
          unfold MySqlConnectionImpl.reportMySqlError at h
          have hdb4 : ∀ e : MySqlExecution,
              ((({ c1 with nextAlloc := c1.nextAlloc + 1 } : MySqlConnection).logCall
                (ServerCall.mysql_stmt_prepare c1.nextAlloc (c1.exec i).statementText_)).setDbError
                (env.srv.mysql_stmt_prepare c1.serverLog.length (c1.exec i).statementText_).errno
                (env.srv.mysql_stmt_prepare c1.serverLog.length (c1.exec i).statementText_).error
                |>.setExec i e).impl_.db_
              = some { db with
                  last_errno := (env.srv.mysql_stmt_prepare c1.serverLog.length
                    (c1.exec i).statementText_).errno,
                  last_error := (env.srv.mysql_stmt_prepare c1.serverLog.length
                    (c1.exec i).statementText_).error } := by
            intro e
            exact setDbError_errno _ db _ _ hdb
          simp only [hdb4] at h
          rw [(reportError_ok env fuel _ _ _ _ _ _ h).rc]
          exact herr
        · have leafE : ∀ (d : MySqlConnection) (m : String),
              MySqlExecution.reportError fuel env d i m 1 = some (c', rc) →
              rc ≠ 0 ∨ 4 < stateRank (c'.exec i).state_ := by
            intro d m hh
            left
            rw [(exec_reportError_rank _ _ _ _ _ _ _ _ hh).1]; decide
          have leafC : ∀ (d : MySqlConnection),
              MySqlExecution.changeState fuel env d i ExecutionState.MYSQL_STMT_CREATED_STATE
                = some (c', rc) →
              rc ≠ 0 ∨ 4 < stateRank (c'.exec i).state_ := by
            intro d hh
            right
            obtain ⟨-, k2⟩ := changeState_rank _ _ _ _ _ _ _ (by decide) hh
            rcases k2 with k2 | k2 <;> rw [k2] <;> decide
          repeat' split at h
          all_goals first
            | exact leafE _ _ h
            | exact leafC _ h

/-- A `prepareToBind` that returns leaves BINDINGS_PREPARED or a state without
transition function. -/
theorem prepareToBind_progress (fuel : Nat) (env : Env) (c c' : MySqlConnection)
    (i : Nat) (rc : Int)
    (h : MySqlExecution.prepareToBind fuel env c i = some (c', rc)) :
    5 < stateRank (c'.exec i).state_ := by
  rw [prepareToBind_eq] at h
  split at h
  · cases h
  · unfold bindResultColumns at h
    split at h
    · cases h
    · simp only [] at h
      split at h
      · obtain ⟨-, k2⟩ := changeState_rank _ _ _ _ _ _ _ (by decide) h
        rcases k2 with k2 | k2 <;> rw [k2] <;> decide
      · split at h
        · cases h
        · obtain ⟨-, k2⟩ := changeState_rank _ _ _ _ _ _ _ (by decide) h
          rcases k2 with k2 | k2 <;> rw [k2] <;> decide

/-- A `bindParameters` that returns 0 leaves STATEMENT_PREPARED or a state
without transition function. -/
theorem bindParameters_progress (fuel : Nat) (env : Env) (c c' : MySqlConnection)
    (i : Nat) (rc : Int)
    (h : MySqlExecution.bindParameters fuel env c i = some (c', rc)) :
    rc ≠ 0 ∨ 6 < stateRank (c'.exec i).state_ := by
  unfold MySqlExecution.bindParameters at h
  split at h
  · split at h
    · cases h
    · simp only [] at h
      split at h
      · rename_i herr
        left
        rw [(exec_reportMySqlError_rank _ _ _ _ _ _ _ _ _ h).1]
        exact herr.2
      · right
        obtain ⟨-, k2⟩ := changeState_rank _ _ _ _ _ _ _ (by decide) h
        rcases k2 with k2 | k2 <;> rw [k2] <;> decide
  · right
    obtain ⟨-, k2⟩ := changeState_rank _ _ _ _ _ _ _ (by decide) h
    rcases k2 with k2 | k2 <;> rw [k2] <;> decide

/-- An `executeStatement` that returns leaves EXECUTION_COMPLETE or a state
without transition function. -/
theorem executeStatement_progress (fuel : Nat) (env : Env) (c c' : MySqlConnection)
    (i : Nat) (rc : Int)
    (h : MySqlExecution.executeStatement fuel env c i = some (c', rc)) :
    7 < stateRank (c'.exec i).state_ := by
  unfold MySqlExecution.executeStatement at h
  simp only [] at h
  split at h
  · cases h
  · split at h
    · rw [(exec_reportMySqlError_rank _ _ _ _ _ _ _ _ _ h).2.2]; decide
    · split at h
      · obtain ⟨-, k2⟩ := changeState_rank _ _ _ _ _ _ _ (by decide) h
        rcases k2 with k2 | k2 <;> rw [k2] <;> decide
      · obtain ⟨-, k2⟩ := changeState_rank _ _ _ _ _ _ _ (by decide) h
        rcases k2 with k2 | k2 <;> rw [k2] <;> decide

/-- A fetch loop that returns 0 leaves a state without transition function. -/
theorem fetchRows_progress (env : Env) (i : Nat) (handle : MYSQL_STMT) (fuel : Nat) :
    ∀ (c c' : MySqlConnection) (rc : Int),
      MySqlExecution.fetchRows env i handle fuel c = some (c', rc) →
      rc ≠ 0 ∨ stateRank (c'.exec i).state_ = 9 := by
  induction fuel with
  | zero =>
    intro c c' rc h
    simp [MySqlExecution.fetchRows] at h
  | succ fuel ih =>
    intro c c' rc h
    rw [MySqlExecution.fetchRows] at h
    simp only [] at h
    split at h
    · split at h
      · cases h
      · split at h
        · rename_i hne
          cases h
          exact Or.inl hne
        · exact ih _ _ _ h
    · split at h
      · right
        exact (exec_reportMySqlError_rank _ _ _ _ _ _ _ _ _ h).2.2
      · split at h
        · right
          obtain ⟨-, k2⟩ := changeState_rank _ _ _ _ _ _ _ (by decide) h
          rcases k2 with k2 | k2
          · rw [k2]; rfl
          · exact k2
        · exact ih _ _ _ h

/-- A `retrieveResults` that returns 0 leaves a state without transition
function. -/
theorem retrieveResults_progress (fuel : Nat) (env : Env) (c c' : MySqlConnection)
    (i : Nat) (rc : Int)
    (h : MySqlExecution.retrieveResults fuel env c i = some (c', rc)) :
    rc ≠ 0 ∨ 8 < stateRank (c'.exec i).state_ := by
  unfold MySqlExecution.retrieveResults at h
  simp only [] at h
  split at h
  · cases h
  · split at h
    · cases h
    · split at h
      · right
        rw [(exec_reportMySqlError_rank _ _ _ _ _ _ _ _ _ h).2.2]; decide
      · rcases fetchRows_progress _ _ _ _ _ _ _ h with k | k
        · exact Or.inl k
        · right; rw [k]; decide

theorem stateRank_pos (s : ExecutionState) : 1 ≤ stateRank s := by
  cases s <;> decide

theorem stateRank_le (s : ExecutionState) : stateRank s ≤ 9 := by
  cases s <;> decide

theorem stateFunctionMap_rank (s : ExecutionState) (h : stateRank s = 9) :
    stateFunctionMap_ s = none := by
  cases s <;> first | rfl | (exact absurd h (by decide))

/-- Every transition function that returns 0 leaves a state that comes later
than the state it is mapped from, and keeps what the loop relies on. -/
theorem callStateFunction_progress (fuel : Nat) (env : Env) (c c' : MySqlConnection) (i : Nat)
    (sf : StateFunction) (rc : Int) (hprep : PrepareReportsErrno env) (hinv : CrankInv i c)
    (hmap : stateFunctionMap_ (c.exec i).state_ = some sf)
    (h : MySqlExecution.callStateFunction fuel env c i sf = some (c', rc)) :
    rc ≠ 0 ∨ (stateRank (c.exec i).state_ < stateRank (c'.exec i).state_ ∧ CrankInv i c') := by
  have later : ∀ n, 3 ≤ n → n < stateRank (c'.exec i).state_ → CrankInv i c' :=
    fun n h3 hn => ⟨fun hle => absurd hle (by omega), fun hle => absurd hle (by omega)⟩
  rcases hs : (c.exec i).state_
  all_goals rw [hs] at hmap
  all_goals simp only [stateFunctionMap_] at hmap
  all_goals cases hmap
  all_goals
    unfold MySqlExecution.callStateFunction at h
    simp only [] at h
  · rcases validateStatement_progress _ _ _ _ _ _ hs h with k | ⟨k1, k2, k3⟩
    · exact Or.inl k
    · refine Or.inr ⟨k1, fun _ => ReplayTerminal.of_obsKept k2 (hinv.1 (by rw [hs]; decide)),
        fun _ => ?_⟩
      rw [k3]
      exact hinv.2 (by rw [hs]; decide)
  · rcases createSettings_progress _ _ _ _ _ _ (hinv.2 (by rw [hs]; decide)) h with k | ⟨k1, k2⟩
    · exact Or.inl k
    · exact Or.inr ⟨k1, fun _ => ReplayTerminal.of_obsKept k2 (hinv.1 (by rw [hs]; decide)),
        fun hle => absurd hle (by omega)⟩
  · rcases generateStatementText_progress _ _ _ _ _ _ (hinv.1 (by rw [hs]; decide)) h with k | k
    · exact Or.inl k
    · exact Or.inr ⟨k, later 3 (by omega) k⟩
  · rcases createPreparedStatement_progress _ _ _ _ _ _ hprep h with k | k
    · exact Or.inl k
    · exact Or.inr ⟨k, later 4 (by omega) k⟩
  · have k := prepareToBind_progress _ _ _ _ _ _ h
    exact Or.inr ⟨k, later 5 (by omega) k⟩
  · rcases bindParameters_progress _ _ _ _ _ _ h with k | k
    · exact Or.inl k
    · exact Or.inr ⟨k, later 6 (by omega) k⟩
  · have k := executeStatement_progress _ _ _ _ _ _ h
    exact Or.inr ⟨k, later 7 (by omega) k⟩
  · rcases retrieveResults_progress _ _ _ _ _ _ h with k | k
    · exact Or.inl k
    · exact Or.inr ⟨k, later 8 (by omega) k⟩

theorem stuck_step (fuel : Nat) (t : List (Nat × StateFunction)) :
    MySqlExecution.generateStatementText fuel exampleEnv
      { exampleReplayStuck with trace := t } 0
      = some ({ exampleReplayStuck with trace := t }, 0) := by
  rfl

theorem stuck_loop (exitState : ExecutionState)
    (hexit : exitState ≠ ExecutionState.SETTINGS_CREATED_STATE) (fuel : Nat) :
    ∀ (t : List (Nat × StateFunction)) (rc : Int),
      MySqlExecution.crankLoop exampleEnv 0 exitState fuel
        { exampleReplayStuck with trace := t } rc = none := by
  induction fuel with
  | zero => intro t rc; rfl
  | succ f ih =>
    intro t rc
    rw [MySqlExecution.crankLoop]
    have hs : (({ exampleReplayStuck with trace := t } : MySqlConnection).exec 0).state_
        = ExecutionState.SETTINGS_CREATED_STATE := rfl
    rw [hs, if_neg (fun h => hexit h.symm)]
    have hm : stateFunctionMap_ ExecutionState.SETTINGS_CREATED_STATE
        = some StateFunction.generateStatementText := rfl
    simp only [hm]
    have hc := stuck_step f (t ++ [((({ exampleReplayStuck with trace := t } :
      MySqlConnection).exec 0).executionHandle_, StateFunction.generateStatementText)])
    unfold MySqlExecution.callStateFunction
    simp only []
    rw [hc]
    simp only [ne_eq, not_true_eq_false, if_false]
    exact ih _ _

/-- C29, as stated, fails: under a replay observer whose record of the
statement has the state SETTINGS_CREATED, `generateStatementText`, the
transition function of SETTINGS_CREATED, returns 0 and leaves the execution in
SETTINGS_CREATED: the observer answers the proposed SQL_GENERATED with the
recorded state.  The crank loop calls it again on the unchanged state, and
`crankStateMachine` returns for no amount of fuel. -/
theorem C29_counterexample :
    (exampleReplayStuck.exec 0).state_ = ExecutionState.SETTINGS_CREATED_STATE ∧
    stateFunctionMap_ ExecutionState.SETTINGS_CREATED_STATE
      = some StateFunction.generateStatementText ∧
    (MySqlExecution.generateStatementText 5 exampleEnv exampleReplayStuck 0).map
      (fun r => (r.2, (r.1.exec 0).state_)) = some (0, ExecutionState.SETTINGS_CREATED_STATE) ∧
    (∀ fuel, MySqlExecution.crankStateMachine fuel exampleEnv exampleReplayStuck 0
      ExecutionState.NO_STATE = none) := by
  refine ⟨rfl, rfl, rfl, ?_⟩
  intro fuel
  unfold MySqlExecution.crankStateMachine
  have h := stuck_loop ExecutionState.NO_STATE (by decide) fuel exampleReplayStuck.trace 0
  have he : ({ exampleReplayStuck with trace := exampleReplayStuck.trace } : MySqlConnection)
      = exampleReplayStuck := rfl
  rw [he] at h
  rw [h]

/-- C21, as stated, fails: with a transaction open and a server that answers
the rollback with error 1213, `assertRowsReturned(1)` on a completed execution
that returned no row returns false, and the connection then holds the error
number 1213 and the message of the failed rollback, not the number 1 and the
message of the assertion. -/
theorem C21_counterexample :
    exampleInTransaction.getCompletedExecution 0 = some 0 ∧
    (exampleInTransaction.exec 0).rowCount_ = 0 ∧
    exampleInTransaction.isTransactions_ = true ∧
    exampleInTransaction.impl_.isAutoCommit_ = false ∧
    (MySqlConnection.assertRowsReturned 5 exampleRollbackFailEnv exampleWriter
        exampleInTransaction 1 0).map (fun r => (r.2, r.1.errorNo_, r.1.errorMessage_))
      = some (false, 1213,
          "MySql error rolling back transaction: Deadlock found when trying to get lock (1213)") := by
  refine ⟨by rfl, by rfl, by rfl, by rfl, by rfl⟩

/-- C16, as stated, fails: the entry `plain` declares an int marker that its
text does not hold.  The first execution fails the marker check, the second
takes over its statement handle with a parameter count of 0 and enters
MYSQL_STMT_CREATED with one MARKER setting; `prepareToBind` then runs neither
pass and leaves the length of the parameter buffer at 0, without a buffer,
where the sum over the MARKER settings is 8. -/
theorem C16_counterexample :
    exampleSecondPlain.map (fun r => (r.2, (r.1.exec 1).state_, (r.1.exec 1).paramCount_,
        countMarkers (r.1.exec 1).settings_,
        specBufferLength unmarkedEnv (r.1.exec 1).settings_))
      = some (0, ExecutionState.MYSQL_STMT_CREATED_STATE, 0, 1, 8) ∧
    exampleSecondPlain.bind (fun r =>
        (MySqlExecution.prepareToBind 20 unmarkedEnv r.1 1).map (fun q =>
          (q.2, (q.1.exec 1).state_, (q.1.exec 1).paramBufferLen_, (q.1.exec 1).paramBuffer_)))
      = some (0, ExecutionState.BINDINGS_PREPARED_STATE, 0, none) := by
  refine ⟨by rfl, by rfl⟩

/-- The parameter part of `prepareToBind` leaves the statement handle and the
column binds alone. -/
theorem bindParameterBuffer_handle (fuel : Nat) (env : Env) (c c1 : MySqlConnection) (i : Nat)
    (hi : i < c.executions_.length) (h : bindParameterBuffer fuel env c i = some c1) :
    c1.executions_.length = c.executions_.length ∧
    (c1.exec i).statementHandle_ = (c.exec i).statementHandle_ ∧
    (c1.exec i).columnBindArray_ = (c.exec i).columnBindArray_ := by
  by_cases hcount : (c.exec i).paramCount_ ≠ 0
  · obtain ⟨b1, -, -, b4, b5⟩ := bindParameterBuffer_spec fuel env c c1 i hi hcount h
    exact ⟨b1, b4, b5⟩
  · unfold bindParameterBuffer at h
    rw [if_neg hcount] at h
    cases h
    exact ⟨rfl, rfl, rfl⟩

/-- A settings document without MARKER parameter has a packed buffer of
length 0. -/
theorem specBufferLength_unmarked (env : Env) (settings : Settings)
    (h : countMarkers settings = 0) : specBufferLength env settings = 0 := by
  induction settings with
  | nil => rfl
  | cons x rest ih =>
    obtain ⟨name, s⟩ := x
    rw [countMarkers] at h
    rw [specBufferLength]
    by_cases hm : s.param_type = ParamType.MARKER
    · rw [if_pos hm] at h
      omega
    · rw [if_neg hm] at h
      rw [if_neg hm]
      exact ih h

/-- C16 (amended): on an execution for which the server counted parameters,
whenever `prepareToBind` returns, the length of the packed parameter buffer
that its first pass computed is the sum, over the MARKER settings in
declaration order, of 8 for int, 8 for double, 0 for string and the size of the
time record for date, time, datetime and timestamp (a SUBSTITUTE setting adds
nothing).  When that length is positive, the buffer has this size and holds
exactly the writes of the second pass: the value of each marker at the offset
equal to the sum of the sizes of the markers before it, so every value ends
inside the buffer and each value ends where or before the next one starts.
When the length is zero no buffer is allocated.  On an execution for which the
server counted no parameter, `prepareToBind` runs neither pass: the length and
the buffer stay as they were, so that for a settings document without MARKER
parameter, on an execution that has the length 0 and no buffer of its
construction, the length is again the sum, 0, and no buffer is allocated.
`prepareToBind` returns when the bind array has
a record for every marker, the values are of the kind `createSettings` stores,
and the execution holds a statement handle (without column binds yet when the
statement returns a result set). -/
theorem C16_packed_parameter_buffer (env : Env) (c : MySqlConnection) (i : Nat)
    (hi : i < c.executions_.length) :
    ((c.exec i).paramCount_ ≠ 0 →
      ∀ fuel c' rc, MySqlExecution.prepareToBind fuel env c i = some (c', rc) →
      (c'.exec i).paramBufferLen_ = specBufferLength env (c.exec i).settings_ ∧
      (0 < specBufferLength env (c.exec i).settings_ →
        ∃ buf, (c'.exec i).paramBuffer_ = some buf ∧
          buf.size = specBufferLength env (c.exec i).settings_ ∧
          buf.values = specWrites env (c.exec i).settings_ 0 ∧
          (∀ w ∈ buf.values, w.1 + BufferValue.size env w.2 ≤ buf.size) ∧
          buf.values.Pairwise (fun a b => a.1 + BufferValue.size env a.2 ≤ b.1) ∧
          (∀ pre name s post, (c.exec i).settings_ = pre ++ (name, s) :: post →
            s.param_type = ParamType.MARKER →
            ∀ w ∈ specWrite s (specBufferLength env pre),
              w ∈ buf.values ∧ w.1 = specBufferLength env pre ∧
              BufferValue.size env w.2 = specMarkerSize env s.param_data_type)) ∧
      (specBufferLength env (c.exec i).settings_ = 0 → (c'.exec i).paramBuffer_ = none)) ∧
    ((c.exec i).paramCount_ = 0 →
      ∀ fuel c' rc, MySqlExecution.prepareToBind fuel env c i = some (c', rc) →
      (c'.exec i).paramBufferLen_ = (c.exec i).paramBufferLen_ ∧
      (c'.exec i).paramBuffer_ = (c.exec i).paramBuffer_) ∧
    ((c.exec i).paramCount_ = 0 → countMarkers (c.exec i).settings_ = 0 →
      (c.exec i).paramBufferLen_ = 0 → (c.exec i).paramBuffer_ = none →
      ∀ fuel c' rc, MySqlExecution.prepareToBind fuel env c i = some (c', rc) →
      (c'.exec i).paramBufferLen_ = specBufferLength env (c.exec i).settings_ ∧
      (c'.exec i).paramBuffer_ = none) ∧
    (countMarkers (c.exec i).settings_ ≤ (c.exec i).paramCount_ →
      (∀ x ∈ (c.exec i).settings_, x.2.param_type = ParamType.MARKER → markerFits x.2 = true) →
      ∀ handle, (c.exec i).statementHandle_ = some handle →
      (handle.fields = none ∨
        ∃ fields, handle.fields = some fields ∧ fields.length ≠ 0 ∧
          (c.exec i).columnBindArray_ = none) →
      ∀ fuel, ∃ r, MySqlExecution.prepareToBind fuel env c i = some r) := by
  have hskip : (c.exec i).paramCount_ = 0 →
      ∀ fuel c' rc, MySqlExecution.prepareToBind fuel env c i = some (c', rc) →
      (c'.exec i).paramBufferLen_ = (c.exec i).paramBufferLen_ ∧
      (c'.exec i).paramBuffer_ = (c.exec i).paramBuffer_ := by
    intro hzero fuel c' rc h
    rw [prepareToBind_eq] at h
    have h1 : bindParameterBuffer fuel env c i = some c := by
      unfold bindParameterBuffer
      rw [if_neg (fun hn => hn hzero)]
    rw [h1] at h
    simp only at h
    obtain ⟨g1, g2, -⟩ := bindResultColumns_spec fuel env c c' i rc hi h
    exact ⟨g1, g2⟩
  refine ⟨?_, hskip, ?_, ?_⟩
  · intro hcount fuel c' rc h
    rw [prepareToBind_eq] at h
    rcases h1 : bindParameterBuffer fuel env c i with _ | c1
    · rw [h1] at h; cases h
    rw [h1] at h
    simp only at h
    obtain ⟨b1, b2, b3, -, -⟩ := bindParameterBuffer_spec fuel env c c1 i hi hcount h1
    obtain ⟨g1, g2, -⟩ := bindResultColumns_spec fuel env c1 c' i rc (by rw [b1]; exact hi) h
    rw [← g2] at b3
    refine ⟨g1.trans b2, ?_, ?_⟩
    · intro hpos
      rw [if_pos hpos] at b3
      rcases hb : (c'.exec i).paramBuffer_ with _ | buf
      · rw [hb] at b3; cases b3
      rw [hb] at b3
      have hsz : buf.size = specBufferLength env (c.exec i).settings_ :=
        congrArg Prod.fst (Option.some.inj b3)
      have hvs : buf.values = specWrites env (c.exec i).settings_ 0 :=
        congrArg Prod.snd (Option.some.inj b3)
      refine ⟨buf, rfl, hsz, hvs, ?_, ?_, ?_⟩
      · intro w hw
        rw [hvs] at hw
        have := (specWrites_bounds env _ 0 w hw).2
        omega
      · rw [hvs]
        exact specWrites_pairwise env _ 0
      · intro pre name s post hsplit hm w hw
        obtain ⟨w1, w2⟩ := specWrite_mem env s _ w hw
        refine ⟨?_, w1, w2⟩
        rw [hvs, hsplit]
        exact specWrites_placed env pre name s post 0 w hm (by rw [Nat.zero_add]; exact hw)
    · intro hzero
      rw [if_neg (by omega)] at b3
      rcases hb : (c'.exec i).paramBuffer_ with _ | buf
      · rfl
      · rw [hb] at b3; cases b3
  · intro hzero hnone hlen hbuf fuel c' rc h
    obtain ⟨g1, g2⟩ := hskip hzero fuel c' rc h
    rw [specBufferLength_unmarked env _ hnone]
    exact ⟨g1.trans hlen, g2.trans hbuf⟩
  · intro hmarkers hfit handle hs hf fuel
    obtain ⟨c1, h1⟩ := bindParameterBuffer_total fuel env c i hi hmarkers hfit
    obtain ⟨b1, b4, b5⟩ := bindParameterBuffer_handle fuel env c c1 i hi h1
    obtain ⟨r, hr⟩ := bindResultColumns_total fuel env c1 i handle (by rw [b1]; exact hi)
      (by rw [b4]; exact hs) (by rw [b5]; exact hf)
    exact ⟨r, by rw [prepareToBind_eq, h1]; exact hr⟩

theorem C16_packed_parameter_buffer_witness :
    (0 < exampleBindReady.executions_.length ∧ (exampleBindReady.exec 0).paramCount_ ≠ 0 ∧
      ∃ c' rc, MySqlExecution.prepareToBind 1 exampleEnv exampleBindReady 0 = some (c', rc) ∧
        (c'.exec 0).paramBufferLen_ = 56 ∧
        (c'.exec 0).paramBuffer_.map (fun buf => (buf.size, buf.values)) =
          some (56, [(0, BufferValue.long 5),
            (8, BufferValue.time { year := 2020, month := 1, day := 2, hour := 0, minute := 0,
                                   second := 0, second_part := 0 }),
            (48, BufferValue.double 0)])) ∧
    (0 < exampleGoodCreated.executions_.length ∧ (exampleGoodCreated.exec 0).paramCount_ = 0 ∧
      specBufferLength exampleEnv (exampleGoodCreated.exec 0).settings_ = 0 ∧
      ∃ c' rc, MySqlExecution.prepareToBind 1 exampleEnv exampleGoodCreated 0 = some (c', rc) ∧
        (c'.exec 0).paramBufferLen_ = 0 ∧ (c'.exec 0).paramBuffer_ = none) := by
  constructor
  · have hC := C16_packed_parameter_buffer exampleEnv exampleBindReady 0 (by decide)
    obtain ⟨⟨c', rc⟩, hr⟩ := hC.2.2.2 (by decide) (by decide)
      { id := 1, param_count := 4, fields := none } rfl (Or.inl rfl) 1
    obtain ⟨hlen, hbuf, -⟩ := hC.1 (by decide) 1 c' rc hr
    have hL : specBufferLength exampleEnv (exampleBindReady.exec 0).settings_ = 56 := by decide
    obtain ⟨buf, hb, hsz, hvs, -, -, -⟩ := hbuf (by rw [hL]; decide)
    refine ⟨by decide, by decide, c', rc, hr, hlen.trans hL, ?_⟩
    rw [hb]
    simp only [Option.map_some', hsz, hvs, hL]
    rfl
  · have hC := C16_packed_parameter_buffer exampleEnv exampleGoodCreated 0 (by decide)
    obtain ⟨⟨c', rc⟩, hr⟩ := hC.2.2.2 (by decide) (by decide)
      { id := 2, param_count := 0, fields := none } rfl (Or.inl rfl) 1
    obtain ⟨hlen, hbuf⟩ := hC.2.2.1 (by rfl) (by rfl) (by rfl) (by rfl) 1 c' rc hr
    exact ⟨by decide, by rfl, by rfl, c', rc, hr, hlen.trans (by rfl), hbuf⟩

/-- The crank loop with fuel for the transition functions that are left returns
when every transition function it calls has a result. -/
theorem crankLoop_returns (env : Env) (i : Nat) (exitState : ExecutionState)
    (hprep : PrepareReportsErrno env) (fuel : Nat) :
    ∀ (c : MySqlConnection) (rc0 : Int), CrankInv i c →
      10 ≤ fuel + stateRank (c.exec i).state_ →
      MySqlExecution.crankCallsReturn env i exitState fuel c = true →
      ∃ r, MySqlExecution.crankLoop env i exitState fuel c rc0 = some r := by
  induction fuel with
  | zero =>
    intro c rc0 _ hf _
    have := stateRank_le (c.exec i).state_
    omega
  | succ f ih =>
    intro c rc0 hinv hf h
    rw [MySqlExecution.crankCallsReturn] at h
    rw [MySqlExecution.crankLoop]
    split
    · exact ⟨_, rfl⟩
    · rename_i hexit
      rw [if_neg hexit] at h
      rcases hm : stateFunctionMap_ (c.exec i).state_ with _ | sf
      · exact ⟨_, rfl⟩
      · rw [hm] at h
        simp only [] at h ⊢
        obtain ⟨T, hT⟩ : ∃ T : MySqlConnection,
            T = { c with trace := c.trace ++ [((c.exec i).executionHandle_, sf)] } := ⟨_, rfl⟩
        rw [← hT] at h ⊢
        have hTe : T.exec i = c.exec i := by rw [hT]; rfl
        have hTinv : CrankInv i T := by rw [hT]; exact hinv
        rcases hc : MySqlExecution.callStateFunction f env T i sf with _ | ⟨c1, rc1⟩
        · rw [hc] at h
          cases h
        · rw [hc] at h
          simp only [] at h ⊢
          by_cases hrc : rc1 ≠ 0
          · rw [if_pos hrc]
            exact ⟨_, rfl⟩
          · rw [if_neg hrc] at h ⊢
            rcases callStateFunction_progress f env T c1 i sf rc1 hprep hTinv
                (by rw [hTe]; exact hm) hc with k | ⟨k1, k2⟩
            · exact absurd k hrc
            · rw [hTe] at k1
              exact ih c1 rc1 k2 (by omega) h

/-- A call of the crank loop without result is seen by `crankCallsReturn`. -/
theorem crankLoop_calls (env : Env) (i : Nat) (exitState : ExecutionState) (fuel : Nat) :
    ∀ (c : MySqlConnection) (rc0 : Int) r,
      MySqlExecution.crankLoop env i exitState fuel c rc0 = some r →
      MySqlExecution.crankCallsReturn env i exitState fuel c = true := by
  induction fuel with
  | zero =>
    intro c rc0 r _
    rfl
  | succ f ih =>
    intro c rc0 r h
    rw [MySqlExecution.crankLoop] at h
    rw [MySqlExecution.crankCallsReturn]
    split
    · rfl
    · rename_i hexit
      rw [if_neg hexit] at h
      rcases hm : stateFunctionMap_ (c.exec i).state_ with _ | sf
      · rfl
      · rw [hm] at h
        simp only [] at h ⊢
        obtain ⟨T, hT⟩ : ∃ T : MySqlConnection,
            T = { c with trace := c.trace ++ [((c.exec i).executionHandle_, sf)] } := ⟨_, rfl⟩
        rw [← hT] at h ⊢
        rcases hc : MySqlExecution.callStateFunction f env T i sf with _ | ⟨c1, rc1⟩
        · rw [hc] at h
          cases h
        · rw [hc] at h
          simp only [] at h ⊢
          by_cases hrc : rc1 ≠ 0
          · rw [if_pos hrc]
          · rw [if_neg hrc] at h ⊢
            exact ih c1 rc1 r h

/-- C29 (amended): for every execution, dictionary, argument list, exit state
and observer chain whose replay records have states without transition
function, on a server that reports a failed prepare with an error number, every
transition function that returns either returns non-zero or returns 0 having
left the execution in a state that comes later in the order of the state
machine than the one it was invoked in (for `createSettings`: when it finds the
argument list).  So the crank loop never calls a transition function again on
an unchanged state, and `crankStateMachine` terminates within nine rounds: given
fuel for nine rounds or more, it returns exactly when every transition function
that its loop calls has a result. -/
theorem C29_crank_progress (env : Env) (i : Nat) (hprep : PrepareReportsErrno env) :
    (∀ fuel c sf c' rc, CrankInv i c →
      stateFunctionMap_ (c.exec i).state_ = some sf →
      MySqlExecution.callStateFunction fuel env c i sf = some (c', rc) →
      rc ≠ 0 ∨ (stateRank (c.exec i).state_ < stateRank (c'.exec i).state_
        ∧ (c'.exec i).state_ ≠ (c.exec i).state_ ∧ CrankInv i c')) ∧
    (∀ exitState fuel c, CrankInv i c → 9 ≤ fuel →
      ((∃ r, MySqlExecution.crankStateMachine fuel env c i exitState = some r) ↔
        MySqlExecution.crankCallsReturn env i exitState fuel c = true)) := by
  constructor
  · intro fuel c sf c' rc hinv hmap h
    rcases callStateFunction_progress fuel env c c' i sf rc hprep hinv hmap h with k | ⟨k1, k2⟩
    · exact Or.inl k
    · refine Or.inr ⟨k1, ?_, k2⟩
      intro he
      rw [he] at k1
      omega
  · intro exitState fuel c hinv hf
    have hp := stateRank_pos (c.exec i).state_
    constructor
    · rintro ⟨r, h⟩
      unfold MySqlExecution.crankStateMachine at h
      rcases hl : MySqlExecution.crankLoop env i exitState fuel c 0 with _ | r1
      · rw [hl] at h
        cases h
      · exact crankLoop_calls env i exitState fuel c 0 r1 hl
    · intro h
      obtain ⟨⟨c1, rc1⟩, hl⟩ := crankLoop_returns env i exitState hprep fuel c 0 hinv
        (by omega) h
      unfold MySqlExecution.crankStateMachine
      rw [hl]
      exact ⟨_, rfl⟩

theorem C29_crank_progress_witness :
    PrepareReportsErrno exampleEnv ∧ CrankInv 0 exampleReplayPoint ∧
    (exampleReplayPoint.exec 0).state_ = ExecutionState.SETTINGS_CREATED_STATE ∧
    (∀ c' rc, MySqlExecution.generateStatementText 5 exampleEnv exampleReplayPoint 0
        = some (c', rc) →
      rc ≠ 0 ∨ (c'.exec 0).state_ ≠ ExecutionState.SETTINGS_CREATED_STATE) ∧
    (MySqlExecution.generateStatementText 5 exampleEnv exampleReplayPoint 0).map
      (fun r => (r.2, (r.1.exec 0).state_))
      = some (0, ExecutionState.STATEMENT_COMPLETE_STATE) ∧
    (∃ r, MySqlExecution.crankStateMachine 9 exampleEnv exampleReplayPoint 0
      ExecutionState.NO_STATE = some r) ∧
    CrankInv 1 exampleSecondOne ∧
    (exampleSecondOne.exec 1).state_ = ExecutionState.SQL_GENERATED_STATE ∧
    MySqlExecution.crankCallsReturn exampleEnv 1 ExecutionState.NO_STATE 9 exampleSecondOne
      = true ∧
    (∃ r, MySqlExecution.crankStateMachine 9 exampleEnv exampleSecondOne 1
      ExecutionState.NO_STATE = some r) := by
  have hprep : PrepareReportsErrno exampleEnv := by
    intro n text h
    by_cases hb : text = "bad sql"
    · subst hb
      simp [exampleEnv, exampleServer]
    · exfalso
      apply h
      simp only [exampleEnv, exampleServer, hb, if_false]
      split_ifs <;> rfl
  have hstate : (exampleReplayPoint.exec 0).state_ = ExecutionState.SETTINGS_CREATED_STATE :=
    rfl
  have hterm : ReplayTerminal exampleReplayPoint := by
    intro k recs d h1 h2 h3
    rcases k with _ | k
    · have hd : (exampleReplayPoint.obs 0).replayExecutions_
          = some [exampleRecord "good" "select 1" ExecutionState.STATEMENT_COMPLETE_STATE] :=
        rfl
      rw [hd] at h2
      simp only [Option.some.injEq] at h2
      rw [← h2, List.mem_singleton] at h3
      rw [h3]
      rfl
    · have hl : exampleReplayPoint.observers_.length = 1 := rfl
      rw [obs_of_length_le _ _ (by omega)] at h1
      exact absurd h1 (by decide)
  have hinv : CrankInv 0 exampleReplayPoint :=
    ⟨fun _ => hterm, fun hle => by rw [hstate] at hle; exact absurd hle (by decide)⟩
  have hstate1 : (exampleSecondOne.exec 1).state_ = ExecutionState.SQL_GENERATED_STATE := rfl
  have hinv1 : CrankInv 1 exampleSecondOne :=
    ⟨fun hle => by rw [hstate1] at hle; exact absurd hle (by decide),
     fun hle => by rw [hstate1] at hle; exact absurd hle (by decide)⟩
  refine ⟨hprep, hinv, hstate, ?_, by rfl,
    ((C29_crank_progress exampleEnv 0 hprep).2 ExecutionState.NO_STATE 9 exampleReplayPoint
      hinv (by decide)).mpr (by rfl),
    hinv1, hstate1, by rfl,
    ((C29_crank_progress exampleEnv 1 hprep).2 ExecutionState.NO_STATE 9 exampleSecondOne
      hinv1 (by decide)).mpr (by rfl)⟩
  intro c' rc h
  rcases (C29_crank_progress exampleEnv 0 hprep).1 5 exampleReplayPoint
      StateFunction.generateStatementText c' rc hinv (by rw [hstate]; rfl) h with k | ⟨-, k, -⟩
  · exact Or.inl k
  · rw [hstate] at k
    exact Or.inr k

/-! ## The settings document under the observers -/

theorem settingsKept_refl (c : MySqlConnection) : SettingsKept c c := ⟨rfl, fun _ => rfl⟩

theorem settingsKept_trans {c1 c2 c3 : MySqlConnection} (h1 : SettingsKept c1 c2)
    (h2 : SettingsKept c2 c3) : SettingsKept c1 c3 :=
  ⟨h2.1.trans h1.1, fun j => (h2.2 j).trans (h1.2 j)⟩

theorem settingsKept_of_executions {c c' : MySqlConnection} (h : c'.executions_ = c.executions_) :
    SettingsKept c c' :=
  ⟨by rw [h], fun j => by simp only [MySqlConnection.exec, h]⟩

theorem settingsKept_setObs (c : MySqlConnection) (k : Nat) (o : MySqlObserver) :
    SettingsKept c (c.setObs k o) :=
  settingsKept_of_executions rfl

theorem settingsKept_setExec (c : MySqlConnection) (i : Nat) (e : MySqlExecution)
    (h : e.settings_ = (c.exec i).settings_) : SettingsKept c (c.setExec i e) := by
  refine ⟨length_setExec _ _ _, fun j => ?_⟩
  by_cases hi : i < c.executions_.length
  · by_cases hj : j = i
    · subst hj
      rw [exec_setExec_same _ _ _ hi]
      exact h
    · rw [exec_setExec_other _ _ _ _ hj]
  · rw [setExec_of_length_le _ _ _ (by omega)]

theorem settingsKept_capture_tail (d : MySqlConnection) (k : Nat) (o : MySqlObserver) (i : Nat)
    (e : MySqlExecution) (h : e.settings_ = (d.exec i).settings_) :
    SettingsKept d ((d.setObs k o).setExec i e) :=
  settingsKept_trans (settingsKept_setObs d k o) (settingsKept_setExec (d.setObs k o) i e h)

theorem settingsKept_asJson (c : MySqlConnection) (i : Nat) :
    SettingsKept c (MySqlExecution.asJson c i).1 := by
  unfold MySqlExecution.asJson
  split
  · exact settingsKept_refl _
  · exact settingsKept_setExec _ _ _ rfl

theorem AuditObserver_onEvent_settingsKept (c : MySqlConnection) (k i : Nat)
    (ns : ExecutionState) : SettingsKept c (AuditObserver.onEvent c k i ns).1 := by
  unfold AuditObserver.onEvent
  split
  · exact settingsKept_refl _
  · split
    · exact settingsKept_refl _
    · exact settingsKept_trans (settingsKept_asJson c i) (settingsKept_of_executions rfl)

theorem CaptureObserver_onEvent_settingsKept (c : MySqlConnection) (k i : Nat)
    (ns : ExecutionState) : SettingsKept c (CaptureObserver.onEvent c k i ns).1 := by
  unfold CaptureObserver.onEvent
  split
  · simp only []
    exact settingsKept_trans (settingsKept_setExec c i { c.exec i with state_ := ns } rfl)
      (settingsKept_trans (settingsKept_asJson _ i) (settingsKept_capture_tail _ k _ i _ rfl))
  · exact settingsKept_refl _

theorem ReplayObserver_onEvent_settingsKept (fuel : Nat) (env : Env) (c c' : MySqlConnection)
    (k i : Nat) (ns answer : ExecutionState)
    (h : ReplayObserver.onEvent fuel env c k i ns = some (c', answer)) : SettingsKept c c' := by
  unfold ReplayObserver.onEvent at h
  obtain ⟨c1, hc1⟩ : ∃ c1 : MySqlConnection,
      c1 = (if (c.exec i).state_ = ExecutionState.INITIAL_STATE then
        c.setObs k { c.obs k with executionNumber_ := (c.obs k).executionNumber_ + 1 }
      else c) := ⟨_, rfl⟩
  have h0 : SettingsKept c c1 := by
    rw [hc1]
    split
    · exact settingsKept_of_executions rfl
    · exact settingsKept_refl _
  rw [← hc1] at h
  simp only [] at h
  have hrep : ∀ d m n xh d' rc, MySqlConnection.reportError fuel env d m n xh = some (d', rc) →
      SettingsKept d d' := fun d m n xh d' rc hr =>
    settingsKept_of_executions (reportError_ok env fuel _ _ _ _ _ _ hr).frame.executions_
  split at h
  · cases h; exact h0
  · split at h
    · cases h; exact h0
    · split at h
      · split at h
        · cases h
        · rename_i c2 rc2 hr
          cases h
          exact settingsKept_trans h0 (hrep _ _ _ _ _ _ hr)
      · split at h
        · cases h
        · split at h
          · cases h
          · split at h
            · split at h
              · cases h
              · rename_i c2 rc2 hr
                cases h
                exact settingsKept_trans h0 (hrep _ _ _ _ _ _ hr)
            · have hs1 : ∀ e1 : MySqlExecution, e1.settings_ = (c1.exec i).settings_ →
                  SettingsKept c (c1.setExec i e1) := fun e1 he =>
                settingsKept_trans h0 (settingsKept_setExec c1 i e1 he)
              split at h
              · cases h
                exact hs1 _ rfl
              · split at h
                · cases h
                  exact hs1 _ rfl
                · split at h
                  · cases h
                  · rename_i c4 rc4 hr
                    cases h
                    have k3 := hrep _ _ _ _ _ _ hr
                    refine settingsKept_trans (settingsKept_trans h0 ?_) k3
                    rw [setExec_setExec]
                    exact settingsKept_setExec _ _ _ rfl

theorem onEvent_settingsKept (fuel : Nat) (env : Env) (c c' : MySqlConnection)
    (k i : Nat) (ns answer : ExecutionState)
    (h : MySqlObserver.onEvent fuel env c k i ns = some (c', answer)) : SettingsKept c c' := by
  unfold MySqlObserver.onEvent at h
  split at h
  · have k1 := AuditObserver_onEvent_settingsKept c k i ns
    simp only [Option.some.injEq] at h
    rw [h] at k1
    exact k1
  · have k1 := CaptureObserver_onEvent_settingsKept c k i ns
    simp only [Option.some.injEq] at h
    rw [h] at k1
    exact k1
  · exact ReplayObserver_onEvent_settingsKept _ _ _ _ _ _ _ _ h
  · cases h; exact settingsKept_refl _
  · cases h; exact settingsKept_refl _

theorem changeStateLoop_settingsKept (fuel : Nat) (env : Env) (i : Nat) (ns : ExecutionState)
    (n : Nat) : ∀ (k : Nat) (c c' : MySqlConnection) (real r : ExecutionState),
      MySqlExecution.changeStateLoop fuel env i ns n k c real = some (c', r) →
      SettingsKept c c' := by
  induction n with
  | zero =>
    intro k c c' real r h
    simp only [MySqlExecution.changeStateLoop, Option.some.injEq, Prod.mk.injEq] at h
    rw [← h.1]
    exact settingsKept_refl _
  | succ n ih =>
    intro k c c' real r h
    simp only [MySqlExecution.changeStateLoop] at h
    rcases ho : MySqlObserver.onEvent fuel env c k i ns with _ | ⟨c1, a⟩
    · rw [ho] at h; cases h
    · rw [ho] at h
      exact settingsKept_trans (onEvent_settingsKept _ _ _ _ _ _ _ _ ho) (ih _ _ _ _ _ h)

theorem changeState_settingsKept (fuel : Nat) (env : Env) (c c' : MySqlConnection) (i : Nat)
    (ns : ExecutionState) (rc : Int)
    (h : MySqlExecution.changeState fuel env c i ns = some (c', rc)) : SettingsKept c c' := by
  unfold MySqlExecution.changeState at h
  obtain ⟨c0, hc0⟩ : ∃ c0 : MySqlConnection,
      c0 = (if ns = ExecutionState.STATEMENT_COMPLETE_STATE
          ∨ ns = ExecutionState.ERROR_STATE then
        (c.setExec i { c.exec i with completeTime_ := c.now }).tick
      else c) := ⟨_, rfl⟩
  have h0 : SettingsKept c c0 := by
    rw [hc0]
    split
    · exact settingsKept_trans (settingsKept_setExec c i { c.exec i with completeTime_ := c.now } rfl)
        (settingsKept_of_executions rfl)
    · exact settingsKept_refl _
  rw [← hc0] at h
  simp only [] at h
  rcases hl : MySqlExecution.changeStateLoop fuel env i ns c0.observers_.length 0 c0 ns
    with _ | ⟨c1, real⟩
  · rw [hl] at h; cases h
  · rw [hl] at h
    simp only [Option.some.injEq, Prod.mk.injEq] at h
    rw [← h.1]
    exact settingsKept_trans h0 (settingsKept_trans (changeStateLoop_settingsKept _ _ _ _ _ _ _ _ _ _ hl)
      (settingsKept_setExec c1 i { c1.exec i with state_ := real } rfl))

/-- The substitution loop keeps the number of `?` when every substitution it
performs does. -/
theorem substituteSettings_keeps (env : Env) (settings : Settings) :
    ∀ (text out : String), substitutionsKeepMarks env settings text = true →
      substituteSettings env settings text = some out →
      countQuestionMarks out = countQuestionMarks text := by
  induction settings with
  | nil =>
    intro text out _ h
    rw [substituteSettings] at h
    rw [Option.some.inj h]
  | cons x rest ih =>
    intro text out hk h
    obtain ⟨name, setting⟩ := x
    rw [substituteSettings] at h
    rw [substitutionsKeepMarks] at hk
    by_cases hs : setting.param_type = ParamType.SUBSTITUTE
    · rw [if_pos hs] at h hk
      rcases hv : setting.param_value with _ | v
      · rw [hv] at h; cases h
      · rw [hv] at h hk
        rcases v with _ | n | d | w | o
        · cases h
        · cases h
        · cases h
        · simp only [Bool.and_eq_true, decide_eq_true_eq] at h hk
          rw [ih _ _ hk.2 h]
          exact hk.1
        · cases h
    · rw [if_neg hs] at h hk
      exact ih _ _ hk h

/-- C14 (amended): `generateStatementText` does not count placeholders.  When
it returns 0 on an execution whose dictionary entry has the text lines
`lines`, under any observers, the settings of the execution are unchanged and
its text is the concatenation of `lines` after the substitution loop.  If
every substitution that the loop performs keeps the number of `?`, the text
has as many `?` as the concatenated lines, so the number of `?` equals the
number of MARKER settings exactly when the text of the dictionary has as many
`?` as the settings have MARKER parameters.  With no replay observer attached
the execution is then in SQL_GENERATED. -/
theorem C14_question_marks (fuel : Nat) (env : Env) (c c' : MySqlConnection) (i : Nat)
    (statements : Statements) (statement : StatementDef) (lines : List String)
    (hi : i < c.executions_.length)
    (hdict : env.statementDict = some statements)
    (hfind : findStatement statements (c.exec i).statementName_ = some statement)
    (htext : statement.statement_text = some lines)
    (hgen : MySqlExecution.generateStatementText fuel env c i = some (c', 0)) :
    (c'.exec i).settings_ = (c.exec i).settings_ ∧
    substituteSettings env (c.exec i).settings_ (lines.foldl (fun acc line => acc ++ line) "")
      = some (c'.exec i).statementText_ ∧
    (substitutionsKeepMarks env (c.exec i).settings_
        (lines.foldl (fun acc line => acc ++ line) "") = true →
      countQuestionMarks (c'.exec i).statementText_
        = countQuestionMarks (lines.foldl (fun acc line => acc ++ line) "") ∧
      (countQuestionMarks (c'.exec i).statementText_ = countMarkers (c'.exec i).settings_ ↔
        countQuestionMarks (lines.foldl (fun acc line => acc ++ line) "")
          = countMarkers (c.exec i).settings_)) ∧
    ((∀ k, (c.obs k).observerType ≠ ObserverType.REPLAY_OBS) →
      (c'.exec i).state_ = ExecutionState.SQL_GENERATED_STATE) := by
  unfold MySqlExecution.generateStatementText at hgen
  simp only [hdict, hfind, htext] at hgen
  rcases ht : substituteSettings env (c.exec i).settings_
      (lines.foldl (fun acc line => acc ++ line) "") with _ | text
  · rw [ht] at hgen; cases hgen
  · rw [ht] at hgen
    simp only at hgen
    obtain ⟨D, hD⟩ : ∃ D : MySqlConnection,
        D = c.setExec i { c.exec i with statementText_ := text } := ⟨_, rfl⟩
    rw [← hD] at hgen
    have hDe : D.exec i = { c.exec i with statementText_ := text } := by
      rw [hD, exec_setExec_same _ _ _ hi]
    have k1 := (changeState_textKept fuel env D c' i _ 0 hgen).2 i
    have k2 := (changeState_settingsKept fuel env D c' i _ 0 hgen).2 i
    rw [hDe] at k1 k2
    have tx : (c'.exec i).statementText_ = text := k1
    have st : (c'.exec i).settings_ = (c.exec i).settings_ := k2
    refine ⟨st, by rw [tx], ?_, ?_⟩
    · intro hk
      have hcount := substituteSettings_keeps env _ _ _ hk ht
      rw [tx, st, hcount]
      exact ⟨rfl, Iff.rfl⟩
    · intro hq
      have hi2 : i < D.executions_.length := by
        rw [hD, length_setExec]; exact hi
      obtain ⟨c2, h1, f1⟩ := changeState_quiet fuel env D i
        ExecutionState.SQL_GENERATED_STATE hi2 (fun k => Or.inl (by
          rw [hD, obs_setExec]; exact hq k))
      rw [h1] at hgen
      have hc : c2 = c' := congrArg Prod.fst (Option.some.inj hgen)
      subst hc
      exact f1.fields.1

theorem C14_question_marks_witness :
    0 < exampleFromReady.executions_.length ∧
    countMarkers (exampleFromReady.exec 0).settings_ = 1 ∧
    substitutionsKeepMarks markedEnv (exampleFromReady.exec 0).settings_ "select ? from @t"
      = true ∧
    ∃ c', MySqlExecution.generateStatementText 1 markedEnv exampleFromReady 0 = some (c', 0) ∧
      (c'.exec 0).statementText_ = "select ? from employees" ∧
      countQuestionMarks (c'.exec 0).statementText_ = countMarkers (c'.exec 0).settings_ ∧
      (c'.exec 0).state_ = ExecutionState.SQL_GENERATED_STATE := by
  have hq : ∀ k, (exampleFromReady.obs k).observerType ≠ ObserverType.REPLAY_OBS := by
    intro k
    have hk : exampleFromReady.obs k = default := by
      show List.getD [] k default = default
      simp
    rw [hk]
    decide
  have hrun : ∃ c', MySqlExecution.generateStatementText 1 markedEnv exampleFromReady 0
      = some (c', 0) := ⟨_, rfl⟩
  obtain ⟨c', h⟩ := hrun
  have hkeep : substitutionsKeepMarks markedEnv (exampleFromReady.exec 0).settings_
      "select ? from @t" = true := by decide
  obtain ⟨-, w2, w3, w4⟩ := C14_question_marks 1 markedEnv exampleFromReady c' 0
    markedStatements
    { statement_text := some ["select ? from ", "@t"],
      parameters := some [{ name := "a", param_type := some "marker",
                            data_type := some "int" },
                          { name := "t", param_type := some "substitute",
                            data_type := some "string" }] }
    ["select ? from ", "@t"] (by decide) rfl (by decide) rfl h
  refine ⟨by decide, by decide, hkeep, c', h, ?_, (w3 hkeep).2.2 (by decide), w4 hq⟩
  have h2 : some (c'.exec 0).statementText_ = some "select ? from employees" := by
    rw [← w2]; decide
  exact Option.some.inj h2

end MySqlAt
